import Mathlib

set_option maxHeartbeats 1600000
set_option maxRecDepth 16000

/-!
Verification of the generated MS-RPC server-side dispatch stubs of go-msrpc.

Each `<Interface>ServerHandle` function in the repository switches on an integer
operation number (opnum), decodes the matching request structure from an
`ndr.Reader` via `UnmarshalNDR`, invokes the corresponding method of a
user-supplied server interface, and returns the response converted with
`xxx_ToOp` together with the handler's error; interfaces deriving from a base
interface first delegate opnums below their first own opnum to the base
interface's dispatch function.

The embedding below transcribes those dispatch functions, one Lean function per
Go dispatch function, with the same case structure.  The pieces the excerpt
only references — the NDR codec (the `UnmarshalNDR` methods), the user handler
methods, the base-interface dispatchers (`iunknown.UnknownServerHandle`,
`ifsrmfilescreenbase.FileScreenBaseServerHandle`,
`idatafactory2.DataFactory2ServerHandle`) and the `dcerpc` connection layer —
are taken as parameters or modelled abstractly, so every theorem quantifies
over their behaviour.  Each dispatch function is instrumented with a trace
(`List CallEvent`) recording, in order, the external calls the Go code makes:
one `decode` event per `UnmarshalNDR` call and one `invoke` event per handler
method call.  The `(op, err)` part of a `DispatchResult` is exactly the Go
function's return value; Go's nilable values (`dcerpc.Operation` interface
values, `error` values, `*Response` pointers) are modelled with `Option`.
Note that `return resp.xxx_ToOp(ctx), err` always produces a non-nil
`dcerpc.Operation` interface value: converting the typed `*xxx_Operation`
pointer to the interface type never yields the nil interface value.
-/

/-- Model of a Go `context.Context` value: the dispatch stubs only pass it
through, so its content is an abstract token. -/
structure Ctx where
  token : Nat

/-- Model of a non-nil Go `error` value; Go's nilable `error` is `Option GoError`. -/
abbrev GoError := Nat

/-- Model of an `ndr.Reader` positioned at the start of a call's argument
block.  The dispatch stubs never inspect it: they only hand it to
`UnmarshalNDR`. -/
structure NdrReader where
  bytes : List Nat

/-- One external call made by a dispatch function: `decode t` records a call of
`UnmarshalNDR` on a freshly allocated request structure of type `t`, and
`invoke m` records a call of handler method `m`. -/
inductive CallEvent where
  | decode (reqType : String)
  | invoke (method : String)
  deriving DecidableEq

namespace windowsshutdown

/-- Modelled from the spec: plain data-only request structure of the
`windowsshutdown` package whose fields are dictated by the wire protocol; the field
layout is not part of the excerpt, so the payload is abstract. -/
structure InitiateShutdownRequest where
  data : List Nat

/-- Modelled from the spec: plain data-only response structure of the
`windowsshutdown` package whose fields are dictated by the wire protocol; the field
layout is not part of the excerpt, so the payload is abstract. -/
structure InitiateShutdownResponse where
  data : List Nat

/-- Modelled from the spec: plain data-only request structure of the
`windowsshutdown` package whose fields are dictated by the wire protocol; the field
layout is not part of the excerpt, so the payload is abstract. -/
structure AbortShutdownRequest where
  data : List Nat

/-- Modelled from the spec: plain data-only response structure of the
`windowsshutdown` package whose fields are dictated by the wire protocol; the field
layout is not part of the excerpt, so the payload is abstract. -/
structure AbortShutdownResponse where
  data : List Nat

end windowsshutdown

namespace nspi

/-- Modelled from the spec: plain data-only request structure of the
`nspi` package whose fields are dictated by the wire protocol; the field
layout is not part of the excerpt, so the payload is abstract. -/
structure BindRequest where
  data : List Nat

/-- Modelled from the spec: plain data-only response structure of the
`nspi` package whose fields are dictated by the wire protocol; the field
layout is not part of the excerpt, so the payload is abstract. -/
structure BindResponse where
  data : List Nat

/-- Modelled from the spec: plain data-only request structure of the
`nspi` package whose fields are dictated by the wire protocol; the field
layout is not part of the excerpt, so the payload is abstract. -/
structure UnbindRequest where
  data : List Nat

/-- Modelled from the spec: plain data-only response structure of the
`nspi` package whose fields are dictated by the wire protocol; the field
layout is not part of the excerpt, so the payload is abstract. -/
structure UnbindResponse where
  data : List Nat

/-- Modelled from the spec: plain data-only request structure of the
`nspi` package whose fields are dictated by the wire protocol; the field
layout is not part of the excerpt, so the payload is abstract. -/
structure UpdateStatRequest where
  data : List Nat

/-- Modelled from the spec: plain data-only response structure of the
`nspi` package whose fields are dictated by the wire protocol; the field
layout is not part of the excerpt, so the payload is abstract. -/
structure UpdateStatResponse where
  data : List Nat

/-- Modelled from the spec: plain data-only request structure of the
`nspi` package whose fields are dictated by the wire protocol; the field
layout is not part of the excerpt, so the payload is abstract. -/
structure QueryRowsRequest where
  data : List Nat

/-- Modelled from the spec: plain data-only response structure of the
`nspi` package whose fields are dictated by the wire protocol; the field
layout is not part of the excerpt, so the payload is abstract. -/
structure QueryRowsResponse where
  data : List Nat

/-- Modelled from the spec: plain data-only request structure of the
`nspi` package whose fields are dictated by the wire protocol; the field
layout is not part of the excerpt, so the payload is abstract. -/
structure SeekEntriesRequest where
  data : List Nat

/-- Modelled from the spec: plain data-only response structure of the
`nspi` package whose fields are dictated by the wire protocol; the field
layout is not part of the excerpt, so the payload is abstract. -/
structure SeekEntriesResponse where
  data : List Nat

/-- Modelled from the spec: plain data-only request structure of the
`nspi` package whose fields are dictated by the wire protocol; the field
layout is not part of the excerpt, so the payload is abstract. -/
structure GetMatchesRequest where
  data : List Nat

/-- Modelled from the spec: plain data-only response structure of the
`nspi` package whose fields are dictated by the wire protocol; the field
layout is not part of the excerpt, so the payload is abstract. -/
structure GetMatchesResponse where
  data : List Nat

/-- Modelled from the spec: plain data-only request structure of the
`nspi` package whose fields are dictated by the wire protocol; the field
layout is not part of the excerpt, so the payload is abstract. -/
structure ResortRestrictionRequest where
  data : List Nat

/-- Modelled from the spec: plain data-only response structure of the
`nspi` package whose fields are dictated by the wire protocol; the field
layout is not part of the excerpt, so the payload is abstract. -/
structure ResortRestrictionResponse where
  data : List Nat

/-- Modelled from the spec: plain data-only request structure of the
`nspi` package whose fields are dictated by the wire protocol; the field
layout is not part of the excerpt, so the payload is abstract. -/
structure DNToMIDRequest where
  data : List Nat

/-- Modelled from the spec: plain data-only response structure of the
`nspi` package whose fields are dictated by the wire protocol; the field
layout is not part of the excerpt, so the payload is abstract. -/
structure DNToMIDResponse where
  data : List Nat

/-- Modelled from the spec: plain data-only request structure of the
`nspi` package whose fields are dictated by the wire protocol; the field
layout is not part of the excerpt, so the payload is abstract. -/
structure GetPropertyListRequest where
  data : List Nat

/-- Modelled from the spec: plain data-only response structure of the
`nspi` package whose fields are dictated by the wire protocol; the field
layout is not part of the excerpt, so the payload is abstract. -/
structure GetPropertyListResponse where
  data : List Nat

/-- Modelled from the spec: plain data-only request structure of the
`nspi` package whose fields are dictated by the wire protocol; the field
layout is not part of the excerpt, so the payload is abstract. -/
structure GetPropertiesRequest where
  data : List Nat

/-- Modelled from the spec: plain data-only response structure of the
`nspi` package whose fields are dictated by the wire protocol; the field
layout is not part of the excerpt, so the payload is abstract. -/
structure GetPropertiesResponse where
  data : List Nat

/-- Modelled from the spec: plain data-only request structure of the
`nspi` package whose fields are dictated by the wire protocol; the field
layout is not part of the excerpt, so the payload is abstract. -/
structure CompareMIDsRequest where
  data : List Nat

/-- Modelled from the spec: plain data-only response structure of the
`nspi` package whose fields are dictated by the wire protocol; the field
layout is not part of the excerpt, so the payload is abstract. -/
structure CompareMIDsResponse where
  data : List Nat

/-- Modelled from the spec: plain data-only request structure of the
`nspi` package whose fields are dictated by the wire protocol; the field
layout is not part of the excerpt, so the payload is abstract. -/
structure ModifyPropertiesRequest where
  data : List Nat

/-- Modelled from the spec: plain data-only response structure of the
`nspi` package whose fields are dictated by the wire protocol; the field
layout is not part of the excerpt, so the payload is abstract. -/
structure ModifyPropertiesResponse where
  data : List Nat

/-- Modelled from the spec: plain data-only request structure of the
`nspi` package whose fields are dictated by the wire protocol; the field
layout is not part of the excerpt, so the payload is abstract. -/
structure GetSpecialTableRequest where
  data : List Nat

/-- Modelled from the spec: plain data-only response structure of the
`nspi` package whose fields are dictated by the wire protocol; the field
layout is not part of the excerpt, so the payload is abstract. -/
structure GetSpecialTableResponse where
  data : List Nat

/-- Modelled from the spec: plain data-only request structure of the
`nspi` package whose fields are dictated by the wire protocol; the field
layout is not part of the excerpt, so the payload is abstract. -/
structure GetTemplateInfoRequest where
  data : List Nat

/-- Modelled from the spec: plain data-only response structure of the
`nspi` package whose fields are dictated by the wire protocol; the field
layout is not part of the excerpt, so the payload is abstract. -/
structure GetTemplateInfoResponse where
  data : List Nat

/-- Modelled from the spec: plain data-only request structure of the
`nspi` package whose fields are dictated by the wire protocol; the field
layout is not part of the excerpt, so the payload is abstract. -/
structure ModifyLinkAttributeRequest where
  data : List Nat

/-- Modelled from the spec: plain data-only response structure of the
`nspi` package whose fields are dictated by the wire protocol; the field
layout is not part of the excerpt, so the payload is abstract. -/
structure ModifyLinkAttributeResponse where
  data : List Nat

/-- Modelled from the spec: plain data-only request structure of the
`nspi` package whose fields are dictated by the wire protocol; the field
layout is not part of the excerpt, so the payload is abstract. -/
structure QueryColumnsRequest where
  data : List Nat

/-- Modelled from the spec: plain data-only response structure of the
`nspi` package whose fields are dictated by the wire protocol; the field
layout is not part of the excerpt, so the payload is abstract. -/
structure QueryColumnsResponse where
  data : List Nat

/-- Modelled from the spec: plain data-only request structure of the
`nspi` package whose fields are dictated by the wire protocol; the field
layout is not part of the excerpt, so the payload is abstract. -/
structure GetNamesFromIDsRequest where
  data : List Nat

/-- Modelled from the spec: plain data-only response structure of the
`nspi` package whose fields are dictated by the wire protocol; the field
layout is not part of the excerpt, so the payload is abstract. -/
structure GetNamesFromIDsResponse where
  data : List Nat

/-- Modelled from the spec: plain data-only request structure of the
`nspi` package whose fields are dictated by the wire protocol; the field
layout is not part of the excerpt, so the payload is abstract. -/
structure GetIDsFromNamesRequest where
  data : List Nat

/-- Modelled from the spec: plain data-only response structure of the
`nspi` package whose fields are dictated by the wire protocol; the field
layout is not part of the excerpt, so the payload is abstract. -/
structure GetIDsFromNamesResponse where
  data : List Nat

/-- Modelled from the spec: plain data-only request structure of the
`nspi` package whose fields are dictated by the wire protocol; the field
layout is not part of the excerpt, so the payload is abstract. -/
structure ResolveNamesRequest where
  data : List Nat

/-- Modelled from the spec: plain data-only response structure of the
`nspi` package whose fields are dictated by the wire protocol; the field
layout is not part of the excerpt, so the payload is abstract. -/
structure ResolveNamesResponse where
  data : List Nat

/-- Modelled from the spec: plain data-only request structure of the
`nspi` package whose fields are dictated by the wire protocol; the field
layout is not part of the excerpt, so the payload is abstract. -/
structure ResolveNamesWRequest where
  data : List Nat

/-- Modelled from the spec: plain data-only response structure of the
`nspi` package whose fields are dictated by the wire protocol; the field
layout is not part of the excerpt, so the payload is abstract. -/
structure ResolveNamesWResponse where
  data : List Nat

end nspi

namespace dhcpsrv2

/-- Modelled from the spec: plain data-only request structure of the
`dhcpsrv2` package whose fields are dictated by the wire protocol; the field
layout is not part of the excerpt, so the payload is abstract. -/
structure EnumSubnetClientsV5Request where
  data : List Nat

/-- Modelled from the spec: plain data-only response structure of the
`dhcpsrv2` package whose fields are dictated by the wire protocol; the field
layout is not part of the excerpt, so the payload is abstract. -/
structure EnumSubnetClientsV5Response where
  data : List Nat

/-- Modelled from the spec: plain data-only request structure of the
`dhcpsrv2` package whose fields are dictated by the wire protocol; the field
layout is not part of the excerpt, so the payload is abstract. -/
structure SetMScopeInfoRequest where
  data : List Nat

/-- Modelled from the spec: plain data-only response structure of the
`dhcpsrv2` package whose fields are dictated by the wire protocol; the field
layout is not part of the excerpt, so the payload is abstract. -/
structure SetMScopeInfoResponse where
  data : List Nat

/-- Modelled from the spec: plain data-only request structure of the
`dhcpsrv2` package whose fields are dictated by the wire protocol; the field
layout is not part of the excerpt, so the payload is abstract. -/
structure GetMScopeInfoRequest where
  data : List Nat

/-- Modelled from the spec: plain data-only response structure of the
`dhcpsrv2` package whose fields are dictated by the wire protocol; the field
layout is not part of the excerpt, so the payload is abstract. -/
structure GetMScopeInfoResponse where
  data : List Nat

/-- Modelled from the spec: plain data-only request structure of the
`dhcpsrv2` package whose fields are dictated by the wire protocol; the field
layout is not part of the excerpt, so the payload is abstract. -/
structure EnumMScopesRequest where
  data : List Nat

/-- Modelled from the spec: plain data-only response structure of the
`dhcpsrv2` package whose fields are dictated by the wire protocol; the field
layout is not part of the excerpt, so the payload is abstract. -/
structure EnumMScopesResponse where
  data : List Nat

/-- Modelled from the spec: plain data-only request structure of the
`dhcpsrv2` package whose fields are dictated by the wire protocol; the field
layout is not part of the excerpt, so the payload is abstract. -/
structure AddMScopeElementRequest where
  data : List Nat

/-- Modelled from the spec: plain data-only response structure of the
`dhcpsrv2` package whose fields are dictated by the wire protocol; the field
layout is not part of the excerpt, so the payload is abstract. -/
structure AddMScopeElementResponse where
  data : List Nat

/-- Modelled from the spec: plain data-only request structure of the
`dhcpsrv2` package whose fields are dictated by the wire protocol; the field
layout is not part of the excerpt, so the payload is abstract. -/
structure EnumMScopeElementsRequest where
  data : List Nat

/-- Modelled from the spec: plain data-only response structure of the
`dhcpsrv2` package whose fields are dictated by the wire protocol; the field
layout is not part of the excerpt, so the payload is abstract. -/
structure EnumMScopeElementsResponse where
  data : List Nat

/-- Modelled from the spec: plain data-only request structure of the
`dhcpsrv2` package whose fields are dictated by the wire protocol; the field
layout is not part of the excerpt, so the payload is abstract. -/
structure RemoveMScopeElementRequest where
  data : List Nat

/-- Modelled from the spec: plain data-only response structure of the
`dhcpsrv2` package whose fields are dictated by the wire protocol; the field
layout is not part of the excerpt, so the payload is abstract. -/
structure RemoveMScopeElementResponse where
  data : List Nat

/-- Modelled from the spec: plain data-only request structure of the
`dhcpsrv2` package whose fields are dictated by the wire protocol; the field
layout is not part of the excerpt, so the payload is abstract. -/
structure DeleteMScopeRequest where
  data : List Nat

/-- Modelled from the spec: plain data-only response structure of the
`dhcpsrv2` package whose fields are dictated by the wire protocol; the field
layout is not part of the excerpt, so the payload is abstract. -/
structure DeleteMScopeResponse where
  data : List Nat

/-- Modelled from the spec: plain data-only request structure of the
`dhcpsrv2` package whose fields are dictated by the wire protocol; the field
layout is not part of the excerpt, so the payload is abstract. -/
structure ScanMDatabaseRequest where
  data : List Nat

/-- Modelled from the spec: plain data-only response structure of the
`dhcpsrv2` package whose fields are dictated by the wire protocol; the field
layout is not part of the excerpt, so the payload is abstract. -/
structure ScanMDatabaseResponse where
  data : List Nat

/-- Modelled from the spec: plain data-only request structure of the
`dhcpsrv2` package whose fields are dictated by the wire protocol; the field
layout is not part of the excerpt, so the payload is abstract. -/
structure CreateMClientInfoRequest where
  data : List Nat

/-- Modelled from the spec: plain data-only response structure of the
`dhcpsrv2` package whose fields are dictated by the wire protocol; the field
layout is not part of the excerpt, so the payload is abstract. -/
structure CreateMClientInfoResponse where
  data : List Nat

/-- Modelled from the spec: plain data-only request structure of the
`dhcpsrv2` package whose fields are dictated by the wire protocol; the field
layout is not part of the excerpt, so the payload is abstract. -/
structure SetMClientInfoRequest where
  data : List Nat

/-- Modelled from the spec: plain data-only response structure of the
`dhcpsrv2` package whose fields are dictated by the wire protocol; the field
layout is not part of the excerpt, so the payload is abstract. -/
structure SetMClientInfoResponse where
  data : List Nat

/-- Modelled from the spec: plain data-only request structure of the
`dhcpsrv2` package whose fields are dictated by the wire protocol; the field
layout is not part of the excerpt, so the payload is abstract. -/
structure GetMClientInfoRequest where
  data : List Nat

/-- Modelled from the spec: plain data-only response structure of the
`dhcpsrv2` package whose fields are dictated by the wire protocol; the field
layout is not part of the excerpt, so the payload is abstract. -/
structure GetMClientInfoResponse where
  data : List Nat

/-- Modelled from the spec: plain data-only request structure of the
`dhcpsrv2` package whose fields are dictated by the wire protocol; the field
layout is not part of the excerpt, so the payload is abstract. -/
structure DeleteMClientInfoRequest where
  data : List Nat

/-- Modelled from the spec: plain data-only response structure of the
`dhcpsrv2` package whose fields are dictated by the wire protocol; the field
layout is not part of the excerpt, so the payload is abstract. -/
structure DeleteMClientInfoResponse where
  data : List Nat

/-- Modelled from the spec: plain data-only request structure of the
`dhcpsrv2` package whose fields are dictated by the wire protocol; the field
layout is not part of the excerpt, so the payload is abstract. -/
structure EnumMScopeClientsRequest where
  data : List Nat

/-- Modelled from the spec: plain data-only response structure of the
`dhcpsrv2` package whose fields are dictated by the wire protocol; the field
layout is not part of the excerpt, so the payload is abstract. -/
structure EnumMScopeClientsResponse where
  data : List Nat

/-- Modelled from the spec: plain data-only request structure of the
`dhcpsrv2` package whose fields are dictated by the wire protocol; the field
layout is not part of the excerpt, so the payload is abstract. -/
structure CreateOptionV5Request where
  data : List Nat

/-- Modelled from the spec: plain data-only response structure of the
`dhcpsrv2` package whose fields are dictated by the wire protocol; the field
layout is not part of the excerpt, so the payload is abstract. -/
structure CreateOptionV5Response where
  data : List Nat

/-- Modelled from the spec: plain data-only request structure of the
`dhcpsrv2` package whose fields are dictated by the wire protocol; the field
layout is not part of the excerpt, so the payload is abstract. -/
structure SetOptionInfoV5Request where
  data : List Nat

/-- Modelled from the spec: plain data-only response structure of the
`dhcpsrv2` package whose fields are dictated by the wire protocol; the field
layout is not part of the excerpt, so the payload is abstract. -/
structure SetOptionInfoV5Response where
  data : List Nat

/-- Modelled from the spec: plain data-only request structure of the
`dhcpsrv2` package whose fields are dictated by the wire protocol; the field
layout is not part of the excerpt, so the payload is abstract. -/
structure GetOptionInfoV5Request where
  data : List Nat

/-- Modelled from the spec: plain data-only response structure of the
`dhcpsrv2` package whose fields are dictated by the wire protocol; the field
layout is not part of the excerpt, so the payload is abstract. -/
structure GetOptionInfoV5Response where
  data : List Nat

/-- Modelled from the spec: plain data-only request structure of the
`dhcpsrv2` package whose fields are dictated by the wire protocol; the field
layout is not part of the excerpt, so the payload is abstract. -/
structure EnumOptionsV5Request where
  data : List Nat

/-- Modelled from the spec: plain data-only response structure of the
`dhcpsrv2` package whose fields are dictated by the wire protocol; the field
layout is not part of the excerpt, so the payload is abstract. -/
structure EnumOptionsV5Response where
  data : List Nat

/-- Modelled from the spec: plain data-only request structure of the
`dhcpsrv2` package whose fields are dictated by the wire protocol; the field
layout is not part of the excerpt, so the payload is abstract. -/
structure RemoveOptionV5Request where
  data : List Nat

/-- Modelled from the spec: plain data-only response structure of the
`dhcpsrv2` package whose fields are dictated by the wire protocol; the field
layout is not part of the excerpt, so the payload is abstract. -/
structure RemoveOptionV5Response where
  data : List Nat

/-- Modelled from the spec: plain data-only request structure of the
`dhcpsrv2` package whose fields are dictated by the wire protocol; the field
layout is not part of the excerpt, so the payload is abstract. -/
structure SetOptionValueV5Request where
  data : List Nat

/-- Modelled from the spec: plain data-only response structure of the
`dhcpsrv2` package whose fields are dictated by the wire protocol; the field
layout is not part of the excerpt, so the payload is abstract. -/
structure SetOptionValueV5Response where
  data : List Nat

/-- Modelled from the spec: plain data-only request structure of the
`dhcpsrv2` package whose fields are dictated by the wire protocol; the field
layout is not part of the excerpt, so the payload is abstract. -/
structure SetOptionValuesV5Request where
  data : List Nat

/-- Modelled from the spec: plain data-only response structure of the
`dhcpsrv2` package whose fields are dictated by the wire protocol; the field
layout is not part of the excerpt, so the payload is abstract. -/
structure SetOptionValuesV5Response where
  data : List Nat

/-- Modelled from the spec: plain data-only request structure of the
`dhcpsrv2` package whose fields are dictated by the wire protocol; the field
layout is not part of the excerpt, so the payload is abstract. -/
structure GetOptionValueV5Request where
  data : List Nat

/-- Modelled from the spec: plain data-only response structure of the
`dhcpsrv2` package whose fields are dictated by the wire protocol; the field
layout is not part of the excerpt, so the payload is abstract. -/
structure GetOptionValueV5Response where
  data : List Nat

/-- Modelled from the spec: plain data-only request structure of the
`dhcpsrv2` package whose fields are dictated by the wire protocol; the field
layout is not part of the excerpt, so the payload is abstract. -/
structure EnumOptionValuesV5Request where
  data : List Nat

/-- Modelled from the spec: plain data-only response structure of the
`dhcpsrv2` package whose fields are dictated by the wire protocol; the field
layout is not part of the excerpt, so the payload is abstract. -/
structure EnumOptionValuesV5Response where
  data : List Nat

/-- Modelled from the spec: plain data-only request structure of the
`dhcpsrv2` package whose fields are dictated by the wire protocol; the field
layout is not part of the excerpt, so the payload is abstract. -/
structure RemoveOptionValueV5Request where
  data : List Nat

/-- Modelled from the spec: plain data-only response structure of the
`dhcpsrv2` package whose fields are dictated by the wire protocol; the field
layout is not part of the excerpt, so the payload is abstract. -/
structure RemoveOptionValueV5Response where
  data : List Nat

/-- Modelled from the spec: plain data-only request structure of the
`dhcpsrv2` package whose fields are dictated by the wire protocol; the field
layout is not part of the excerpt, so the payload is abstract. -/
structure CreateClassRequest where
  data : List Nat

/-- Modelled from the spec: plain data-only response structure of the
`dhcpsrv2` package whose fields are dictated by the wire protocol; the field
layout is not part of the excerpt, so the payload is abstract. -/
structure CreateClassResponse where
  data : List Nat

/-- Modelled from the spec: plain data-only request structure of the
`dhcpsrv2` package whose fields are dictated by the wire protocol; the field
layout is not part of the excerpt, so the payload is abstract. -/
structure ModifyClassRequest where
  data : List Nat

/-- Modelled from the spec: plain data-only response structure of the
`dhcpsrv2` package whose fields are dictated by the wire protocol; the field
layout is not part of the excerpt, so the payload is abstract. -/
structure ModifyClassResponse where
  data : List Nat

/-- Modelled from the spec: plain data-only request structure of the
`dhcpsrv2` package whose fields are dictated by the wire protocol; the field
layout is not part of the excerpt, so the payload is abstract. -/
structure DeleteClassRequest where
  data : List Nat

/-- Modelled from the spec: plain data-only response structure of the
`dhcpsrv2` package whose fields are dictated by the wire protocol; the field
layout is not part of the excerpt, so the payload is abstract. -/
structure DeleteClassResponse where
  data : List Nat

/-- Modelled from the spec: plain data-only request structure of the
`dhcpsrv2` package whose fields are dictated by the wire protocol; the field
layout is not part of the excerpt, so the payload is abstract. -/
structure GetClassInfoRequest where
  data : List Nat

/-- Modelled from the spec: plain data-only response structure of the
`dhcpsrv2` package whose fields are dictated by the wire protocol; the field
layout is not part of the excerpt, so the payload is abstract. -/
structure GetClassInfoResponse where
  data : List Nat

/-- Modelled from the spec: plain data-only request structure of the
`dhcpsrv2` package whose fields are dictated by the wire protocol; the field
layout is not part of the excerpt, so the payload is abstract. -/
structure EnumClassesRequest where
  data : List Nat

/-- Modelled from the spec: plain data-only response structure of the
`dhcpsrv2` package whose fields are dictated by the wire protocol; the field
layout is not part of the excerpt, so the payload is abstract. -/
structure EnumClassesResponse where
  data : List Nat

/-- Modelled from the spec: plain data-only request structure of the
`dhcpsrv2` package whose fields are dictated by the wire protocol; the field
layout is not part of the excerpt, so the payload is abstract. -/
structure GetAllOptionsRequest where
  data : List Nat

/-- Modelled from the spec: plain data-only response structure of the
`dhcpsrv2` package whose fields are dictated by the wire protocol; the field
layout is not part of the excerpt, so the payload is abstract. -/
structure GetAllOptionsResponse where
  data : List Nat

/-- Modelled from the spec: plain data-only request structure of the
`dhcpsrv2` package whose fields are dictated by the wire protocol; the field
layout is not part of the excerpt, so the payload is abstract. -/
structure GetAllOptionValuesRequest where
  data : List Nat

/-- Modelled from the spec: plain data-only response structure of the
`dhcpsrv2` package whose fields are dictated by the wire protocol; the field
layout is not part of the excerpt, so the payload is abstract. -/
structure GetAllOptionValuesResponse where
  data : List Nat

/-- Modelled from the spec: plain data-only request structure of the
`dhcpsrv2` package whose fields are dictated by the wire protocol; the field
layout is not part of the excerpt, so the payload is abstract. -/
structure GetMCastMIBInfoRequest where
  data : List Nat

/-- Modelled from the spec: plain data-only response structure of the
`dhcpsrv2` package whose fields are dictated by the wire protocol; the field
layout is not part of the excerpt, so the payload is abstract. -/
structure GetMCastMIBInfoResponse where
  data : List Nat

/-- Modelled from the spec: plain data-only request structure of the
`dhcpsrv2` package whose fields are dictated by the wire protocol; the field
layout is not part of the excerpt, so the payload is abstract. -/
structure AuditLogSetParamsRequest where
  data : List Nat

/-- Modelled from the spec: plain data-only response structure of the
`dhcpsrv2` package whose fields are dictated by the wire protocol; the field
layout is not part of the excerpt, so the payload is abstract. -/
structure AuditLogSetParamsResponse where
  data : List Nat

/-- Modelled from the spec: plain data-only request structure of the
`dhcpsrv2` package whose fields are dictated by the wire protocol; the field
layout is not part of the excerpt, so the payload is abstract. -/
structure AuditLogGetParamsRequest where
  data : List Nat

/-- Modelled from the spec: plain data-only response structure of the
`dhcpsrv2` package whose fields are dictated by the wire protocol; the field
layout is not part of the excerpt, so the payload is abstract. -/
structure AuditLogGetParamsResponse where
  data : List Nat

/-- Modelled from the spec: plain data-only request structure of the
`dhcpsrv2` package whose fields are dictated by the wire protocol; the field
layout is not part of the excerpt, so the payload is abstract. -/
structure ServerQueryAttributeRequest where
  data : List Nat

/-- Modelled from the spec: plain data-only response structure of the
`dhcpsrv2` package whose fields are dictated by the wire protocol; the field
layout is not part of the excerpt, so the payload is abstract. -/
structure ServerQueryAttributeResponse where
  data : List Nat

/-- Modelled from the spec: plain data-only request structure of the
`dhcpsrv2` package whose fields are dictated by the wire protocol; the field
layout is not part of the excerpt, so the payload is abstract. -/
structure ServerQueryAttributesRequest where
  data : List Nat

/-- Modelled from the spec: plain data-only response structure of the
`dhcpsrv2` package whose fields are dictated by the wire protocol; the field
layout is not part of the excerpt, so the payload is abstract. -/
structure ServerQueryAttributesResponse where
  data : List Nat

/-- Modelled from the spec: plain data-only request structure of the
`dhcpsrv2` package whose fields are dictated by the wire protocol; the field
layout is not part of the excerpt, so the payload is abstract. -/
structure ServerRedoAuthorizationRequest where
  data : List Nat

/-- Modelled from the spec: plain data-only response structure of the
`dhcpsrv2` package whose fields are dictated by the wire protocol; the field
layout is not part of the excerpt, so the payload is abstract. -/
structure ServerRedoAuthorizationResponse where
  data : List Nat

/-- Modelled from the spec: plain data-only request structure of the
`dhcpsrv2` package whose fields are dictated by the wire protocol; the field
layout is not part of the excerpt, so the payload is abstract. -/
structure AddSubnetElementV5Request where
  data : List Nat

/-- Modelled from the spec: plain data-only response structure of the
`dhcpsrv2` package whose fields are dictated by the wire protocol; the field
layout is not part of the excerpt, so the payload is abstract. -/
structure AddSubnetElementV5Response where
  data : List Nat

/-- Modelled from the spec: plain data-only request structure of the
`dhcpsrv2` package whose fields are dictated by the wire protocol; the field
layout is not part of the excerpt, so the payload is abstract. -/
structure EnumSubnetElementsV5Request where
  data : List Nat

/-- Modelled from the spec: plain data-only response structure of the
`dhcpsrv2` package whose fields are dictated by the wire protocol; the field
layout is not part of the excerpt, so the payload is abstract. -/
structure EnumSubnetElementsV5Response where
  data : List Nat

/-- Modelled from the spec: plain data-only request structure of the
`dhcpsrv2` package whose fields are dictated by the wire protocol; the field
layout is not part of the excerpt, so the payload is abstract. -/
structure RemoveSubnetElementV5Request where
  data : List Nat

/-- Modelled from the spec: plain data-only response structure of the
`dhcpsrv2` package whose fields are dictated by the wire protocol; the field
layout is not part of the excerpt, so the payload is abstract. -/
structure RemoveSubnetElementV5Response where
  data : List Nat

/-- Modelled from the spec: plain data-only request structure of the
`dhcpsrv2` package whose fields are dictated by the wire protocol; the field
layout is not part of the excerpt, so the payload is abstract. -/
structure GetServerBindingInfoRequest where
  data : List Nat

/-- Modelled from the spec: plain data-only response structure of the
`dhcpsrv2` package whose fields are dictated by the wire protocol; the field
layout is not part of the excerpt, so the payload is abstract. -/
structure GetServerBindingInfoResponse where
  data : List Nat

/-- Modelled from the spec: plain data-only request structure of the
`dhcpsrv2` package whose fields are dictated by the wire protocol; the field
layout is not part of the excerpt, so the payload is abstract. -/
structure SetServerBindingInfoRequest where
  data : List Nat

/-- Modelled from the spec: plain data-only response structure of the
`dhcpsrv2` package whose fields are dictated by the wire protocol; the field
layout is not part of the excerpt, so the payload is abstract. -/
structure SetServerBindingInfoResponse where
  data : List Nat

/-- Modelled from the spec: plain data-only request structure of the
`dhcpsrv2` package whose fields are dictated by the wire protocol; the field
layout is not part of the excerpt, so the payload is abstract. -/
structure QueryDNSRegCredentialsRequest where
  data : List Nat

/-- Modelled from the spec: plain data-only response structure of the
`dhcpsrv2` package whose fields are dictated by the wire protocol; the field
layout is not part of the excerpt, so the payload is abstract. -/
structure QueryDNSRegCredentialsResponse where
  data : List Nat

/-- Modelled from the spec: plain data-only request structure of the
`dhcpsrv2` package whose fields are dictated by the wire protocol; the field
layout is not part of the excerpt, so the payload is abstract. -/
structure SetDNSRegCredentialsRequest where
  data : List Nat

/-- Modelled from the spec: plain data-only response structure of the
`dhcpsrv2` package whose fields are dictated by the wire protocol; the field
layout is not part of the excerpt, so the payload is abstract. -/
structure SetDNSRegCredentialsResponse where
  data : List Nat

/-- Modelled from the spec: plain data-only request structure of the
`dhcpsrv2` package whose fields are dictated by the wire protocol; the field
layout is not part of the excerpt, so the payload is abstract. -/
structure BackupDatabaseRequest where
  data : List Nat

/-- Modelled from the spec: plain data-only response structure of the
`dhcpsrv2` package whose fields are dictated by the wire protocol; the field
layout is not part of the excerpt, so the payload is abstract. -/
structure BackupDatabaseResponse where
  data : List Nat

/-- Modelled from the spec: plain data-only request structure of the
`dhcpsrv2` package whose fields are dictated by the wire protocol; the field
layout is not part of the excerpt, so the payload is abstract. -/
structure RestoreDatabaseRequest where
  data : List Nat

/-- Modelled from the spec: plain data-only response structure of the
`dhcpsrv2` package whose fields are dictated by the wire protocol; the field
layout is not part of the excerpt, so the payload is abstract. -/
structure RestoreDatabaseResponse where
  data : List Nat

/-- Modelled from the spec: plain data-only request structure of the
`dhcpsrv2` package whose fields are dictated by the wire protocol; the field
layout is not part of the excerpt, so the payload is abstract. -/
structure GetServerSpecificStringsRequest where
  data : List Nat

/-- Modelled from the spec: plain data-only response structure of the
`dhcpsrv2` package whose fields are dictated by the wire protocol; the field
layout is not part of the excerpt, so the payload is abstract. -/
structure GetServerSpecificStringsResponse where
  data : List Nat

/-- Modelled from the spec: plain data-only request structure of the
`dhcpsrv2` package whose fields are dictated by the wire protocol; the field
layout is not part of the excerpt, so the payload is abstract. -/
structure CreateOptionV6Request where
  data : List Nat

/-- Modelled from the spec: plain data-only response structure of the
`dhcpsrv2` package whose fields are dictated by the wire protocol; the field
layout is not part of the excerpt, so the payload is abstract. -/
structure CreateOptionV6Response where
  data : List Nat

/-- Modelled from the spec: plain data-only request structure of the
`dhcpsrv2` package whose fields are dictated by the wire protocol; the field
layout is not part of the excerpt, so the payload is abstract. -/
structure SetOptionInfoV6Request where
  data : List Nat

/-- Modelled from the spec: plain data-only response structure of the
`dhcpsrv2` package whose fields are dictated by the wire protocol; the field
layout is not part of the excerpt, so the payload is abstract. -/
structure SetOptionInfoV6Response where
  data : List Nat

/-- Modelled from the spec: plain data-only request structure of the
`dhcpsrv2` package whose fields are dictated by the wire protocol; the field
layout is not part of the excerpt, so the payload is abstract. -/
structure GetOptionInfoV6Request where
  data : List Nat

/-- Modelled from the spec: plain data-only response structure of the
`dhcpsrv2` package whose fields are dictated by the wire protocol; the field
layout is not part of the excerpt, so the payload is abstract. -/
structure GetOptionInfoV6Response where
  data : List Nat

/-- Modelled from the spec: plain data-only request structure of the
`dhcpsrv2` package whose fields are dictated by the wire protocol; the field
layout is not part of the excerpt, so the payload is abstract. -/
structure EnumOptionsV6Request where
  data : List Nat

/-- Modelled from the spec: plain data-only response structure of the
`dhcpsrv2` package whose fields are dictated by the wire protocol; the field
layout is not part of the excerpt, so the payload is abstract. -/
structure EnumOptionsV6Response where
  data : List Nat

/-- Modelled from the spec: plain data-only request structure of the
`dhcpsrv2` package whose fields are dictated by the wire protocol; the field
layout is not part of the excerpt, so the payload is abstract. -/
structure RemoveOptionV6Request where
  data : List Nat

/-- Modelled from the spec: plain data-only response structure of the
`dhcpsrv2` package whose fields are dictated by the wire protocol; the field
layout is not part of the excerpt, so the payload is abstract. -/
structure RemoveOptionV6Response where
  data : List Nat

/-- Modelled from the spec: plain data-only request structure of the
`dhcpsrv2` package whose fields are dictated by the wire protocol; the field
layout is not part of the excerpt, so the payload is abstract. -/
structure SetOptionValueV6Request where
  data : List Nat

/-- Modelled from the spec: plain data-only response structure of the
`dhcpsrv2` package whose fields are dictated by the wire protocol; the field
layout is not part of the excerpt, so the payload is abstract. -/
structure SetOptionValueV6Response where
  data : List Nat

/-- Modelled from the spec: plain data-only request structure of the
`dhcpsrv2` package whose fields are dictated by the wire protocol; the field
layout is not part of the excerpt, so the payload is abstract. -/
structure EnumOptionValuesV6Request where
  data : List Nat

/-- Modelled from the spec: plain data-only response structure of the
`dhcpsrv2` package whose fields are dictated by the wire protocol; the field
layout is not part of the excerpt, so the payload is abstract. -/
structure EnumOptionValuesV6Response where
  data : List Nat

/-- Modelled from the spec: plain data-only request structure of the
`dhcpsrv2` package whose fields are dictated by the wire protocol; the field
layout is not part of the excerpt, so the payload is abstract. -/
structure RemoveOptionValueV6Request where
  data : List Nat

/-- Modelled from the spec: plain data-only response structure of the
`dhcpsrv2` package whose fields are dictated by the wire protocol; the field
layout is not part of the excerpt, so the payload is abstract. -/
structure RemoveOptionValueV6Response where
  data : List Nat

/-- Modelled from the spec: plain data-only request structure of the
`dhcpsrv2` package whose fields are dictated by the wire protocol; the field
layout is not part of the excerpt, so the payload is abstract. -/
structure GetAllOptionsV6Request where
  data : List Nat

/-- Modelled from the spec: plain data-only response structure of the
`dhcpsrv2` package whose fields are dictated by the wire protocol; the field
layout is not part of the excerpt, so the payload is abstract. -/
structure GetAllOptionsV6Response where
  data : List Nat

/-- Modelled from the spec: plain data-only request structure of the
`dhcpsrv2` package whose fields are dictated by the wire protocol; the field
layout is not part of the excerpt, so the payload is abstract. -/
structure GetAllOptionValuesV6Request where
  data : List Nat

/-- Modelled from the spec: plain data-only response structure of the
`dhcpsrv2` package whose fields are dictated by the wire protocol; the field
layout is not part of the excerpt, so the payload is abstract. -/
structure GetAllOptionValuesV6Response where
  data : List Nat

/-- Modelled from the spec: plain data-only request structure of the
`dhcpsrv2` package whose fields are dictated by the wire protocol; the field
layout is not part of the excerpt, so the payload is abstract. -/
structure CreateSubnetV6Request where
  data : List Nat

/-- Modelled from the spec: plain data-only response structure of the
`dhcpsrv2` package whose fields are dictated by the wire protocol; the field
layout is not part of the excerpt, so the payload is abstract. -/
structure CreateSubnetV6Response where
  data : List Nat

/-- Modelled from the spec: plain data-only request structure of the
`dhcpsrv2` package whose fields are dictated by the wire protocol; the field
layout is not part of the excerpt, so the payload is abstract. -/
structure EnumSubnetsV6Request where
  data : List Nat

/-- Modelled from the spec: plain data-only response structure of the
`dhcpsrv2` package whose fields are dictated by the wire protocol; the field
layout is not part of the excerpt, so the payload is abstract. -/
structure EnumSubnetsV6Response where
  data : List Nat

/-- Modelled from the spec: plain data-only request structure of the
`dhcpsrv2` package whose fields are dictated by the wire protocol; the field
layout is not part of the excerpt, so the payload is abstract. -/
structure AddSubnetElementV6Request where
  data : List Nat

/-- Modelled from the spec: plain data-only response structure of the
`dhcpsrv2` package whose fields are dictated by the wire protocol; the field
layout is not part of the excerpt, so the payload is abstract. -/
structure AddSubnetElementV6Response where
  data : List Nat

/-- Modelled from the spec: plain data-only request structure of the
`dhcpsrv2` package whose fields are dictated by the wire protocol; the field
layout is not part of the excerpt, so the payload is abstract. -/
structure EnumSubnetElementsV6Request where
  data : List Nat

/-- Modelled from the spec: plain data-only response structure of the
`dhcpsrv2` package whose fields are dictated by the wire protocol; the field
layout is not part of the excerpt, so the payload is abstract. -/
structure EnumSubnetElementsV6Response where
  data : List Nat

/-- Modelled from the spec: plain data-only request structure of the
`dhcpsrv2` package whose fields are dictated by the wire protocol; the field
layout is not part of the excerpt, so the payload is abstract. -/
structure RemoveSubnetElementV6Request where
  data : List Nat

/-- Modelled from the spec: plain data-only response structure of the
`dhcpsrv2` package whose fields are dictated by the wire protocol; the field
layout is not part of the excerpt, so the payload is abstract. -/
structure RemoveSubnetElementV6Response where
  data : List Nat

/-- Modelled from the spec: plain data-only request structure of the
`dhcpsrv2` package whose fields are dictated by the wire protocol; the field
layout is not part of the excerpt, so the payload is abstract. -/
structure DeleteSubnetV6Request where
  data : List Nat

/-- Modelled from the spec: plain data-only response structure of the
`dhcpsrv2` package whose fields are dictated by the wire protocol; the field
layout is not part of the excerpt, so the payload is abstract. -/
structure DeleteSubnetV6Response where
  data : List Nat

/-- Modelled from the spec: plain data-only request structure of the
`dhcpsrv2` package whose fields are dictated by the wire protocol; the field
layout is not part of the excerpt, so the payload is abstract. -/
structure GetSubnetInfoV6Request where
  data : List Nat

/-- Modelled from the spec: plain data-only response structure of the
`dhcpsrv2` package whose fields are dictated by the wire protocol; the field
layout is not part of the excerpt, so the payload is abstract. -/
structure GetSubnetInfoV6Response where
  data : List Nat

/-- Modelled from the spec: plain data-only request structure of the
`dhcpsrv2` package whose fields are dictated by the wire protocol; the field
layout is not part of the excerpt, so the payload is abstract. -/
structure EnumSubnetClientsV6Request where
  data : List Nat

/-- Modelled from the spec: plain data-only response structure of the
`dhcpsrv2` package whose fields are dictated by the wire protocol; the field
layout is not part of the excerpt, so the payload is abstract. -/
structure EnumSubnetClientsV6Response where
  data : List Nat

/-- Modelled from the spec: plain data-only request structure of the
`dhcpsrv2` package whose fields are dictated by the wire protocol; the field
layout is not part of the excerpt, so the payload is abstract. -/
structure ServerSetConfigV6Request where
  data : List Nat

/-- Modelled from the spec: plain data-only response structure of the
`dhcpsrv2` package whose fields are dictated by the wire protocol; the field
layout is not part of the excerpt, so the payload is abstract. -/
structure ServerSetConfigV6Response where
  data : List Nat

/-- Modelled from the spec: plain data-only request structure of the
`dhcpsrv2` package whose fields are dictated by the wire protocol; the field
layout is not part of the excerpt, so the payload is abstract. -/
structure ServerGetConfigV6Request where
  data : List Nat

/-- Modelled from the spec: plain data-only response structure of the
`dhcpsrv2` package whose fields are dictated by the wire protocol; the field
layout is not part of the excerpt, so the payload is abstract. -/
structure ServerGetConfigV6Response where
  data : List Nat

/-- Modelled from the spec: plain data-only request structure of the
`dhcpsrv2` package whose fields are dictated by the wire protocol; the field
layout is not part of the excerpt, so the payload is abstract. -/
structure SetSubnetInfoV6Request where
  data : List Nat

/-- Modelled from the spec: plain data-only response structure of the
`dhcpsrv2` package whose fields are dictated by the wire protocol; the field
layout is not part of the excerpt, so the payload is abstract. -/
structure SetSubnetInfoV6Response where
  data : List Nat

/-- Modelled from the spec: plain data-only request structure of the
`dhcpsrv2` package whose fields are dictated by the wire protocol; the field
layout is not part of the excerpt, so the payload is abstract. -/
structure GetMIBInfoV6Request where
  data : List Nat

/-- Modelled from the spec: plain data-only response structure of the
`dhcpsrv2` package whose fields are dictated by the wire protocol; the field
layout is not part of the excerpt, so the payload is abstract. -/
structure GetMIBInfoV6Response where
  data : List Nat

/-- Modelled from the spec: plain data-only request structure of the
`dhcpsrv2` package whose fields are dictated by the wire protocol; the field
layout is not part of the excerpt, so the payload is abstract. -/
structure GetServerBindingInfoV6Request where
  data : List Nat

/-- Modelled from the spec: plain data-only response structure of the
`dhcpsrv2` package whose fields are dictated by the wire protocol; the field
layout is not part of the excerpt, so the payload is abstract. -/
structure GetServerBindingInfoV6Response where
  data : List Nat

/-- Modelled from the spec: plain data-only request structure of the
`dhcpsrv2` package whose fields are dictated by the wire protocol; the field
layout is not part of the excerpt, so the payload is abstract. -/
structure SetServerBindingInfoV6Request where
  data : List Nat

/-- Modelled from the spec: plain data-only response structure of the
`dhcpsrv2` package whose fields are dictated by the wire protocol; the field
layout is not part of the excerpt, so the payload is abstract. -/
structure SetServerBindingInfoV6Response where
  data : List Nat

/-- Modelled from the spec: plain data-only request structure of the
`dhcpsrv2` package whose fields are dictated by the wire protocol; the field
layout is not part of the excerpt, so the payload is abstract. -/
structure SetClientInfoV6Request where
  data : List Nat

/-- Modelled from the spec: plain data-only response structure of the
`dhcpsrv2` package whose fields are dictated by the wire protocol; the field
layout is not part of the excerpt, so the payload is abstract. -/
structure SetClientInfoV6Response where
  data : List Nat

/-- Modelled from the spec: plain data-only request structure of the
`dhcpsrv2` package whose fields are dictated by the wire protocol; the field
layout is not part of the excerpt, so the payload is abstract. -/
structure GetClientInfoV6Request where
  data : List Nat

/-- Modelled from the spec: plain data-only response structure of the
`dhcpsrv2` package whose fields are dictated by the wire protocol; the field
layout is not part of the excerpt, so the payload is abstract. -/
structure GetClientInfoV6Response where
  data : List Nat

/-- Modelled from the spec: plain data-only request structure of the
`dhcpsrv2` package whose fields are dictated by the wire protocol; the field
layout is not part of the excerpt, so the payload is abstract. -/
structure DeleteClientInfoV6Request where
  data : List Nat

/-- Modelled from the spec: plain data-only response structure of the
`dhcpsrv2` package whose fields are dictated by the wire protocol; the field
layout is not part of the excerpt, so the payload is abstract. -/
structure DeleteClientInfoV6Response where
  data : List Nat

/-- Modelled from the spec: plain data-only request structure of the
`dhcpsrv2` package whose fields are dictated by the wire protocol; the field
layout is not part of the excerpt, so the payload is abstract. -/
structure CreateClassV6Request where
  data : List Nat

/-- Modelled from the spec: plain data-only response structure of the
`dhcpsrv2` package whose fields are dictated by the wire protocol; the field
layout is not part of the excerpt, so the payload is abstract. -/
structure CreateClassV6Response where
  data : List Nat

/-- Modelled from the spec: plain data-only request structure of the
`dhcpsrv2` package whose fields are dictated by the wire protocol; the field
layout is not part of the excerpt, so the payload is abstract. -/
structure ModifyClassV6Request where
  data : List Nat

/-- Modelled from the spec: plain data-only response structure of the
`dhcpsrv2` package whose fields are dictated by the wire protocol; the field
layout is not part of the excerpt, so the payload is abstract. -/
structure ModifyClassV6Response where
  data : List Nat

/-- Modelled from the spec: plain data-only request structure of the
`dhcpsrv2` package whose fields are dictated by the wire protocol; the field
layout is not part of the excerpt, so the payload is abstract. -/
structure DeleteClassV6Request where
  data : List Nat

/-- Modelled from the spec: plain data-only response structure of the
`dhcpsrv2` package whose fields are dictated by the wire protocol; the field
layout is not part of the excerpt, so the payload is abstract. -/
structure DeleteClassV6Response where
  data : List Nat

/-- Modelled from the spec: plain data-only request structure of the
`dhcpsrv2` package whose fields are dictated by the wire protocol; the field
layout is not part of the excerpt, so the payload is abstract. -/
structure EnumClassesV6Request where
  data : List Nat

/-- Modelled from the spec: plain data-only response structure of the
`dhcpsrv2` package whose fields are dictated by the wire protocol; the field
layout is not part of the excerpt, so the payload is abstract. -/
structure EnumClassesV6Response where
  data : List Nat

/-- Modelled from the spec: plain data-only request structure of the
`dhcpsrv2` package whose fields are dictated by the wire protocol; the field
layout is not part of the excerpt, so the payload is abstract. -/
structure GetOptionValueV6Request where
  data : List Nat

/-- Modelled from the spec: plain data-only response structure of the
`dhcpsrv2` package whose fields are dictated by the wire protocol; the field
layout is not part of the excerpt, so the payload is abstract. -/
structure GetOptionValueV6Response where
  data : List Nat

/-- Modelled from the spec: plain data-only request structure of the
`dhcpsrv2` package whose fields are dictated by the wire protocol; the field
layout is not part of the excerpt, so the payload is abstract. -/
structure SetSubnetDelayOfferRequest where
  data : List Nat

/-- Modelled from the spec: plain data-only response structure of the
`dhcpsrv2` package whose fields are dictated by the wire protocol; the field
layout is not part of the excerpt, so the payload is abstract. -/
structure SetSubnetDelayOfferResponse where
  data : List Nat

/-- Modelled from the spec: plain data-only request structure of the
`dhcpsrv2` package whose fields are dictated by the wire protocol; the field
layout is not part of the excerpt, so the payload is abstract. -/
structure GetSubnetDelayOfferRequest where
  data : List Nat

/-- Modelled from the spec: plain data-only response structure of the
`dhcpsrv2` package whose fields are dictated by the wire protocol; the field
layout is not part of the excerpt, so the payload is abstract. -/
structure GetSubnetDelayOfferResponse where
  data : List Nat

/-- Modelled from the spec: plain data-only request structure of the
`dhcpsrv2` package whose fields are dictated by the wire protocol; the field
layout is not part of the excerpt, so the payload is abstract. -/
structure GetMIBInfoV5Request where
  data : List Nat

/-- Modelled from the spec: plain data-only response structure of the
`dhcpsrv2` package whose fields are dictated by the wire protocol; the field
layout is not part of the excerpt, so the payload is abstract. -/
structure GetMIBInfoV5Response where
  data : List Nat

/-- Modelled from the spec: plain data-only request structure of the
`dhcpsrv2` package whose fields are dictated by the wire protocol; the field
layout is not part of the excerpt, so the payload is abstract. -/
structure AddFilterV4Request where
  data : List Nat

/-- Modelled from the spec: plain data-only response structure of the
`dhcpsrv2` package whose fields are dictated by the wire protocol; the field
layout is not part of the excerpt, so the payload is abstract. -/
structure AddFilterV4Response where
  data : List Nat

/-- Modelled from the spec: plain data-only request structure of the
`dhcpsrv2` package whose fields are dictated by the wire protocol; the field
layout is not part of the excerpt, so the payload is abstract. -/
structure DeleteFilterV4Request where
  data : List Nat

/-- Modelled from the spec: plain data-only response structure of the
`dhcpsrv2` package whose fields are dictated by the wire protocol; the field
layout is not part of the excerpt, so the payload is abstract. -/
structure DeleteFilterV4Response where
  data : List Nat

/-- Modelled from the spec: plain data-only request structure of the
`dhcpsrv2` package whose fields are dictated by the wire protocol; the field
layout is not part of the excerpt, so the payload is abstract. -/
structure SetFilterV4Request where
  data : List Nat

/-- Modelled from the spec: plain data-only response structure of the
`dhcpsrv2` package whose fields are dictated by the wire protocol; the field
layout is not part of the excerpt, so the payload is abstract. -/
structure SetFilterV4Response where
  data : List Nat

/-- Modelled from the spec: plain data-only request structure of the
`dhcpsrv2` package whose fields are dictated by the wire protocol; the field
layout is not part of the excerpt, so the payload is abstract. -/
structure GetFilterV4Request where
  data : List Nat

/-- Modelled from the spec: plain data-only response structure of the
`dhcpsrv2` package whose fields are dictated by the wire protocol; the field
layout is not part of the excerpt, so the payload is abstract. -/
structure GetFilterV4Response where
  data : List Nat

/-- Modelled from the spec: plain data-only request structure of the
`dhcpsrv2` package whose fields are dictated by the wire protocol; the field
layout is not part of the excerpt, so the payload is abstract. -/
structure EnumFilterV4Request where
  data : List Nat

/-- Modelled from the spec: plain data-only response structure of the
`dhcpsrv2` package whose fields are dictated by the wire protocol; the field
layout is not part of the excerpt, so the payload is abstract. -/
structure EnumFilterV4Response where
  data : List Nat

/-- Modelled from the spec: plain data-only request structure of the
`dhcpsrv2` package whose fields are dictated by the wire protocol; the field
layout is not part of the excerpt, so the payload is abstract. -/
structure SetDNSRegCredentialsV5Request where
  data : List Nat

/-- Modelled from the spec: plain data-only response structure of the
`dhcpsrv2` package whose fields are dictated by the wire protocol; the field
layout is not part of the excerpt, so the payload is abstract. -/
structure SetDNSRegCredentialsV5Response where
  data : List Nat

/-- Modelled from the spec: plain data-only request structure of the
`dhcpsrv2` package whose fields are dictated by the wire protocol; the field
layout is not part of the excerpt, so the payload is abstract. -/
structure EnumSubnetClientsFilterStatusInfoRequest where
  data : List Nat

/-- Modelled from the spec: plain data-only response structure of the
`dhcpsrv2` package whose fields are dictated by the wire protocol; the field
layout is not part of the excerpt, so the payload is abstract. -/
structure EnumSubnetClientsFilterStatusInfoResponse where
  data : List Nat

/-- Modelled from the spec: plain data-only request structure of the
`dhcpsrv2` package whose fields are dictated by the wire protocol; the field
layout is not part of the excerpt, so the payload is abstract. -/
structure FailoverCreateRelationshipV4Request where
  data : List Nat

/-- Modelled from the spec: plain data-only response structure of the
`dhcpsrv2` package whose fields are dictated by the wire protocol; the field
layout is not part of the excerpt, so the payload is abstract. -/
structure FailoverCreateRelationshipV4Response where
  data : List Nat

/-- Modelled from the spec: plain data-only request structure of the
`dhcpsrv2` package whose fields are dictated by the wire protocol; the field
layout is not part of the excerpt, so the payload is abstract. -/
structure FailoverSetRelationshipV4Request where
  data : List Nat

/-- Modelled from the spec: plain data-only response structure of the
`dhcpsrv2` package whose fields are dictated by the wire protocol; the field
layout is not part of the excerpt, so the payload is abstract. -/
structure FailoverSetRelationshipV4Response where
  data : List Nat

/-- Modelled from the spec: plain data-only request structure of the
`dhcpsrv2` package whose fields are dictated by the wire protocol; the field
layout is not part of the excerpt, so the payload is abstract. -/
structure FailoverDeleteRelationshipV4Request where
  data : List Nat

/-- Modelled from the spec: plain data-only response structure of the
`dhcpsrv2` package whose fields are dictated by the wire protocol; the field
layout is not part of the excerpt, so the payload is abstract. -/
structure FailoverDeleteRelationshipV4Response where
  data : List Nat

/-- Modelled from the spec: plain data-only request structure of the
`dhcpsrv2` package whose fields are dictated by the wire protocol; the field
layout is not part of the excerpt, so the payload is abstract. -/
structure FailoverGetRelationshipV4Request where
  data : List Nat

/-- Modelled from the spec: plain data-only response structure of the
`dhcpsrv2` package whose fields are dictated by the wire protocol; the field
layout is not part of the excerpt, so the payload is abstract. -/
structure FailoverGetRelationshipV4Response where
  data : List Nat

/-- Modelled from the spec: plain data-only request structure of the
`dhcpsrv2` package whose fields are dictated by the wire protocol; the field
layout is not part of the excerpt, so the payload is abstract. -/
structure FailoverEnumRelationshipV4Request where
  data : List Nat

/-- Modelled from the spec: plain data-only response structure of the
`dhcpsrv2` package whose fields are dictated by the wire protocol; the field
layout is not part of the excerpt, so the payload is abstract. -/
structure FailoverEnumRelationshipV4Response where
  data : List Nat

/-- Modelled from the spec: plain data-only request structure of the
`dhcpsrv2` package whose fields are dictated by the wire protocol; the field
layout is not part of the excerpt, so the payload is abstract. -/
structure FailoverAddScopeToRelationshipV4Request where
  data : List Nat

/-- Modelled from the spec: plain data-only response structure of the
`dhcpsrv2` package whose fields are dictated by the wire protocol; the field
layout is not part of the excerpt, so the payload is abstract. -/
structure FailoverAddScopeToRelationshipV4Response where
  data : List Nat

/-- Modelled from the spec: plain data-only request structure of the
`dhcpsrv2` package whose fields are dictated by the wire protocol; the field
layout is not part of the excerpt, so the payload is abstract. -/
structure FailoverDeleteScopeFromRelationshipV4Request where
  data : List Nat

/-- Modelled from the spec: plain data-only response structure of the
`dhcpsrv2` package whose fields are dictated by the wire protocol; the field
layout is not part of the excerpt, so the payload is abstract. -/
structure FailoverDeleteScopeFromRelationshipV4Response where
  data : List Nat

/-- Modelled from the spec: plain data-only request structure of the
`dhcpsrv2` package whose fields are dictated by the wire protocol; the field
layout is not part of the excerpt, so the payload is abstract. -/
structure FailoverGetScopeRelationshipV4Request where
  data : List Nat

/-- Modelled from the spec: plain data-only response structure of the
`dhcpsrv2` package whose fields are dictated by the wire protocol; the field
layout is not part of the excerpt, so the payload is abstract. -/
structure FailoverGetScopeRelationshipV4Response where
  data : List Nat

/-- Modelled from the spec: plain data-only request structure of the
`dhcpsrv2` package whose fields are dictated by the wire protocol; the field
layout is not part of the excerpt, so the payload is abstract. -/
structure FailoverGetScopeStatisticsV4Request where
  data : List Nat

/-- Modelled from the spec: plain data-only response structure of the
`dhcpsrv2` package whose fields are dictated by the wire protocol; the field
layout is not part of the excerpt, so the payload is abstract. -/
structure FailoverGetScopeStatisticsV4Response where
  data : List Nat

/-- Modelled from the spec: plain data-only request structure of the
`dhcpsrv2` package whose fields are dictated by the wire protocol; the field
layout is not part of the excerpt, so the payload is abstract. -/
structure FailoverGetClientInfoV4Request where
  data : List Nat

/-- Modelled from the spec: plain data-only response structure of the
`dhcpsrv2` package whose fields are dictated by the wire protocol; the field
layout is not part of the excerpt, so the payload is abstract. -/
structure FailoverGetClientInfoV4Response where
  data : List Nat

/-- Modelled from the spec: plain data-only request structure of the
`dhcpsrv2` package whose fields are dictated by the wire protocol; the field
layout is not part of the excerpt, so the payload is abstract. -/
structure FailoverGetSystemTimeV4Request where
  data : List Nat

/-- Modelled from the spec: plain data-only response structure of the
`dhcpsrv2` package whose fields are dictated by the wire protocol; the field
layout is not part of the excerpt, so the payload is abstract. -/
structure FailoverGetSystemTimeV4Response where
  data : List Nat

/-- Modelled from the spec: plain data-only request structure of the
`dhcpsrv2` package whose fields are dictated by the wire protocol; the field
layout is not part of the excerpt, so the payload is abstract. -/
structure FailoverTriggerAddrAllocationV4Request where
  data : List Nat

/-- Modelled from the spec: plain data-only response structure of the
`dhcpsrv2` package whose fields are dictated by the wire protocol; the field
layout is not part of the excerpt, so the payload is abstract. -/
structure FailoverTriggerAddrAllocationV4Response where
  data : List Nat

/-- Modelled from the spec: plain data-only request structure of the
`dhcpsrv2` package whose fields are dictated by the wire protocol; the field
layout is not part of the excerpt, so the payload is abstract. -/
structure SetOptionValueV4Request where
  data : List Nat

/-- Modelled from the spec: plain data-only response structure of the
`dhcpsrv2` package whose fields are dictated by the wire protocol; the field
layout is not part of the excerpt, so the payload is abstract. -/
structure SetOptionValueV4Response where
  data : List Nat

/-- Modelled from the spec: plain data-only request structure of the
`dhcpsrv2` package whose fields are dictated by the wire protocol; the field
layout is not part of the excerpt, so the payload is abstract. -/
structure SetOptionValuesV4Request where
  data : List Nat

/-- Modelled from the spec: plain data-only response structure of the
`dhcpsrv2` package whose fields are dictated by the wire protocol; the field
layout is not part of the excerpt, so the payload is abstract. -/
structure SetOptionValuesV4Response where
  data : List Nat

/-- Modelled from the spec: plain data-only request structure of the
`dhcpsrv2` package whose fields are dictated by the wire protocol; the field
layout is not part of the excerpt, so the payload is abstract. -/
structure GetOptionValueV4Request where
  data : List Nat

/-- Modelled from the spec: plain data-only response structure of the
`dhcpsrv2` package whose fields are dictated by the wire protocol; the field
layout is not part of the excerpt, so the payload is abstract. -/
structure GetOptionValueV4Response where
  data : List Nat

/-- Modelled from the spec: plain data-only request structure of the
`dhcpsrv2` package whose fields are dictated by the wire protocol; the field
layout is not part of the excerpt, so the payload is abstract. -/
structure RemoveOptionValueV4Request where
  data : List Nat

/-- Modelled from the spec: plain data-only response structure of the
`dhcpsrv2` package whose fields are dictated by the wire protocol; the field
layout is not part of the excerpt, so the payload is abstract. -/
structure RemoveOptionValueV4Response where
  data : List Nat

/-- Modelled from the spec: plain data-only request structure of the
`dhcpsrv2` package whose fields are dictated by the wire protocol; the field
layout is not part of the excerpt, so the payload is abstract. -/
structure GetAllOptionValuesV4Request where
  data : List Nat

/-- Modelled from the spec: plain data-only response structure of the
`dhcpsrv2` package whose fields are dictated by the wire protocol; the field
layout is not part of the excerpt, so the payload is abstract. -/
structure GetAllOptionValuesV4Response where
  data : List Nat

/-- Modelled from the spec: plain data-only request structure of the
`dhcpsrv2` package whose fields are dictated by the wire protocol; the field
layout is not part of the excerpt, so the payload is abstract. -/
structure QueryPolicyEnforcementV4Request where
  data : List Nat

/-- Modelled from the spec: plain data-only response structure of the
`dhcpsrv2` package whose fields are dictated by the wire protocol; the field
layout is not part of the excerpt, so the payload is abstract. -/
structure QueryPolicyEnforcementV4Response where
  data : List Nat

/-- Modelled from the spec: plain data-only request structure of the
`dhcpsrv2` package whose fields are dictated by the wire protocol; the field
layout is not part of the excerpt, so the payload is abstract. -/
structure SetPolicyEnforcementV4Request where
  data : List Nat

/-- Modelled from the spec: plain data-only response structure of the
`dhcpsrv2` package whose fields are dictated by the wire protocol; the field
layout is not part of the excerpt, so the payload is abstract. -/
structure SetPolicyEnforcementV4Response where
  data : List Nat

/-- Modelled from the spec: plain data-only request structure of the
`dhcpsrv2` package whose fields are dictated by the wire protocol; the field
layout is not part of the excerpt, so the payload is abstract. -/
structure CreatePolicyV4Request where
  data : List Nat

/-- Modelled from the spec: plain data-only response structure of the
`dhcpsrv2` package whose fields are dictated by the wire protocol; the field
layout is not part of the excerpt, so the payload is abstract. -/
structure CreatePolicyV4Response where
  data : List Nat

/-- Modelled from the spec: plain data-only request structure of the
`dhcpsrv2` package whose fields are dictated by the wire protocol; the field
layout is not part of the excerpt, so the payload is abstract. -/
structure GetPolicyV4Request where
  data : List Nat

/-- Modelled from the spec: plain data-only response structure of the
`dhcpsrv2` package whose fields are dictated by the wire protocol; the field
layout is not part of the excerpt, so the payload is abstract. -/
structure GetPolicyV4Response where
  data : List Nat

/-- Modelled from the spec: plain data-only request structure of the
`dhcpsrv2` package whose fields are dictated by the wire protocol; the field
layout is not part of the excerpt, so the payload is abstract. -/
structure SetPolicyV4Request where
  data : List Nat

/-- Modelled from the spec: plain data-only response structure of the
`dhcpsrv2` package whose fields are dictated by the wire protocol; the field
layout is not part of the excerpt, so the payload is abstract. -/
structure SetPolicyV4Response where
  data : List Nat

/-- Modelled from the spec: plain data-only request structure of the
`dhcpsrv2` package whose fields are dictated by the wire protocol; the field
layout is not part of the excerpt, so the payload is abstract. -/
structure DeletePolicyV4Request where
  data : List Nat

/-- Modelled from the spec: plain data-only response structure of the
`dhcpsrv2` package whose fields are dictated by the wire protocol; the field
layout is not part of the excerpt, so the payload is abstract. -/
structure DeletePolicyV4Response where
  data : List Nat

/-- Modelled from the spec: plain data-only request structure of the
`dhcpsrv2` package whose fields are dictated by the wire protocol; the field
layout is not part of the excerpt, so the payload is abstract. -/
structure EnumPoliciesV4Request where
  data : List Nat

/-- Modelled from the spec: plain data-only response structure of the
`dhcpsrv2` package whose fields are dictated by the wire protocol; the field
layout is not part of the excerpt, so the payload is abstract. -/
structure EnumPoliciesV4Response where
  data : List Nat

/-- Modelled from the spec: plain data-only request structure of the
`dhcpsrv2` package whose fields are dictated by the wire protocol; the field
layout is not part of the excerpt, so the payload is abstract. -/
structure AddPolicyRangeV4Request where
  data : List Nat

/-- Modelled from the spec: plain data-only response structure of the
`dhcpsrv2` package whose fields are dictated by the wire protocol; the field
layout is not part of the excerpt, so the payload is abstract. -/
structure AddPolicyRangeV4Response where
  data : List Nat

/-- Modelled from the spec: plain data-only request structure of the
`dhcpsrv2` package whose fields are dictated by the wire protocol; the field
layout is not part of the excerpt, so the payload is abstract. -/
structure RemovePolicyRangeV4Request where
  data : List Nat

/-- Modelled from the spec: plain data-only response structure of the
`dhcpsrv2` package whose fields are dictated by the wire protocol; the field
layout is not part of the excerpt, so the payload is abstract. -/
structure RemovePolicyRangeV4Response where
  data : List Nat

/-- Modelled from the spec: plain data-only request structure of the
`dhcpsrv2` package whose fields are dictated by the wire protocol; the field
layout is not part of the excerpt, so the payload is abstract. -/
structure EnumSubnetClientsV4Request where
  data : List Nat

/-- Modelled from the spec: plain data-only response structure of the
`dhcpsrv2` package whose fields are dictated by the wire protocol; the field
layout is not part of the excerpt, so the payload is abstract. -/
structure EnumSubnetClientsV4Response where
  data : List Nat

/-- Modelled from the spec: plain data-only request structure of the
`dhcpsrv2` package whose fields are dictated by the wire protocol; the field
layout is not part of the excerpt, so the payload is abstract. -/
structure SetStatelessStoreParamsV6Request where
  data : List Nat

/-- Modelled from the spec: plain data-only response structure of the
`dhcpsrv2` package whose fields are dictated by the wire protocol; the field
layout is not part of the excerpt, so the payload is abstract. -/
structure SetStatelessStoreParamsV6Response where
  data : List Nat

/-- Modelled from the spec: plain data-only request structure of the
`dhcpsrv2` package whose fields are dictated by the wire protocol; the field
layout is not part of the excerpt, so the payload is abstract. -/
structure GetStatelessStoreParamsV6Request where
  data : List Nat

/-- Modelled from the spec: plain data-only response structure of the
`dhcpsrv2` package whose fields are dictated by the wire protocol; the field
layout is not part of the excerpt, so the payload is abstract. -/
structure GetStatelessStoreParamsV6Response where
  data : List Nat

/-- Modelled from the spec: plain data-only request structure of the
`dhcpsrv2` package whose fields are dictated by the wire protocol; the field
layout is not part of the excerpt, so the payload is abstract. -/
structure GetStatelessStatisticsV6Request where
  data : List Nat

/-- Modelled from the spec: plain data-only response structure of the
`dhcpsrv2` package whose fields are dictated by the wire protocol; the field
layout is not part of the excerpt, so the payload is abstract. -/
structure GetStatelessStatisticsV6Response where
  data : List Nat

/-- Modelled from the spec: plain data-only request structure of the
`dhcpsrv2` package whose fields are dictated by the wire protocol; the field
layout is not part of the excerpt, so the payload is abstract. -/
structure EnumSubnetReservationsV4Request where
  data : List Nat

/-- Modelled from the spec: plain data-only response structure of the
`dhcpsrv2` package whose fields are dictated by the wire protocol; the field
layout is not part of the excerpt, so the payload is abstract. -/
structure EnumSubnetReservationsV4Response where
  data : List Nat

/-- Modelled from the spec: plain data-only request structure of the
`dhcpsrv2` package whose fields are dictated by the wire protocol; the field
layout is not part of the excerpt, so the payload is abstract. -/
structure GetFreeIPAddressV4Request where
  data : List Nat

/-- Modelled from the spec: plain data-only response structure of the
`dhcpsrv2` package whose fields are dictated by the wire protocol; the field
layout is not part of the excerpt, so the payload is abstract. -/
structure GetFreeIPAddressV4Response where
  data : List Nat

/-- Modelled from the spec: plain data-only request structure of the
`dhcpsrv2` package whose fields are dictated by the wire protocol; the field
layout is not part of the excerpt, so the payload is abstract. -/
structure GetFreeIPAddressV6Request where
  data : List Nat

/-- Modelled from the spec: plain data-only response structure of the
`dhcpsrv2` package whose fields are dictated by the wire protocol; the field
layout is not part of the excerpt, so the payload is abstract. -/
structure GetFreeIPAddressV6Response where
  data : List Nat

/-- Modelled from the spec: plain data-only request structure of the
`dhcpsrv2` package whose fields are dictated by the wire protocol; the field
layout is not part of the excerpt, so the payload is abstract. -/
structure CreateClientInfoV4Request where
  data : List Nat

/-- Modelled from the spec: plain data-only response structure of the
`dhcpsrv2` package whose fields are dictated by the wire protocol; the field
layout is not part of the excerpt, so the payload is abstract. -/
structure CreateClientInfoV4Response where
  data : List Nat

/-- Modelled from the spec: plain data-only request structure of the
`dhcpsrv2` package whose fields are dictated by the wire protocol; the field
layout is not part of the excerpt, so the payload is abstract. -/
structure GetClientInfoV4Request where
  data : List Nat

/-- Modelled from the spec: plain data-only response structure of the
`dhcpsrv2` package whose fields are dictated by the wire protocol; the field
layout is not part of the excerpt, so the payload is abstract. -/
structure GetClientInfoV4Response where
  data : List Nat

/-- Modelled from the spec: plain data-only request structure of the
`dhcpsrv2` package whose fields are dictated by the wire protocol; the field
layout is not part of the excerpt, so the payload is abstract. -/
structure CreateClientInfoV6Request where
  data : List Nat

/-- Modelled from the spec: plain data-only response structure of the
`dhcpsrv2` package whose fields are dictated by the wire protocol; the field
layout is not part of the excerpt, so the payload is abstract. -/
structure CreateClientInfoV6Response where
  data : List Nat

/-- Modelled from the spec: plain data-only request structure of the
`dhcpsrv2` package whose fields are dictated by the wire protocol; the field
layout is not part of the excerpt, so the payload is abstract. -/
structure FailoverGetAddressStatusV4Request where
  data : List Nat

/-- Modelled from the spec: plain data-only response structure of the
`dhcpsrv2` package whose fields are dictated by the wire protocol; the field
layout is not part of the excerpt, so the payload is abstract. -/
structure FailoverGetAddressStatusV4Response where
  data : List Nat

/-- Modelled from the spec: plain data-only request structure of the
`dhcpsrv2` package whose fields are dictated by the wire protocol; the field
layout is not part of the excerpt, so the payload is abstract. -/
structure CreatePolicyExV4Request where
  data : List Nat

/-- Modelled from the spec: plain data-only response structure of the
`dhcpsrv2` package whose fields are dictated by the wire protocol; the field
layout is not part of the excerpt, so the payload is abstract. -/
structure CreatePolicyExV4Response where
  data : List Nat

/-- Modelled from the spec: plain data-only request structure of the
`dhcpsrv2` package whose fields are dictated by the wire protocol; the field
layout is not part of the excerpt, so the payload is abstract. -/
structure GetPolicyExV4Request where
  data : List Nat

/-- Modelled from the spec: plain data-only response structure of the
`dhcpsrv2` package whose fields are dictated by the wire protocol; the field
layout is not part of the excerpt, so the payload is abstract. -/
structure GetPolicyExV4Response where
  data : List Nat

/-- Modelled from the spec: plain data-only request structure of the
`dhcpsrv2` package whose fields are dictated by the wire protocol; the field
layout is not part of the excerpt, so the payload is abstract. -/
structure SetPolicyExV4Request where
  data : List Nat

/-- Modelled from the spec: plain data-only response structure of the
`dhcpsrv2` package whose fields are dictated by the wire protocol; the field
layout is not part of the excerpt, so the payload is abstract. -/
structure SetPolicyExV4Response where
  data : List Nat

/-- Modelled from the spec: plain data-only request structure of the
`dhcpsrv2` package whose fields are dictated by the wire protocol; the field
layout is not part of the excerpt, so the payload is abstract. -/
structure EnumPoliciesExV4Request where
  data : List Nat

/-- Modelled from the spec: plain data-only response structure of the
`dhcpsrv2` package whose fields are dictated by the wire protocol; the field
layout is not part of the excerpt, so the payload is abstract. -/
structure EnumPoliciesExV4Response where
  data : List Nat

/-- Modelled from the spec: plain data-only request structure of the
`dhcpsrv2` package whose fields are dictated by the wire protocol; the field
layout is not part of the excerpt, so the payload is abstract. -/
structure EnumSubnetClientsExV4Request where
  data : List Nat

/-- Modelled from the spec: plain data-only response structure of the
`dhcpsrv2` package whose fields are dictated by the wire protocol; the field
layout is not part of the excerpt, so the payload is abstract. -/
structure EnumSubnetClientsExV4Response where
  data : List Nat

/-- Modelled from the spec: plain data-only request structure of the
`dhcpsrv2` package whose fields are dictated by the wire protocol; the field
layout is not part of the excerpt, so the payload is abstract. -/
structure CreateClientInfoExV4Request where
  data : List Nat

/-- Modelled from the spec: plain data-only response structure of the
`dhcpsrv2` package whose fields are dictated by the wire protocol; the field
layout is not part of the excerpt, so the payload is abstract. -/
structure CreateClientInfoExV4Response where
  data : List Nat

/-- Modelled from the spec: plain data-only request structure of the
`dhcpsrv2` package whose fields are dictated by the wire protocol; the field
layout is not part of the excerpt, so the payload is abstract. -/
structure GetClientInfoExV4Request where
  data : List Nat

/-- Modelled from the spec: plain data-only response structure of the
`dhcpsrv2` package whose fields are dictated by the wire protocol; the field
layout is not part of the excerpt, so the payload is abstract. -/
structure GetClientInfoExV4Response where
  data : List Nat

end dhcpsrv2

namespace icatalogutils2

/-- Modelled from the spec: plain data-only request structure of the
`icatalogutils2` package whose fields are dictated by the wire protocol; the field
layout is not part of the excerpt, so the payload is abstract. -/
structure CopyConglomerationsRequest where
  data : List Nat

/-- Modelled from the spec: plain data-only response structure of the
`icatalogutils2` package whose fields are dictated by the wire protocol; the field
layout is not part of the excerpt, so the payload is abstract. -/
structure CopyConglomerationsResponse where
  data : List Nat

/-- Modelled from the spec: plain data-only request structure of the
`icatalogutils2` package whose fields are dictated by the wire protocol; the field
layout is not part of the excerpt, so the payload is abstract. -/
structure CopyComponentConfigurationRequest where
  data : List Nat

/-- Modelled from the spec: plain data-only response structure of the
`icatalogutils2` package whose fields are dictated by the wire protocol; the field
layout is not part of the excerpt, so the payload is abstract. -/
structure CopyComponentConfigurationResponse where
  data : List Nat

/-- Modelled from the spec: plain data-only request structure of the
`icatalogutils2` package whose fields are dictated by the wire protocol; the field
layout is not part of the excerpt, so the payload is abstract. -/
structure AliasComponentRequest where
  data : List Nat

/-- Modelled from the spec: plain data-only response structure of the
`icatalogutils2` package whose fields are dictated by the wire protocol; the field
layout is not part of the excerpt, so the payload is abstract. -/
structure AliasComponentResponse where
  data : List Nat

/-- Modelled from the spec: plain data-only request structure of the
`icatalogutils2` package whose fields are dictated by the wire protocol; the field
layout is not part of the excerpt, so the payload is abstract. -/
structure MoveComponentConfigurationRequest where
  data : List Nat

/-- Modelled from the spec: plain data-only response structure of the
`icatalogutils2` package whose fields are dictated by the wire protocol; the field
layout is not part of the excerpt, so the payload is abstract. -/
structure MoveComponentConfigurationResponse where
  data : List Nat

/-- Modelled from the spec: plain data-only request structure of the
`icatalogutils2` package whose fields are dictated by the wire protocol; the field
layout is not part of the excerpt, so the payload is abstract. -/
structure GetEventClassesForIid2Request where
  data : List Nat

/-- Modelled from the spec: plain data-only response structure of the
`icatalogutils2` package whose fields are dictated by the wire protocol; the field
layout is not part of the excerpt, so the payload is abstract. -/
structure GetEventClassesForIid2Response where
  data : List Nat

/-- Modelled from the spec: plain data-only request structure of the
`icatalogutils2` package whose fields are dictated by the wire protocol; the field
layout is not part of the excerpt, so the payload is abstract. -/
structure IsSafeToDeleteRequest where
  data : List Nat

/-- Modelled from the spec: plain data-only response structure of the
`icatalogutils2` package whose fields are dictated by the wire protocol; the field
layout is not part of the excerpt, so the payload is abstract. -/
structure IsSafeToDeleteResponse where
  data : List Nat

/-- Modelled from the spec: plain data-only request structure of the
`icatalogutils2` package whose fields are dictated by the wire protocol; the field
layout is not part of the excerpt, so the payload is abstract. -/
structure FlushPartitionCacheRequest where
  data : List Nat

/-- Modelled from the spec: plain data-only response structure of the
`icatalogutils2` package whose fields are dictated by the wire protocol; the field
layout is not part of the excerpt, so the payload is abstract. -/
structure FlushPartitionCacheResponse where
  data : List Nat

/-- Modelled from the spec: plain data-only request structure of the
`icatalogutils2` package whose fields are dictated by the wire protocol; the field
layout is not part of the excerpt, so the payload is abstract. -/
structure EnumerateSRPLevelsRequest where
  data : List Nat

/-- Modelled from the spec: plain data-only response structure of the
`icatalogutils2` package whose fields are dictated by the wire protocol; the field
layout is not part of the excerpt, so the payload is abstract. -/
structure EnumerateSRPLevelsResponse where
  data : List Nat

/-- Modelled from the spec: plain data-only request structure of the
`icatalogutils2` package whose fields are dictated by the wire protocol; the field
layout is not part of the excerpt, so the payload is abstract. -/
structure GetComponentVersionsRequest where
  data : List Nat

/-- Modelled from the spec: plain data-only response structure of the
`icatalogutils2` package whose fields are dictated by the wire protocol; the field
layout is not part of the excerpt, so the payload is abstract. -/
structure GetComponentVersionsResponse where
  data : List Nat

end icatalogutils2

namespace ivdsservicesan

/-- Modelled from the spec: plain data-only request structure of the
`ivdsservicesan` package whose fields are dictated by the wire protocol; the field
layout is not part of the excerpt, so the payload is abstract. -/
structure GetSANPolicyRequest where
  data : List Nat

/-- Modelled from the spec: plain data-only response structure of the
`ivdsservicesan` package whose fields are dictated by the wire protocol; the field
layout is not part of the excerpt, so the payload is abstract. -/
structure GetSANPolicyResponse where
  data : List Nat

/-- Modelled from the spec: plain data-only request structure of the
`ivdsservicesan` package whose fields are dictated by the wire protocol; the field
layout is not part of the excerpt, so the payload is abstract. -/
structure SetSANPolicyRequest where
  data : List Nat

/-- Modelled from the spec: plain data-only response structure of the
`ivdsservicesan` package whose fields are dictated by the wire protocol; the field
layout is not part of the excerpt, so the payload is abstract. -/
structure SetSANPolicyResponse where
  data : List Nat

end ivdsservicesan

namespace ivdsvdprovider

/-- Modelled from the spec: plain data-only request structure of the
`ivdsvdprovider` package whose fields are dictated by the wire protocol; the field
layout is not part of the excerpt, so the payload is abstract. -/
structure QueryVDisksRequest where
  data : List Nat

/-- Modelled from the spec: plain data-only response structure of the
`ivdsvdprovider` package whose fields are dictated by the wire protocol; the field
layout is not part of the excerpt, so the payload is abstract. -/
structure QueryVDisksResponse where
  data : List Nat

/-- Modelled from the spec: plain data-only request structure of the
`ivdsvdprovider` package whose fields are dictated by the wire protocol; the field
layout is not part of the excerpt, so the payload is abstract. -/
structure CreateVDiskRequest where
  data : List Nat

/-- Modelled from the spec: plain data-only response structure of the
`ivdsvdprovider` package whose fields are dictated by the wire protocol; the field
layout is not part of the excerpt, so the payload is abstract. -/
structure CreateVDiskResponse where
  data : List Nat

/-- Modelled from the spec: plain data-only request structure of the
`ivdsvdprovider` package whose fields are dictated by the wire protocol; the field
layout is not part of the excerpt, so the payload is abstract. -/
structure AddVDiskRequest where
  data : List Nat

/-- Modelled from the spec: plain data-only response structure of the
`ivdsvdprovider` package whose fields are dictated by the wire protocol; the field
layout is not part of the excerpt, so the payload is abstract. -/
structure AddVDiskResponse where
  data : List Nat

/-- Modelled from the spec: plain data-only request structure of the
`ivdsvdprovider` package whose fields are dictated by the wire protocol; the field
layout is not part of the excerpt, so the payload is abstract. -/
structure GetDiskFromVDiskRequest where
  data : List Nat

/-- Modelled from the spec: plain data-only response structure of the
`ivdsvdprovider` package whose fields are dictated by the wire protocol; the field
layout is not part of the excerpt, so the payload is abstract. -/
structure GetDiskFromVDiskResponse where
  data : List Nat

/-- Modelled from the spec: plain data-only request structure of the
`ivdsvdprovider` package whose fields are dictated by the wire protocol; the field
layout is not part of the excerpt, so the payload is abstract. -/
structure GetVDiskFromDiskRequest where
  data : List Nat

/-- Modelled from the spec: plain data-only response structure of the
`ivdsvdprovider` package whose fields are dictated by the wire protocol; the field
layout is not part of the excerpt, so the payload is abstract. -/
structure GetVDiskFromDiskResponse where
  data : List Nat

end ivdsvdprovider

namespace iapphostpropertycollection

/-- Modelled from the spec: plain data-only request structure of the
`iapphostpropertycollection` package whose fields are dictated by the wire protocol; the field
layout is not part of the excerpt, so the payload is abstract. -/
structure GetCountRequest where
  data : List Nat

/-- Modelled from the spec: plain data-only response structure of the
`iapphostpropertycollection` package whose fields are dictated by the wire protocol; the field
layout is not part of the excerpt, so the payload is abstract. -/
structure GetCountResponse where
  data : List Nat

/-- Modelled from the spec: plain data-only request structure of the
`iapphostpropertycollection` package whose fields are dictated by the wire protocol; the field
layout is not part of the excerpt, so the payload is abstract. -/
structure GetItemRequest where
  data : List Nat

/-- Modelled from the spec: plain data-only response structure of the
`iapphostpropertycollection` package whose fields are dictated by the wire protocol; the field
layout is not part of the excerpt, so the payload is abstract. -/
structure GetItemResponse where
  data : List Nat

end iapphostpropertycollection

namespace ifsrmfilescreentemplate

/-- Modelled from the spec: plain data-only request structure of the
`ifsrmfilescreentemplate` package whose fields are dictated by the wire protocol; the field
layout is not part of the excerpt, so the payload is abstract. -/
structure GetNameRequest where
  data : List Nat

/-- Modelled from the spec: plain data-only response structure of the
`ifsrmfilescreentemplate` package whose fields are dictated by the wire protocol; the field
layout is not part of the excerpt, so the payload is abstract. -/
structure GetNameResponse where
  data : List Nat

/-- Modelled from the spec: plain data-only request structure of the
`ifsrmfilescreentemplate` package whose fields are dictated by the wire protocol; the field
layout is not part of the excerpt, so the payload is abstract. -/
structure SetNameRequest where
  data : List Nat

/-- Modelled from the spec: plain data-only response structure of the
`ifsrmfilescreentemplate` package whose fields are dictated by the wire protocol; the field
layout is not part of the excerpt, so the payload is abstract. -/
structure SetNameResponse where
  data : List Nat

/-- Modelled from the spec: plain data-only request structure of the
`ifsrmfilescreentemplate` package whose fields are dictated by the wire protocol; the field
layout is not part of the excerpt, so the payload is abstract. -/
structure CopyTemplateRequest where
  data : List Nat

/-- Modelled from the spec: plain data-only response structure of the
`ifsrmfilescreentemplate` package whose fields are dictated by the wire protocol; the field
layout is not part of the excerpt, so the payload is abstract. -/
structure CopyTemplateResponse where
  data : List Nat

/-- Modelled from the spec: plain data-only request structure of the
`ifsrmfilescreentemplate` package whose fields are dictated by the wire protocol; the field
layout is not part of the excerpt, so the payload is abstract. -/
structure CommitAndUpdateDerivedRequest where
  data : List Nat

/-- Modelled from the spec: plain data-only response structure of the
`ifsrmfilescreentemplate` package whose fields are dictated by the wire protocol; the field
layout is not part of the excerpt, so the payload is abstract. -/
structure CommitAndUpdateDerivedResponse where
  data : List Nat

end ifsrmfilescreentemplate

namespace iwamadmin

/-- Modelled from the spec: plain data-only request structure of the
`iwamadmin` package whose fields are dictated by the wire protocol; the field
layout is not part of the excerpt, so the payload is abstract. -/
structure AppCreateRequest where
  data : List Nat

/-- Modelled from the spec: plain data-only response structure of the
`iwamadmin` package whose fields are dictated by the wire protocol; the field
layout is not part of the excerpt, so the payload is abstract. -/
structure AppCreateResponse where
  data : List Nat

/-- Modelled from the spec: plain data-only request structure of the
`iwamadmin` package whose fields are dictated by the wire protocol; the field
layout is not part of the excerpt, so the payload is abstract. -/
structure AppDeleteRequest where
  data : List Nat

/-- Modelled from the spec: plain data-only response structure of the
`iwamadmin` package whose fields are dictated by the wire protocol; the field
layout is not part of the excerpt, so the payload is abstract. -/
structure AppDeleteResponse where
  data : List Nat

/-- Modelled from the spec: plain data-only request structure of the
`iwamadmin` package whose fields are dictated by the wire protocol; the field
layout is not part of the excerpt, so the payload is abstract. -/
structure AppUnloadRequest where
  data : List Nat

/-- Modelled from the spec: plain data-only response structure of the
`iwamadmin` package whose fields are dictated by the wire protocol; the field
layout is not part of the excerpt, so the payload is abstract. -/
structure AppUnloadResponse where
  data : List Nat

/-- Modelled from the spec: plain data-only request structure of the
`iwamadmin` package whose fields are dictated by the wire protocol; the field
layout is not part of the excerpt, so the payload is abstract. -/
structure AppGetStatusRequest where
  data : List Nat

/-- Modelled from the spec: plain data-only response structure of the
`iwamadmin` package whose fields are dictated by the wire protocol; the field
layout is not part of the excerpt, so the payload is abstract. -/
structure AppGetStatusResponse where
  data : List Nat

/-- Modelled from the spec: plain data-only request structure of the
`iwamadmin` package whose fields are dictated by the wire protocol; the field
layout is not part of the excerpt, so the payload is abstract. -/
structure AppDeleteRecoverableRequest where
  data : List Nat

/-- Modelled from the spec: plain data-only response structure of the
`iwamadmin` package whose fields are dictated by the wire protocol; the field
layout is not part of the excerpt, so the payload is abstract. -/
structure AppDeleteRecoverableResponse where
  data : List Nat

/-- Modelled from the spec: plain data-only request structure of the
`iwamadmin` package whose fields are dictated by the wire protocol; the field
layout is not part of the excerpt, so the payload is abstract. -/
structure AppRecoverRequest where
  data : List Nat

/-- Modelled from the spec: plain data-only response structure of the
`iwamadmin` package whose fields are dictated by the wire protocol; the field
layout is not part of the excerpt, so the payload is abstract. -/
structure AppRecoverResponse where
  data : List Nat

end iwamadmin

namespace idatafactory3

/-- Modelled from the spec: plain data-only request structure of the
`idatafactory3` package whose fields are dictated by the wire protocol; the field
layout is not part of the excerpt, so the payload is abstract. -/
structure ExecuteRequest where
  data : List Nat

/-- Modelled from the spec: plain data-only response structure of the
`idatafactory3` package whose fields are dictated by the wire protocol; the field
layout is not part of the excerpt, so the payload is abstract. -/
structure ExecuteResponse where
  data : List Nat

/-- Modelled from the spec: plain data-only request structure of the
`idatafactory3` package whose fields are dictated by the wire protocol; the field
layout is not part of the excerpt, so the payload is abstract. -/
structure SynchronizeRequest where
  data : List Nat

/-- Modelled from the spec: plain data-only response structure of the
`idatafactory3` package whose fields are dictated by the wire protocol; the field
layout is not part of the excerpt, so the payload is abstract. -/
structure SynchronizeResponse where
  data : List Nat

end idatafactory3

namespace iapphostpathmapper

/-- Modelled from the spec: plain data-only request structure of the
`iapphostpathmapper` package whose fields are dictated by the wire protocol; the field
layout is not part of the excerpt, so the payload is abstract. -/
structure MapPathRequest where
  data : List Nat

/-- Modelled from the spec: plain data-only response structure of the
`iapphostpathmapper` package whose fields are dictated by the wire protocol; the field
layout is not part of the excerpt, so the payload is abstract. -/
structure MapPathResponse where
  data : List Nat

end iapphostpathmapper

namespace iapphostelementcollection

/-- Modelled from the spec: plain data-only request structure of the
`iapphostelementcollection` package whose fields are dictated by the wire protocol; the field
layout is not part of the excerpt, so the payload is abstract. -/
structure GetCountRequest where
  data : List Nat

/-- Modelled from the spec: plain data-only response structure of the
`iapphostelementcollection` package whose fields are dictated by the wire protocol; the field
layout is not part of the excerpt, so the payload is abstract. -/
structure GetCountResponse where
  data : List Nat

/-- Modelled from the spec: plain data-only request structure of the
`iapphostelementcollection` package whose fields are dictated by the wire protocol; the field
layout is not part of the excerpt, so the payload is abstract. -/
structure GetItemRequest where
  data : List Nat

/-- Modelled from the spec: plain data-only response structure of the
`iapphostelementcollection` package whose fields are dictated by the wire protocol; the field
layout is not part of the excerpt, so the payload is abstract. -/
structure GetItemResponse where
  data : List Nat

/-- Modelled from the spec: plain data-only request structure of the
`iapphostelementcollection` package whose fields are dictated by the wire protocol; the field
layout is not part of the excerpt, so the payload is abstract. -/
structure AddElementRequest where
  data : List Nat

/-- Modelled from the spec: plain data-only response structure of the
`iapphostelementcollection` package whose fields are dictated by the wire protocol; the field
layout is not part of the excerpt, so the payload is abstract. -/
structure AddElementResponse where
  data : List Nat

/-- Modelled from the spec: plain data-only request structure of the
`iapphostelementcollection` package whose fields are dictated by the wire protocol; the field
layout is not part of the excerpt, so the payload is abstract. -/
structure DeleteElementRequest where
  data : List Nat

/-- Modelled from the spec: plain data-only response structure of the
`iapphostelementcollection` package whose fields are dictated by the wire protocol; the field
layout is not part of the excerpt, so the payload is abstract. -/
structure DeleteElementResponse where
  data : List Nat

/-- Modelled from the spec: plain data-only request structure of the
`iapphostelementcollection` package whose fields are dictated by the wire protocol; the field
layout is not part of the excerpt, so the payload is abstract. -/
structure ClearRequest where
  data : List Nat

/-- Modelled from the spec: plain data-only response structure of the
`iapphostelementcollection` package whose fields are dictated by the wire protocol; the field
layout is not part of the excerpt, so the payload is abstract. -/
structure ClearResponse where
  data : List Nat

/-- Modelled from the spec: plain data-only request structure of the
`iapphostelementcollection` package whose fields are dictated by the wire protocol; the field
layout is not part of the excerpt, so the payload is abstract. -/
structure CreateNewElementRequest where
  data : List Nat

/-- Modelled from the spec: plain data-only response structure of the
`iapphostelementcollection` package whose fields are dictated by the wire protocol; the field
layout is not part of the excerpt, so the payload is abstract. -/
structure CreateNewElementResponse where
  data : List Nat

/-- Modelled from the spec: plain data-only request structure of the
`iapphostelementcollection` package whose fields are dictated by the wire protocol; the field
layout is not part of the excerpt, so the payload is abstract. -/
structure GetSchemaRequest where
  data : List Nat

/-- Modelled from the spec: plain data-only response structure of the
`iapphostelementcollection` package whose fields are dictated by the wire protocol; the field
layout is not part of the excerpt, so the payload is abstract. -/
structure GetSchemaResponse where
  data : List Nat

end iapphostelementcollection

/-- Model of the `dcerpc.Operation` interface: one constructor per concrete
`xxx_Operation` type of the excerpt, carrying the (possibly nil) response
pointer it was built from. -/
inductive Operation where
  | windowsshutdown_InitiateShutdown (resp : Option windowsshutdown.InitiateShutdownResponse)
  | windowsshutdown_AbortShutdown (resp : Option windowsshutdown.AbortShutdownResponse)
  | nspi_Bind (resp : Option nspi.BindResponse)
  | nspi_Unbind (resp : Option nspi.UnbindResponse)
  | nspi_UpdateStat (resp : Option nspi.UpdateStatResponse)
  | nspi_QueryRows (resp : Option nspi.QueryRowsResponse)
  | nspi_SeekEntries (resp : Option nspi.SeekEntriesResponse)
  | nspi_GetMatches (resp : Option nspi.GetMatchesResponse)
  | nspi_ResortRestriction (resp : Option nspi.ResortRestrictionResponse)
  | nspi_DNToMID (resp : Option nspi.DNToMIDResponse)
  | nspi_GetPropertyList (resp : Option nspi.GetPropertyListResponse)
  | nspi_GetProperties (resp : Option nspi.GetPropertiesResponse)
  | nspi_CompareMIDs (resp : Option nspi.CompareMIDsResponse)
  | nspi_ModifyProperties (resp : Option nspi.ModifyPropertiesResponse)
  | nspi_GetSpecialTable (resp : Option nspi.GetSpecialTableResponse)
  | nspi_GetTemplateInfo (resp : Option nspi.GetTemplateInfoResponse)
  | nspi_ModifyLinkAttribute (resp : Option nspi.ModifyLinkAttributeResponse)
  | nspi_QueryColumns (resp : Option nspi.QueryColumnsResponse)
  | nspi_GetNamesFromIDs (resp : Option nspi.GetNamesFromIDsResponse)
  | nspi_GetIDsFromNames (resp : Option nspi.GetIDsFromNamesResponse)
  | nspi_ResolveNames (resp : Option nspi.ResolveNamesResponse)
  | nspi_ResolveNamesW (resp : Option nspi.ResolveNamesWResponse)
  | dhcpsrv2_EnumSubnetClientsV5 (resp : Option dhcpsrv2.EnumSubnetClientsV5Response)
  | dhcpsrv2_SetMScopeInfo (resp : Option dhcpsrv2.SetMScopeInfoResponse)
  | dhcpsrv2_GetMScopeInfo (resp : Option dhcpsrv2.GetMScopeInfoResponse)
  | dhcpsrv2_EnumMScopes (resp : Option dhcpsrv2.EnumMScopesResponse)
  | dhcpsrv2_AddMScopeElement (resp : Option dhcpsrv2.AddMScopeElementResponse)
  | dhcpsrv2_EnumMScopeElements (resp : Option dhcpsrv2.EnumMScopeElementsResponse)
  | dhcpsrv2_RemoveMScopeElement (resp : Option dhcpsrv2.RemoveMScopeElementResponse)
  | dhcpsrv2_DeleteMScope (resp : Option dhcpsrv2.DeleteMScopeResponse)
  | dhcpsrv2_ScanMDatabase (resp : Option dhcpsrv2.ScanMDatabaseResponse)
  | dhcpsrv2_CreateMClientInfo (resp : Option dhcpsrv2.CreateMClientInfoResponse)
  | dhcpsrv2_SetMClientInfo (resp : Option dhcpsrv2.SetMClientInfoResponse)
  | dhcpsrv2_GetMClientInfo (resp : Option dhcpsrv2.GetMClientInfoResponse)
  | dhcpsrv2_DeleteMClientInfo (resp : Option dhcpsrv2.DeleteMClientInfoResponse)
  | dhcpsrv2_EnumMScopeClients (resp : Option dhcpsrv2.EnumMScopeClientsResponse)
  | dhcpsrv2_CreateOptionV5 (resp : Option dhcpsrv2.CreateOptionV5Response)
  | dhcpsrv2_SetOptionInfoV5 (resp : Option dhcpsrv2.SetOptionInfoV5Response)
  | dhcpsrv2_GetOptionInfoV5 (resp : Option dhcpsrv2.GetOptionInfoV5Response)
  | dhcpsrv2_EnumOptionsV5 (resp : Option dhcpsrv2.EnumOptionsV5Response)
  | dhcpsrv2_RemoveOptionV5 (resp : Option dhcpsrv2.RemoveOptionV5Response)
  | dhcpsrv2_SetOptionValueV5 (resp : Option dhcpsrv2.SetOptionValueV5Response)
  | dhcpsrv2_SetOptionValuesV5 (resp : Option dhcpsrv2.SetOptionValuesV5Response)
  | dhcpsrv2_GetOptionValueV5 (resp : Option dhcpsrv2.GetOptionValueV5Response)
  | dhcpsrv2_EnumOptionValuesV5 (resp : Option dhcpsrv2.EnumOptionValuesV5Response)
  | dhcpsrv2_RemoveOptionValueV5 (resp : Option dhcpsrv2.RemoveOptionValueV5Response)
  | dhcpsrv2_CreateClass (resp : Option dhcpsrv2.CreateClassResponse)
  | dhcpsrv2_ModifyClass (resp : Option dhcpsrv2.ModifyClassResponse)
  | dhcpsrv2_DeleteClass (resp : Option dhcpsrv2.DeleteClassResponse)
  | dhcpsrv2_GetClassInfo (resp : Option dhcpsrv2.GetClassInfoResponse)
  | dhcpsrv2_EnumClasses (resp : Option dhcpsrv2.EnumClassesResponse)
  | dhcpsrv2_GetAllOptions (resp : Option dhcpsrv2.GetAllOptionsResponse)
  | dhcpsrv2_GetAllOptionValues (resp : Option dhcpsrv2.GetAllOptionValuesResponse)
  | dhcpsrv2_GetMCastMIBInfo (resp : Option dhcpsrv2.GetMCastMIBInfoResponse)
  | dhcpsrv2_AuditLogSetParams (resp : Option dhcpsrv2.AuditLogSetParamsResponse)
  | dhcpsrv2_AuditLogGetParams (resp : Option dhcpsrv2.AuditLogGetParamsResponse)
  | dhcpsrv2_ServerQueryAttribute (resp : Option dhcpsrv2.ServerQueryAttributeResponse)
  | dhcpsrv2_ServerQueryAttributes (resp : Option dhcpsrv2.ServerQueryAttributesResponse)
  | dhcpsrv2_ServerRedoAuthorization (resp : Option dhcpsrv2.ServerRedoAuthorizationResponse)
  | dhcpsrv2_AddSubnetElementV5 (resp : Option dhcpsrv2.AddSubnetElementV5Response)
  | dhcpsrv2_EnumSubnetElementsV5 (resp : Option dhcpsrv2.EnumSubnetElementsV5Response)
  | dhcpsrv2_RemoveSubnetElementV5 (resp : Option dhcpsrv2.RemoveSubnetElementV5Response)
  | dhcpsrv2_GetServerBindingInfo (resp : Option dhcpsrv2.GetServerBindingInfoResponse)
  | dhcpsrv2_SetServerBindingInfo (resp : Option dhcpsrv2.SetServerBindingInfoResponse)
  | dhcpsrv2_QueryDNSRegCredentials (resp : Option dhcpsrv2.QueryDNSRegCredentialsResponse)
  | dhcpsrv2_SetDNSRegCredentials (resp : Option dhcpsrv2.SetDNSRegCredentialsResponse)
  | dhcpsrv2_BackupDatabase (resp : Option dhcpsrv2.BackupDatabaseResponse)
  | dhcpsrv2_RestoreDatabase (resp : Option dhcpsrv2.RestoreDatabaseResponse)
  | dhcpsrv2_GetServerSpecificStrings (resp : Option dhcpsrv2.GetServerSpecificStringsResponse)
  | dhcpsrv2_CreateOptionV6 (resp : Option dhcpsrv2.CreateOptionV6Response)
  | dhcpsrv2_SetOptionInfoV6 (resp : Option dhcpsrv2.SetOptionInfoV6Response)
  | dhcpsrv2_GetOptionInfoV6 (resp : Option dhcpsrv2.GetOptionInfoV6Response)
  | dhcpsrv2_EnumOptionsV6 (resp : Option dhcpsrv2.EnumOptionsV6Response)
  | dhcpsrv2_RemoveOptionV6 (resp : Option dhcpsrv2.RemoveOptionV6Response)
  | dhcpsrv2_SetOptionValueV6 (resp : Option dhcpsrv2.SetOptionValueV6Response)
  | dhcpsrv2_EnumOptionValuesV6 (resp : Option dhcpsrv2.EnumOptionValuesV6Response)
  | dhcpsrv2_RemoveOptionValueV6 (resp : Option dhcpsrv2.RemoveOptionValueV6Response)
  | dhcpsrv2_GetAllOptionsV6 (resp : Option dhcpsrv2.GetAllOptionsV6Response)
  | dhcpsrv2_GetAllOptionValuesV6 (resp : Option dhcpsrv2.GetAllOptionValuesV6Response)
  | dhcpsrv2_CreateSubnetV6 (resp : Option dhcpsrv2.CreateSubnetV6Response)
  | dhcpsrv2_EnumSubnetsV6 (resp : Option dhcpsrv2.EnumSubnetsV6Response)
  | dhcpsrv2_AddSubnetElementV6 (resp : Option dhcpsrv2.AddSubnetElementV6Response)
  | dhcpsrv2_EnumSubnetElementsV6 (resp : Option dhcpsrv2.EnumSubnetElementsV6Response)
  | dhcpsrv2_RemoveSubnetElementV6 (resp : Option dhcpsrv2.RemoveSubnetElementV6Response)
  | dhcpsrv2_DeleteSubnetV6 (resp : Option dhcpsrv2.DeleteSubnetV6Response)
  | dhcpsrv2_GetSubnetInfoV6 (resp : Option dhcpsrv2.GetSubnetInfoV6Response)
  | dhcpsrv2_EnumSubnetClientsV6 (resp : Option dhcpsrv2.EnumSubnetClientsV6Response)
  | dhcpsrv2_ServerSetConfigV6 (resp : Option dhcpsrv2.ServerSetConfigV6Response)
  | dhcpsrv2_ServerGetConfigV6 (resp : Option dhcpsrv2.ServerGetConfigV6Response)
  | dhcpsrv2_SetSubnetInfoV6 (resp : Option dhcpsrv2.SetSubnetInfoV6Response)
  | dhcpsrv2_GetMIBInfoV6 (resp : Option dhcpsrv2.GetMIBInfoV6Response)
  | dhcpsrv2_GetServerBindingInfoV6 (resp : Option dhcpsrv2.GetServerBindingInfoV6Response)
  | dhcpsrv2_SetServerBindingInfoV6 (resp : Option dhcpsrv2.SetServerBindingInfoV6Response)
  | dhcpsrv2_SetClientInfoV6 (resp : Option dhcpsrv2.SetClientInfoV6Response)
  | dhcpsrv2_GetClientInfoV6 (resp : Option dhcpsrv2.GetClientInfoV6Response)
  | dhcpsrv2_DeleteClientInfoV6 (resp : Option dhcpsrv2.DeleteClientInfoV6Response)
  | dhcpsrv2_CreateClassV6 (resp : Option dhcpsrv2.CreateClassV6Response)
  | dhcpsrv2_ModifyClassV6 (resp : Option dhcpsrv2.ModifyClassV6Response)
  | dhcpsrv2_DeleteClassV6 (resp : Option dhcpsrv2.DeleteClassV6Response)
  | dhcpsrv2_EnumClassesV6 (resp : Option dhcpsrv2.EnumClassesV6Response)
  | dhcpsrv2_GetOptionValueV6 (resp : Option dhcpsrv2.GetOptionValueV6Response)
  | dhcpsrv2_SetSubnetDelayOffer (resp : Option dhcpsrv2.SetSubnetDelayOfferResponse)
  | dhcpsrv2_GetSubnetDelayOffer (resp : Option dhcpsrv2.GetSubnetDelayOfferResponse)
  | dhcpsrv2_GetMIBInfoV5 (resp : Option dhcpsrv2.GetMIBInfoV5Response)
  | dhcpsrv2_AddFilterV4 (resp : Option dhcpsrv2.AddFilterV4Response)
  | dhcpsrv2_DeleteFilterV4 (resp : Option dhcpsrv2.DeleteFilterV4Response)
  | dhcpsrv2_SetFilterV4 (resp : Option dhcpsrv2.SetFilterV4Response)
  | dhcpsrv2_GetFilterV4 (resp : Option dhcpsrv2.GetFilterV4Response)
  | dhcpsrv2_EnumFilterV4 (resp : Option dhcpsrv2.EnumFilterV4Response)
  | dhcpsrv2_SetDNSRegCredentialsV5 (resp : Option dhcpsrv2.SetDNSRegCredentialsV5Response)
  | dhcpsrv2_EnumSubnetClientsFilterStatusInfo (resp : Option dhcpsrv2.EnumSubnetClientsFilterStatusInfoResponse)
  | dhcpsrv2_FailoverCreateRelationshipV4 (resp : Option dhcpsrv2.FailoverCreateRelationshipV4Response)
  | dhcpsrv2_FailoverSetRelationshipV4 (resp : Option dhcpsrv2.FailoverSetRelationshipV4Response)
  | dhcpsrv2_FailoverDeleteRelationshipV4 (resp : Option dhcpsrv2.FailoverDeleteRelationshipV4Response)
  | dhcpsrv2_FailoverGetRelationshipV4 (resp : Option dhcpsrv2.FailoverGetRelationshipV4Response)
  | dhcpsrv2_FailoverEnumRelationshipV4 (resp : Option dhcpsrv2.FailoverEnumRelationshipV4Response)
  | dhcpsrv2_FailoverAddScopeToRelationshipV4 (resp : Option dhcpsrv2.FailoverAddScopeToRelationshipV4Response)
  | dhcpsrv2_FailoverDeleteScopeFromRelationshipV4 (resp : Option dhcpsrv2.FailoverDeleteScopeFromRelationshipV4Response)
  | dhcpsrv2_FailoverGetScopeRelationshipV4 (resp : Option dhcpsrv2.FailoverGetScopeRelationshipV4Response)
  | dhcpsrv2_FailoverGetScopeStatisticsV4 (resp : Option dhcpsrv2.FailoverGetScopeStatisticsV4Response)
  | dhcpsrv2_FailoverGetClientInfoV4 (resp : Option dhcpsrv2.FailoverGetClientInfoV4Response)
  | dhcpsrv2_FailoverGetSystemTimeV4 (resp : Option dhcpsrv2.FailoverGetSystemTimeV4Response)
  | dhcpsrv2_FailoverTriggerAddrAllocationV4 (resp : Option dhcpsrv2.FailoverTriggerAddrAllocationV4Response)
  | dhcpsrv2_SetOptionValueV4 (resp : Option dhcpsrv2.SetOptionValueV4Response)
  | dhcpsrv2_SetOptionValuesV4 (resp : Option dhcpsrv2.SetOptionValuesV4Response)
  | dhcpsrv2_GetOptionValueV4 (resp : Option dhcpsrv2.GetOptionValueV4Response)
  | dhcpsrv2_RemoveOptionValueV4 (resp : Option dhcpsrv2.RemoveOptionValueV4Response)
  | dhcpsrv2_GetAllOptionValuesV4 (resp : Option dhcpsrv2.GetAllOptionValuesV4Response)
  | dhcpsrv2_QueryPolicyEnforcementV4 (resp : Option dhcpsrv2.QueryPolicyEnforcementV4Response)
  | dhcpsrv2_SetPolicyEnforcementV4 (resp : Option dhcpsrv2.SetPolicyEnforcementV4Response)
  | dhcpsrv2_CreatePolicyV4 (resp : Option dhcpsrv2.CreatePolicyV4Response)
  | dhcpsrv2_GetPolicyV4 (resp : Option dhcpsrv2.GetPolicyV4Response)
  | dhcpsrv2_SetPolicyV4 (resp : Option dhcpsrv2.SetPolicyV4Response)
  | dhcpsrv2_DeletePolicyV4 (resp : Option dhcpsrv2.DeletePolicyV4Response)
  | dhcpsrv2_EnumPoliciesV4 (resp : Option dhcpsrv2.EnumPoliciesV4Response)
  | dhcpsrv2_AddPolicyRangeV4 (resp : Option dhcpsrv2.AddPolicyRangeV4Response)
  | dhcpsrv2_RemovePolicyRangeV4 (resp : Option dhcpsrv2.RemovePolicyRangeV4Response)
  | dhcpsrv2_EnumSubnetClientsV4 (resp : Option dhcpsrv2.EnumSubnetClientsV4Response)
  | dhcpsrv2_SetStatelessStoreParamsV6 (resp : Option dhcpsrv2.SetStatelessStoreParamsV6Response)
  | dhcpsrv2_GetStatelessStoreParamsV6 (resp : Option dhcpsrv2.GetStatelessStoreParamsV6Response)
  | dhcpsrv2_GetStatelessStatisticsV6 (resp : Option dhcpsrv2.GetStatelessStatisticsV6Response)
  | dhcpsrv2_EnumSubnetReservationsV4 (resp : Option dhcpsrv2.EnumSubnetReservationsV4Response)
  | dhcpsrv2_GetFreeIPAddressV4 (resp : Option dhcpsrv2.GetFreeIPAddressV4Response)
  | dhcpsrv2_GetFreeIPAddressV6 (resp : Option dhcpsrv2.GetFreeIPAddressV6Response)
  | dhcpsrv2_CreateClientInfoV4 (resp : Option dhcpsrv2.CreateClientInfoV4Response)
  | dhcpsrv2_GetClientInfoV4 (resp : Option dhcpsrv2.GetClientInfoV4Response)
  | dhcpsrv2_CreateClientInfoV6 (resp : Option dhcpsrv2.CreateClientInfoV6Response)
  | dhcpsrv2_FailoverGetAddressStatusV4 (resp : Option dhcpsrv2.FailoverGetAddressStatusV4Response)
  | dhcpsrv2_CreatePolicyExV4 (resp : Option dhcpsrv2.CreatePolicyExV4Response)
  | dhcpsrv2_GetPolicyExV4 (resp : Option dhcpsrv2.GetPolicyExV4Response)
  | dhcpsrv2_SetPolicyExV4 (resp : Option dhcpsrv2.SetPolicyExV4Response)
  | dhcpsrv2_EnumPoliciesExV4 (resp : Option dhcpsrv2.EnumPoliciesExV4Response)
  | dhcpsrv2_EnumSubnetClientsExV4 (resp : Option dhcpsrv2.EnumSubnetClientsExV4Response)
  | dhcpsrv2_CreateClientInfoExV4 (resp : Option dhcpsrv2.CreateClientInfoExV4Response)
  | dhcpsrv2_GetClientInfoExV4 (resp : Option dhcpsrv2.GetClientInfoExV4Response)
  | icatalogutils2_CopyConglomerations (resp : Option icatalogutils2.CopyConglomerationsResponse)
  | icatalogutils2_CopyComponentConfiguration (resp : Option icatalogutils2.CopyComponentConfigurationResponse)
  | icatalogutils2_AliasComponent (resp : Option icatalogutils2.AliasComponentResponse)
  | icatalogutils2_MoveComponentConfiguration (resp : Option icatalogutils2.MoveComponentConfigurationResponse)
  | icatalogutils2_GetEventClassesForIid2 (resp : Option icatalogutils2.GetEventClassesForIid2Response)
  | icatalogutils2_IsSafeToDelete (resp : Option icatalogutils2.IsSafeToDeleteResponse)
  | icatalogutils2_FlushPartitionCache (resp : Option icatalogutils2.FlushPartitionCacheResponse)
  | icatalogutils2_EnumerateSRPLevels (resp : Option icatalogutils2.EnumerateSRPLevelsResponse)
  | icatalogutils2_GetComponentVersions (resp : Option icatalogutils2.GetComponentVersionsResponse)
  | ivdsservicesan_GetSANPolicy (resp : Option ivdsservicesan.GetSANPolicyResponse)
  | ivdsservicesan_SetSANPolicy (resp : Option ivdsservicesan.SetSANPolicyResponse)
  | ivdsvdprovider_QueryVDisks (resp : Option ivdsvdprovider.QueryVDisksResponse)
  | ivdsvdprovider_CreateVDisk (resp : Option ivdsvdprovider.CreateVDiskResponse)
  | ivdsvdprovider_AddVDisk (resp : Option ivdsvdprovider.AddVDiskResponse)
  | ivdsvdprovider_GetDiskFromVDisk (resp : Option ivdsvdprovider.GetDiskFromVDiskResponse)
  | ivdsvdprovider_GetVDiskFromDisk (resp : Option ivdsvdprovider.GetVDiskFromDiskResponse)
  | iapphostpropertycollection_GetCount (resp : Option iapphostpropertycollection.GetCountResponse)
  | iapphostpropertycollection_GetItem (resp : Option iapphostpropertycollection.GetItemResponse)
  | ifsrmfilescreentemplate_GetName (resp : Option ifsrmfilescreentemplate.GetNameResponse)
  | ifsrmfilescreentemplate_SetName (resp : Option ifsrmfilescreentemplate.SetNameResponse)
  | ifsrmfilescreentemplate_CopyTemplate (resp : Option ifsrmfilescreentemplate.CopyTemplateResponse)
  | ifsrmfilescreentemplate_CommitAndUpdateDerived (resp : Option ifsrmfilescreentemplate.CommitAndUpdateDerivedResponse)
  | iwamadmin_AppCreate (resp : Option iwamadmin.AppCreateResponse)
  | iwamadmin_AppDelete (resp : Option iwamadmin.AppDeleteResponse)
  | iwamadmin_AppUnload (resp : Option iwamadmin.AppUnloadResponse)
  | iwamadmin_AppGetStatus (resp : Option iwamadmin.AppGetStatusResponse)
  | iwamadmin_AppDeleteRecoverable (resp : Option iwamadmin.AppDeleteRecoverableResponse)
  | iwamadmin_AppRecover (resp : Option iwamadmin.AppRecoverResponse)
  | idatafactory3_Execute (resp : Option idatafactory3.ExecuteResponse)
  | idatafactory3_Synchronize (resp : Option idatafactory3.SynchronizeResponse)
  | iapphostpathmapper_MapPath (resp : Option iapphostpathmapper.MapPathResponse)
  | iapphostelementcollection_GetCount (resp : Option iapphostelementcollection.GetCountResponse)
  | iapphostelementcollection_GetItem (resp : Option iapphostelementcollection.GetItemResponse)
  | iapphostelementcollection_AddElement (resp : Option iapphostelementcollection.AddElementResponse)
  | iapphostelementcollection_DeleteElement (resp : Option iapphostelementcollection.DeleteElementResponse)
  | iapphostelementcollection_Clear (resp : Option iapphostelementcollection.ClearResponse)
  | iapphostelementcollection_CreateNewElement (resp : Option iapphostelementcollection.CreateNewElementResponse)
  | iapphostelementcollection_GetSchema (resp : Option iapphostelementcollection.GetSchemaResponse)

/-- The instrumented result of one dispatch-function invocation: `op` and
`err` are the Go return values (`dcerpc.Operation, error`), `trace` lists the
external calls made, in order. -/
structure DispatchResult where
  op : Option Operation
  err : Option GoError
  trace : List CallEvent

/-- The body shared by every `case` arm of the Go dispatch switches: allocate
the request `in`, call `in.UnmarshalNDR(ctx, r)` and return `nil, err` if it
failed, otherwise `resp, err := o.M(ctx, in)` and
`return resp.xxx_ToOp(ctx), err`.

`dec` is the outcome of the `UnmarshalNDR` call, `method` the handler method
(already applied to `ctx`), `toOp` the `xxx_ToOp` conversion of the (possibly
nil) response pointer. -/
def dispatchArm {Req Resp : Type} (dec : Except GoError Req)
    (method : Req → Option Resp × Option GoError)
    (toOp : Option Resp → Operation) (reqType methodName : String) : DispatchResult :=
  match dec with
  | .error e => ⟨none, some e, [CallEvent.decode reqType]⟩
  | .ok req =>
      ⟨some (toOp (method req).1), (method req).2,
        [CallEvent.decode reqType, CallEvent.invoke methodName]⟩

/-- In one switch arm, either decoding fails and the trace is the single
`decode` event, or the handler runs exactly once right after the decode. -/
def ArmShape (res : DispatchResult) (reqType methodName : String) : Prop :=
  res.trace = [CallEvent.decode reqType] ∨
    res.trace = [CallEvent.decode reqType, CallEvent.invoke methodName]

theorem dispatchArm_error {Req Resp : Type} {dec : Except GoError Req}
    (method : Req → Option Resp × Option GoError) (toOp : Option Resp → Operation)
    (reqType methodName : String) {e : GoError} (h : dec = .error e) :
    dispatchArm dec method toOp reqType methodName =
      ⟨none, some e, [CallEvent.decode reqType]⟩ := by
  subst h; rfl

theorem dispatchArm_ok {Req Resp : Type} {dec : Except GoError Req}
    (method : Req → Option Resp × Option GoError) (toOp : Option Resp → Operation)
    (reqType methodName : String) {req : Req} (h : dec = .ok req) :
    dispatchArm dec method toOp reqType methodName =
      ⟨some (toOp (method req).1), (method req).2,
        [CallEvent.decode reqType, CallEvent.invoke methodName]⟩ := by
  subst h; rfl

theorem dispatchArm_shape {Req Resp : Type} (dec : Except GoError Req)
    (method : Req → Option Resp × Option GoError) (toOp : Option Resp → Operation)
    (reqType methodName : String) :
    ArmShape (dispatchArm dec method toOp reqType methodName) reqType methodName := by
  cases dec with
  | error e => exact Or.inl rfl
  | ok req => exact Or.inr rfl

theorem dispatchArm_congr {Req Resp : Type} {d1 d2 : Except GoError Req}
    {m1 m2 : Req → Option Resp × Option GoError} (toOp : Option Resp → Operation)
    (reqType methodName : String) (hd : d1 = d2) (hm : ∀ q, m1 q = m2 q) :
    dispatchArm d1 m1 toOp reqType methodName =
      dispatchArm d2 m2 toOp reqType methodName := by
  subst hd
  cases d1 with
  | error e => rfl
  | ok q => simp only [dispatchArm, hm q]

/-- Model of `dcerpc.ServerHandle`: the closure type
`func(ctx context.Context, opNum int, r ndr.Reader) (dcerpc.Operation, error)`,
instrumented like `DispatchResult`. -/
abbrev ServerHandle := Ctx → Int → NdrReader → DispatchResult

/-- Modelled from the spec: `dcerpc.SyntaxID`, the abstract-syntax identifier
of an interface; its UUID content is not part of the excerpt, so it is an
abstract token. -/
structure SyntaxID where
  id : Nat

/-- Modelled from the spec: a `dcerpc.Option`; the excerpt only ever builds the
option `dcerpc.WithAbstractSyntax(s)`, every other option is opaque to it. -/
inductive DcerpcOption where
  | WithAbstractSyntaxID (s : SyntaxID)
  | generic (n : Nat)

/-- Modelled from the spec: a `dcerpc.Conn` as the dispatch stubs use it —
only its `RegisterServer` method appears, so the connection is just that
method, with an arbitrary result type standing for its effect. -/
structure Conn (τ : Type) where
  RegisterServer : ServerHandle → List DcerpcOption → τ

/-- A concrete context for witnesses. -/
def testCtx : Ctx := ⟨0⟩

/-- A concrete reader for witnesses. -/
def testReader : NdrReader := ⟨[]⟩

/-- Modelled from the spec: the `iunknown.UnknownServer` base interface; its
methods are not part of the excerpt, so it is an abstract token. -/
structure UnknownServer where
  data : Nat

/-- Modelled from the spec: the `ifsrmfilescreenbase.FileScreenBaseServer`
base interface; its methods are not part of the excerpt. -/
structure FileScreenBaseServer where
  data : Nat

/-- Modelled from the spec: the `idatafactory2.DataFactory2Server` base
interface; its methods are not part of the excerpt. -/
structure DataFactory2Server where
  data : Nat

/-- The type of `iunknown.UnknownServerHandle` (not part of the excerpt):
derived dispatchers are parametrised over it. -/
abbrev UnknownHandleFn := Ctx → UnknownServer → Int → NdrReader → DispatchResult

/-- The type of `ifsrmfilescreenbase.FileScreenBaseServerHandle` (not part of
the excerpt). -/
abbrev FileScreenBaseHandleFn := Ctx → FileScreenBaseServer → Int → NdrReader → DispatchResult

/-- The type of `idatafactory2.DataFactory2ServerHandle` (not part of the
excerpt). -/
abbrev DataFactory2HandleFn := Ctx → DataFactory2Server → Int → NdrReader → DispatchResult

namespace windowsshutdown

/-- Go: `resp.xxx_ToOp(ctx)` on a (possibly nil) `*InitiateShutdownResponse`,
converted to the `dcerpc.Operation` interface by the `return` statement; the
interface value wrapping the typed pointer is never the nil interface. -/
def InitiateShutdownResponse.xxx_ToOp (resp : Option InitiateShutdownResponse) (_ctx : Ctx) : Operation :=
  Operation.windowsshutdown_InitiateShutdown resp

/-- Go: `resp.xxx_ToOp(ctx)` on a (possibly nil) `*AbortShutdownResponse`,
converted to the `dcerpc.Operation` interface by the `return` statement; the
interface value wrapping the typed pointer is never the nil interface. -/
def AbortShutdownResponse.xxx_ToOp (resp : Option AbortShutdownResponse) (_ctx : Ctx) : Operation :=
  Operation.windowsshutdown_AbortShutdown resp

/-- The `WindowsShutdownServer` Go interface: one function field per method, each
returning a (possibly nil) response pointer and a (possibly nil) error. -/
structure WindowsShutdownServer where
  InitiateShutdown : Ctx → InitiateShutdownRequest → Option InitiateShutdownResponse × Option GoError
  AbortShutdown : Ctx → AbortShutdownRequest → Option AbortShutdownResponse × Option GoError

/-- The `UnmarshalNDR` methods of this interface's request types; they are
not part of the excerpt, so the dispatch function is parametrised over them. -/
structure WindowsShutdownCodecs where
  unmarshalInitiateShutdownRequest : Ctx → NdrReader → Except GoError InitiateShutdownRequest
  unmarshalAbortShutdownRequest : Ctx → NdrReader → Except GoError AbortShutdownRequest

/-- Transcription of `WindowsShutdownServerHandle`: a switch on `opNum` with one
case per method, falling through to `return nil, nil`. -/
def WindowsShutdownServerHandle (c : WindowsShutdownCodecs) (ctx : Ctx)
    (o : WindowsShutdownServer) (opNum : Int) (r : NdrReader) : DispatchResult :=
  if opNum = 0 then
    dispatchArm (c.unmarshalInitiateShutdownRequest ctx r) (o.InitiateShutdown ctx)
      (fun resp => InitiateShutdownResponse.xxx_ToOp resp ctx)
      "InitiateShutdownRequest" "InitiateShutdown"
  else if opNum = 1 then
    dispatchArm (c.unmarshalAbortShutdownRequest ctx r) (o.AbortShutdown ctx)
      (fun resp => AbortShutdownResponse.xxx_ToOp resp ctx)
      "AbortShutdownRequest" "AbortShutdown"
  else
    ⟨none, none, []⟩

/-- Transcription of `NewWindowsShutdownServerHandle`: the returned `dcerpc.ServerHandle` closure. -/
def NewWindowsShutdownServerHandle (c : WindowsShutdownCodecs) (o : WindowsShutdownServer) : ServerHandle :=
  fun ctx opNum r => WindowsShutdownServerHandle c ctx o opNum r

/-- The interface's abstract syntax constant `WindowsShutdownSyntaxV1_0` (defined
outside the excerpt; its value is an abstract token). -/
def WindowsShutdownSyntaxV1_0 : SyntaxID := ⟨0⟩

/-- Transcription of `RegisterWindowsShutdownServer`: register the wrapper closure with the
interface's abstract syntax appended to the caller's options. -/
def RegisterWindowsShutdownServer {τ : Type} (c : WindowsShutdownCodecs)
    (conn : Conn τ) (o : WindowsShutdownServer) (opts : List DcerpcOption) : τ :=
  conn.RegisterServer (NewWindowsShutdownServerHandle c o)
    (opts ++ [DcerpcOption.WithAbstractSyntaxID WindowsShutdownSyntaxV1_0])

theorem ws_handle_eq_0 (c : WindowsShutdownCodecs) (ctx : Ctx)
    (o : WindowsShutdownServer) (r : NdrReader) :
    WindowsShutdownServerHandle c ctx o 0 r =
      dispatchArm (c.unmarshalInitiateShutdownRequest ctx r) (o.InitiateShutdown ctx)
        (fun resp => InitiateShutdownResponse.xxx_ToOp resp ctx)
        "InitiateShutdownRequest" "InitiateShutdown" := rfl

theorem ws_handle_eq_1 (c : WindowsShutdownCodecs) (ctx : Ctx)
    (o : WindowsShutdownServer) (r : NdrReader) :
    WindowsShutdownServerHandle c ctx o 1 r =
      dispatchArm (c.unmarshalAbortShutdownRequest ctx r) (o.AbortShutdown ctx)
        (fun resp => AbortShutdownResponse.xxx_ToOp resp ctx)
        "AbortShutdownRequest" "AbortShutdown" := rfl

theorem ws_handle_err_0 (c : WindowsShutdownCodecs) (ctx : Ctx)
    (o : WindowsShutdownServer) (r : NdrReader) {e : GoError}
    (h : c.unmarshalInitiateShutdownRequest ctx r = .error e) :
    WindowsShutdownServerHandle c ctx o 0 r =
      ⟨none, some e, [CallEvent.decode "InitiateShutdownRequest"]⟩ := by
  rw [ws_handle_eq_0 c ctx o r, dispatchArm_error _ _ _ _ h]

theorem ws_handle_err_1 (c : WindowsShutdownCodecs) (ctx : Ctx)
    (o : WindowsShutdownServer) (r : NdrReader) {e : GoError}
    (h : c.unmarshalAbortShutdownRequest ctx r = .error e) :
    WindowsShutdownServerHandle c ctx o 1 r =
      ⟨none, some e, [CallEvent.decode "AbortShutdownRequest"]⟩ := by
  rw [ws_handle_eq_1 c ctx o r, dispatchArm_error _ _ _ _ h]

theorem ws_handle_ok_0 (c : WindowsShutdownCodecs) (ctx : Ctx)
    (o : WindowsShutdownServer) (r : NdrReader) {req : InitiateShutdownRequest}
    (h : c.unmarshalInitiateShutdownRequest ctx r = .ok req) :
    WindowsShutdownServerHandle c ctx o 0 r =
      ⟨some (InitiateShutdownResponse.xxx_ToOp (o.InitiateShutdown ctx req).1 ctx),
        (o.InitiateShutdown ctx req).2,
        [CallEvent.decode "InitiateShutdownRequest", CallEvent.invoke "InitiateShutdown"]⟩ := by
  rw [ws_handle_eq_0 c ctx o r, dispatchArm_ok _ _ _ _ h]

theorem ws_handle_ok_1 (c : WindowsShutdownCodecs) (ctx : Ctx)
    (o : WindowsShutdownServer) (r : NdrReader) {req : AbortShutdownRequest}
    (h : c.unmarshalAbortShutdownRequest ctx r = .ok req) :
    WindowsShutdownServerHandle c ctx o 1 r =
      ⟨some (AbortShutdownResponse.xxx_ToOp (o.AbortShutdown ctx req).1 ctx),
        (o.AbortShutdown ctx req).2,
        [CallEvent.decode "AbortShutdownRequest", CallEvent.invoke "AbortShutdown"]⟩ := by
  rw [ws_handle_eq_1 c ctx o r, dispatchArm_ok _ _ _ _ h]

theorem ws_handle_default (c : WindowsShutdownCodecs) (ctx : Ctx)
    (o : WindowsShutdownServer) (r : NdrReader) (opNum : Int)
    (h0 : opNum ≠ 0)
    (h1 : opNum ≠ 1)
    : WindowsShutdownServerHandle c ctx o opNum r = ⟨none, none, []⟩ := by
  unfold WindowsShutdownServerHandle
  rw [if_neg h0, if_neg h1]

/-- Opnum `k` dispatches only to request type `reqType` and handler method
`methodName`: whatever the codecs and the server do, the trace is the decode
of that one request type, followed by at most one invocation of that one
method. -/
def ArmTrace (k : Int) (reqType methodName : String) : Prop :=
  ∀ (c : WindowsShutdownCodecs) (ctx : Ctx) (o : WindowsShutdownServer) (r : NdrReader),
    ArmShape (WindowsShutdownServerHandle c ctx o k r) reqType methodName

theorem ws_armTrace_0 : ArmTrace 0 "InitiateShutdownRequest" "InitiateShutdown" := by
  intro c ctx o r
  rw [ws_handle_eq_0 c ctx o r]
  exact dispatchArm_shape _ _ _ _ _

theorem ws_armTrace_1 : ArmTrace 1 "AbortShutdownRequest" "AbortShutdown" := by
  intro c ctx o r
  rw [ws_handle_eq_1 c ctx o r]
  exact dispatchArm_shape _ _ _ _ _

/-- Concrete codecs whose decoders always succeed on an empty request. -/
def okCodecs : WindowsShutdownCodecs :=
  ⟨fun _ _ => .ok ⟨[]⟩,
   fun _ _ => .ok ⟨[]⟩⟩

/-- A concrete server whose handlers return a nil response and a nil error. -/
def zeroServer : WindowsShutdownServer :=
  ⟨fun _ _ => (none, none),
   fun _ _ => (none, none)⟩

/-- Concrete codecs whose decoders always fail with error 3. -/
def errCodecs : WindowsShutdownCodecs :=
  ⟨fun _ _ => .error 3,
   fun _ _ => .error 3⟩

/-- A concrete server whose handlers return a non-nil response together
with a non-nil error (Go handlers are free to do this). -/
def errServer : WindowsShutdownServer :=
  ⟨fun _ _ => (some ⟨[]⟩, some 7),
   fun _ _ => (some ⟨[]⟩, some 7)⟩

/-- The two codec bundles have the same behaviour: every decoder returns the
same outcome on the same context and reader. -/
def CodecsAgree (c1 c2 : WindowsShutdownCodecs) : Prop :=
  ∀ (ctx : Ctx) (r : NdrReader),
    c1.unmarshalInitiateShutdownRequest ctx r = c2.unmarshalInitiateShutdownRequest ctx r ∧
    c1.unmarshalAbortShutdownRequest ctx r = c2.unmarshalAbortShutdownRequest ctx r

/-- The two servers have the same behaviour: every handler method returns the
same pair on the same context and request. -/
def ServersAgree (o1 o2 : WindowsShutdownServer) : Prop :=
  ∀ (ctx : Ctx),
    (∀ q, o1.InitiateShutdown ctx q = o2.InitiateShutdown ctx q) ∧
    (∀ q, o1.AbortShutdown ctx q = o2.AbortShutdown ctx q)

end windowsshutdown

namespace nspi

/-- Go: `resp.xxx_ToOp(ctx)` on a (possibly nil) `*BindResponse`,
converted to the `dcerpc.Operation` interface by the `return` statement; the
interface value wrapping the typed pointer is never the nil interface. -/
def BindResponse.xxx_ToOp (resp : Option BindResponse) (_ctx : Ctx) : Operation :=
  Operation.nspi_Bind resp

/-- Go: `resp.xxx_ToOp(ctx)` on a (possibly nil) `*UnbindResponse`,
converted to the `dcerpc.Operation` interface by the `return` statement; the
interface value wrapping the typed pointer is never the nil interface. -/
def UnbindResponse.xxx_ToOp (resp : Option UnbindResponse) (_ctx : Ctx) : Operation :=
  Operation.nspi_Unbind resp

/-- Go: `resp.xxx_ToOp(ctx)` on a (possibly nil) `*UpdateStatResponse`,
converted to the `dcerpc.Operation` interface by the `return` statement; the
interface value wrapping the typed pointer is never the nil interface. -/
def UpdateStatResponse.xxx_ToOp (resp : Option UpdateStatResponse) (_ctx : Ctx) : Operation :=
  Operation.nspi_UpdateStat resp

/-- Go: `resp.xxx_ToOp(ctx)` on a (possibly nil) `*QueryRowsResponse`,
converted to the `dcerpc.Operation` interface by the `return` statement; the
interface value wrapping the typed pointer is never the nil interface. -/
def QueryRowsResponse.xxx_ToOp (resp : Option QueryRowsResponse) (_ctx : Ctx) : Operation :=
  Operation.nspi_QueryRows resp

/-- Go: `resp.xxx_ToOp(ctx)` on a (possibly nil) `*SeekEntriesResponse`,
converted to the `dcerpc.Operation` interface by the `return` statement; the
interface value wrapping the typed pointer is never the nil interface. -/
def SeekEntriesResponse.xxx_ToOp (resp : Option SeekEntriesResponse) (_ctx : Ctx) : Operation :=
  Operation.nspi_SeekEntries resp

/-- Go: `resp.xxx_ToOp(ctx)` on a (possibly nil) `*GetMatchesResponse`,
converted to the `dcerpc.Operation` interface by the `return` statement; the
interface value wrapping the typed pointer is never the nil interface. -/
def GetMatchesResponse.xxx_ToOp (resp : Option GetMatchesResponse) (_ctx : Ctx) : Operation :=
  Operation.nspi_GetMatches resp

/-- Go: `resp.xxx_ToOp(ctx)` on a (possibly nil) `*ResortRestrictionResponse`,
converted to the `dcerpc.Operation` interface by the `return` statement; the
interface value wrapping the typed pointer is never the nil interface. -/
def ResortRestrictionResponse.xxx_ToOp (resp : Option ResortRestrictionResponse) (_ctx : Ctx) : Operation :=
  Operation.nspi_ResortRestriction resp

/-- Go: `resp.xxx_ToOp(ctx)` on a (possibly nil) `*DNToMIDResponse`,
converted to the `dcerpc.Operation` interface by the `return` statement; the
interface value wrapping the typed pointer is never the nil interface. -/
def DNToMIDResponse.xxx_ToOp (resp : Option DNToMIDResponse) (_ctx : Ctx) : Operation :=
  Operation.nspi_DNToMID resp

/-- Go: `resp.xxx_ToOp(ctx)` on a (possibly nil) `*GetPropertyListResponse`,
converted to the `dcerpc.Operation` interface by the `return` statement; the
interface value wrapping the typed pointer is never the nil interface. -/
def GetPropertyListResponse.xxx_ToOp (resp : Option GetPropertyListResponse) (_ctx : Ctx) : Operation :=
  Operation.nspi_GetPropertyList resp

/-- Go: `resp.xxx_ToOp(ctx)` on a (possibly nil) `*GetPropertiesResponse`,
converted to the `dcerpc.Operation` interface by the `return` statement; the
interface value wrapping the typed pointer is never the nil interface. -/
def GetPropertiesResponse.xxx_ToOp (resp : Option GetPropertiesResponse) (_ctx : Ctx) : Operation :=
  Operation.nspi_GetProperties resp

/-- Go: `resp.xxx_ToOp(ctx)` on a (possibly nil) `*CompareMIDsResponse`,
converted to the `dcerpc.Operation` interface by the `return` statement; the
interface value wrapping the typed pointer is never the nil interface. -/
def CompareMIDsResponse.xxx_ToOp (resp : Option CompareMIDsResponse) (_ctx : Ctx) : Operation :=
  Operation.nspi_CompareMIDs resp

/-- Go: `resp.xxx_ToOp(ctx)` on a (possibly nil) `*ModifyPropertiesResponse`,
converted to the `dcerpc.Operation` interface by the `return` statement; the
interface value wrapping the typed pointer is never the nil interface. -/
def ModifyPropertiesResponse.xxx_ToOp (resp : Option ModifyPropertiesResponse) (_ctx : Ctx) : Operation :=
  Operation.nspi_ModifyProperties resp

/-- Go: `resp.xxx_ToOp(ctx)` on a (possibly nil) `*GetSpecialTableResponse`,
converted to the `dcerpc.Operation` interface by the `return` statement; the
interface value wrapping the typed pointer is never the nil interface. -/
def GetSpecialTableResponse.xxx_ToOp (resp : Option GetSpecialTableResponse) (_ctx : Ctx) : Operation :=
  Operation.nspi_GetSpecialTable resp

/-- Go: `resp.xxx_ToOp(ctx)` on a (possibly nil) `*GetTemplateInfoResponse`,
converted to the `dcerpc.Operation` interface by the `return` statement; the
interface value wrapping the typed pointer is never the nil interface. -/
def GetTemplateInfoResponse.xxx_ToOp (resp : Option GetTemplateInfoResponse) (_ctx : Ctx) : Operation :=
  Operation.nspi_GetTemplateInfo resp

/-- Go: `resp.xxx_ToOp(ctx)` on a (possibly nil) `*ModifyLinkAttributeResponse`,
converted to the `dcerpc.Operation` interface by the `return` statement; the
interface value wrapping the typed pointer is never the nil interface. -/
def ModifyLinkAttributeResponse.xxx_ToOp (resp : Option ModifyLinkAttributeResponse) (_ctx : Ctx) : Operation :=
  Operation.nspi_ModifyLinkAttribute resp

/-- Go: `resp.xxx_ToOp(ctx)` on a (possibly nil) `*QueryColumnsResponse`,
converted to the `dcerpc.Operation` interface by the `return` statement; the
interface value wrapping the typed pointer is never the nil interface. -/
def QueryColumnsResponse.xxx_ToOp (resp : Option QueryColumnsResponse) (_ctx : Ctx) : Operation :=
  Operation.nspi_QueryColumns resp

/-- Go: `resp.xxx_ToOp(ctx)` on a (possibly nil) `*GetNamesFromIDsResponse`,
converted to the `dcerpc.Operation` interface by the `return` statement; the
interface value wrapping the typed pointer is never the nil interface. -/
def GetNamesFromIDsResponse.xxx_ToOp (resp : Option GetNamesFromIDsResponse) (_ctx : Ctx) : Operation :=
  Operation.nspi_GetNamesFromIDs resp

/-- Go: `resp.xxx_ToOp(ctx)` on a (possibly nil) `*GetIDsFromNamesResponse`,
converted to the `dcerpc.Operation` interface by the `return` statement; the
interface value wrapping the typed pointer is never the nil interface. -/
def GetIDsFromNamesResponse.xxx_ToOp (resp : Option GetIDsFromNamesResponse) (_ctx : Ctx) : Operation :=
  Operation.nspi_GetIDsFromNames resp

/-- Go: `resp.xxx_ToOp(ctx)` on a (possibly nil) `*ResolveNamesResponse`,
converted to the `dcerpc.Operation` interface by the `return` statement; the
interface value wrapping the typed pointer is never the nil interface. -/
def ResolveNamesResponse.xxx_ToOp (resp : Option ResolveNamesResponse) (_ctx : Ctx) : Operation :=
  Operation.nspi_ResolveNames resp

/-- Go: `resp.xxx_ToOp(ctx)` on a (possibly nil) `*ResolveNamesWResponse`,
converted to the `dcerpc.Operation` interface by the `return` statement; the
interface value wrapping the typed pointer is never the nil interface. -/
def ResolveNamesWResponse.xxx_ToOp (resp : Option ResolveNamesWResponse) (_ctx : Ctx) : Operation :=
  Operation.nspi_ResolveNamesW resp

/-- The `NspiServer` Go interface: one function field per method, each
returning a (possibly nil) response pointer and a (possibly nil) error. -/
structure NspiServer where
  Bind : Ctx → BindRequest → Option BindResponse × Option GoError
  Unbind : Ctx → UnbindRequest → Option UnbindResponse × Option GoError
  UpdateStat : Ctx → UpdateStatRequest → Option UpdateStatResponse × Option GoError
  QueryRows : Ctx → QueryRowsRequest → Option QueryRowsResponse × Option GoError
  SeekEntries : Ctx → SeekEntriesRequest → Option SeekEntriesResponse × Option GoError
  GetMatches : Ctx → GetMatchesRequest → Option GetMatchesResponse × Option GoError
  ResortRestriction : Ctx → ResortRestrictionRequest → Option ResortRestrictionResponse × Option GoError
  DNToMID : Ctx → DNToMIDRequest → Option DNToMIDResponse × Option GoError
  GetPropertyList : Ctx → GetPropertyListRequest → Option GetPropertyListResponse × Option GoError
  GetProperties : Ctx → GetPropertiesRequest → Option GetPropertiesResponse × Option GoError
  CompareMIDs : Ctx → CompareMIDsRequest → Option CompareMIDsResponse × Option GoError
  ModifyProperties : Ctx → ModifyPropertiesRequest → Option ModifyPropertiesResponse × Option GoError
  GetSpecialTable : Ctx → GetSpecialTableRequest → Option GetSpecialTableResponse × Option GoError
  GetTemplateInfo : Ctx → GetTemplateInfoRequest → Option GetTemplateInfoResponse × Option GoError
  ModifyLinkAttribute : Ctx → ModifyLinkAttributeRequest → Option ModifyLinkAttributeResponse × Option GoError
  QueryColumns : Ctx → QueryColumnsRequest → Option QueryColumnsResponse × Option GoError
  GetNamesFromIDs : Ctx → GetNamesFromIDsRequest → Option GetNamesFromIDsResponse × Option GoError
  GetIDsFromNames : Ctx → GetIDsFromNamesRequest → Option GetIDsFromNamesResponse × Option GoError
  ResolveNames : Ctx → ResolveNamesRequest → Option ResolveNamesResponse × Option GoError
  ResolveNamesW : Ctx → ResolveNamesWRequest → Option ResolveNamesWResponse × Option GoError

/-- The `UnmarshalNDR` methods of this interface's request types; they are
not part of the excerpt, so the dispatch function is parametrised over them. -/
structure NspiCodecs where
  unmarshalBindRequest : Ctx → NdrReader → Except GoError BindRequest
  unmarshalUnbindRequest : Ctx → NdrReader → Except GoError UnbindRequest
  unmarshalUpdateStatRequest : Ctx → NdrReader → Except GoError UpdateStatRequest
  unmarshalQueryRowsRequest : Ctx → NdrReader → Except GoError QueryRowsRequest
  unmarshalSeekEntriesRequest : Ctx → NdrReader → Except GoError SeekEntriesRequest
  unmarshalGetMatchesRequest : Ctx → NdrReader → Except GoError GetMatchesRequest
  unmarshalResortRestrictionRequest : Ctx → NdrReader → Except GoError ResortRestrictionRequest
  unmarshalDNToMIDRequest : Ctx → NdrReader → Except GoError DNToMIDRequest
  unmarshalGetPropertyListRequest : Ctx → NdrReader → Except GoError GetPropertyListRequest
  unmarshalGetPropertiesRequest : Ctx → NdrReader → Except GoError GetPropertiesRequest
  unmarshalCompareMIDsRequest : Ctx → NdrReader → Except GoError CompareMIDsRequest
  unmarshalModifyPropertiesRequest : Ctx → NdrReader → Except GoError ModifyPropertiesRequest
  unmarshalGetSpecialTableRequest : Ctx → NdrReader → Except GoError GetSpecialTableRequest
  unmarshalGetTemplateInfoRequest : Ctx → NdrReader → Except GoError GetTemplateInfoRequest
  unmarshalModifyLinkAttributeRequest : Ctx → NdrReader → Except GoError ModifyLinkAttributeRequest
  unmarshalQueryColumnsRequest : Ctx → NdrReader → Except GoError QueryColumnsRequest
  unmarshalGetNamesFromIDsRequest : Ctx → NdrReader → Except GoError GetNamesFromIDsRequest
  unmarshalGetIDsFromNamesRequest : Ctx → NdrReader → Except GoError GetIDsFromNamesRequest
  unmarshalResolveNamesRequest : Ctx → NdrReader → Except GoError ResolveNamesRequest
  unmarshalResolveNamesWRequest : Ctx → NdrReader → Except GoError ResolveNamesWRequest

/-- Transcription of `NspiServerHandle`: a switch on `opNum` with one
case per method, falling through to `return nil, nil`. -/
def NspiServerHandle (c : NspiCodecs) (ctx : Ctx)
    (o : NspiServer) (opNum : Int) (r : NdrReader) : DispatchResult :=
  if opNum = 0 then
    dispatchArm (c.unmarshalBindRequest ctx r) (o.Bind ctx)
      (fun resp => BindResponse.xxx_ToOp resp ctx)
      "BindRequest" "Bind"
  else if opNum = 1 then
    dispatchArm (c.unmarshalUnbindRequest ctx r) (o.Unbind ctx)
      (fun resp => UnbindResponse.xxx_ToOp resp ctx)
      "UnbindRequest" "Unbind"
  else if opNum = 2 then
    dispatchArm (c.unmarshalUpdateStatRequest ctx r) (o.UpdateStat ctx)
      (fun resp => UpdateStatResponse.xxx_ToOp resp ctx)
      "UpdateStatRequest" "UpdateStat"
  else if opNum = 3 then
    dispatchArm (c.unmarshalQueryRowsRequest ctx r) (o.QueryRows ctx)
      (fun resp => QueryRowsResponse.xxx_ToOp resp ctx)
      "QueryRowsRequest" "QueryRows"
  else if opNum = 4 then
    dispatchArm (c.unmarshalSeekEntriesRequest ctx r) (o.SeekEntries ctx)
      (fun resp => SeekEntriesResponse.xxx_ToOp resp ctx)
      "SeekEntriesRequest" "SeekEntries"
  else if opNum = 5 then
    dispatchArm (c.unmarshalGetMatchesRequest ctx r) (o.GetMatches ctx)
      (fun resp => GetMatchesResponse.xxx_ToOp resp ctx)
      "GetMatchesRequest" "GetMatches"
  else if opNum = 6 then
    dispatchArm (c.unmarshalResortRestrictionRequest ctx r) (o.ResortRestriction ctx)
      (fun resp => ResortRestrictionResponse.xxx_ToOp resp ctx)
      "ResortRestrictionRequest" "ResortRestriction"
  else if opNum = 7 then
    dispatchArm (c.unmarshalDNToMIDRequest ctx r) (o.DNToMID ctx)
      (fun resp => DNToMIDResponse.xxx_ToOp resp ctx)
      "DNToMIDRequest" "DNToMID"
  else if opNum = 8 then
    dispatchArm (c.unmarshalGetPropertyListRequest ctx r) (o.GetPropertyList ctx)
      (fun resp => GetPropertyListResponse.xxx_ToOp resp ctx)
      "GetPropertyListRequest" "GetPropertyList"
  else if opNum = 9 then
    dispatchArm (c.unmarshalGetPropertiesRequest ctx r) (o.GetProperties ctx)
      (fun resp => GetPropertiesResponse.xxx_ToOp resp ctx)
      "GetPropertiesRequest" "GetProperties"
  else if opNum = 10 then
    dispatchArm (c.unmarshalCompareMIDsRequest ctx r) (o.CompareMIDs ctx)
      (fun resp => CompareMIDsResponse.xxx_ToOp resp ctx)
      "CompareMIDsRequest" "CompareMIDs"
  else if opNum = 11 then
    dispatchArm (c.unmarshalModifyPropertiesRequest ctx r) (o.ModifyProperties ctx)
      (fun resp => ModifyPropertiesResponse.xxx_ToOp resp ctx)
      "ModifyPropertiesRequest" "ModifyProperties"
  else if opNum = 12 then
    dispatchArm (c.unmarshalGetSpecialTableRequest ctx r) (o.GetSpecialTable ctx)
      (fun resp => GetSpecialTableResponse.xxx_ToOp resp ctx)
      "GetSpecialTableRequest" "GetSpecialTable"
  else if opNum = 13 then
    dispatchArm (c.unmarshalGetTemplateInfoRequest ctx r) (o.GetTemplateInfo ctx)
      (fun resp => GetTemplateInfoResponse.xxx_ToOp resp ctx)
      "GetTemplateInfoRequest" "GetTemplateInfo"
  else if opNum = 14 then
    dispatchArm (c.unmarshalModifyLinkAttributeRequest ctx r) (o.ModifyLinkAttribute ctx)
      (fun resp => ModifyLinkAttributeResponse.xxx_ToOp resp ctx)
      "ModifyLinkAttributeRequest" "ModifyLinkAttribute"
  else if opNum = 15 then
    ⟨none, none, []⟩
  else if opNum = 16 then
    dispatchArm (c.unmarshalQueryColumnsRequest ctx r) (o.QueryColumns ctx)
      (fun resp => QueryColumnsResponse.xxx_ToOp resp ctx)
      "QueryColumnsRequest" "QueryColumns"
  else if opNum = 17 then
    dispatchArm (c.unmarshalGetNamesFromIDsRequest ctx r) (o.GetNamesFromIDs ctx)
      (fun resp => GetNamesFromIDsResponse.xxx_ToOp resp ctx)
      "GetNamesFromIDsRequest" "GetNamesFromIDs"
  else if opNum = 18 then
    dispatchArm (c.unmarshalGetIDsFromNamesRequest ctx r) (o.GetIDsFromNames ctx)
      (fun resp => GetIDsFromNamesResponse.xxx_ToOp resp ctx)
      "GetIDsFromNamesRequest" "GetIDsFromNames"
  else if opNum = 19 then
    dispatchArm (c.unmarshalResolveNamesRequest ctx r) (o.ResolveNames ctx)
      (fun resp => ResolveNamesResponse.xxx_ToOp resp ctx)
      "ResolveNamesRequest" "ResolveNames"
  else if opNum = 20 then
    dispatchArm (c.unmarshalResolveNamesWRequest ctx r) (o.ResolveNamesW ctx)
      (fun resp => ResolveNamesWResponse.xxx_ToOp resp ctx)
      "ResolveNamesWRequest" "ResolveNamesW"
  else
    ⟨none, none, []⟩

/-- Transcription of `NewNspiServerHandle`: the returned `dcerpc.ServerHandle` closure. -/
def NewNspiServerHandle (c : NspiCodecs) (o : NspiServer) : ServerHandle :=
  fun ctx opNum r => NspiServerHandle c ctx o opNum r

/-- The interface's abstract syntax constant `NspiSyntaxV56_0` (defined
outside the excerpt; its value is an abstract token). -/
def NspiSyntaxV56_0 : SyntaxID := ⟨1⟩

/-- Transcription of `RegisterNspiServer`: register the wrapper closure with the
interface's abstract syntax appended to the caller's options. -/
def RegisterNspiServer {τ : Type} (c : NspiCodecs)
    (conn : Conn τ) (o : NspiServer) (opts : List DcerpcOption) : τ :=
  conn.RegisterServer (NewNspiServerHandle c o)
    (opts ++ [DcerpcOption.WithAbstractSyntaxID NspiSyntaxV56_0])

theorem nspi_handle_eq_0 (c : NspiCodecs) (ctx : Ctx)
    (o : NspiServer) (r : NdrReader) :
    NspiServerHandle c ctx o 0 r =
      dispatchArm (c.unmarshalBindRequest ctx r) (o.Bind ctx)
        (fun resp => BindResponse.xxx_ToOp resp ctx)
        "BindRequest" "Bind" := rfl

theorem nspi_handle_eq_1 (c : NspiCodecs) (ctx : Ctx)
    (o : NspiServer) (r : NdrReader) :
    NspiServerHandle c ctx o 1 r =
      dispatchArm (c.unmarshalUnbindRequest ctx r) (o.Unbind ctx)
        (fun resp => UnbindResponse.xxx_ToOp resp ctx)
        "UnbindRequest" "Unbind" := rfl

theorem nspi_handle_eq_2 (c : NspiCodecs) (ctx : Ctx)
    (o : NspiServer) (r : NdrReader) :
    NspiServerHandle c ctx o 2 r =
      dispatchArm (c.unmarshalUpdateStatRequest ctx r) (o.UpdateStat ctx)
        (fun resp => UpdateStatResponse.xxx_ToOp resp ctx)
        "UpdateStatRequest" "UpdateStat" := rfl

theorem nspi_handle_eq_3 (c : NspiCodecs) (ctx : Ctx)
    (o : NspiServer) (r : NdrReader) :
    NspiServerHandle c ctx o 3 r =
      dispatchArm (c.unmarshalQueryRowsRequest ctx r) (o.QueryRows ctx)
        (fun resp => QueryRowsResponse.xxx_ToOp resp ctx)
        "QueryRowsRequest" "QueryRows" := rfl

theorem nspi_handle_eq_4 (c : NspiCodecs) (ctx : Ctx)
    (o : NspiServer) (r : NdrReader) :
    NspiServerHandle c ctx o 4 r =
      dispatchArm (c.unmarshalSeekEntriesRequest ctx r) (o.SeekEntries ctx)
        (fun resp => SeekEntriesResponse.xxx_ToOp resp ctx)
        "SeekEntriesRequest" "SeekEntries" := rfl

theorem nspi_handle_eq_5 (c : NspiCodecs) (ctx : Ctx)
    (o : NspiServer) (r : NdrReader) :
    NspiServerHandle c ctx o 5 r =
      dispatchArm (c.unmarshalGetMatchesRequest ctx r) (o.GetMatches ctx)
        (fun resp => GetMatchesResponse.xxx_ToOp resp ctx)
        "GetMatchesRequest" "GetMatches" := rfl

theorem nspi_handle_eq_6 (c : NspiCodecs) (ctx : Ctx)
    (o : NspiServer) (r : NdrReader) :
    NspiServerHandle c ctx o 6 r =
      dispatchArm (c.unmarshalResortRestrictionRequest ctx r) (o.ResortRestriction ctx)
        (fun resp => ResortRestrictionResponse.xxx_ToOp resp ctx)
        "ResortRestrictionRequest" "ResortRestriction" := rfl

theorem nspi_handle_eq_7 (c : NspiCodecs) (ctx : Ctx)
    (o : NspiServer) (r : NdrReader) :
    NspiServerHandle c ctx o 7 r =
      dispatchArm (c.unmarshalDNToMIDRequest ctx r) (o.DNToMID ctx)
        (fun resp => DNToMIDResponse.xxx_ToOp resp ctx)
        "DNToMIDRequest" "DNToMID" := rfl

theorem nspi_handle_eq_8 (c : NspiCodecs) (ctx : Ctx)
    (o : NspiServer) (r : NdrReader) :
    NspiServerHandle c ctx o 8 r =
      dispatchArm (c.unmarshalGetPropertyListRequest ctx r) (o.GetPropertyList ctx)
        (fun resp => GetPropertyListResponse.xxx_ToOp resp ctx)
        "GetPropertyListRequest" "GetPropertyList" := rfl

theorem nspi_handle_eq_9 (c : NspiCodecs) (ctx : Ctx)
    (o : NspiServer) (r : NdrReader) :
    NspiServerHandle c ctx o 9 r =
      dispatchArm (c.unmarshalGetPropertiesRequest ctx r) (o.GetProperties ctx)
        (fun resp => GetPropertiesResponse.xxx_ToOp resp ctx)
        "GetPropertiesRequest" "GetProperties" := rfl

theorem nspi_handle_eq_10 (c : NspiCodecs) (ctx : Ctx)
    (o : NspiServer) (r : NdrReader) :
    NspiServerHandle c ctx o 10 r =
      dispatchArm (c.unmarshalCompareMIDsRequest ctx r) (o.CompareMIDs ctx)
        (fun resp => CompareMIDsResponse.xxx_ToOp resp ctx)
        "CompareMIDsRequest" "CompareMIDs" := rfl

theorem nspi_handle_eq_11 (c : NspiCodecs) (ctx : Ctx)
    (o : NspiServer) (r : NdrReader) :
    NspiServerHandle c ctx o 11 r =
      dispatchArm (c.unmarshalModifyPropertiesRequest ctx r) (o.ModifyProperties ctx)
        (fun resp => ModifyPropertiesResponse.xxx_ToOp resp ctx)
        "ModifyPropertiesRequest" "ModifyProperties" := rfl

theorem nspi_handle_eq_12 (c : NspiCodecs) (ctx : Ctx)
    (o : NspiServer) (r : NdrReader) :
    NspiServerHandle c ctx o 12 r =
      dispatchArm (c.unmarshalGetSpecialTableRequest ctx r) (o.GetSpecialTable ctx)
        (fun resp => GetSpecialTableResponse.xxx_ToOp resp ctx)
        "GetSpecialTableRequest" "GetSpecialTable" := rfl

theorem nspi_handle_eq_13 (c : NspiCodecs) (ctx : Ctx)
    (o : NspiServer) (r : NdrReader) :
    NspiServerHandle c ctx o 13 r =
      dispatchArm (c.unmarshalGetTemplateInfoRequest ctx r) (o.GetTemplateInfo ctx)
        (fun resp => GetTemplateInfoResponse.xxx_ToOp resp ctx)
        "GetTemplateInfoRequest" "GetTemplateInfo" := rfl

theorem nspi_handle_eq_14 (c : NspiCodecs) (ctx : Ctx)
    (o : NspiServer) (r : NdrReader) :
    NspiServerHandle c ctx o 14 r =
      dispatchArm (c.unmarshalModifyLinkAttributeRequest ctx r) (o.ModifyLinkAttribute ctx)
        (fun resp => ModifyLinkAttributeResponse.xxx_ToOp resp ctx)
        "ModifyLinkAttributeRequest" "ModifyLinkAttribute" := rfl

theorem nspi_handle_eq_16 (c : NspiCodecs) (ctx : Ctx)
    (o : NspiServer) (r : NdrReader) :
    NspiServerHandle c ctx o 16 r =
      dispatchArm (c.unmarshalQueryColumnsRequest ctx r) (o.QueryColumns ctx)
        (fun resp => QueryColumnsResponse.xxx_ToOp resp ctx)
        "QueryColumnsRequest" "QueryColumns" := rfl

theorem nspi_handle_eq_17 (c : NspiCodecs) (ctx : Ctx)
    (o : NspiServer) (r : NdrReader) :
    NspiServerHandle c ctx o 17 r =
      dispatchArm (c.unmarshalGetNamesFromIDsRequest ctx r) (o.GetNamesFromIDs ctx)
        (fun resp => GetNamesFromIDsResponse.xxx_ToOp resp ctx)
        "GetNamesFromIDsRequest" "GetNamesFromIDs" := rfl

theorem nspi_handle_eq_18 (c : NspiCodecs) (ctx : Ctx)
    (o : NspiServer) (r : NdrReader) :
    NspiServerHandle c ctx o 18 r =
      dispatchArm (c.unmarshalGetIDsFromNamesRequest ctx r) (o.GetIDsFromNames ctx)
        (fun resp => GetIDsFromNamesResponse.xxx_ToOp resp ctx)
        "GetIDsFromNamesRequest" "GetIDsFromNames" := rfl

theorem nspi_handle_eq_19 (c : NspiCodecs) (ctx : Ctx)
    (o : NspiServer) (r : NdrReader) :
    NspiServerHandle c ctx o 19 r =
      dispatchArm (c.unmarshalResolveNamesRequest ctx r) (o.ResolveNames ctx)
        (fun resp => ResolveNamesResponse.xxx_ToOp resp ctx)
        "ResolveNamesRequest" "ResolveNames" := rfl

theorem nspi_handle_eq_20 (c : NspiCodecs) (ctx : Ctx)
    (o : NspiServer) (r : NdrReader) :
    NspiServerHandle c ctx o 20 r =
      dispatchArm (c.unmarshalResolveNamesWRequest ctx r) (o.ResolveNamesW ctx)
        (fun resp => ResolveNamesWResponse.xxx_ToOp resp ctx)
        "ResolveNamesWRequest" "ResolveNamesW" := rfl

theorem nspi_handle_eq_15 (c : NspiCodecs) (ctx : Ctx)
    (o : NspiServer) (r : NdrReader) :
    NspiServerHandle c ctx o 15 r = ⟨none, none, []⟩ := rfl

theorem nspi_handle_ok_0 (c : NspiCodecs) (ctx : Ctx)
    (o : NspiServer) (r : NdrReader) {req : BindRequest}
    (h : c.unmarshalBindRequest ctx r = .ok req) :
    NspiServerHandle c ctx o 0 r =
      ⟨some (BindResponse.xxx_ToOp (o.Bind ctx req).1 ctx),
        (o.Bind ctx req).2,
        [CallEvent.decode "BindRequest", CallEvent.invoke "Bind"]⟩ := by
  rw [nspi_handle_eq_0 c ctx o r, dispatchArm_ok _ _ _ _ h]

theorem nspi_handle_ok_1 (c : NspiCodecs) (ctx : Ctx)
    (o : NspiServer) (r : NdrReader) {req : UnbindRequest}
    (h : c.unmarshalUnbindRequest ctx r = .ok req) :
    NspiServerHandle c ctx o 1 r =
      ⟨some (UnbindResponse.xxx_ToOp (o.Unbind ctx req).1 ctx),
        (o.Unbind ctx req).2,
        [CallEvent.decode "UnbindRequest", CallEvent.invoke "Unbind"]⟩ := by
  rw [nspi_handle_eq_1 c ctx o r, dispatchArm_ok _ _ _ _ h]

theorem nspi_handle_ok_2 (c : NspiCodecs) (ctx : Ctx)
    (o : NspiServer) (r : NdrReader) {req : UpdateStatRequest}
    (h : c.unmarshalUpdateStatRequest ctx r = .ok req) :
    NspiServerHandle c ctx o 2 r =
      ⟨some (UpdateStatResponse.xxx_ToOp (o.UpdateStat ctx req).1 ctx),
        (o.UpdateStat ctx req).2,
        [CallEvent.decode "UpdateStatRequest", CallEvent.invoke "UpdateStat"]⟩ := by
  rw [nspi_handle_eq_2 c ctx o r, dispatchArm_ok _ _ _ _ h]

theorem nspi_handle_ok_3 (c : NspiCodecs) (ctx : Ctx)
    (o : NspiServer) (r : NdrReader) {req : QueryRowsRequest}
    (h : c.unmarshalQueryRowsRequest ctx r = .ok req) :
    NspiServerHandle c ctx o 3 r =
      ⟨some (QueryRowsResponse.xxx_ToOp (o.QueryRows ctx req).1 ctx),
        (o.QueryRows ctx req).2,
        [CallEvent.decode "QueryRowsRequest", CallEvent.invoke "QueryRows"]⟩ := by
  rw [nspi_handle_eq_3 c ctx o r, dispatchArm_ok _ _ _ _ h]

theorem nspi_handle_ok_4 (c : NspiCodecs) (ctx : Ctx)
    (o : NspiServer) (r : NdrReader) {req : SeekEntriesRequest}
    (h : c.unmarshalSeekEntriesRequest ctx r = .ok req) :
    NspiServerHandle c ctx o 4 r =
      ⟨some (SeekEntriesResponse.xxx_ToOp (o.SeekEntries ctx req).1 ctx),
        (o.SeekEntries ctx req).2,
        [CallEvent.decode "SeekEntriesRequest", CallEvent.invoke "SeekEntries"]⟩ := by
  rw [nspi_handle_eq_4 c ctx o r, dispatchArm_ok _ _ _ _ h]

theorem nspi_handle_ok_5 (c : NspiCodecs) (ctx : Ctx)
    (o : NspiServer) (r : NdrReader) {req : GetMatchesRequest}
    (h : c.unmarshalGetMatchesRequest ctx r = .ok req) :
    NspiServerHandle c ctx o 5 r =
      ⟨some (GetMatchesResponse.xxx_ToOp (o.GetMatches ctx req).1 ctx),
        (o.GetMatches ctx req).2,
        [CallEvent.decode "GetMatchesRequest", CallEvent.invoke "GetMatches"]⟩ := by
  rw [nspi_handle_eq_5 c ctx o r, dispatchArm_ok _ _ _ _ h]

theorem nspi_handle_ok_6 (c : NspiCodecs) (ctx : Ctx)
    (o : NspiServer) (r : NdrReader) {req : ResortRestrictionRequest}
    (h : c.unmarshalResortRestrictionRequest ctx r = .ok req) :
    NspiServerHandle c ctx o 6 r =
      ⟨some (ResortRestrictionResponse.xxx_ToOp (o.ResortRestriction ctx req).1 ctx),
        (o.ResortRestriction ctx req).2,
        [CallEvent.decode "ResortRestrictionRequest", CallEvent.invoke "ResortRestriction"]⟩ := by
  rw [nspi_handle_eq_6 c ctx o r, dispatchArm_ok _ _ _ _ h]

theorem nspi_handle_ok_7 (c : NspiCodecs) (ctx : Ctx)
    (o : NspiServer) (r : NdrReader) {req : DNToMIDRequest}
    (h : c.unmarshalDNToMIDRequest ctx r = .ok req) :
    NspiServerHandle c ctx o 7 r =
      ⟨some (DNToMIDResponse.xxx_ToOp (o.DNToMID ctx req).1 ctx),
        (o.DNToMID ctx req).2,
        [CallEvent.decode "DNToMIDRequest", CallEvent.invoke "DNToMID"]⟩ := by
  rw [nspi_handle_eq_7 c ctx o r, dispatchArm_ok _ _ _ _ h]

theorem nspi_handle_ok_8 (c : NspiCodecs) (ctx : Ctx)
    (o : NspiServer) (r : NdrReader) {req : GetPropertyListRequest}
    (h : c.unmarshalGetPropertyListRequest ctx r = .ok req) :
    NspiServerHandle c ctx o 8 r =
      ⟨some (GetPropertyListResponse.xxx_ToOp (o.GetPropertyList ctx req).1 ctx),
        (o.GetPropertyList ctx req).2,
        [CallEvent.decode "GetPropertyListRequest", CallEvent.invoke "GetPropertyList"]⟩ := by
  rw [nspi_handle_eq_8 c ctx o r, dispatchArm_ok _ _ _ _ h]

theorem nspi_handle_ok_9 (c : NspiCodecs) (ctx : Ctx)
    (o : NspiServer) (r : NdrReader) {req : GetPropertiesRequest}
    (h : c.unmarshalGetPropertiesRequest ctx r = .ok req) :
    NspiServerHandle c ctx o 9 r =
      ⟨some (GetPropertiesResponse.xxx_ToOp (o.GetProperties ctx req).1 ctx),
        (o.GetProperties ctx req).2,
        [CallEvent.decode "GetPropertiesRequest", CallEvent.invoke "GetProperties"]⟩ := by
  rw [nspi_handle_eq_9 c ctx o r, dispatchArm_ok _ _ _ _ h]

theorem nspi_handle_ok_10 (c : NspiCodecs) (ctx : Ctx)
    (o : NspiServer) (r : NdrReader) {req : CompareMIDsRequest}
    (h : c.unmarshalCompareMIDsRequest ctx r = .ok req) :
    NspiServerHandle c ctx o 10 r =
      ⟨some (CompareMIDsResponse.xxx_ToOp (o.CompareMIDs ctx req).1 ctx),
        (o.CompareMIDs ctx req).2,
        [CallEvent.decode "CompareMIDsRequest", CallEvent.invoke "CompareMIDs"]⟩ := by
  rw [nspi_handle_eq_10 c ctx o r, dispatchArm_ok _ _ _ _ h]

theorem nspi_handle_ok_11 (c : NspiCodecs) (ctx : Ctx)
    (o : NspiServer) (r : NdrReader) {req : ModifyPropertiesRequest}
    (h : c.unmarshalModifyPropertiesRequest ctx r = .ok req) :
    NspiServerHandle c ctx o 11 r =
      ⟨some (ModifyPropertiesResponse.xxx_ToOp (o.ModifyProperties ctx req).1 ctx),
        (o.ModifyProperties ctx req).2,
        [CallEvent.decode "ModifyPropertiesRequest", CallEvent.invoke "ModifyProperties"]⟩ := by
  rw [nspi_handle_eq_11 c ctx o r, dispatchArm_ok _ _ _ _ h]

theorem nspi_handle_ok_12 (c : NspiCodecs) (ctx : Ctx)
    (o : NspiServer) (r : NdrReader) {req : GetSpecialTableRequest}
    (h : c.unmarshalGetSpecialTableRequest ctx r = .ok req) :
    NspiServerHandle c ctx o 12 r =
      ⟨some (GetSpecialTableResponse.xxx_ToOp (o.GetSpecialTable ctx req).1 ctx),
        (o.GetSpecialTable ctx req).2,
        [CallEvent.decode "GetSpecialTableRequest", CallEvent.invoke "GetSpecialTable"]⟩ := by
  rw [nspi_handle_eq_12 c ctx o r, dispatchArm_ok _ _ _ _ h]

theorem nspi_handle_ok_13 (c : NspiCodecs) (ctx : Ctx)
    (o : NspiServer) (r : NdrReader) {req : GetTemplateInfoRequest}
    (h : c.unmarshalGetTemplateInfoRequest ctx r = .ok req) :
    NspiServerHandle c ctx o 13 r =
      ⟨some (GetTemplateInfoResponse.xxx_ToOp (o.GetTemplateInfo ctx req).1 ctx),
        (o.GetTemplateInfo ctx req).2,
        [CallEvent.decode "GetTemplateInfoRequest", CallEvent.invoke "GetTemplateInfo"]⟩ := by
  rw [nspi_handle_eq_13 c ctx o r, dispatchArm_ok _ _ _ _ h]

theorem nspi_handle_ok_14 (c : NspiCodecs) (ctx : Ctx)
    (o : NspiServer) (r : NdrReader) {req : ModifyLinkAttributeRequest}
    (h : c.unmarshalModifyLinkAttributeRequest ctx r = .ok req) :
    NspiServerHandle c ctx o 14 r =
      ⟨some (ModifyLinkAttributeResponse.xxx_ToOp (o.ModifyLinkAttribute ctx req).1 ctx),
        (o.ModifyLinkAttribute ctx req).2,
        [CallEvent.decode "ModifyLinkAttributeRequest", CallEvent.invoke "ModifyLinkAttribute"]⟩ := by
  rw [nspi_handle_eq_14 c ctx o r, dispatchArm_ok _ _ _ _ h]

theorem nspi_handle_ok_16 (c : NspiCodecs) (ctx : Ctx)
    (o : NspiServer) (r : NdrReader) {req : QueryColumnsRequest}
    (h : c.unmarshalQueryColumnsRequest ctx r = .ok req) :
    NspiServerHandle c ctx o 16 r =
      ⟨some (QueryColumnsResponse.xxx_ToOp (o.QueryColumns ctx req).1 ctx),
        (o.QueryColumns ctx req).2,
        [CallEvent.decode "QueryColumnsRequest", CallEvent.invoke "QueryColumns"]⟩ := by
  rw [nspi_handle_eq_16 c ctx o r, dispatchArm_ok _ _ _ _ h]

theorem nspi_handle_ok_17 (c : NspiCodecs) (ctx : Ctx)
    (o : NspiServer) (r : NdrReader) {req : GetNamesFromIDsRequest}
    (h : c.unmarshalGetNamesFromIDsRequest ctx r = .ok req) :
    NspiServerHandle c ctx o 17 r =
      ⟨some (GetNamesFromIDsResponse.xxx_ToOp (o.GetNamesFromIDs ctx req).1 ctx),
        (o.GetNamesFromIDs ctx req).2,
        [CallEvent.decode "GetNamesFromIDsRequest", CallEvent.invoke "GetNamesFromIDs"]⟩ := by
  rw [nspi_handle_eq_17 c ctx o r, dispatchArm_ok _ _ _ _ h]

theorem nspi_handle_ok_18 (c : NspiCodecs) (ctx : Ctx)
    (o : NspiServer) (r : NdrReader) {req : GetIDsFromNamesRequest}
    (h : c.unmarshalGetIDsFromNamesRequest ctx r = .ok req) :
    NspiServerHandle c ctx o 18 r =
      ⟨some (GetIDsFromNamesResponse.xxx_ToOp (o.GetIDsFromNames ctx req).1 ctx),
        (o.GetIDsFromNames ctx req).2,
        [CallEvent.decode "GetIDsFromNamesRequest", CallEvent.invoke "GetIDsFromNames"]⟩ := by
  rw [nspi_handle_eq_18 c ctx o r, dispatchArm_ok _ _ _ _ h]

theorem nspi_handle_ok_19 (c : NspiCodecs) (ctx : Ctx)
    (o : NspiServer) (r : NdrReader) {req : ResolveNamesRequest}
    (h : c.unmarshalResolveNamesRequest ctx r = .ok req) :
    NspiServerHandle c ctx o 19 r =
      ⟨some (ResolveNamesResponse.xxx_ToOp (o.ResolveNames ctx req).1 ctx),
        (o.ResolveNames ctx req).2,
        [CallEvent.decode "ResolveNamesRequest", CallEvent.invoke "ResolveNames"]⟩ := by
  rw [nspi_handle_eq_19 c ctx o r, dispatchArm_ok _ _ _ _ h]

theorem nspi_handle_ok_20 (c : NspiCodecs) (ctx : Ctx)
    (o : NspiServer) (r : NdrReader) {req : ResolveNamesWRequest}
    (h : c.unmarshalResolveNamesWRequest ctx r = .ok req) :
    NspiServerHandle c ctx o 20 r =
      ⟨some (ResolveNamesWResponse.xxx_ToOp (o.ResolveNamesW ctx req).1 ctx),
        (o.ResolveNamesW ctx req).2,
        [CallEvent.decode "ResolveNamesWRequest", CallEvent.invoke "ResolveNamesW"]⟩ := by
  rw [nspi_handle_eq_20 c ctx o r, dispatchArm_ok _ _ _ _ h]

theorem nspi_handle_default (c : NspiCodecs) (ctx : Ctx)
    (o : NspiServer) (r : NdrReader) (opNum : Int)
    (h0 : opNum ≠ 0)
    (h1 : opNum ≠ 1)
    (h2 : opNum ≠ 2)
    (h3 : opNum ≠ 3)
    (h4 : opNum ≠ 4)
    (h5 : opNum ≠ 5)
    (h6 : opNum ≠ 6)
    (h7 : opNum ≠ 7)
    (h8 : opNum ≠ 8)
    (h9 : opNum ≠ 9)
    (h10 : opNum ≠ 10)
    (h11 : opNum ≠ 11)
    (h12 : opNum ≠ 12)
    (h13 : opNum ≠ 13)
    (h14 : opNum ≠ 14)
    (h15 : opNum ≠ 15)
    (h16 : opNum ≠ 16)
    (h17 : opNum ≠ 17)
    (h18 : opNum ≠ 18)
    (h19 : opNum ≠ 19)
    (h20 : opNum ≠ 20)
    : NspiServerHandle c ctx o opNum r = ⟨none, none, []⟩ := by
  unfold NspiServerHandle
  rw [if_neg h0, if_neg h1, if_neg h2, if_neg h3, if_neg h4, if_neg h5, if_neg h6, if_neg h7]
  rw [if_neg h8, if_neg h9, if_neg h10, if_neg h11, if_neg h12, if_neg h13, if_neg h14, if_neg h15]
  rw [if_neg h16, if_neg h17, if_neg h18, if_neg h19, if_neg h20]

theorem nspi_handle_default_range (c : NspiCodecs) (ctx : Ctx)
    (o : NspiServer) (r : NdrReader) (opNum : Int)
    (h : opNum < 0 ∨ 20 < opNum) :
    NspiServerHandle c ctx o opNum r = ⟨none, none, []⟩ := by
  apply nspi_handle_default c ctx o r opNum <;> omega

/-- Concrete codecs whose decoders always succeed on an empty request. -/
def okCodecs : NspiCodecs :=
  ⟨fun _ _ => .ok ⟨[]⟩,
   fun _ _ => .ok ⟨[]⟩,
   fun _ _ => .ok ⟨[]⟩,
   fun _ _ => .ok ⟨[]⟩,
   fun _ _ => .ok ⟨[]⟩,
   fun _ _ => .ok ⟨[]⟩,
   fun _ _ => .ok ⟨[]⟩,
   fun _ _ => .ok ⟨[]⟩,
   fun _ _ => .ok ⟨[]⟩,
   fun _ _ => .ok ⟨[]⟩,
   fun _ _ => .ok ⟨[]⟩,
   fun _ _ => .ok ⟨[]⟩,
   fun _ _ => .ok ⟨[]⟩,
   fun _ _ => .ok ⟨[]⟩,
   fun _ _ => .ok ⟨[]⟩,
   fun _ _ => .ok ⟨[]⟩,
   fun _ _ => .ok ⟨[]⟩,
   fun _ _ => .ok ⟨[]⟩,
   fun _ _ => .ok ⟨[]⟩,
   fun _ _ => .ok ⟨[]⟩⟩

/-- A concrete server whose handlers return a nil response and a nil error. -/
def zeroServer : NspiServer :=
  ⟨fun _ _ => (none, none),
   fun _ _ => (none, none),
   fun _ _ => (none, none),
   fun _ _ => (none, none),
   fun _ _ => (none, none),
   fun _ _ => (none, none),
   fun _ _ => (none, none),
   fun _ _ => (none, none),
   fun _ _ => (none, none),
   fun _ _ => (none, none),
   fun _ _ => (none, none),
   fun _ _ => (none, none),
   fun _ _ => (none, none),
   fun _ _ => (none, none),
   fun _ _ => (none, none),
   fun _ _ => (none, none),
   fun _ _ => (none, none),
   fun _ _ => (none, none),
   fun _ _ => (none, none),
   fun _ _ => (none, none)⟩

/-- A concrete server whose handlers return a non-nil response together
with a non-nil error (Go handlers are free to do this). -/
def errServer : NspiServer :=
  ⟨fun _ _ => (some ⟨[]⟩, some 7),
   fun _ _ => (some ⟨[]⟩, some 7),
   fun _ _ => (some ⟨[]⟩, some 7),
   fun _ _ => (some ⟨[]⟩, some 7),
   fun _ _ => (some ⟨[]⟩, some 7),
   fun _ _ => (some ⟨[]⟩, some 7),
   fun _ _ => (some ⟨[]⟩, some 7),
   fun _ _ => (some ⟨[]⟩, some 7),
   fun _ _ => (some ⟨[]⟩, some 7),
   fun _ _ => (some ⟨[]⟩, some 7),
   fun _ _ => (some ⟨[]⟩, some 7),
   fun _ _ => (some ⟨[]⟩, some 7),
   fun _ _ => (some ⟨[]⟩, some 7),
   fun _ _ => (some ⟨[]⟩, some 7),
   fun _ _ => (some ⟨[]⟩, some 7),
   fun _ _ => (some ⟨[]⟩, some 7),
   fun _ _ => (some ⟨[]⟩, some 7),
   fun _ _ => (some ⟨[]⟩, some 7),
   fun _ _ => (some ⟨[]⟩, some 7),
   fun _ _ => (some ⟨[]⟩, some 7)⟩

end nspi

namespace dhcpsrv2

/-- Go: `resp.xxx_ToOp(ctx)` on a (possibly nil) `*EnumSubnetClientsV5Response`,
converted to the `dcerpc.Operation` interface by the `return` statement; the
interface value wrapping the typed pointer is never the nil interface. -/
def EnumSubnetClientsV5Response.xxx_ToOp (resp : Option EnumSubnetClientsV5Response) (_ctx : Ctx) : Operation :=
  Operation.dhcpsrv2_EnumSubnetClientsV5 resp

/-- Go: `resp.xxx_ToOp(ctx)` on a (possibly nil) `*SetMScopeInfoResponse`,
converted to the `dcerpc.Operation` interface by the `return` statement; the
interface value wrapping the typed pointer is never the nil interface. -/
def SetMScopeInfoResponse.xxx_ToOp (resp : Option SetMScopeInfoResponse) (_ctx : Ctx) : Operation :=
  Operation.dhcpsrv2_SetMScopeInfo resp

/-- Go: `resp.xxx_ToOp(ctx)` on a (possibly nil) `*GetMScopeInfoResponse`,
converted to the `dcerpc.Operation` interface by the `return` statement; the
interface value wrapping the typed pointer is never the nil interface. -/
def GetMScopeInfoResponse.xxx_ToOp (resp : Option GetMScopeInfoResponse) (_ctx : Ctx) : Operation :=
  Operation.dhcpsrv2_GetMScopeInfo resp

/-- Go: `resp.xxx_ToOp(ctx)` on a (possibly nil) `*EnumMScopesResponse`,
converted to the `dcerpc.Operation` interface by the `return` statement; the
interface value wrapping the typed pointer is never the nil interface. -/
def EnumMScopesResponse.xxx_ToOp (resp : Option EnumMScopesResponse) (_ctx : Ctx) : Operation :=
  Operation.dhcpsrv2_EnumMScopes resp

/-- Go: `resp.xxx_ToOp(ctx)` on a (possibly nil) `*AddMScopeElementResponse`,
converted to the `dcerpc.Operation` interface by the `return` statement; the
interface value wrapping the typed pointer is never the nil interface. -/
def AddMScopeElementResponse.xxx_ToOp (resp : Option AddMScopeElementResponse) (_ctx : Ctx) : Operation :=
  Operation.dhcpsrv2_AddMScopeElement resp

/-- Go: `resp.xxx_ToOp(ctx)` on a (possibly nil) `*EnumMScopeElementsResponse`,
converted to the `dcerpc.Operation` interface by the `return` statement; the
interface value wrapping the typed pointer is never the nil interface. -/
def EnumMScopeElementsResponse.xxx_ToOp (resp : Option EnumMScopeElementsResponse) (_ctx : Ctx) : Operation :=
  Operation.dhcpsrv2_EnumMScopeElements resp

/-- Go: `resp.xxx_ToOp(ctx)` on a (possibly nil) `*RemoveMScopeElementResponse`,
converted to the `dcerpc.Operation` interface by the `return` statement; the
interface value wrapping the typed pointer is never the nil interface. -/
def RemoveMScopeElementResponse.xxx_ToOp (resp : Option RemoveMScopeElementResponse) (_ctx : Ctx) : Operation :=
  Operation.dhcpsrv2_RemoveMScopeElement resp

/-- Go: `resp.xxx_ToOp(ctx)` on a (possibly nil) `*DeleteMScopeResponse`,
converted to the `dcerpc.Operation` interface by the `return` statement; the
interface value wrapping the typed pointer is never the nil interface. -/
def DeleteMScopeResponse.xxx_ToOp (resp : Option DeleteMScopeResponse) (_ctx : Ctx) : Operation :=
  Operation.dhcpsrv2_DeleteMScope resp

/-- Go: `resp.xxx_ToOp(ctx)` on a (possibly nil) `*ScanMDatabaseResponse`,
converted to the `dcerpc.Operation` interface by the `return` statement; the
interface value wrapping the typed pointer is never the nil interface. -/
def ScanMDatabaseResponse.xxx_ToOp (resp : Option ScanMDatabaseResponse) (_ctx : Ctx) : Operation :=
  Operation.dhcpsrv2_ScanMDatabase resp

/-- Go: `resp.xxx_ToOp(ctx)` on a (possibly nil) `*CreateMClientInfoResponse`,
converted to the `dcerpc.Operation` interface by the `return` statement; the
interface value wrapping the typed pointer is never the nil interface. -/
def CreateMClientInfoResponse.xxx_ToOp (resp : Option CreateMClientInfoResponse) (_ctx : Ctx) : Operation :=
  Operation.dhcpsrv2_CreateMClientInfo resp

/-- Go: `resp.xxx_ToOp(ctx)` on a (possibly nil) `*SetMClientInfoResponse`,
converted to the `dcerpc.Operation` interface by the `return` statement; the
interface value wrapping the typed pointer is never the nil interface. -/
def SetMClientInfoResponse.xxx_ToOp (resp : Option SetMClientInfoResponse) (_ctx : Ctx) : Operation :=
  Operation.dhcpsrv2_SetMClientInfo resp

/-- Go: `resp.xxx_ToOp(ctx)` on a (possibly nil) `*GetMClientInfoResponse`,
converted to the `dcerpc.Operation` interface by the `return` statement; the
interface value wrapping the typed pointer is never the nil interface. -/
def GetMClientInfoResponse.xxx_ToOp (resp : Option GetMClientInfoResponse) (_ctx : Ctx) : Operation :=
  Operation.dhcpsrv2_GetMClientInfo resp

/-- Go: `resp.xxx_ToOp(ctx)` on a (possibly nil) `*DeleteMClientInfoResponse`,
converted to the `dcerpc.Operation` interface by the `return` statement; the
interface value wrapping the typed pointer is never the nil interface. -/
def DeleteMClientInfoResponse.xxx_ToOp (resp : Option DeleteMClientInfoResponse) (_ctx : Ctx) : Operation :=
  Operation.dhcpsrv2_DeleteMClientInfo resp

/-- Go: `resp.xxx_ToOp(ctx)` on a (possibly nil) `*EnumMScopeClientsResponse`,
converted to the `dcerpc.Operation` interface by the `return` statement; the
interface value wrapping the typed pointer is never the nil interface. -/
def EnumMScopeClientsResponse.xxx_ToOp (resp : Option EnumMScopeClientsResponse) (_ctx : Ctx) : Operation :=
  Operation.dhcpsrv2_EnumMScopeClients resp

/-- Go: `resp.xxx_ToOp(ctx)` on a (possibly nil) `*CreateOptionV5Response`,
converted to the `dcerpc.Operation` interface by the `return` statement; the
interface value wrapping the typed pointer is never the nil interface. -/
def CreateOptionV5Response.xxx_ToOp (resp : Option CreateOptionV5Response) (_ctx : Ctx) : Operation :=
  Operation.dhcpsrv2_CreateOptionV5 resp

/-- Go: `resp.xxx_ToOp(ctx)` on a (possibly nil) `*SetOptionInfoV5Response`,
converted to the `dcerpc.Operation` interface by the `return` statement; the
interface value wrapping the typed pointer is never the nil interface. -/
def SetOptionInfoV5Response.xxx_ToOp (resp : Option SetOptionInfoV5Response) (_ctx : Ctx) : Operation :=
  Operation.dhcpsrv2_SetOptionInfoV5 resp

/-- Go: `resp.xxx_ToOp(ctx)` on a (possibly nil) `*GetOptionInfoV5Response`,
converted to the `dcerpc.Operation` interface by the `return` statement; the
interface value wrapping the typed pointer is never the nil interface. -/
def GetOptionInfoV5Response.xxx_ToOp (resp : Option GetOptionInfoV5Response) (_ctx : Ctx) : Operation :=
  Operation.dhcpsrv2_GetOptionInfoV5 resp

/-- Go: `resp.xxx_ToOp(ctx)` on a (possibly nil) `*EnumOptionsV5Response`,
converted to the `dcerpc.Operation` interface by the `return` statement; the
interface value wrapping the typed pointer is never the nil interface. -/
def EnumOptionsV5Response.xxx_ToOp (resp : Option EnumOptionsV5Response) (_ctx : Ctx) : Operation :=
  Operation.dhcpsrv2_EnumOptionsV5 resp

/-- Go: `resp.xxx_ToOp(ctx)` on a (possibly nil) `*RemoveOptionV5Response`,
converted to the `dcerpc.Operation` interface by the `return` statement; the
interface value wrapping the typed pointer is never the nil interface. -/
def RemoveOptionV5Response.xxx_ToOp (resp : Option RemoveOptionV5Response) (_ctx : Ctx) : Operation :=
  Operation.dhcpsrv2_RemoveOptionV5 resp

/-- Go: `resp.xxx_ToOp(ctx)` on a (possibly nil) `*SetOptionValueV5Response`,
converted to the `dcerpc.Operation` interface by the `return` statement; the
interface value wrapping the typed pointer is never the nil interface. -/
def SetOptionValueV5Response.xxx_ToOp (resp : Option SetOptionValueV5Response) (_ctx : Ctx) : Operation :=
  Operation.dhcpsrv2_SetOptionValueV5 resp

/-- Go: `resp.xxx_ToOp(ctx)` on a (possibly nil) `*SetOptionValuesV5Response`,
converted to the `dcerpc.Operation` interface by the `return` statement; the
interface value wrapping the typed pointer is never the nil interface. -/
def SetOptionValuesV5Response.xxx_ToOp (resp : Option SetOptionValuesV5Response) (_ctx : Ctx) : Operation :=
  Operation.dhcpsrv2_SetOptionValuesV5 resp

/-- Go: `resp.xxx_ToOp(ctx)` on a (possibly nil) `*GetOptionValueV5Response`,
converted to the `dcerpc.Operation` interface by the `return` statement; the
interface value wrapping the typed pointer is never the nil interface. -/
def GetOptionValueV5Response.xxx_ToOp (resp : Option GetOptionValueV5Response) (_ctx : Ctx) : Operation :=
  Operation.dhcpsrv2_GetOptionValueV5 resp

/-- Go: `resp.xxx_ToOp(ctx)` on a (possibly nil) `*EnumOptionValuesV5Response`,
converted to the `dcerpc.Operation` interface by the `return` statement; the
interface value wrapping the typed pointer is never the nil interface. -/
def EnumOptionValuesV5Response.xxx_ToOp (resp : Option EnumOptionValuesV5Response) (_ctx : Ctx) : Operation :=
  Operation.dhcpsrv2_EnumOptionValuesV5 resp

/-- Go: `resp.xxx_ToOp(ctx)` on a (possibly nil) `*RemoveOptionValueV5Response`,
converted to the `dcerpc.Operation` interface by the `return` statement; the
interface value wrapping the typed pointer is never the nil interface. -/
def RemoveOptionValueV5Response.xxx_ToOp (resp : Option RemoveOptionValueV5Response) (_ctx : Ctx) : Operation :=
  Operation.dhcpsrv2_RemoveOptionValueV5 resp

/-- Go: `resp.xxx_ToOp(ctx)` on a (possibly nil) `*CreateClassResponse`,
converted to the `dcerpc.Operation` interface by the `return` statement; the
interface value wrapping the typed pointer is never the nil interface. -/
def CreateClassResponse.xxx_ToOp (resp : Option CreateClassResponse) (_ctx : Ctx) : Operation :=
  Operation.dhcpsrv2_CreateClass resp

/-- Go: `resp.xxx_ToOp(ctx)` on a (possibly nil) `*ModifyClassResponse`,
converted to the `dcerpc.Operation` interface by the `return` statement; the
interface value wrapping the typed pointer is never the nil interface. -/
def ModifyClassResponse.xxx_ToOp (resp : Option ModifyClassResponse) (_ctx : Ctx) : Operation :=
  Operation.dhcpsrv2_ModifyClass resp

/-- Go: `resp.xxx_ToOp(ctx)` on a (possibly nil) `*DeleteClassResponse`,
converted to the `dcerpc.Operation` interface by the `return` statement; the
interface value wrapping the typed pointer is never the nil interface. -/
def DeleteClassResponse.xxx_ToOp (resp : Option DeleteClassResponse) (_ctx : Ctx) : Operation :=
  Operation.dhcpsrv2_DeleteClass resp

/-- Go: `resp.xxx_ToOp(ctx)` on a (possibly nil) `*GetClassInfoResponse`,
converted to the `dcerpc.Operation` interface by the `return` statement; the
interface value wrapping the typed pointer is never the nil interface. -/
def GetClassInfoResponse.xxx_ToOp (resp : Option GetClassInfoResponse) (_ctx : Ctx) : Operation :=
  Operation.dhcpsrv2_GetClassInfo resp

/-- Go: `resp.xxx_ToOp(ctx)` on a (possibly nil) `*EnumClassesResponse`,
converted to the `dcerpc.Operation` interface by the `return` statement; the
interface value wrapping the typed pointer is never the nil interface. -/
def EnumClassesResponse.xxx_ToOp (resp : Option EnumClassesResponse) (_ctx : Ctx) : Operation :=
  Operation.dhcpsrv2_EnumClasses resp

/-- Go: `resp.xxx_ToOp(ctx)` on a (possibly nil) `*GetAllOptionsResponse`,
converted to the `dcerpc.Operation` interface by the `return` statement; the
interface value wrapping the typed pointer is never the nil interface. -/
def GetAllOptionsResponse.xxx_ToOp (resp : Option GetAllOptionsResponse) (_ctx : Ctx) : Operation :=
  Operation.dhcpsrv2_GetAllOptions resp

/-- Go: `resp.xxx_ToOp(ctx)` on a (possibly nil) `*GetAllOptionValuesResponse`,
converted to the `dcerpc.Operation` interface by the `return` statement; the
interface value wrapping the typed pointer is never the nil interface. -/
def GetAllOptionValuesResponse.xxx_ToOp (resp : Option GetAllOptionValuesResponse) (_ctx : Ctx) : Operation :=
  Operation.dhcpsrv2_GetAllOptionValues resp

/-- Go: `resp.xxx_ToOp(ctx)` on a (possibly nil) `*GetMCastMIBInfoResponse`,
converted to the `dcerpc.Operation` interface by the `return` statement; the
interface value wrapping the typed pointer is never the nil interface. -/
def GetMCastMIBInfoResponse.xxx_ToOp (resp : Option GetMCastMIBInfoResponse) (_ctx : Ctx) : Operation :=
  Operation.dhcpsrv2_GetMCastMIBInfo resp

/-- Go: `resp.xxx_ToOp(ctx)` on a (possibly nil) `*AuditLogSetParamsResponse`,
converted to the `dcerpc.Operation` interface by the `return` statement; the
interface value wrapping the typed pointer is never the nil interface. -/
def AuditLogSetParamsResponse.xxx_ToOp (resp : Option AuditLogSetParamsResponse) (_ctx : Ctx) : Operation :=
  Operation.dhcpsrv2_AuditLogSetParams resp

/-- Go: `resp.xxx_ToOp(ctx)` on a (possibly nil) `*AuditLogGetParamsResponse`,
converted to the `dcerpc.Operation` interface by the `return` statement; the
interface value wrapping the typed pointer is never the nil interface. -/
def AuditLogGetParamsResponse.xxx_ToOp (resp : Option AuditLogGetParamsResponse) (_ctx : Ctx) : Operation :=
  Operation.dhcpsrv2_AuditLogGetParams resp

/-- Go: `resp.xxx_ToOp(ctx)` on a (possibly nil) `*ServerQueryAttributeResponse`,
converted to the `dcerpc.Operation` interface by the `return` statement; the
interface value wrapping the typed pointer is never the nil interface. -/
def ServerQueryAttributeResponse.xxx_ToOp (resp : Option ServerQueryAttributeResponse) (_ctx : Ctx) : Operation :=
  Operation.dhcpsrv2_ServerQueryAttribute resp

/-- Go: `resp.xxx_ToOp(ctx)` on a (possibly nil) `*ServerQueryAttributesResponse`,
converted to the `dcerpc.Operation` interface by the `return` statement; the
interface value wrapping the typed pointer is never the nil interface. -/
def ServerQueryAttributesResponse.xxx_ToOp (resp : Option ServerQueryAttributesResponse) (_ctx : Ctx) : Operation :=
  Operation.dhcpsrv2_ServerQueryAttributes resp

/-- Go: `resp.xxx_ToOp(ctx)` on a (possibly nil) `*ServerRedoAuthorizationResponse`,
converted to the `dcerpc.Operation` interface by the `return` statement; the
interface value wrapping the typed pointer is never the nil interface. -/
def ServerRedoAuthorizationResponse.xxx_ToOp (resp : Option ServerRedoAuthorizationResponse) (_ctx : Ctx) : Operation :=
  Operation.dhcpsrv2_ServerRedoAuthorization resp

/-- Go: `resp.xxx_ToOp(ctx)` on a (possibly nil) `*AddSubnetElementV5Response`,
converted to the `dcerpc.Operation` interface by the `return` statement; the
interface value wrapping the typed pointer is never the nil interface. -/
def AddSubnetElementV5Response.xxx_ToOp (resp : Option AddSubnetElementV5Response) (_ctx : Ctx) : Operation :=
  Operation.dhcpsrv2_AddSubnetElementV5 resp

/-- Go: `resp.xxx_ToOp(ctx)` on a (possibly nil) `*EnumSubnetElementsV5Response`,
converted to the `dcerpc.Operation` interface by the `return` statement; the
interface value wrapping the typed pointer is never the nil interface. -/
def EnumSubnetElementsV5Response.xxx_ToOp (resp : Option EnumSubnetElementsV5Response) (_ctx : Ctx) : Operation :=
  Operation.dhcpsrv2_EnumSubnetElementsV5 resp

/-- Go: `resp.xxx_ToOp(ctx)` on a (possibly nil) `*RemoveSubnetElementV5Response`,
converted to the `dcerpc.Operation` interface by the `return` statement; the
interface value wrapping the typed pointer is never the nil interface. -/
def RemoveSubnetElementV5Response.xxx_ToOp (resp : Option RemoveSubnetElementV5Response) (_ctx : Ctx) : Operation :=
  Operation.dhcpsrv2_RemoveSubnetElementV5 resp

/-- Go: `resp.xxx_ToOp(ctx)` on a (possibly nil) `*GetServerBindingInfoResponse`,
converted to the `dcerpc.Operation` interface by the `return` statement; the
interface value wrapping the typed pointer is never the nil interface. -/
def GetServerBindingInfoResponse.xxx_ToOp (resp : Option GetServerBindingInfoResponse) (_ctx : Ctx) : Operation :=
  Operation.dhcpsrv2_GetServerBindingInfo resp

/-- Go: `resp.xxx_ToOp(ctx)` on a (possibly nil) `*SetServerBindingInfoResponse`,
converted to the `dcerpc.Operation` interface by the `return` statement; the
interface value wrapping the typed pointer is never the nil interface. -/
def SetServerBindingInfoResponse.xxx_ToOp (resp : Option SetServerBindingInfoResponse) (_ctx : Ctx) : Operation :=
  Operation.dhcpsrv2_SetServerBindingInfo resp

/-- Go: `resp.xxx_ToOp(ctx)` on a (possibly nil) `*QueryDNSRegCredentialsResponse`,
converted to the `dcerpc.Operation` interface by the `return` statement; the
interface value wrapping the typed pointer is never the nil interface. -/
def QueryDNSRegCredentialsResponse.xxx_ToOp (resp : Option QueryDNSRegCredentialsResponse) (_ctx : Ctx) : Operation :=
  Operation.dhcpsrv2_QueryDNSRegCredentials resp

/-- Go: `resp.xxx_ToOp(ctx)` on a (possibly nil) `*SetDNSRegCredentialsResponse`,
converted to the `dcerpc.Operation` interface by the `return` statement; the
interface value wrapping the typed pointer is never the nil interface. -/
def SetDNSRegCredentialsResponse.xxx_ToOp (resp : Option SetDNSRegCredentialsResponse) (_ctx : Ctx) : Operation :=
  Operation.dhcpsrv2_SetDNSRegCredentials resp

/-- Go: `resp.xxx_ToOp(ctx)` on a (possibly nil) `*BackupDatabaseResponse`,
converted to the `dcerpc.Operation` interface by the `return` statement; the
interface value wrapping the typed pointer is never the nil interface. -/
def BackupDatabaseResponse.xxx_ToOp (resp : Option BackupDatabaseResponse) (_ctx : Ctx) : Operation :=
  Operation.dhcpsrv2_BackupDatabase resp

/-- Go: `resp.xxx_ToOp(ctx)` on a (possibly nil) `*RestoreDatabaseResponse`,
converted to the `dcerpc.Operation` interface by the `return` statement; the
interface value wrapping the typed pointer is never the nil interface. -/
def RestoreDatabaseResponse.xxx_ToOp (resp : Option RestoreDatabaseResponse) (_ctx : Ctx) : Operation :=
  Operation.dhcpsrv2_RestoreDatabase resp

/-- Go: `resp.xxx_ToOp(ctx)` on a (possibly nil) `*GetServerSpecificStringsResponse`,
converted to the `dcerpc.Operation` interface by the `return` statement; the
interface value wrapping the typed pointer is never the nil interface. -/
def GetServerSpecificStringsResponse.xxx_ToOp (resp : Option GetServerSpecificStringsResponse) (_ctx : Ctx) : Operation :=
  Operation.dhcpsrv2_GetServerSpecificStrings resp

/-- Go: `resp.xxx_ToOp(ctx)` on a (possibly nil) `*CreateOptionV6Response`,
converted to the `dcerpc.Operation` interface by the `return` statement; the
interface value wrapping the typed pointer is never the nil interface. -/
def CreateOptionV6Response.xxx_ToOp (resp : Option CreateOptionV6Response) (_ctx : Ctx) : Operation :=
  Operation.dhcpsrv2_CreateOptionV6 resp

/-- Go: `resp.xxx_ToOp(ctx)` on a (possibly nil) `*SetOptionInfoV6Response`,
converted to the `dcerpc.Operation` interface by the `return` statement; the
interface value wrapping the typed pointer is never the nil interface. -/
def SetOptionInfoV6Response.xxx_ToOp (resp : Option SetOptionInfoV6Response) (_ctx : Ctx) : Operation :=
  Operation.dhcpsrv2_SetOptionInfoV6 resp

/-- Go: `resp.xxx_ToOp(ctx)` on a (possibly nil) `*GetOptionInfoV6Response`,
converted to the `dcerpc.Operation` interface by the `return` statement; the
interface value wrapping the typed pointer is never the nil interface. -/
def GetOptionInfoV6Response.xxx_ToOp (resp : Option GetOptionInfoV6Response) (_ctx : Ctx) : Operation :=
  Operation.dhcpsrv2_GetOptionInfoV6 resp

/-- Go: `resp.xxx_ToOp(ctx)` on a (possibly nil) `*EnumOptionsV6Response`,
converted to the `dcerpc.Operation` interface by the `return` statement; the
interface value wrapping the typed pointer is never the nil interface. -/
def EnumOptionsV6Response.xxx_ToOp (resp : Option EnumOptionsV6Response) (_ctx : Ctx) : Operation :=
  Operation.dhcpsrv2_EnumOptionsV6 resp

/-- Go: `resp.xxx_ToOp(ctx)` on a (possibly nil) `*RemoveOptionV6Response`,
converted to the `dcerpc.Operation` interface by the `return` statement; the
interface value wrapping the typed pointer is never the nil interface. -/
def RemoveOptionV6Response.xxx_ToOp (resp : Option RemoveOptionV6Response) (_ctx : Ctx) : Operation :=
  Operation.dhcpsrv2_RemoveOptionV6 resp

/-- Go: `resp.xxx_ToOp(ctx)` on a (possibly nil) `*SetOptionValueV6Response`,
converted to the `dcerpc.Operation` interface by the `return` statement; the
interface value wrapping the typed pointer is never the nil interface. -/
def SetOptionValueV6Response.xxx_ToOp (resp : Option SetOptionValueV6Response) (_ctx : Ctx) : Operation :=
  Operation.dhcpsrv2_SetOptionValueV6 resp

/-- Go: `resp.xxx_ToOp(ctx)` on a (possibly nil) `*EnumOptionValuesV6Response`,
converted to the `dcerpc.Operation` interface by the `return` statement; the
interface value wrapping the typed pointer is never the nil interface. -/
def EnumOptionValuesV6Response.xxx_ToOp (resp : Option EnumOptionValuesV6Response) (_ctx : Ctx) : Operation :=
  Operation.dhcpsrv2_EnumOptionValuesV6 resp

/-- Go: `resp.xxx_ToOp(ctx)` on a (possibly nil) `*RemoveOptionValueV6Response`,
converted to the `dcerpc.Operation` interface by the `return` statement; the
interface value wrapping the typed pointer is never the nil interface. -/
def RemoveOptionValueV6Response.xxx_ToOp (resp : Option RemoveOptionValueV6Response) (_ctx : Ctx) : Operation :=
  Operation.dhcpsrv2_RemoveOptionValueV6 resp

/-- Go: `resp.xxx_ToOp(ctx)` on a (possibly nil) `*GetAllOptionsV6Response`,
converted to the `dcerpc.Operation` interface by the `return` statement; the
interface value wrapping the typed pointer is never the nil interface. -/
def GetAllOptionsV6Response.xxx_ToOp (resp : Option GetAllOptionsV6Response) (_ctx : Ctx) : Operation :=
  Operation.dhcpsrv2_GetAllOptionsV6 resp

/-- Go: `resp.xxx_ToOp(ctx)` on a (possibly nil) `*GetAllOptionValuesV6Response`,
converted to the `dcerpc.Operation` interface by the `return` statement; the
interface value wrapping the typed pointer is never the nil interface. -/
def GetAllOptionValuesV6Response.xxx_ToOp (resp : Option GetAllOptionValuesV6Response) (_ctx : Ctx) : Operation :=
  Operation.dhcpsrv2_GetAllOptionValuesV6 resp

/-- Go: `resp.xxx_ToOp(ctx)` on a (possibly nil) `*CreateSubnetV6Response`,
converted to the `dcerpc.Operation` interface by the `return` statement; the
interface value wrapping the typed pointer is never the nil interface. -/
def CreateSubnetV6Response.xxx_ToOp (resp : Option CreateSubnetV6Response) (_ctx : Ctx) : Operation :=
  Operation.dhcpsrv2_CreateSubnetV6 resp

/-- Go: `resp.xxx_ToOp(ctx)` on a (possibly nil) `*EnumSubnetsV6Response`,
converted to the `dcerpc.Operation` interface by the `return` statement; the
interface value wrapping the typed pointer is never the nil interface. -/
def EnumSubnetsV6Response.xxx_ToOp (resp : Option EnumSubnetsV6Response) (_ctx : Ctx) : Operation :=
  Operation.dhcpsrv2_EnumSubnetsV6 resp

/-- Go: `resp.xxx_ToOp(ctx)` on a (possibly nil) `*AddSubnetElementV6Response`,
converted to the `dcerpc.Operation` interface by the `return` statement; the
interface value wrapping the typed pointer is never the nil interface. -/
def AddSubnetElementV6Response.xxx_ToOp (resp : Option AddSubnetElementV6Response) (_ctx : Ctx) : Operation :=
  Operation.dhcpsrv2_AddSubnetElementV6 resp

/-- Go: `resp.xxx_ToOp(ctx)` on a (possibly nil) `*EnumSubnetElementsV6Response`,
converted to the `dcerpc.Operation` interface by the `return` statement; the
interface value wrapping the typed pointer is never the nil interface. -/
def EnumSubnetElementsV6Response.xxx_ToOp (resp : Option EnumSubnetElementsV6Response) (_ctx : Ctx) : Operation :=
  Operation.dhcpsrv2_EnumSubnetElementsV6 resp

/-- Go: `resp.xxx_ToOp(ctx)` on a (possibly nil) `*RemoveSubnetElementV6Response`,
converted to the `dcerpc.Operation` interface by the `return` statement; the
interface value wrapping the typed pointer is never the nil interface. -/
def RemoveSubnetElementV6Response.xxx_ToOp (resp : Option RemoveSubnetElementV6Response) (_ctx : Ctx) : Operation :=
  Operation.dhcpsrv2_RemoveSubnetElementV6 resp

/-- Go: `resp.xxx_ToOp(ctx)` on a (possibly nil) `*DeleteSubnetV6Response`,
converted to the `dcerpc.Operation` interface by the `return` statement; the
interface value wrapping the typed pointer is never the nil interface. -/
def DeleteSubnetV6Response.xxx_ToOp (resp : Option DeleteSubnetV6Response) (_ctx : Ctx) : Operation :=
  Operation.dhcpsrv2_DeleteSubnetV6 resp

/-- Go: `resp.xxx_ToOp(ctx)` on a (possibly nil) `*GetSubnetInfoV6Response`,
converted to the `dcerpc.Operation` interface by the `return` statement; the
interface value wrapping the typed pointer is never the nil interface. -/
def GetSubnetInfoV6Response.xxx_ToOp (resp : Option GetSubnetInfoV6Response) (_ctx : Ctx) : Operation :=
  Operation.dhcpsrv2_GetSubnetInfoV6 resp

/-- Go: `resp.xxx_ToOp(ctx)` on a (possibly nil) `*EnumSubnetClientsV6Response`,
converted to the `dcerpc.Operation` interface by the `return` statement; the
interface value wrapping the typed pointer is never the nil interface. -/
def EnumSubnetClientsV6Response.xxx_ToOp (resp : Option EnumSubnetClientsV6Response) (_ctx : Ctx) : Operation :=
  Operation.dhcpsrv2_EnumSubnetClientsV6 resp

/-- Go: `resp.xxx_ToOp(ctx)` on a (possibly nil) `*ServerSetConfigV6Response`,
converted to the `dcerpc.Operation` interface by the `return` statement; the
interface value wrapping the typed pointer is never the nil interface. -/
def ServerSetConfigV6Response.xxx_ToOp (resp : Option ServerSetConfigV6Response) (_ctx : Ctx) : Operation :=
  Operation.dhcpsrv2_ServerSetConfigV6 resp

/-- Go: `resp.xxx_ToOp(ctx)` on a (possibly nil) `*ServerGetConfigV6Response`,
converted to the `dcerpc.Operation` interface by the `return` statement; the
interface value wrapping the typed pointer is never the nil interface. -/
def ServerGetConfigV6Response.xxx_ToOp (resp : Option ServerGetConfigV6Response) (_ctx : Ctx) : Operation :=
  Operation.dhcpsrv2_ServerGetConfigV6 resp

/-- Go: `resp.xxx_ToOp(ctx)` on a (possibly nil) `*SetSubnetInfoV6Response`,
converted to the `dcerpc.Operation` interface by the `return` statement; the
interface value wrapping the typed pointer is never the nil interface. -/
def SetSubnetInfoV6Response.xxx_ToOp (resp : Option SetSubnetInfoV6Response) (_ctx : Ctx) : Operation :=
  Operation.dhcpsrv2_SetSubnetInfoV6 resp

/-- Go: `resp.xxx_ToOp(ctx)` on a (possibly nil) `*GetMIBInfoV6Response`,
converted to the `dcerpc.Operation` interface by the `return` statement; the
interface value wrapping the typed pointer is never the nil interface. -/
def GetMIBInfoV6Response.xxx_ToOp (resp : Option GetMIBInfoV6Response) (_ctx : Ctx) : Operation :=
  Operation.dhcpsrv2_GetMIBInfoV6 resp

/-- Go: `resp.xxx_ToOp(ctx)` on a (possibly nil) `*GetServerBindingInfoV6Response`,
converted to the `dcerpc.Operation` interface by the `return` statement; the
interface value wrapping the typed pointer is never the nil interface. -/
def GetServerBindingInfoV6Response.xxx_ToOp (resp : Option GetServerBindingInfoV6Response) (_ctx : Ctx) : Operation :=
  Operation.dhcpsrv2_GetServerBindingInfoV6 resp

/-- Go: `resp.xxx_ToOp(ctx)` on a (possibly nil) `*SetServerBindingInfoV6Response`,
converted to the `dcerpc.Operation` interface by the `return` statement; the
interface value wrapping the typed pointer is never the nil interface. -/
def SetServerBindingInfoV6Response.xxx_ToOp (resp : Option SetServerBindingInfoV6Response) (_ctx : Ctx) : Operation :=
  Operation.dhcpsrv2_SetServerBindingInfoV6 resp

/-- Go: `resp.xxx_ToOp(ctx)` on a (possibly nil) `*SetClientInfoV6Response`,
converted to the `dcerpc.Operation` interface by the `return` statement; the
interface value wrapping the typed pointer is never the nil interface. -/
def SetClientInfoV6Response.xxx_ToOp (resp : Option SetClientInfoV6Response) (_ctx : Ctx) : Operation :=
  Operation.dhcpsrv2_SetClientInfoV6 resp

/-- Go: `resp.xxx_ToOp(ctx)` on a (possibly nil) `*GetClientInfoV6Response`,
converted to the `dcerpc.Operation` interface by the `return` statement; the
interface value wrapping the typed pointer is never the nil interface. -/
def GetClientInfoV6Response.xxx_ToOp (resp : Option GetClientInfoV6Response) (_ctx : Ctx) : Operation :=
  Operation.dhcpsrv2_GetClientInfoV6 resp

/-- Go: `resp.xxx_ToOp(ctx)` on a (possibly nil) `*DeleteClientInfoV6Response`,
converted to the `dcerpc.Operation` interface by the `return` statement; the
interface value wrapping the typed pointer is never the nil interface. -/
def DeleteClientInfoV6Response.xxx_ToOp (resp : Option DeleteClientInfoV6Response) (_ctx : Ctx) : Operation :=
  Operation.dhcpsrv2_DeleteClientInfoV6 resp

/-- Go: `resp.xxx_ToOp(ctx)` on a (possibly nil) `*CreateClassV6Response`,
converted to the `dcerpc.Operation` interface by the `return` statement; the
interface value wrapping the typed pointer is never the nil interface. -/
def CreateClassV6Response.xxx_ToOp (resp : Option CreateClassV6Response) (_ctx : Ctx) : Operation :=
  Operation.dhcpsrv2_CreateClassV6 resp

/-- Go: `resp.xxx_ToOp(ctx)` on a (possibly nil) `*ModifyClassV6Response`,
converted to the `dcerpc.Operation` interface by the `return` statement; the
interface value wrapping the typed pointer is never the nil interface. -/
def ModifyClassV6Response.xxx_ToOp (resp : Option ModifyClassV6Response) (_ctx : Ctx) : Operation :=
  Operation.dhcpsrv2_ModifyClassV6 resp

/-- Go: `resp.xxx_ToOp(ctx)` on a (possibly nil) `*DeleteClassV6Response`,
converted to the `dcerpc.Operation` interface by the `return` statement; the
interface value wrapping the typed pointer is never the nil interface. -/
def DeleteClassV6Response.xxx_ToOp (resp : Option DeleteClassV6Response) (_ctx : Ctx) : Operation :=
  Operation.dhcpsrv2_DeleteClassV6 resp

/-- Go: `resp.xxx_ToOp(ctx)` on a (possibly nil) `*EnumClassesV6Response`,
converted to the `dcerpc.Operation` interface by the `return` statement; the
interface value wrapping the typed pointer is never the nil interface. -/
def EnumClassesV6Response.xxx_ToOp (resp : Option EnumClassesV6Response) (_ctx : Ctx) : Operation :=
  Operation.dhcpsrv2_EnumClassesV6 resp

/-- Go: `resp.xxx_ToOp(ctx)` on a (possibly nil) `*GetOptionValueV6Response`,
converted to the `dcerpc.Operation` interface by the `return` statement; the
interface value wrapping the typed pointer is never the nil interface. -/
def GetOptionValueV6Response.xxx_ToOp (resp : Option GetOptionValueV6Response) (_ctx : Ctx) : Operation :=
  Operation.dhcpsrv2_GetOptionValueV6 resp

/-- Go: `resp.xxx_ToOp(ctx)` on a (possibly nil) `*SetSubnetDelayOfferResponse`,
converted to the `dcerpc.Operation` interface by the `return` statement; the
interface value wrapping the typed pointer is never the nil interface. -/
def SetSubnetDelayOfferResponse.xxx_ToOp (resp : Option SetSubnetDelayOfferResponse) (_ctx : Ctx) : Operation :=
  Operation.dhcpsrv2_SetSubnetDelayOffer resp

/-- Go: `resp.xxx_ToOp(ctx)` on a (possibly nil) `*GetSubnetDelayOfferResponse`,
converted to the `dcerpc.Operation` interface by the `return` statement; the
interface value wrapping the typed pointer is never the nil interface. -/
def GetSubnetDelayOfferResponse.xxx_ToOp (resp : Option GetSubnetDelayOfferResponse) (_ctx : Ctx) : Operation :=
  Operation.dhcpsrv2_GetSubnetDelayOffer resp

/-- Go: `resp.xxx_ToOp(ctx)` on a (possibly nil) `*GetMIBInfoV5Response`,
converted to the `dcerpc.Operation` interface by the `return` statement; the
interface value wrapping the typed pointer is never the nil interface. -/
def GetMIBInfoV5Response.xxx_ToOp (resp : Option GetMIBInfoV5Response) (_ctx : Ctx) : Operation :=
  Operation.dhcpsrv2_GetMIBInfoV5 resp

/-- Go: `resp.xxx_ToOp(ctx)` on a (possibly nil) `*AddFilterV4Response`,
converted to the `dcerpc.Operation` interface by the `return` statement; the
interface value wrapping the typed pointer is never the nil interface. -/
def AddFilterV4Response.xxx_ToOp (resp : Option AddFilterV4Response) (_ctx : Ctx) : Operation :=
  Operation.dhcpsrv2_AddFilterV4 resp

/-- Go: `resp.xxx_ToOp(ctx)` on a (possibly nil) `*DeleteFilterV4Response`,
converted to the `dcerpc.Operation` interface by the `return` statement; the
interface value wrapping the typed pointer is never the nil interface. -/
def DeleteFilterV4Response.xxx_ToOp (resp : Option DeleteFilterV4Response) (_ctx : Ctx) : Operation :=
  Operation.dhcpsrv2_DeleteFilterV4 resp

/-- Go: `resp.xxx_ToOp(ctx)` on a (possibly nil) `*SetFilterV4Response`,
converted to the `dcerpc.Operation` interface by the `return` statement; the
interface value wrapping the typed pointer is never the nil interface. -/
def SetFilterV4Response.xxx_ToOp (resp : Option SetFilterV4Response) (_ctx : Ctx) : Operation :=
  Operation.dhcpsrv2_SetFilterV4 resp

/-- Go: `resp.xxx_ToOp(ctx)` on a (possibly nil) `*GetFilterV4Response`,
converted to the `dcerpc.Operation` interface by the `return` statement; the
interface value wrapping the typed pointer is never the nil interface. -/
def GetFilterV4Response.xxx_ToOp (resp : Option GetFilterV4Response) (_ctx : Ctx) : Operation :=
  Operation.dhcpsrv2_GetFilterV4 resp

/-- Go: `resp.xxx_ToOp(ctx)` on a (possibly nil) `*EnumFilterV4Response`,
converted to the `dcerpc.Operation` interface by the `return` statement; the
interface value wrapping the typed pointer is never the nil interface. -/
def EnumFilterV4Response.xxx_ToOp (resp : Option EnumFilterV4Response) (_ctx : Ctx) : Operation :=
  Operation.dhcpsrv2_EnumFilterV4 resp

/-- Go: `resp.xxx_ToOp(ctx)` on a (possibly nil) `*SetDNSRegCredentialsV5Response`,
converted to the `dcerpc.Operation` interface by the `return` statement; the
interface value wrapping the typed pointer is never the nil interface. -/
def SetDNSRegCredentialsV5Response.xxx_ToOp (resp : Option SetDNSRegCredentialsV5Response) (_ctx : Ctx) : Operation :=
  Operation.dhcpsrv2_SetDNSRegCredentialsV5 resp

/-- Go: `resp.xxx_ToOp(ctx)` on a (possibly nil) `*EnumSubnetClientsFilterStatusInfoResponse`,
converted to the `dcerpc.Operation` interface by the `return` statement; the
interface value wrapping the typed pointer is never the nil interface. -/
def EnumSubnetClientsFilterStatusInfoResponse.xxx_ToOp (resp : Option EnumSubnetClientsFilterStatusInfoResponse) (_ctx : Ctx) : Operation :=
  Operation.dhcpsrv2_EnumSubnetClientsFilterStatusInfo resp

/-- Go: `resp.xxx_ToOp(ctx)` on a (possibly nil) `*FailoverCreateRelationshipV4Response`,
converted to the `dcerpc.Operation` interface by the `return` statement; the
interface value wrapping the typed pointer is never the nil interface. -/
def FailoverCreateRelationshipV4Response.xxx_ToOp (resp : Option FailoverCreateRelationshipV4Response) (_ctx : Ctx) : Operation :=
  Operation.dhcpsrv2_FailoverCreateRelationshipV4 resp

/-- Go: `resp.xxx_ToOp(ctx)` on a (possibly nil) `*FailoverSetRelationshipV4Response`,
converted to the `dcerpc.Operation` interface by the `return` statement; the
interface value wrapping the typed pointer is never the nil interface. -/
def FailoverSetRelationshipV4Response.xxx_ToOp (resp : Option FailoverSetRelationshipV4Response) (_ctx : Ctx) : Operation :=
  Operation.dhcpsrv2_FailoverSetRelationshipV4 resp

/-- Go: `resp.xxx_ToOp(ctx)` on a (possibly nil) `*FailoverDeleteRelationshipV4Response`,
converted to the `dcerpc.Operation` interface by the `return` statement; the
interface value wrapping the typed pointer is never the nil interface. -/
def FailoverDeleteRelationshipV4Response.xxx_ToOp (resp : Option FailoverDeleteRelationshipV4Response) (_ctx : Ctx) : Operation :=
  Operation.dhcpsrv2_FailoverDeleteRelationshipV4 resp

/-- Go: `resp.xxx_ToOp(ctx)` on a (possibly nil) `*FailoverGetRelationshipV4Response`,
converted to the `dcerpc.Operation` interface by the `return` statement; the
interface value wrapping the typed pointer is never the nil interface. -/
def FailoverGetRelationshipV4Response.xxx_ToOp (resp : Option FailoverGetRelationshipV4Response) (_ctx : Ctx) : Operation :=
  Operation.dhcpsrv2_FailoverGetRelationshipV4 resp

/-- Go: `resp.xxx_ToOp(ctx)` on a (possibly nil) `*FailoverEnumRelationshipV4Response`,
converted to the `dcerpc.Operation` interface by the `return` statement; the
interface value wrapping the typed pointer is never the nil interface. -/
def FailoverEnumRelationshipV4Response.xxx_ToOp (resp : Option FailoverEnumRelationshipV4Response) (_ctx : Ctx) : Operation :=
  Operation.dhcpsrv2_FailoverEnumRelationshipV4 resp

/-- Go: `resp.xxx_ToOp(ctx)` on a (possibly nil) `*FailoverAddScopeToRelationshipV4Response`,
converted to the `dcerpc.Operation` interface by the `return` statement; the
interface value wrapping the typed pointer is never the nil interface. -/
def FailoverAddScopeToRelationshipV4Response.xxx_ToOp (resp : Option FailoverAddScopeToRelationshipV4Response) (_ctx : Ctx) : Operation :=
  Operation.dhcpsrv2_FailoverAddScopeToRelationshipV4 resp

/-- Go: `resp.xxx_ToOp(ctx)` on a (possibly nil) `*FailoverDeleteScopeFromRelationshipV4Response`,
converted to the `dcerpc.Operation` interface by the `return` statement; the
interface value wrapping the typed pointer is never the nil interface. -/
def FailoverDeleteScopeFromRelationshipV4Response.xxx_ToOp (resp : Option FailoverDeleteScopeFromRelationshipV4Response) (_ctx : Ctx) : Operation :=
  Operation.dhcpsrv2_FailoverDeleteScopeFromRelationshipV4 resp

/-- Go: `resp.xxx_ToOp(ctx)` on a (possibly nil) `*FailoverGetScopeRelationshipV4Response`,
converted to the `dcerpc.Operation` interface by the `return` statement; the
interface value wrapping the typed pointer is never the nil interface. -/
def FailoverGetScopeRelationshipV4Response.xxx_ToOp (resp : Option FailoverGetScopeRelationshipV4Response) (_ctx : Ctx) : Operation :=
  Operation.dhcpsrv2_FailoverGetScopeRelationshipV4 resp

/-- Go: `resp.xxx_ToOp(ctx)` on a (possibly nil) `*FailoverGetScopeStatisticsV4Response`,
converted to the `dcerpc.Operation` interface by the `return` statement; the
interface value wrapping the typed pointer is never the nil interface. -/
def FailoverGetScopeStatisticsV4Response.xxx_ToOp (resp : Option FailoverGetScopeStatisticsV4Response) (_ctx : Ctx) : Operation :=
  Operation.dhcpsrv2_FailoverGetScopeStatisticsV4 resp

/-- Go: `resp.xxx_ToOp(ctx)` on a (possibly nil) `*FailoverGetClientInfoV4Response`,
converted to the `dcerpc.Operation` interface by the `return` statement; the
interface value wrapping the typed pointer is never the nil interface. -/
def FailoverGetClientInfoV4Response.xxx_ToOp (resp : Option FailoverGetClientInfoV4Response) (_ctx : Ctx) : Operation :=
  Operation.dhcpsrv2_FailoverGetClientInfoV4 resp

/-- Go: `resp.xxx_ToOp(ctx)` on a (possibly nil) `*FailoverGetSystemTimeV4Response`,
converted to the `dcerpc.Operation` interface by the `return` statement; the
interface value wrapping the typed pointer is never the nil interface. -/
def FailoverGetSystemTimeV4Response.xxx_ToOp (resp : Option FailoverGetSystemTimeV4Response) (_ctx : Ctx) : Operation :=
  Operation.dhcpsrv2_FailoverGetSystemTimeV4 resp

/-- Go: `resp.xxx_ToOp(ctx)` on a (possibly nil) `*FailoverTriggerAddrAllocationV4Response`,
converted to the `dcerpc.Operation` interface by the `return` statement; the
interface value wrapping the typed pointer is never the nil interface. -/
def FailoverTriggerAddrAllocationV4Response.xxx_ToOp (resp : Option FailoverTriggerAddrAllocationV4Response) (_ctx : Ctx) : Operation :=
  Operation.dhcpsrv2_FailoverTriggerAddrAllocationV4 resp

/-- Go: `resp.xxx_ToOp(ctx)` on a (possibly nil) `*SetOptionValueV4Response`,
converted to the `dcerpc.Operation` interface by the `return` statement; the
interface value wrapping the typed pointer is never the nil interface. -/
def SetOptionValueV4Response.xxx_ToOp (resp : Option SetOptionValueV4Response) (_ctx : Ctx) : Operation :=
  Operation.dhcpsrv2_SetOptionValueV4 resp

/-- Go: `resp.xxx_ToOp(ctx)` on a (possibly nil) `*SetOptionValuesV4Response`,
converted to the `dcerpc.Operation` interface by the `return` statement; the
interface value wrapping the typed pointer is never the nil interface. -/
def SetOptionValuesV4Response.xxx_ToOp (resp : Option SetOptionValuesV4Response) (_ctx : Ctx) : Operation :=
  Operation.dhcpsrv2_SetOptionValuesV4 resp

/-- Go: `resp.xxx_ToOp(ctx)` on a (possibly nil) `*GetOptionValueV4Response`,
converted to the `dcerpc.Operation` interface by the `return` statement; the
interface value wrapping the typed pointer is never the nil interface. -/
def GetOptionValueV4Response.xxx_ToOp (resp : Option GetOptionValueV4Response) (_ctx : Ctx) : Operation :=
  Operation.dhcpsrv2_GetOptionValueV4 resp

/-- Go: `resp.xxx_ToOp(ctx)` on a (possibly nil) `*RemoveOptionValueV4Response`,
converted to the `dcerpc.Operation` interface by the `return` statement; the
interface value wrapping the typed pointer is never the nil interface. -/
def RemoveOptionValueV4Response.xxx_ToOp (resp : Option RemoveOptionValueV4Response) (_ctx : Ctx) : Operation :=
  Operation.dhcpsrv2_RemoveOptionValueV4 resp

/-- Go: `resp.xxx_ToOp(ctx)` on a (possibly nil) `*GetAllOptionValuesV4Response`,
converted to the `dcerpc.Operation` interface by the `return` statement; the
interface value wrapping the typed pointer is never the nil interface. -/
def GetAllOptionValuesV4Response.xxx_ToOp (resp : Option GetAllOptionValuesV4Response) (_ctx : Ctx) : Operation :=
  Operation.dhcpsrv2_GetAllOptionValuesV4 resp

/-- Go: `resp.xxx_ToOp(ctx)` on a (possibly nil) `*QueryPolicyEnforcementV4Response`,
converted to the `dcerpc.Operation` interface by the `return` statement; the
interface value wrapping the typed pointer is never the nil interface. -/
def QueryPolicyEnforcementV4Response.xxx_ToOp (resp : Option QueryPolicyEnforcementV4Response) (_ctx : Ctx) : Operation :=
  Operation.dhcpsrv2_QueryPolicyEnforcementV4 resp

/-- Go: `resp.xxx_ToOp(ctx)` on a (possibly nil) `*SetPolicyEnforcementV4Response`,
converted to the `dcerpc.Operation` interface by the `return` statement; the
interface value wrapping the typed pointer is never the nil interface. -/
def SetPolicyEnforcementV4Response.xxx_ToOp (resp : Option SetPolicyEnforcementV4Response) (_ctx : Ctx) : Operation :=
  Operation.dhcpsrv2_SetPolicyEnforcementV4 resp

/-- Go: `resp.xxx_ToOp(ctx)` on a (possibly nil) `*CreatePolicyV4Response`,
converted to the `dcerpc.Operation` interface by the `return` statement; the
interface value wrapping the typed pointer is never the nil interface. -/
def CreatePolicyV4Response.xxx_ToOp (resp : Option CreatePolicyV4Response) (_ctx : Ctx) : Operation :=
  Operation.dhcpsrv2_CreatePolicyV4 resp

/-- Go: `resp.xxx_ToOp(ctx)` on a (possibly nil) `*GetPolicyV4Response`,
converted to the `dcerpc.Operation` interface by the `return` statement; the
interface value wrapping the typed pointer is never the nil interface. -/
def GetPolicyV4Response.xxx_ToOp (resp : Option GetPolicyV4Response) (_ctx : Ctx) : Operation :=
  Operation.dhcpsrv2_GetPolicyV4 resp

/-- Go: `resp.xxx_ToOp(ctx)` on a (possibly nil) `*SetPolicyV4Response`,
converted to the `dcerpc.Operation` interface by the `return` statement; the
interface value wrapping the typed pointer is never the nil interface. -/
def SetPolicyV4Response.xxx_ToOp (resp : Option SetPolicyV4Response) (_ctx : Ctx) : Operation :=
  Operation.dhcpsrv2_SetPolicyV4 resp

/-- Go: `resp.xxx_ToOp(ctx)` on a (possibly nil) `*DeletePolicyV4Response`,
converted to the `dcerpc.Operation` interface by the `return` statement; the
interface value wrapping the typed pointer is never the nil interface. -/
def DeletePolicyV4Response.xxx_ToOp (resp : Option DeletePolicyV4Response) (_ctx : Ctx) : Operation :=
  Operation.dhcpsrv2_DeletePolicyV4 resp

/-- Go: `resp.xxx_ToOp(ctx)` on a (possibly nil) `*EnumPoliciesV4Response`,
converted to the `dcerpc.Operation` interface by the `return` statement; the
interface value wrapping the typed pointer is never the nil interface. -/
def EnumPoliciesV4Response.xxx_ToOp (resp : Option EnumPoliciesV4Response) (_ctx : Ctx) : Operation :=
  Operation.dhcpsrv2_EnumPoliciesV4 resp

/-- Go: `resp.xxx_ToOp(ctx)` on a (possibly nil) `*AddPolicyRangeV4Response`,
converted to the `dcerpc.Operation` interface by the `return` statement; the
interface value wrapping the typed pointer is never the nil interface. -/
def AddPolicyRangeV4Response.xxx_ToOp (resp : Option AddPolicyRangeV4Response) (_ctx : Ctx) : Operation :=
  Operation.dhcpsrv2_AddPolicyRangeV4 resp

/-- Go: `resp.xxx_ToOp(ctx)` on a (possibly nil) `*RemovePolicyRangeV4Response`,
converted to the `dcerpc.Operation` interface by the `return` statement; the
interface value wrapping the typed pointer is never the nil interface. -/
def RemovePolicyRangeV4Response.xxx_ToOp (resp : Option RemovePolicyRangeV4Response) (_ctx : Ctx) : Operation :=
  Operation.dhcpsrv2_RemovePolicyRangeV4 resp

/-- Go: `resp.xxx_ToOp(ctx)` on a (possibly nil) `*EnumSubnetClientsV4Response`,
converted to the `dcerpc.Operation` interface by the `return` statement; the
interface value wrapping the typed pointer is never the nil interface. -/
def EnumSubnetClientsV4Response.xxx_ToOp (resp : Option EnumSubnetClientsV4Response) (_ctx : Ctx) : Operation :=
  Operation.dhcpsrv2_EnumSubnetClientsV4 resp

/-- Go: `resp.xxx_ToOp(ctx)` on a (possibly nil) `*SetStatelessStoreParamsV6Response`,
converted to the `dcerpc.Operation` interface by the `return` statement; the
interface value wrapping the typed pointer is never the nil interface. -/
def SetStatelessStoreParamsV6Response.xxx_ToOp (resp : Option SetStatelessStoreParamsV6Response) (_ctx : Ctx) : Operation :=
  Operation.dhcpsrv2_SetStatelessStoreParamsV6 resp

/-- Go: `resp.xxx_ToOp(ctx)` on a (possibly nil) `*GetStatelessStoreParamsV6Response`,
converted to the `dcerpc.Operation` interface by the `return` statement; the
interface value wrapping the typed pointer is never the nil interface. -/
def GetStatelessStoreParamsV6Response.xxx_ToOp (resp : Option GetStatelessStoreParamsV6Response) (_ctx : Ctx) : Operation :=
  Operation.dhcpsrv2_GetStatelessStoreParamsV6 resp

/-- Go: `resp.xxx_ToOp(ctx)` on a (possibly nil) `*GetStatelessStatisticsV6Response`,
converted to the `dcerpc.Operation` interface by the `return` statement; the
interface value wrapping the typed pointer is never the nil interface. -/
def GetStatelessStatisticsV6Response.xxx_ToOp (resp : Option GetStatelessStatisticsV6Response) (_ctx : Ctx) : Operation :=
  Operation.dhcpsrv2_GetStatelessStatisticsV6 resp

/-- Go: `resp.xxx_ToOp(ctx)` on a (possibly nil) `*EnumSubnetReservationsV4Response`,
converted to the `dcerpc.Operation` interface by the `return` statement; the
interface value wrapping the typed pointer is never the nil interface. -/
def EnumSubnetReservationsV4Response.xxx_ToOp (resp : Option EnumSubnetReservationsV4Response) (_ctx : Ctx) : Operation :=
  Operation.dhcpsrv2_EnumSubnetReservationsV4 resp

/-- Go: `resp.xxx_ToOp(ctx)` on a (possibly nil) `*GetFreeIPAddressV4Response`,
converted to the `dcerpc.Operation` interface by the `return` statement; the
interface value wrapping the typed pointer is never the nil interface. -/
def GetFreeIPAddressV4Response.xxx_ToOp (resp : Option GetFreeIPAddressV4Response) (_ctx : Ctx) : Operation :=
  Operation.dhcpsrv2_GetFreeIPAddressV4 resp

/-- Go: `resp.xxx_ToOp(ctx)` on a (possibly nil) `*GetFreeIPAddressV6Response`,
converted to the `dcerpc.Operation` interface by the `return` statement; the
interface value wrapping the typed pointer is never the nil interface. -/
def GetFreeIPAddressV6Response.xxx_ToOp (resp : Option GetFreeIPAddressV6Response) (_ctx : Ctx) : Operation :=
  Operation.dhcpsrv2_GetFreeIPAddressV6 resp

/-- Go: `resp.xxx_ToOp(ctx)` on a (possibly nil) `*CreateClientInfoV4Response`,
converted to the `dcerpc.Operation` interface by the `return` statement; the
interface value wrapping the typed pointer is never the nil interface. -/
def CreateClientInfoV4Response.xxx_ToOp (resp : Option CreateClientInfoV4Response) (_ctx : Ctx) : Operation :=
  Operation.dhcpsrv2_CreateClientInfoV4 resp

/-- Go: `resp.xxx_ToOp(ctx)` on a (possibly nil) `*GetClientInfoV4Response`,
converted to the `dcerpc.Operation` interface by the `return` statement; the
interface value wrapping the typed pointer is never the nil interface. -/
def GetClientInfoV4Response.xxx_ToOp (resp : Option GetClientInfoV4Response) (_ctx : Ctx) : Operation :=
  Operation.dhcpsrv2_GetClientInfoV4 resp

/-- Go: `resp.xxx_ToOp(ctx)` on a (possibly nil) `*CreateClientInfoV6Response`,
converted to the `dcerpc.Operation` interface by the `return` statement; the
interface value wrapping the typed pointer is never the nil interface. -/
def CreateClientInfoV6Response.xxx_ToOp (resp : Option CreateClientInfoV6Response) (_ctx : Ctx) : Operation :=
  Operation.dhcpsrv2_CreateClientInfoV6 resp

/-- Go: `resp.xxx_ToOp(ctx)` on a (possibly nil) `*FailoverGetAddressStatusV4Response`,
converted to the `dcerpc.Operation` interface by the `return` statement; the
interface value wrapping the typed pointer is never the nil interface. -/
def FailoverGetAddressStatusV4Response.xxx_ToOp (resp : Option FailoverGetAddressStatusV4Response) (_ctx : Ctx) : Operation :=
  Operation.dhcpsrv2_FailoverGetAddressStatusV4 resp

/-- Go: `resp.xxx_ToOp(ctx)` on a (possibly nil) `*CreatePolicyExV4Response`,
converted to the `dcerpc.Operation` interface by the `return` statement; the
interface value wrapping the typed pointer is never the nil interface. -/
def CreatePolicyExV4Response.xxx_ToOp (resp : Option CreatePolicyExV4Response) (_ctx : Ctx) : Operation :=
  Operation.dhcpsrv2_CreatePolicyExV4 resp

/-- Go: `resp.xxx_ToOp(ctx)` on a (possibly nil) `*GetPolicyExV4Response`,
converted to the `dcerpc.Operation` interface by the `return` statement; the
interface value wrapping the typed pointer is never the nil interface. -/
def GetPolicyExV4Response.xxx_ToOp (resp : Option GetPolicyExV4Response) (_ctx : Ctx) : Operation :=
  Operation.dhcpsrv2_GetPolicyExV4 resp

/-- Go: `resp.xxx_ToOp(ctx)` on a (possibly nil) `*SetPolicyExV4Response`,
converted to the `dcerpc.Operation` interface by the `return` statement; the
interface value wrapping the typed pointer is never the nil interface. -/
def SetPolicyExV4Response.xxx_ToOp (resp : Option SetPolicyExV4Response) (_ctx : Ctx) : Operation :=
  Operation.dhcpsrv2_SetPolicyExV4 resp

/-- Go: `resp.xxx_ToOp(ctx)` on a (possibly nil) `*EnumPoliciesExV4Response`,
converted to the `dcerpc.Operation` interface by the `return` statement; the
interface value wrapping the typed pointer is never the nil interface. -/
def EnumPoliciesExV4Response.xxx_ToOp (resp : Option EnumPoliciesExV4Response) (_ctx : Ctx) : Operation :=
  Operation.dhcpsrv2_EnumPoliciesExV4 resp

/-- Go: `resp.xxx_ToOp(ctx)` on a (possibly nil) `*EnumSubnetClientsExV4Response`,
converted to the `dcerpc.Operation` interface by the `return` statement; the
interface value wrapping the typed pointer is never the nil interface. -/
def EnumSubnetClientsExV4Response.xxx_ToOp (resp : Option EnumSubnetClientsExV4Response) (_ctx : Ctx) : Operation :=
  Operation.dhcpsrv2_EnumSubnetClientsExV4 resp

/-- Go: `resp.xxx_ToOp(ctx)` on a (possibly nil) `*CreateClientInfoExV4Response`,
converted to the `dcerpc.Operation` interface by the `return` statement; the
interface value wrapping the typed pointer is never the nil interface. -/
def CreateClientInfoExV4Response.xxx_ToOp (resp : Option CreateClientInfoExV4Response) (_ctx : Ctx) : Operation :=
  Operation.dhcpsrv2_CreateClientInfoExV4 resp

/-- Go: `resp.xxx_ToOp(ctx)` on a (possibly nil) `*GetClientInfoExV4Response`,
converted to the `dcerpc.Operation` interface by the `return` statement; the
interface value wrapping the typed pointer is never the nil interface. -/
def GetClientInfoExV4Response.xxx_ToOp (resp : Option GetClientInfoExV4Response) (_ctx : Ctx) : Operation :=
  Operation.dhcpsrv2_GetClientInfoExV4 resp

/-- The `Dhcpsrv2Server` Go interface: one function field per method, each
returning a (possibly nil) response pointer and a (possibly nil) error. -/
structure Dhcpsrv2Server where
  EnumSubnetClientsV5 : Ctx → EnumSubnetClientsV5Request → Option EnumSubnetClientsV5Response × Option GoError
  SetMScopeInfo : Ctx → SetMScopeInfoRequest → Option SetMScopeInfoResponse × Option GoError
  GetMScopeInfo : Ctx → GetMScopeInfoRequest → Option GetMScopeInfoResponse × Option GoError
  EnumMScopes : Ctx → EnumMScopesRequest → Option EnumMScopesResponse × Option GoError
  AddMScopeElement : Ctx → AddMScopeElementRequest → Option AddMScopeElementResponse × Option GoError
  EnumMScopeElements : Ctx → EnumMScopeElementsRequest → Option EnumMScopeElementsResponse × Option GoError
  RemoveMScopeElement : Ctx → RemoveMScopeElementRequest → Option RemoveMScopeElementResponse × Option GoError
  DeleteMScope : Ctx → DeleteMScopeRequest → Option DeleteMScopeResponse × Option GoError
  ScanMDatabase : Ctx → ScanMDatabaseRequest → Option ScanMDatabaseResponse × Option GoError
  CreateMClientInfo : Ctx → CreateMClientInfoRequest → Option CreateMClientInfoResponse × Option GoError
  SetMClientInfo : Ctx → SetMClientInfoRequest → Option SetMClientInfoResponse × Option GoError
  GetMClientInfo : Ctx → GetMClientInfoRequest → Option GetMClientInfoResponse × Option GoError
  DeleteMClientInfo : Ctx → DeleteMClientInfoRequest → Option DeleteMClientInfoResponse × Option GoError
  EnumMScopeClients : Ctx → EnumMScopeClientsRequest → Option EnumMScopeClientsResponse × Option GoError
  CreateOptionV5 : Ctx → CreateOptionV5Request → Option CreateOptionV5Response × Option GoError
  SetOptionInfoV5 : Ctx → SetOptionInfoV5Request → Option SetOptionInfoV5Response × Option GoError
  GetOptionInfoV5 : Ctx → GetOptionInfoV5Request → Option GetOptionInfoV5Response × Option GoError
  EnumOptionsV5 : Ctx → EnumOptionsV5Request → Option EnumOptionsV5Response × Option GoError
  RemoveOptionV5 : Ctx → RemoveOptionV5Request → Option RemoveOptionV5Response × Option GoError
  SetOptionValueV5 : Ctx → SetOptionValueV5Request → Option SetOptionValueV5Response × Option GoError
  SetOptionValuesV5 : Ctx → SetOptionValuesV5Request → Option SetOptionValuesV5Response × Option GoError
  GetOptionValueV5 : Ctx → GetOptionValueV5Request → Option GetOptionValueV5Response × Option GoError
  EnumOptionValuesV5 : Ctx → EnumOptionValuesV5Request → Option EnumOptionValuesV5Response × Option GoError
  RemoveOptionValueV5 : Ctx → RemoveOptionValueV5Request → Option RemoveOptionValueV5Response × Option GoError
  CreateClass : Ctx → CreateClassRequest → Option CreateClassResponse × Option GoError
  ModifyClass : Ctx → ModifyClassRequest → Option ModifyClassResponse × Option GoError
  DeleteClass : Ctx → DeleteClassRequest → Option DeleteClassResponse × Option GoError
  GetClassInfo : Ctx → GetClassInfoRequest → Option GetClassInfoResponse × Option GoError
  EnumClasses : Ctx → EnumClassesRequest → Option EnumClassesResponse × Option GoError
  GetAllOptions : Ctx → GetAllOptionsRequest → Option GetAllOptionsResponse × Option GoError
  GetAllOptionValues : Ctx → GetAllOptionValuesRequest → Option GetAllOptionValuesResponse × Option GoError
  GetMCastMIBInfo : Ctx → GetMCastMIBInfoRequest → Option GetMCastMIBInfoResponse × Option GoError
  AuditLogSetParams : Ctx → AuditLogSetParamsRequest → Option AuditLogSetParamsResponse × Option GoError
  AuditLogGetParams : Ctx → AuditLogGetParamsRequest → Option AuditLogGetParamsResponse × Option GoError
  ServerQueryAttribute : Ctx → ServerQueryAttributeRequest → Option ServerQueryAttributeResponse × Option GoError
  ServerQueryAttributes : Ctx → ServerQueryAttributesRequest → Option ServerQueryAttributesResponse × Option GoError
  ServerRedoAuthorization : Ctx → ServerRedoAuthorizationRequest → Option ServerRedoAuthorizationResponse × Option GoError
  AddSubnetElementV5 : Ctx → AddSubnetElementV5Request → Option AddSubnetElementV5Response × Option GoError
  EnumSubnetElementsV5 : Ctx → EnumSubnetElementsV5Request → Option EnumSubnetElementsV5Response × Option GoError
  RemoveSubnetElementV5 : Ctx → RemoveSubnetElementV5Request → Option RemoveSubnetElementV5Response × Option GoError
  GetServerBindingInfo : Ctx → GetServerBindingInfoRequest → Option GetServerBindingInfoResponse × Option GoError
  SetServerBindingInfo : Ctx → SetServerBindingInfoRequest → Option SetServerBindingInfoResponse × Option GoError
  QueryDNSRegCredentials : Ctx → QueryDNSRegCredentialsRequest → Option QueryDNSRegCredentialsResponse × Option GoError
  SetDNSRegCredentials : Ctx → SetDNSRegCredentialsRequest → Option SetDNSRegCredentialsResponse × Option GoError
  BackupDatabase : Ctx → BackupDatabaseRequest → Option BackupDatabaseResponse × Option GoError
  RestoreDatabase : Ctx → RestoreDatabaseRequest → Option RestoreDatabaseResponse × Option GoError
  GetServerSpecificStrings : Ctx → GetServerSpecificStringsRequest → Option GetServerSpecificStringsResponse × Option GoError
  CreateOptionV6 : Ctx → CreateOptionV6Request → Option CreateOptionV6Response × Option GoError
  SetOptionInfoV6 : Ctx → SetOptionInfoV6Request → Option SetOptionInfoV6Response × Option GoError
  GetOptionInfoV6 : Ctx → GetOptionInfoV6Request → Option GetOptionInfoV6Response × Option GoError
  EnumOptionsV6 : Ctx → EnumOptionsV6Request → Option EnumOptionsV6Response × Option GoError
  RemoveOptionV6 : Ctx → RemoveOptionV6Request → Option RemoveOptionV6Response × Option GoError
  SetOptionValueV6 : Ctx → SetOptionValueV6Request → Option SetOptionValueV6Response × Option GoError
  EnumOptionValuesV6 : Ctx → EnumOptionValuesV6Request → Option EnumOptionValuesV6Response × Option GoError
  RemoveOptionValueV6 : Ctx → RemoveOptionValueV6Request → Option RemoveOptionValueV6Response × Option GoError
  GetAllOptionsV6 : Ctx → GetAllOptionsV6Request → Option GetAllOptionsV6Response × Option GoError
  GetAllOptionValuesV6 : Ctx → GetAllOptionValuesV6Request → Option GetAllOptionValuesV6Response × Option GoError
  CreateSubnetV6 : Ctx → CreateSubnetV6Request → Option CreateSubnetV6Response × Option GoError
  EnumSubnetsV6 : Ctx → EnumSubnetsV6Request → Option EnumSubnetsV6Response × Option GoError
  AddSubnetElementV6 : Ctx → AddSubnetElementV6Request → Option AddSubnetElementV6Response × Option GoError
  EnumSubnetElementsV6 : Ctx → EnumSubnetElementsV6Request → Option EnumSubnetElementsV6Response × Option GoError
  RemoveSubnetElementV6 : Ctx → RemoveSubnetElementV6Request → Option RemoveSubnetElementV6Response × Option GoError
  DeleteSubnetV6 : Ctx → DeleteSubnetV6Request → Option DeleteSubnetV6Response × Option GoError
  GetSubnetInfoV6 : Ctx → GetSubnetInfoV6Request → Option GetSubnetInfoV6Response × Option GoError
  EnumSubnetClientsV6 : Ctx → EnumSubnetClientsV6Request → Option EnumSubnetClientsV6Response × Option GoError
  ServerSetConfigV6 : Ctx → ServerSetConfigV6Request → Option ServerSetConfigV6Response × Option GoError
  ServerGetConfigV6 : Ctx → ServerGetConfigV6Request → Option ServerGetConfigV6Response × Option GoError
  SetSubnetInfoV6 : Ctx → SetSubnetInfoV6Request → Option SetSubnetInfoV6Response × Option GoError
  GetMIBInfoV6 : Ctx → GetMIBInfoV6Request → Option GetMIBInfoV6Response × Option GoError
  GetServerBindingInfoV6 : Ctx → GetServerBindingInfoV6Request → Option GetServerBindingInfoV6Response × Option GoError
  SetServerBindingInfoV6 : Ctx → SetServerBindingInfoV6Request → Option SetServerBindingInfoV6Response × Option GoError
  SetClientInfoV6 : Ctx → SetClientInfoV6Request → Option SetClientInfoV6Response × Option GoError
  GetClientInfoV6 : Ctx → GetClientInfoV6Request → Option GetClientInfoV6Response × Option GoError
  DeleteClientInfoV6 : Ctx → DeleteClientInfoV6Request → Option DeleteClientInfoV6Response × Option GoError
  CreateClassV6 : Ctx → CreateClassV6Request → Option CreateClassV6Response × Option GoError
  ModifyClassV6 : Ctx → ModifyClassV6Request → Option ModifyClassV6Response × Option GoError
  DeleteClassV6 : Ctx → DeleteClassV6Request → Option DeleteClassV6Response × Option GoError
  EnumClassesV6 : Ctx → EnumClassesV6Request → Option EnumClassesV6Response × Option GoError
  GetOptionValueV6 : Ctx → GetOptionValueV6Request → Option GetOptionValueV6Response × Option GoError
  SetSubnetDelayOffer : Ctx → SetSubnetDelayOfferRequest → Option SetSubnetDelayOfferResponse × Option GoError
  GetSubnetDelayOffer : Ctx → GetSubnetDelayOfferRequest → Option GetSubnetDelayOfferResponse × Option GoError
  GetMIBInfoV5 : Ctx → GetMIBInfoV5Request → Option GetMIBInfoV5Response × Option GoError
  AddFilterV4 : Ctx → AddFilterV4Request → Option AddFilterV4Response × Option GoError
  DeleteFilterV4 : Ctx → DeleteFilterV4Request → Option DeleteFilterV4Response × Option GoError
  SetFilterV4 : Ctx → SetFilterV4Request → Option SetFilterV4Response × Option GoError
  GetFilterV4 : Ctx → GetFilterV4Request → Option GetFilterV4Response × Option GoError
  EnumFilterV4 : Ctx → EnumFilterV4Request → Option EnumFilterV4Response × Option GoError
  SetDNSRegCredentialsV5 : Ctx → SetDNSRegCredentialsV5Request → Option SetDNSRegCredentialsV5Response × Option GoError
  EnumSubnetClientsFilterStatusInfo : Ctx → EnumSubnetClientsFilterStatusInfoRequest → Option EnumSubnetClientsFilterStatusInfoResponse × Option GoError
  FailoverCreateRelationshipV4 : Ctx → FailoverCreateRelationshipV4Request → Option FailoverCreateRelationshipV4Response × Option GoError
  FailoverSetRelationshipV4 : Ctx → FailoverSetRelationshipV4Request → Option FailoverSetRelationshipV4Response × Option GoError
  FailoverDeleteRelationshipV4 : Ctx → FailoverDeleteRelationshipV4Request → Option FailoverDeleteRelationshipV4Response × Option GoError
  FailoverGetRelationshipV4 : Ctx → FailoverGetRelationshipV4Request → Option FailoverGetRelationshipV4Response × Option GoError
  FailoverEnumRelationshipV4 : Ctx → FailoverEnumRelationshipV4Request → Option FailoverEnumRelationshipV4Response × Option GoError
  FailoverAddScopeToRelationshipV4 : Ctx → FailoverAddScopeToRelationshipV4Request → Option FailoverAddScopeToRelationshipV4Response × Option GoError
  FailoverDeleteScopeFromRelationshipV4 : Ctx → FailoverDeleteScopeFromRelationshipV4Request → Option FailoverDeleteScopeFromRelationshipV4Response × Option GoError
  FailoverGetScopeRelationshipV4 : Ctx → FailoverGetScopeRelationshipV4Request → Option FailoverGetScopeRelationshipV4Response × Option GoError
  FailoverGetScopeStatisticsV4 : Ctx → FailoverGetScopeStatisticsV4Request → Option FailoverGetScopeStatisticsV4Response × Option GoError
  FailoverGetClientInfoV4 : Ctx → FailoverGetClientInfoV4Request → Option FailoverGetClientInfoV4Response × Option GoError
  FailoverGetSystemTimeV4 : Ctx → FailoverGetSystemTimeV4Request → Option FailoverGetSystemTimeV4Response × Option GoError
  FailoverTriggerAddrAllocationV4 : Ctx → FailoverTriggerAddrAllocationV4Request → Option FailoverTriggerAddrAllocationV4Response × Option GoError
  SetOptionValueV4 : Ctx → SetOptionValueV4Request → Option SetOptionValueV4Response × Option GoError
  SetOptionValuesV4 : Ctx → SetOptionValuesV4Request → Option SetOptionValuesV4Response × Option GoError
  GetOptionValueV4 : Ctx → GetOptionValueV4Request → Option GetOptionValueV4Response × Option GoError
  RemoveOptionValueV4 : Ctx → RemoveOptionValueV4Request → Option RemoveOptionValueV4Response × Option GoError
  GetAllOptionValuesV4 : Ctx → GetAllOptionValuesV4Request → Option GetAllOptionValuesV4Response × Option GoError
  QueryPolicyEnforcementV4 : Ctx → QueryPolicyEnforcementV4Request → Option QueryPolicyEnforcementV4Response × Option GoError
  SetPolicyEnforcementV4 : Ctx → SetPolicyEnforcementV4Request → Option SetPolicyEnforcementV4Response × Option GoError
  CreatePolicyV4 : Ctx → CreatePolicyV4Request → Option CreatePolicyV4Response × Option GoError
  GetPolicyV4 : Ctx → GetPolicyV4Request → Option GetPolicyV4Response × Option GoError
  SetPolicyV4 : Ctx → SetPolicyV4Request → Option SetPolicyV4Response × Option GoError
  DeletePolicyV4 : Ctx → DeletePolicyV4Request → Option DeletePolicyV4Response × Option GoError
  EnumPoliciesV4 : Ctx → EnumPoliciesV4Request → Option EnumPoliciesV4Response × Option GoError
  AddPolicyRangeV4 : Ctx → AddPolicyRangeV4Request → Option AddPolicyRangeV4Response × Option GoError
  RemovePolicyRangeV4 : Ctx → RemovePolicyRangeV4Request → Option RemovePolicyRangeV4Response × Option GoError
  EnumSubnetClientsV4 : Ctx → EnumSubnetClientsV4Request → Option EnumSubnetClientsV4Response × Option GoError
  SetStatelessStoreParamsV6 : Ctx → SetStatelessStoreParamsV6Request → Option SetStatelessStoreParamsV6Response × Option GoError
  GetStatelessStoreParamsV6 : Ctx → GetStatelessStoreParamsV6Request → Option GetStatelessStoreParamsV6Response × Option GoError
  GetStatelessStatisticsV6 : Ctx → GetStatelessStatisticsV6Request → Option GetStatelessStatisticsV6Response × Option GoError
  EnumSubnetReservationsV4 : Ctx → EnumSubnetReservationsV4Request → Option EnumSubnetReservationsV4Response × Option GoError
  GetFreeIPAddressV4 : Ctx → GetFreeIPAddressV4Request → Option GetFreeIPAddressV4Response × Option GoError
  GetFreeIPAddressV6 : Ctx → GetFreeIPAddressV6Request → Option GetFreeIPAddressV6Response × Option GoError
  CreateClientInfoV4 : Ctx → CreateClientInfoV4Request → Option CreateClientInfoV4Response × Option GoError
  GetClientInfoV4 : Ctx → GetClientInfoV4Request → Option GetClientInfoV4Response × Option GoError
  CreateClientInfoV6 : Ctx → CreateClientInfoV6Request → Option CreateClientInfoV6Response × Option GoError
  FailoverGetAddressStatusV4 : Ctx → FailoverGetAddressStatusV4Request → Option FailoverGetAddressStatusV4Response × Option GoError
  CreatePolicyExV4 : Ctx → CreatePolicyExV4Request → Option CreatePolicyExV4Response × Option GoError
  GetPolicyExV4 : Ctx → GetPolicyExV4Request → Option GetPolicyExV4Response × Option GoError
  SetPolicyExV4 : Ctx → SetPolicyExV4Request → Option SetPolicyExV4Response × Option GoError
  EnumPoliciesExV4 : Ctx → EnumPoliciesExV4Request → Option EnumPoliciesExV4Response × Option GoError
  EnumSubnetClientsExV4 : Ctx → EnumSubnetClientsExV4Request → Option EnumSubnetClientsExV4Response × Option GoError
  CreateClientInfoExV4 : Ctx → CreateClientInfoExV4Request → Option CreateClientInfoExV4Response × Option GoError
  GetClientInfoExV4 : Ctx → GetClientInfoExV4Request → Option GetClientInfoExV4Response × Option GoError

/-- The `UnmarshalNDR` methods of this interface's request types; they are
not part of the excerpt, so the dispatch function is parametrised over them. -/
structure Dhcpsrv2Codecs where
  unmarshalEnumSubnetClientsV5Request : Ctx → NdrReader → Except GoError EnumSubnetClientsV5Request
  unmarshalSetMScopeInfoRequest : Ctx → NdrReader → Except GoError SetMScopeInfoRequest
  unmarshalGetMScopeInfoRequest : Ctx → NdrReader → Except GoError GetMScopeInfoRequest
  unmarshalEnumMScopesRequest : Ctx → NdrReader → Except GoError EnumMScopesRequest
  unmarshalAddMScopeElementRequest : Ctx → NdrReader → Except GoError AddMScopeElementRequest
  unmarshalEnumMScopeElementsRequest : Ctx → NdrReader → Except GoError EnumMScopeElementsRequest
  unmarshalRemoveMScopeElementRequest : Ctx → NdrReader → Except GoError RemoveMScopeElementRequest
  unmarshalDeleteMScopeRequest : Ctx → NdrReader → Except GoError DeleteMScopeRequest
  unmarshalScanMDatabaseRequest : Ctx → NdrReader → Except GoError ScanMDatabaseRequest
  unmarshalCreateMClientInfoRequest : Ctx → NdrReader → Except GoError CreateMClientInfoRequest
  unmarshalSetMClientInfoRequest : Ctx → NdrReader → Except GoError SetMClientInfoRequest
  unmarshalGetMClientInfoRequest : Ctx → NdrReader → Except GoError GetMClientInfoRequest
  unmarshalDeleteMClientInfoRequest : Ctx → NdrReader → Except GoError DeleteMClientInfoRequest
  unmarshalEnumMScopeClientsRequest : Ctx → NdrReader → Except GoError EnumMScopeClientsRequest
  unmarshalCreateOptionV5Request : Ctx → NdrReader → Except GoError CreateOptionV5Request
  unmarshalSetOptionInfoV5Request : Ctx → NdrReader → Except GoError SetOptionInfoV5Request
  unmarshalGetOptionInfoV5Request : Ctx → NdrReader → Except GoError GetOptionInfoV5Request
  unmarshalEnumOptionsV5Request : Ctx → NdrReader → Except GoError EnumOptionsV5Request
  unmarshalRemoveOptionV5Request : Ctx → NdrReader → Except GoError RemoveOptionV5Request
  unmarshalSetOptionValueV5Request : Ctx → NdrReader → Except GoError SetOptionValueV5Request
  unmarshalSetOptionValuesV5Request : Ctx → NdrReader → Except GoError SetOptionValuesV5Request
  unmarshalGetOptionValueV5Request : Ctx → NdrReader → Except GoError GetOptionValueV5Request
  unmarshalEnumOptionValuesV5Request : Ctx → NdrReader → Except GoError EnumOptionValuesV5Request
  unmarshalRemoveOptionValueV5Request : Ctx → NdrReader → Except GoError RemoveOptionValueV5Request
  unmarshalCreateClassRequest : Ctx → NdrReader → Except GoError CreateClassRequest
  unmarshalModifyClassRequest : Ctx → NdrReader → Except GoError ModifyClassRequest
  unmarshalDeleteClassRequest : Ctx → NdrReader → Except GoError DeleteClassRequest
  unmarshalGetClassInfoRequest : Ctx → NdrReader → Except GoError GetClassInfoRequest
  unmarshalEnumClassesRequest : Ctx → NdrReader → Except GoError EnumClassesRequest
  unmarshalGetAllOptionsRequest : Ctx → NdrReader → Except GoError GetAllOptionsRequest
  unmarshalGetAllOptionValuesRequest : Ctx → NdrReader → Except GoError GetAllOptionValuesRequest
  unmarshalGetMCastMIBInfoRequest : Ctx → NdrReader → Except GoError GetMCastMIBInfoRequest
  unmarshalAuditLogSetParamsRequest : Ctx → NdrReader → Except GoError AuditLogSetParamsRequest
  unmarshalAuditLogGetParamsRequest : Ctx → NdrReader → Except GoError AuditLogGetParamsRequest
  unmarshalServerQueryAttributeRequest : Ctx → NdrReader → Except GoError ServerQueryAttributeRequest
  unmarshalServerQueryAttributesRequest : Ctx → NdrReader → Except GoError ServerQueryAttributesRequest
  unmarshalServerRedoAuthorizationRequest : Ctx → NdrReader → Except GoError ServerRedoAuthorizationRequest
  unmarshalAddSubnetElementV5Request : Ctx → NdrReader → Except GoError AddSubnetElementV5Request
  unmarshalEnumSubnetElementsV5Request : Ctx → NdrReader → Except GoError EnumSubnetElementsV5Request
  unmarshalRemoveSubnetElementV5Request : Ctx → NdrReader → Except GoError RemoveSubnetElementV5Request
  unmarshalGetServerBindingInfoRequest : Ctx → NdrReader → Except GoError GetServerBindingInfoRequest
  unmarshalSetServerBindingInfoRequest : Ctx → NdrReader → Except GoError SetServerBindingInfoRequest
  unmarshalQueryDNSRegCredentialsRequest : Ctx → NdrReader → Except GoError QueryDNSRegCredentialsRequest
  unmarshalSetDNSRegCredentialsRequest : Ctx → NdrReader → Except GoError SetDNSRegCredentialsRequest
  unmarshalBackupDatabaseRequest : Ctx → NdrReader → Except GoError BackupDatabaseRequest
  unmarshalRestoreDatabaseRequest : Ctx → NdrReader → Except GoError RestoreDatabaseRequest
  unmarshalGetServerSpecificStringsRequest : Ctx → NdrReader → Except GoError GetServerSpecificStringsRequest
  unmarshalCreateOptionV6Request : Ctx → NdrReader → Except GoError CreateOptionV6Request
  unmarshalSetOptionInfoV6Request : Ctx → NdrReader → Except GoError SetOptionInfoV6Request
  unmarshalGetOptionInfoV6Request : Ctx → NdrReader → Except GoError GetOptionInfoV6Request
  unmarshalEnumOptionsV6Request : Ctx → NdrReader → Except GoError EnumOptionsV6Request
  unmarshalRemoveOptionV6Request : Ctx → NdrReader → Except GoError RemoveOptionV6Request
  unmarshalSetOptionValueV6Request : Ctx → NdrReader → Except GoError SetOptionValueV6Request
  unmarshalEnumOptionValuesV6Request : Ctx → NdrReader → Except GoError EnumOptionValuesV6Request
  unmarshalRemoveOptionValueV6Request : Ctx → NdrReader → Except GoError RemoveOptionValueV6Request
  unmarshalGetAllOptionsV6Request : Ctx → NdrReader → Except GoError GetAllOptionsV6Request
  unmarshalGetAllOptionValuesV6Request : Ctx → NdrReader → Except GoError GetAllOptionValuesV6Request
  unmarshalCreateSubnetV6Request : Ctx → NdrReader → Except GoError CreateSubnetV6Request
  unmarshalEnumSubnetsV6Request : Ctx → NdrReader → Except GoError EnumSubnetsV6Request
  unmarshalAddSubnetElementV6Request : Ctx → NdrReader → Except GoError AddSubnetElementV6Request
  unmarshalEnumSubnetElementsV6Request : Ctx → NdrReader → Except GoError EnumSubnetElementsV6Request
  unmarshalRemoveSubnetElementV6Request : Ctx → NdrReader → Except GoError RemoveSubnetElementV6Request
  unmarshalDeleteSubnetV6Request : Ctx → NdrReader → Except GoError DeleteSubnetV6Request
  unmarshalGetSubnetInfoV6Request : Ctx → NdrReader → Except GoError GetSubnetInfoV6Request
  unmarshalEnumSubnetClientsV6Request : Ctx → NdrReader → Except GoError EnumSubnetClientsV6Request
  unmarshalServerSetConfigV6Request : Ctx → NdrReader → Except GoError ServerSetConfigV6Request
  unmarshalServerGetConfigV6Request : Ctx → NdrReader → Except GoError ServerGetConfigV6Request
  unmarshalSetSubnetInfoV6Request : Ctx → NdrReader → Except GoError SetSubnetInfoV6Request
  unmarshalGetMIBInfoV6Request : Ctx → NdrReader → Except GoError GetMIBInfoV6Request
  unmarshalGetServerBindingInfoV6Request : Ctx → NdrReader → Except GoError GetServerBindingInfoV6Request
  unmarshalSetServerBindingInfoV6Request : Ctx → NdrReader → Except GoError SetServerBindingInfoV6Request
  unmarshalSetClientInfoV6Request : Ctx → NdrReader → Except GoError SetClientInfoV6Request
  unmarshalGetClientInfoV6Request : Ctx → NdrReader → Except GoError GetClientInfoV6Request
  unmarshalDeleteClientInfoV6Request : Ctx → NdrReader → Except GoError DeleteClientInfoV6Request
  unmarshalCreateClassV6Request : Ctx → NdrReader → Except GoError CreateClassV6Request
  unmarshalModifyClassV6Request : Ctx → NdrReader → Except GoError ModifyClassV6Request
  unmarshalDeleteClassV6Request : Ctx → NdrReader → Except GoError DeleteClassV6Request
  unmarshalEnumClassesV6Request : Ctx → NdrReader → Except GoError EnumClassesV6Request
  unmarshalGetOptionValueV6Request : Ctx → NdrReader → Except GoError GetOptionValueV6Request
  unmarshalSetSubnetDelayOfferRequest : Ctx → NdrReader → Except GoError SetSubnetDelayOfferRequest
  unmarshalGetSubnetDelayOfferRequest : Ctx → NdrReader → Except GoError GetSubnetDelayOfferRequest
  unmarshalGetMIBInfoV5Request : Ctx → NdrReader → Except GoError GetMIBInfoV5Request
  unmarshalAddFilterV4Request : Ctx → NdrReader → Except GoError AddFilterV4Request
  unmarshalDeleteFilterV4Request : Ctx → NdrReader → Except GoError DeleteFilterV4Request
  unmarshalSetFilterV4Request : Ctx → NdrReader → Except GoError SetFilterV4Request
  unmarshalGetFilterV4Request : Ctx → NdrReader → Except GoError GetFilterV4Request
  unmarshalEnumFilterV4Request : Ctx → NdrReader → Except GoError EnumFilterV4Request
  unmarshalSetDNSRegCredentialsV5Request : Ctx → NdrReader → Except GoError SetDNSRegCredentialsV5Request
  unmarshalEnumSubnetClientsFilterStatusInfoRequest : Ctx → NdrReader → Except GoError EnumSubnetClientsFilterStatusInfoRequest
  unmarshalFailoverCreateRelationshipV4Request : Ctx → NdrReader → Except GoError FailoverCreateRelationshipV4Request
  unmarshalFailoverSetRelationshipV4Request : Ctx → NdrReader → Except GoError FailoverSetRelationshipV4Request
  unmarshalFailoverDeleteRelationshipV4Request : Ctx → NdrReader → Except GoError FailoverDeleteRelationshipV4Request
  unmarshalFailoverGetRelationshipV4Request : Ctx → NdrReader → Except GoError FailoverGetRelationshipV4Request
  unmarshalFailoverEnumRelationshipV4Request : Ctx → NdrReader → Except GoError FailoverEnumRelationshipV4Request
  unmarshalFailoverAddScopeToRelationshipV4Request : Ctx → NdrReader → Except GoError FailoverAddScopeToRelationshipV4Request
  unmarshalFailoverDeleteScopeFromRelationshipV4Request : Ctx → NdrReader → Except GoError FailoverDeleteScopeFromRelationshipV4Request
  unmarshalFailoverGetScopeRelationshipV4Request : Ctx → NdrReader → Except GoError FailoverGetScopeRelationshipV4Request
  unmarshalFailoverGetScopeStatisticsV4Request : Ctx → NdrReader → Except GoError FailoverGetScopeStatisticsV4Request
  unmarshalFailoverGetClientInfoV4Request : Ctx → NdrReader → Except GoError FailoverGetClientInfoV4Request
  unmarshalFailoverGetSystemTimeV4Request : Ctx → NdrReader → Except GoError FailoverGetSystemTimeV4Request
  unmarshalFailoverTriggerAddrAllocationV4Request : Ctx → NdrReader → Except GoError FailoverTriggerAddrAllocationV4Request
  unmarshalSetOptionValueV4Request : Ctx → NdrReader → Except GoError SetOptionValueV4Request
  unmarshalSetOptionValuesV4Request : Ctx → NdrReader → Except GoError SetOptionValuesV4Request
  unmarshalGetOptionValueV4Request : Ctx → NdrReader → Except GoError GetOptionValueV4Request
  unmarshalRemoveOptionValueV4Request : Ctx → NdrReader → Except GoError RemoveOptionValueV4Request
  unmarshalGetAllOptionValuesV4Request : Ctx → NdrReader → Except GoError GetAllOptionValuesV4Request
  unmarshalQueryPolicyEnforcementV4Request : Ctx → NdrReader → Except GoError QueryPolicyEnforcementV4Request
  unmarshalSetPolicyEnforcementV4Request : Ctx → NdrReader → Except GoError SetPolicyEnforcementV4Request
  unmarshalCreatePolicyV4Request : Ctx → NdrReader → Except GoError CreatePolicyV4Request
  unmarshalGetPolicyV4Request : Ctx → NdrReader → Except GoError GetPolicyV4Request
  unmarshalSetPolicyV4Request : Ctx → NdrReader → Except GoError SetPolicyV4Request
  unmarshalDeletePolicyV4Request : Ctx → NdrReader → Except GoError DeletePolicyV4Request
  unmarshalEnumPoliciesV4Request : Ctx → NdrReader → Except GoError EnumPoliciesV4Request
  unmarshalAddPolicyRangeV4Request : Ctx → NdrReader → Except GoError AddPolicyRangeV4Request
  unmarshalRemovePolicyRangeV4Request : Ctx → NdrReader → Except GoError RemovePolicyRangeV4Request
  unmarshalEnumSubnetClientsV4Request : Ctx → NdrReader → Except GoError EnumSubnetClientsV4Request
  unmarshalSetStatelessStoreParamsV6Request : Ctx → NdrReader → Except GoError SetStatelessStoreParamsV6Request
  unmarshalGetStatelessStoreParamsV6Request : Ctx → NdrReader → Except GoError GetStatelessStoreParamsV6Request
  unmarshalGetStatelessStatisticsV6Request : Ctx → NdrReader → Except GoError GetStatelessStatisticsV6Request
  unmarshalEnumSubnetReservationsV4Request : Ctx → NdrReader → Except GoError EnumSubnetReservationsV4Request
  unmarshalGetFreeIPAddressV4Request : Ctx → NdrReader → Except GoError GetFreeIPAddressV4Request
  unmarshalGetFreeIPAddressV6Request : Ctx → NdrReader → Except GoError GetFreeIPAddressV6Request
  unmarshalCreateClientInfoV4Request : Ctx → NdrReader → Except GoError CreateClientInfoV4Request
  unmarshalGetClientInfoV4Request : Ctx → NdrReader → Except GoError GetClientInfoV4Request
  unmarshalCreateClientInfoV6Request : Ctx → NdrReader → Except GoError CreateClientInfoV6Request
  unmarshalFailoverGetAddressStatusV4Request : Ctx → NdrReader → Except GoError FailoverGetAddressStatusV4Request
  unmarshalCreatePolicyExV4Request : Ctx → NdrReader → Except GoError CreatePolicyExV4Request
  unmarshalGetPolicyExV4Request : Ctx → NdrReader → Except GoError GetPolicyExV4Request
  unmarshalSetPolicyExV4Request : Ctx → NdrReader → Except GoError SetPolicyExV4Request
  unmarshalEnumPoliciesExV4Request : Ctx → NdrReader → Except GoError EnumPoliciesExV4Request
  unmarshalEnumSubnetClientsExV4Request : Ctx → NdrReader → Except GoError EnumSubnetClientsExV4Request
  unmarshalCreateClientInfoExV4Request : Ctx → NdrReader → Except GoError CreateClientInfoExV4Request
  unmarshalGetClientInfoExV4Request : Ctx → NdrReader → Except GoError GetClientInfoExV4Request

/-- Transcription of `Dhcpsrv2ServerHandle`: a switch on `opNum` with one
case per method, falling through to `return nil, nil`. -/
def Dhcpsrv2ServerHandle (c : Dhcpsrv2Codecs) (ctx : Ctx)
    (o : Dhcpsrv2Server) (opNum : Int) (r : NdrReader) : DispatchResult :=
  if opNum = 0 then
    dispatchArm (c.unmarshalEnumSubnetClientsV5Request ctx r) (o.EnumSubnetClientsV5 ctx)
      (fun resp => EnumSubnetClientsV5Response.xxx_ToOp resp ctx)
      "EnumSubnetClientsV5Request" "EnumSubnetClientsV5"
  else if opNum = 1 then
    dispatchArm (c.unmarshalSetMScopeInfoRequest ctx r) (o.SetMScopeInfo ctx)
      (fun resp => SetMScopeInfoResponse.xxx_ToOp resp ctx)
      "SetMScopeInfoRequest" "SetMScopeInfo"
  else if opNum = 2 then
    dispatchArm (c.unmarshalGetMScopeInfoRequest ctx r) (o.GetMScopeInfo ctx)
      (fun resp => GetMScopeInfoResponse.xxx_ToOp resp ctx)
      "GetMScopeInfoRequest" "GetMScopeInfo"
  else if opNum = 3 then
    dispatchArm (c.unmarshalEnumMScopesRequest ctx r) (o.EnumMScopes ctx)
      (fun resp => EnumMScopesResponse.xxx_ToOp resp ctx)
      "EnumMScopesRequest" "EnumMScopes"
  else if opNum = 4 then
    dispatchArm (c.unmarshalAddMScopeElementRequest ctx r) (o.AddMScopeElement ctx)
      (fun resp => AddMScopeElementResponse.xxx_ToOp resp ctx)
      "AddMScopeElementRequest" "AddMScopeElement"
  else if opNum = 5 then
    dispatchArm (c.unmarshalEnumMScopeElementsRequest ctx r) (o.EnumMScopeElements ctx)
      (fun resp => EnumMScopeElementsResponse.xxx_ToOp resp ctx)
      "EnumMScopeElementsRequest" "EnumMScopeElements"
  else if opNum = 6 then
    dispatchArm (c.unmarshalRemoveMScopeElementRequest ctx r) (o.RemoveMScopeElement ctx)
      (fun resp => RemoveMScopeElementResponse.xxx_ToOp resp ctx)
      "RemoveMScopeElementRequest" "RemoveMScopeElement"
  else if opNum = 7 then
    dispatchArm (c.unmarshalDeleteMScopeRequest ctx r) (o.DeleteMScope ctx)
      (fun resp => DeleteMScopeResponse.xxx_ToOp resp ctx)
      "DeleteMScopeRequest" "DeleteMScope"
  else if opNum = 8 then
    dispatchArm (c.unmarshalScanMDatabaseRequest ctx r) (o.ScanMDatabase ctx)
      (fun resp => ScanMDatabaseResponse.xxx_ToOp resp ctx)
      "ScanMDatabaseRequest" "ScanMDatabase"
  else if opNum = 9 then
    dispatchArm (c.unmarshalCreateMClientInfoRequest ctx r) (o.CreateMClientInfo ctx)
      (fun resp => CreateMClientInfoResponse.xxx_ToOp resp ctx)
      "CreateMClientInfoRequest" "CreateMClientInfo"
  else if opNum = 10 then
    dispatchArm (c.unmarshalSetMClientInfoRequest ctx r) (o.SetMClientInfo ctx)
      (fun resp => SetMClientInfoResponse.xxx_ToOp resp ctx)
      "SetMClientInfoRequest" "SetMClientInfo"
  else if opNum = 11 then
    dispatchArm (c.unmarshalGetMClientInfoRequest ctx r) (o.GetMClientInfo ctx)
      (fun resp => GetMClientInfoResponse.xxx_ToOp resp ctx)
      "GetMClientInfoRequest" "GetMClientInfo"
  else if opNum = 12 then
    dispatchArm (c.unmarshalDeleteMClientInfoRequest ctx r) (o.DeleteMClientInfo ctx)
      (fun resp => DeleteMClientInfoResponse.xxx_ToOp resp ctx)
      "DeleteMClientInfoRequest" "DeleteMClientInfo"
  else if opNum = 13 then
    dispatchArm (c.unmarshalEnumMScopeClientsRequest ctx r) (o.EnumMScopeClients ctx)
      (fun resp => EnumMScopeClientsResponse.xxx_ToOp resp ctx)
      "EnumMScopeClientsRequest" "EnumMScopeClients"
  else if opNum = 14 then
    dispatchArm (c.unmarshalCreateOptionV5Request ctx r) (o.CreateOptionV5 ctx)
      (fun resp => CreateOptionV5Response.xxx_ToOp resp ctx)
      "CreateOptionV5Request" "CreateOptionV5"
  else if opNum = 15 then
    dispatchArm (c.unmarshalSetOptionInfoV5Request ctx r) (o.SetOptionInfoV5 ctx)
      (fun resp => SetOptionInfoV5Response.xxx_ToOp resp ctx)
      "SetOptionInfoV5Request" "SetOptionInfoV5"
  else if opNum = 16 then
    dispatchArm (c.unmarshalGetOptionInfoV5Request ctx r) (o.GetOptionInfoV5 ctx)
      (fun resp => GetOptionInfoV5Response.xxx_ToOp resp ctx)
      "GetOptionInfoV5Request" "GetOptionInfoV5"
  else if opNum = 17 then
    dispatchArm (c.unmarshalEnumOptionsV5Request ctx r) (o.EnumOptionsV5 ctx)
      (fun resp => EnumOptionsV5Response.xxx_ToOp resp ctx)
      "EnumOptionsV5Request" "EnumOptionsV5"
  else if opNum = 18 then
    dispatchArm (c.unmarshalRemoveOptionV5Request ctx r) (o.RemoveOptionV5 ctx)
      (fun resp => RemoveOptionV5Response.xxx_ToOp resp ctx)
      "RemoveOptionV5Request" "RemoveOptionV5"
  else if opNum = 19 then
    dispatchArm (c.unmarshalSetOptionValueV5Request ctx r) (o.SetOptionValueV5 ctx)
      (fun resp => SetOptionValueV5Response.xxx_ToOp resp ctx)
      "SetOptionValueV5Request" "SetOptionValueV5"
  else if opNum = 20 then
    dispatchArm (c.unmarshalSetOptionValuesV5Request ctx r) (o.SetOptionValuesV5 ctx)
      (fun resp => SetOptionValuesV5Response.xxx_ToOp resp ctx)
      "SetOptionValuesV5Request" "SetOptionValuesV5"
  else if opNum = 21 then
    dispatchArm (c.unmarshalGetOptionValueV5Request ctx r) (o.GetOptionValueV5 ctx)
      (fun resp => GetOptionValueV5Response.xxx_ToOp resp ctx)
      "GetOptionValueV5Request" "GetOptionValueV5"
  else if opNum = 22 then
    dispatchArm (c.unmarshalEnumOptionValuesV5Request ctx r) (o.EnumOptionValuesV5 ctx)
      (fun resp => EnumOptionValuesV5Response.xxx_ToOp resp ctx)
      "EnumOptionValuesV5Request" "EnumOptionValuesV5"
  else if opNum = 23 then
    dispatchArm (c.unmarshalRemoveOptionValueV5Request ctx r) (o.RemoveOptionValueV5 ctx)
      (fun resp => RemoveOptionValueV5Response.xxx_ToOp resp ctx)
      "RemoveOptionValueV5Request" "RemoveOptionValueV5"
  else if opNum = 24 then
    dispatchArm (c.unmarshalCreateClassRequest ctx r) (o.CreateClass ctx)
      (fun resp => CreateClassResponse.xxx_ToOp resp ctx)
      "CreateClassRequest" "CreateClass"
  else if opNum = 25 then
    dispatchArm (c.unmarshalModifyClassRequest ctx r) (o.ModifyClass ctx)
      (fun resp => ModifyClassResponse.xxx_ToOp resp ctx)
      "ModifyClassRequest" "ModifyClass"
  else if opNum = 26 then
    dispatchArm (c.unmarshalDeleteClassRequest ctx r) (o.DeleteClass ctx)
      (fun resp => DeleteClassResponse.xxx_ToOp resp ctx)
      "DeleteClassRequest" "DeleteClass"
  else if opNum = 27 then
    dispatchArm (c.unmarshalGetClassInfoRequest ctx r) (o.GetClassInfo ctx)
      (fun resp => GetClassInfoResponse.xxx_ToOp resp ctx)
      "GetClassInfoRequest" "GetClassInfo"
  else if opNum = 28 then
    dispatchArm (c.unmarshalEnumClassesRequest ctx r) (o.EnumClasses ctx)
      (fun resp => EnumClassesResponse.xxx_ToOp resp ctx)
      "EnumClassesRequest" "EnumClasses"
  else if opNum = 29 then
    dispatchArm (c.unmarshalGetAllOptionsRequest ctx r) (o.GetAllOptions ctx)
      (fun resp => GetAllOptionsResponse.xxx_ToOp resp ctx)
      "GetAllOptionsRequest" "GetAllOptions"
  else if opNum = 30 then
    dispatchArm (c.unmarshalGetAllOptionValuesRequest ctx r) (o.GetAllOptionValues ctx)
      (fun resp => GetAllOptionValuesResponse.xxx_ToOp resp ctx)
      "GetAllOptionValuesRequest" "GetAllOptionValues"
  else if opNum = 31 then
    dispatchArm (c.unmarshalGetMCastMIBInfoRequest ctx r) (o.GetMCastMIBInfo ctx)
      (fun resp => GetMCastMIBInfoResponse.xxx_ToOp resp ctx)
      "GetMCastMIBInfoRequest" "GetMCastMIBInfo"
  else if opNum = 32 then
    dispatchArm (c.unmarshalAuditLogSetParamsRequest ctx r) (o.AuditLogSetParams ctx)
      (fun resp => AuditLogSetParamsResponse.xxx_ToOp resp ctx)
      "AuditLogSetParamsRequest" "AuditLogSetParams"
  else if opNum = 33 then
    dispatchArm (c.unmarshalAuditLogGetParamsRequest ctx r) (o.AuditLogGetParams ctx)
      (fun resp => AuditLogGetParamsResponse.xxx_ToOp resp ctx)
      "AuditLogGetParamsRequest" "AuditLogGetParams"
  else if opNum = 34 then
    dispatchArm (c.unmarshalServerQueryAttributeRequest ctx r) (o.ServerQueryAttribute ctx)
      (fun resp => ServerQueryAttributeResponse.xxx_ToOp resp ctx)
      "ServerQueryAttributeRequest" "ServerQueryAttribute"
  else if opNum = 35 then
    dispatchArm (c.unmarshalServerQueryAttributesRequest ctx r) (o.ServerQueryAttributes ctx)
      (fun resp => ServerQueryAttributesResponse.xxx_ToOp resp ctx)
      "ServerQueryAttributesRequest" "ServerQueryAttributes"
  else if opNum = 36 then
    dispatchArm (c.unmarshalServerRedoAuthorizationRequest ctx r) (o.ServerRedoAuthorization ctx)
      (fun resp => ServerRedoAuthorizationResponse.xxx_ToOp resp ctx)
      "ServerRedoAuthorizationRequest" "ServerRedoAuthorization"
  else if opNum = 37 then
    dispatchArm (c.unmarshalAddSubnetElementV5Request ctx r) (o.AddSubnetElementV5 ctx)
      (fun resp => AddSubnetElementV5Response.xxx_ToOp resp ctx)
      "AddSubnetElementV5Request" "AddSubnetElementV5"
  else if opNum = 38 then
    dispatchArm (c.unmarshalEnumSubnetElementsV5Request ctx r) (o.EnumSubnetElementsV5 ctx)
      (fun resp => EnumSubnetElementsV5Response.xxx_ToOp resp ctx)
      "EnumSubnetElementsV5Request" "EnumSubnetElementsV5"
  else if opNum = 39 then
    dispatchArm (c.unmarshalRemoveSubnetElementV5Request ctx r) (o.RemoveSubnetElementV5 ctx)
      (fun resp => RemoveSubnetElementV5Response.xxx_ToOp resp ctx)
      "RemoveSubnetElementV5Request" "RemoveSubnetElementV5"
  else if opNum = 40 then
    dispatchArm (c.unmarshalGetServerBindingInfoRequest ctx r) (o.GetServerBindingInfo ctx)
      (fun resp => GetServerBindingInfoResponse.xxx_ToOp resp ctx)
      "GetServerBindingInfoRequest" "GetServerBindingInfo"
  else if opNum = 41 then
    dispatchArm (c.unmarshalSetServerBindingInfoRequest ctx r) (o.SetServerBindingInfo ctx)
      (fun resp => SetServerBindingInfoResponse.xxx_ToOp resp ctx)
      "SetServerBindingInfoRequest" "SetServerBindingInfo"
  else if opNum = 42 then
    dispatchArm (c.unmarshalQueryDNSRegCredentialsRequest ctx r) (o.QueryDNSRegCredentials ctx)
      (fun resp => QueryDNSRegCredentialsResponse.xxx_ToOp resp ctx)
      "QueryDNSRegCredentialsRequest" "QueryDNSRegCredentials"
  else if opNum = 43 then
    dispatchArm (c.unmarshalSetDNSRegCredentialsRequest ctx r) (o.SetDNSRegCredentials ctx)
      (fun resp => SetDNSRegCredentialsResponse.xxx_ToOp resp ctx)
      "SetDNSRegCredentialsRequest" "SetDNSRegCredentials"
  else if opNum = 44 then
    dispatchArm (c.unmarshalBackupDatabaseRequest ctx r) (o.BackupDatabase ctx)
      (fun resp => BackupDatabaseResponse.xxx_ToOp resp ctx)
      "BackupDatabaseRequest" "BackupDatabase"
  else if opNum = 45 then
    dispatchArm (c.unmarshalRestoreDatabaseRequest ctx r) (o.RestoreDatabase ctx)
      (fun resp => RestoreDatabaseResponse.xxx_ToOp resp ctx)
      "RestoreDatabaseRequest" "RestoreDatabase"
  else if opNum = 46 then
    dispatchArm (c.unmarshalGetServerSpecificStringsRequest ctx r) (o.GetServerSpecificStrings ctx)
      (fun resp => GetServerSpecificStringsResponse.xxx_ToOp resp ctx)
      "GetServerSpecificStringsRequest" "GetServerSpecificStrings"
  else if opNum = 47 then
    dispatchArm (c.unmarshalCreateOptionV6Request ctx r) (o.CreateOptionV6 ctx)
      (fun resp => CreateOptionV6Response.xxx_ToOp resp ctx)
      "CreateOptionV6Request" "CreateOptionV6"
  else if opNum = 48 then
    dispatchArm (c.unmarshalSetOptionInfoV6Request ctx r) (o.SetOptionInfoV6 ctx)
      (fun resp => SetOptionInfoV6Response.xxx_ToOp resp ctx)
      "SetOptionInfoV6Request" "SetOptionInfoV6"
  else if opNum = 49 then
    dispatchArm (c.unmarshalGetOptionInfoV6Request ctx r) (o.GetOptionInfoV6 ctx)
      (fun resp => GetOptionInfoV6Response.xxx_ToOp resp ctx)
      "GetOptionInfoV6Request" "GetOptionInfoV6"
  else if opNum = 50 then
    dispatchArm (c.unmarshalEnumOptionsV6Request ctx r) (o.EnumOptionsV6 ctx)
      (fun resp => EnumOptionsV6Response.xxx_ToOp resp ctx)
      "EnumOptionsV6Request" "EnumOptionsV6"
  else if opNum = 51 then
    dispatchArm (c.unmarshalRemoveOptionV6Request ctx r) (o.RemoveOptionV6 ctx)
      (fun resp => RemoveOptionV6Response.xxx_ToOp resp ctx)
      "RemoveOptionV6Request" "RemoveOptionV6"
  else if opNum = 52 then
    dispatchArm (c.unmarshalSetOptionValueV6Request ctx r) (o.SetOptionValueV6 ctx)
      (fun resp => SetOptionValueV6Response.xxx_ToOp resp ctx)
      "SetOptionValueV6Request" "SetOptionValueV6"
  else if opNum = 53 then
    dispatchArm (c.unmarshalEnumOptionValuesV6Request ctx r) (o.EnumOptionValuesV6 ctx)
      (fun resp => EnumOptionValuesV6Response.xxx_ToOp resp ctx)
      "EnumOptionValuesV6Request" "EnumOptionValuesV6"
  else if opNum = 54 then
    dispatchArm (c.unmarshalRemoveOptionValueV6Request ctx r) (o.RemoveOptionValueV6 ctx)
      (fun resp => RemoveOptionValueV6Response.xxx_ToOp resp ctx)
      "RemoveOptionValueV6Request" "RemoveOptionValueV6"
  else if opNum = 55 then
    dispatchArm (c.unmarshalGetAllOptionsV6Request ctx r) (o.GetAllOptionsV6 ctx)
      (fun resp => GetAllOptionsV6Response.xxx_ToOp resp ctx)
      "GetAllOptionsV6Request" "GetAllOptionsV6"
  else if opNum = 56 then
    dispatchArm (c.unmarshalGetAllOptionValuesV6Request ctx r) (o.GetAllOptionValuesV6 ctx)
      (fun resp => GetAllOptionValuesV6Response.xxx_ToOp resp ctx)
      "GetAllOptionValuesV6Request" "GetAllOptionValuesV6"
  else if opNum = 57 then
    dispatchArm (c.unmarshalCreateSubnetV6Request ctx r) (o.CreateSubnetV6 ctx)
      (fun resp => CreateSubnetV6Response.xxx_ToOp resp ctx)
      "CreateSubnetV6Request" "CreateSubnetV6"
  else if opNum = 58 then
    dispatchArm (c.unmarshalEnumSubnetsV6Request ctx r) (o.EnumSubnetsV6 ctx)
      (fun resp => EnumSubnetsV6Response.xxx_ToOp resp ctx)
      "EnumSubnetsV6Request" "EnumSubnetsV6"
  else if opNum = 59 then
    dispatchArm (c.unmarshalAddSubnetElementV6Request ctx r) (o.AddSubnetElementV6 ctx)
      (fun resp => AddSubnetElementV6Response.xxx_ToOp resp ctx)
      "AddSubnetElementV6Request" "AddSubnetElementV6"
  else if opNum = 60 then
    dispatchArm (c.unmarshalEnumSubnetElementsV6Request ctx r) (o.EnumSubnetElementsV6 ctx)
      (fun resp => EnumSubnetElementsV6Response.xxx_ToOp resp ctx)
      "EnumSubnetElementsV6Request" "EnumSubnetElementsV6"
  else if opNum = 61 then
    dispatchArm (c.unmarshalRemoveSubnetElementV6Request ctx r) (o.RemoveSubnetElementV6 ctx)
      (fun resp => RemoveSubnetElementV6Response.xxx_ToOp resp ctx)
      "RemoveSubnetElementV6Request" "RemoveSubnetElementV6"
  else if opNum = 62 then
    dispatchArm (c.unmarshalDeleteSubnetV6Request ctx r) (o.DeleteSubnetV6 ctx)
      (fun resp => DeleteSubnetV6Response.xxx_ToOp resp ctx)
      "DeleteSubnetV6Request" "DeleteSubnetV6"
  else if opNum = 63 then
    dispatchArm (c.unmarshalGetSubnetInfoV6Request ctx r) (o.GetSubnetInfoV6 ctx)
      (fun resp => GetSubnetInfoV6Response.xxx_ToOp resp ctx)
      "GetSubnetInfoV6Request" "GetSubnetInfoV6"
  else if opNum = 64 then
    dispatchArm (c.unmarshalEnumSubnetClientsV6Request ctx r) (o.EnumSubnetClientsV6 ctx)
      (fun resp => EnumSubnetClientsV6Response.xxx_ToOp resp ctx)
      "EnumSubnetClientsV6Request" "EnumSubnetClientsV6"
  else if opNum = 65 then
    dispatchArm (c.unmarshalServerSetConfigV6Request ctx r) (o.ServerSetConfigV6 ctx)
      (fun resp => ServerSetConfigV6Response.xxx_ToOp resp ctx)
      "ServerSetConfigV6Request" "ServerSetConfigV6"
  else if opNum = 66 then
    dispatchArm (c.unmarshalServerGetConfigV6Request ctx r) (o.ServerGetConfigV6 ctx)
      (fun resp => ServerGetConfigV6Response.xxx_ToOp resp ctx)
      "ServerGetConfigV6Request" "ServerGetConfigV6"
  else if opNum = 67 then
    dispatchArm (c.unmarshalSetSubnetInfoV6Request ctx r) (o.SetSubnetInfoV6 ctx)
      (fun resp => SetSubnetInfoV6Response.xxx_ToOp resp ctx)
      "SetSubnetInfoV6Request" "SetSubnetInfoV6"
  else if opNum = 68 then
    dispatchArm (c.unmarshalGetMIBInfoV6Request ctx r) (o.GetMIBInfoV6 ctx)
      (fun resp => GetMIBInfoV6Response.xxx_ToOp resp ctx)
      "GetMIBInfoV6Request" "GetMIBInfoV6"
  else if opNum = 69 then
    dispatchArm (c.unmarshalGetServerBindingInfoV6Request ctx r) (o.GetServerBindingInfoV6 ctx)
      (fun resp => GetServerBindingInfoV6Response.xxx_ToOp resp ctx)
      "GetServerBindingInfoV6Request" "GetServerBindingInfoV6"
  else if opNum = 70 then
    dispatchArm (c.unmarshalSetServerBindingInfoV6Request ctx r) (o.SetServerBindingInfoV6 ctx)
      (fun resp => SetServerBindingInfoV6Response.xxx_ToOp resp ctx)
      "SetServerBindingInfoV6Request" "SetServerBindingInfoV6"
  else if opNum = 71 then
    dispatchArm (c.unmarshalSetClientInfoV6Request ctx r) (o.SetClientInfoV6 ctx)
      (fun resp => SetClientInfoV6Response.xxx_ToOp resp ctx)
      "SetClientInfoV6Request" "SetClientInfoV6"
  else if opNum = 72 then
    dispatchArm (c.unmarshalGetClientInfoV6Request ctx r) (o.GetClientInfoV6 ctx)
      (fun resp => GetClientInfoV6Response.xxx_ToOp resp ctx)
      "GetClientInfoV6Request" "GetClientInfoV6"
  else if opNum = 73 then
    dispatchArm (c.unmarshalDeleteClientInfoV6Request ctx r) (o.DeleteClientInfoV6 ctx)
      (fun resp => DeleteClientInfoV6Response.xxx_ToOp resp ctx)
      "DeleteClientInfoV6Request" "DeleteClientInfoV6"
  else if opNum = 74 then
    dispatchArm (c.unmarshalCreateClassV6Request ctx r) (o.CreateClassV6 ctx)
      (fun resp => CreateClassV6Response.xxx_ToOp resp ctx)
      "CreateClassV6Request" "CreateClassV6"
  else if opNum = 75 then
    dispatchArm (c.unmarshalModifyClassV6Request ctx r) (o.ModifyClassV6 ctx)
      (fun resp => ModifyClassV6Response.xxx_ToOp resp ctx)
      "ModifyClassV6Request" "ModifyClassV6"
  else if opNum = 76 then
    dispatchArm (c.unmarshalDeleteClassV6Request ctx r) (o.DeleteClassV6 ctx)
      (fun resp => DeleteClassV6Response.xxx_ToOp resp ctx)
      "DeleteClassV6Request" "DeleteClassV6"
  else if opNum = 77 then
    dispatchArm (c.unmarshalEnumClassesV6Request ctx r) (o.EnumClassesV6 ctx)
      (fun resp => EnumClassesV6Response.xxx_ToOp resp ctx)
      "EnumClassesV6Request" "EnumClassesV6"
  else if opNum = 78 then
    dispatchArm (c.unmarshalGetOptionValueV6Request ctx r) (o.GetOptionValueV6 ctx)
      (fun resp => GetOptionValueV6Response.xxx_ToOp resp ctx)
      "GetOptionValueV6Request" "GetOptionValueV6"
  else if opNum = 79 then
    dispatchArm (c.unmarshalSetSubnetDelayOfferRequest ctx r) (o.SetSubnetDelayOffer ctx)
      (fun resp => SetSubnetDelayOfferResponse.xxx_ToOp resp ctx)
      "SetSubnetDelayOfferRequest" "SetSubnetDelayOffer"
  else if opNum = 80 then
    dispatchArm (c.unmarshalGetSubnetDelayOfferRequest ctx r) (o.GetSubnetDelayOffer ctx)
      (fun resp => GetSubnetDelayOfferResponse.xxx_ToOp resp ctx)
      "GetSubnetDelayOfferRequest" "GetSubnetDelayOffer"
  else if opNum = 81 then
    dispatchArm (c.unmarshalGetMIBInfoV5Request ctx r) (o.GetMIBInfoV5 ctx)
      (fun resp => GetMIBInfoV5Response.xxx_ToOp resp ctx)
      "GetMIBInfoV5Request" "GetMIBInfoV5"
  else if opNum = 82 then
    dispatchArm (c.unmarshalAddFilterV4Request ctx r) (o.AddFilterV4 ctx)
      (fun resp => AddFilterV4Response.xxx_ToOp resp ctx)
      "AddFilterV4Request" "AddFilterV4"
  else if opNum = 83 then
    dispatchArm (c.unmarshalDeleteFilterV4Request ctx r) (o.DeleteFilterV4 ctx)
      (fun resp => DeleteFilterV4Response.xxx_ToOp resp ctx)
      "DeleteFilterV4Request" "DeleteFilterV4"
  else if opNum = 84 then
    dispatchArm (c.unmarshalSetFilterV4Request ctx r) (o.SetFilterV4 ctx)
      (fun resp => SetFilterV4Response.xxx_ToOp resp ctx)
      "SetFilterV4Request" "SetFilterV4"
  else if opNum = 85 then
    dispatchArm (c.unmarshalGetFilterV4Request ctx r) (o.GetFilterV4 ctx)
      (fun resp => GetFilterV4Response.xxx_ToOp resp ctx)
      "GetFilterV4Request" "GetFilterV4"
  else if opNum = 86 then
    dispatchArm (c.unmarshalEnumFilterV4Request ctx r) (o.EnumFilterV4 ctx)
      (fun resp => EnumFilterV4Response.xxx_ToOp resp ctx)
      "EnumFilterV4Request" "EnumFilterV4"
  else if opNum = 87 then
    dispatchArm (c.unmarshalSetDNSRegCredentialsV5Request ctx r) (o.SetDNSRegCredentialsV5 ctx)
      (fun resp => SetDNSRegCredentialsV5Response.xxx_ToOp resp ctx)
      "SetDNSRegCredentialsV5Request" "SetDNSRegCredentialsV5"
  else if opNum = 88 then
    dispatchArm (c.unmarshalEnumSubnetClientsFilterStatusInfoRequest ctx r) (o.EnumSubnetClientsFilterStatusInfo ctx)
      (fun resp => EnumSubnetClientsFilterStatusInfoResponse.xxx_ToOp resp ctx)
      "EnumSubnetClientsFilterStatusInfoRequest" "EnumSubnetClientsFilterStatusInfo"
  else if opNum = 89 then
    dispatchArm (c.unmarshalFailoverCreateRelationshipV4Request ctx r) (o.FailoverCreateRelationshipV4 ctx)
      (fun resp => FailoverCreateRelationshipV4Response.xxx_ToOp resp ctx)
      "FailoverCreateRelationshipV4Request" "FailoverCreateRelationshipV4"
  else if opNum = 90 then
    dispatchArm (c.unmarshalFailoverSetRelationshipV4Request ctx r) (o.FailoverSetRelationshipV4 ctx)
      (fun resp => FailoverSetRelationshipV4Response.xxx_ToOp resp ctx)
      "FailoverSetRelationshipV4Request" "FailoverSetRelationshipV4"
  else if opNum = 91 then
    dispatchArm (c.unmarshalFailoverDeleteRelationshipV4Request ctx r) (o.FailoverDeleteRelationshipV4 ctx)
      (fun resp => FailoverDeleteRelationshipV4Response.xxx_ToOp resp ctx)
      "FailoverDeleteRelationshipV4Request" "FailoverDeleteRelationshipV4"
  else if opNum = 92 then
    dispatchArm (c.unmarshalFailoverGetRelationshipV4Request ctx r) (o.FailoverGetRelationshipV4 ctx)
      (fun resp => FailoverGetRelationshipV4Response.xxx_ToOp resp ctx)
      "FailoverGetRelationshipV4Request" "FailoverGetRelationshipV4"
  else if opNum = 93 then
    dispatchArm (c.unmarshalFailoverEnumRelationshipV4Request ctx r) (o.FailoverEnumRelationshipV4 ctx)
      (fun resp => FailoverEnumRelationshipV4Response.xxx_ToOp resp ctx)
      "FailoverEnumRelationshipV4Request" "FailoverEnumRelationshipV4"
  else if opNum = 94 then
    dispatchArm (c.unmarshalFailoverAddScopeToRelationshipV4Request ctx r) (o.FailoverAddScopeToRelationshipV4 ctx)
      (fun resp => FailoverAddScopeToRelationshipV4Response.xxx_ToOp resp ctx)
      "FailoverAddScopeToRelationshipV4Request" "FailoverAddScopeToRelationshipV4"
  else if opNum = 95 then
    dispatchArm (c.unmarshalFailoverDeleteScopeFromRelationshipV4Request ctx r) (o.FailoverDeleteScopeFromRelationshipV4 ctx)
      (fun resp => FailoverDeleteScopeFromRelationshipV4Response.xxx_ToOp resp ctx)
      "FailoverDeleteScopeFromRelationshipV4Request" "FailoverDeleteScopeFromRelationshipV4"
  else if opNum = 96 then
    dispatchArm (c.unmarshalFailoverGetScopeRelationshipV4Request ctx r) (o.FailoverGetScopeRelationshipV4 ctx)
      (fun resp => FailoverGetScopeRelationshipV4Response.xxx_ToOp resp ctx)
      "FailoverGetScopeRelationshipV4Request" "FailoverGetScopeRelationshipV4"
  else if opNum = 97 then
    dispatchArm (c.unmarshalFailoverGetScopeStatisticsV4Request ctx r) (o.FailoverGetScopeStatisticsV4 ctx)
      (fun resp => FailoverGetScopeStatisticsV4Response.xxx_ToOp resp ctx)
      "FailoverGetScopeStatisticsV4Request" "FailoverGetScopeStatisticsV4"
  else if opNum = 98 then
    dispatchArm (c.unmarshalFailoverGetClientInfoV4Request ctx r) (o.FailoverGetClientInfoV4 ctx)
      (fun resp => FailoverGetClientInfoV4Response.xxx_ToOp resp ctx)
      "FailoverGetClientInfoV4Request" "FailoverGetClientInfoV4"
  else if opNum = 99 then
    dispatchArm (c.unmarshalFailoverGetSystemTimeV4Request ctx r) (o.FailoverGetSystemTimeV4 ctx)
      (fun resp => FailoverGetSystemTimeV4Response.xxx_ToOp resp ctx)
      "FailoverGetSystemTimeV4Request" "FailoverGetSystemTimeV4"
  else if opNum = 100 then
    dispatchArm (c.unmarshalFailoverTriggerAddrAllocationV4Request ctx r) (o.FailoverTriggerAddrAllocationV4 ctx)
      (fun resp => FailoverTriggerAddrAllocationV4Response.xxx_ToOp resp ctx)
      "FailoverTriggerAddrAllocationV4Request" "FailoverTriggerAddrAllocationV4"
  else if opNum = 101 then
    dispatchArm (c.unmarshalSetOptionValueV4Request ctx r) (o.SetOptionValueV4 ctx)
      (fun resp => SetOptionValueV4Response.xxx_ToOp resp ctx)
      "SetOptionValueV4Request" "SetOptionValueV4"
  else if opNum = 102 then
    dispatchArm (c.unmarshalSetOptionValuesV4Request ctx r) (o.SetOptionValuesV4 ctx)
      (fun resp => SetOptionValuesV4Response.xxx_ToOp resp ctx)
      "SetOptionValuesV4Request" "SetOptionValuesV4"
  else if opNum = 103 then
    dispatchArm (c.unmarshalGetOptionValueV4Request ctx r) (o.GetOptionValueV4 ctx)
      (fun resp => GetOptionValueV4Response.xxx_ToOp resp ctx)
      "GetOptionValueV4Request" "GetOptionValueV4"
  else if opNum = 104 then
    dispatchArm (c.unmarshalRemoveOptionValueV4Request ctx r) (o.RemoveOptionValueV4 ctx)
      (fun resp => RemoveOptionValueV4Response.xxx_ToOp resp ctx)
      "RemoveOptionValueV4Request" "RemoveOptionValueV4"
  else if opNum = 105 then
    dispatchArm (c.unmarshalGetAllOptionValuesV4Request ctx r) (o.GetAllOptionValuesV4 ctx)
      (fun resp => GetAllOptionValuesV4Response.xxx_ToOp resp ctx)
      "GetAllOptionValuesV4Request" "GetAllOptionValuesV4"
  else if opNum = 106 then
    dispatchArm (c.unmarshalQueryPolicyEnforcementV4Request ctx r) (o.QueryPolicyEnforcementV4 ctx)
      (fun resp => QueryPolicyEnforcementV4Response.xxx_ToOp resp ctx)
      "QueryPolicyEnforcementV4Request" "QueryPolicyEnforcementV4"
  else if opNum = 107 then
    dispatchArm (c.unmarshalSetPolicyEnforcementV4Request ctx r) (o.SetPolicyEnforcementV4 ctx)
      (fun resp => SetPolicyEnforcementV4Response.xxx_ToOp resp ctx)
      "SetPolicyEnforcementV4Request" "SetPolicyEnforcementV4"
  else if opNum = 108 then
    dispatchArm (c.unmarshalCreatePolicyV4Request ctx r) (o.CreatePolicyV4 ctx)
      (fun resp => CreatePolicyV4Response.xxx_ToOp resp ctx)
      "CreatePolicyV4Request" "CreatePolicyV4"
  else if opNum = 109 then
    dispatchArm (c.unmarshalGetPolicyV4Request ctx r) (o.GetPolicyV4 ctx)
      (fun resp => GetPolicyV4Response.xxx_ToOp resp ctx)
      "GetPolicyV4Request" "GetPolicyV4"
  else if opNum = 110 then
    dispatchArm (c.unmarshalSetPolicyV4Request ctx r) (o.SetPolicyV4 ctx)
      (fun resp => SetPolicyV4Response.xxx_ToOp resp ctx)
      "SetPolicyV4Request" "SetPolicyV4"
  else if opNum = 111 then
    dispatchArm (c.unmarshalDeletePolicyV4Request ctx r) (o.DeletePolicyV4 ctx)
      (fun resp => DeletePolicyV4Response.xxx_ToOp resp ctx)
      "DeletePolicyV4Request" "DeletePolicyV4"
  else if opNum = 112 then
    dispatchArm (c.unmarshalEnumPoliciesV4Request ctx r) (o.EnumPoliciesV4 ctx)
      (fun resp => EnumPoliciesV4Response.xxx_ToOp resp ctx)
      "EnumPoliciesV4Request" "EnumPoliciesV4"
  else if opNum = 113 then
    dispatchArm (c.unmarshalAddPolicyRangeV4Request ctx r) (o.AddPolicyRangeV4 ctx)
      (fun resp => AddPolicyRangeV4Response.xxx_ToOp resp ctx)
      "AddPolicyRangeV4Request" "AddPolicyRangeV4"
  else if opNum = 114 then
    dispatchArm (c.unmarshalRemovePolicyRangeV4Request ctx r) (o.RemovePolicyRangeV4 ctx)
      (fun resp => RemovePolicyRangeV4Response.xxx_ToOp resp ctx)
      "RemovePolicyRangeV4Request" "RemovePolicyRangeV4"
  else if opNum = 115 then
    dispatchArm (c.unmarshalEnumSubnetClientsV4Request ctx r) (o.EnumSubnetClientsV4 ctx)
      (fun resp => EnumSubnetClientsV4Response.xxx_ToOp resp ctx)
      "EnumSubnetClientsV4Request" "EnumSubnetClientsV4"
  else if opNum = 116 then
    dispatchArm (c.unmarshalSetStatelessStoreParamsV6Request ctx r) (o.SetStatelessStoreParamsV6 ctx)
      (fun resp => SetStatelessStoreParamsV6Response.xxx_ToOp resp ctx)
      "SetStatelessStoreParamsV6Request" "SetStatelessStoreParamsV6"
  else if opNum = 117 then
    dispatchArm (c.unmarshalGetStatelessStoreParamsV6Request ctx r) (o.GetStatelessStoreParamsV6 ctx)
      (fun resp => GetStatelessStoreParamsV6Response.xxx_ToOp resp ctx)
      "GetStatelessStoreParamsV6Request" "GetStatelessStoreParamsV6"
  else if opNum = 118 then
    dispatchArm (c.unmarshalGetStatelessStatisticsV6Request ctx r) (o.GetStatelessStatisticsV6 ctx)
      (fun resp => GetStatelessStatisticsV6Response.xxx_ToOp resp ctx)
      "GetStatelessStatisticsV6Request" "GetStatelessStatisticsV6"
  else if opNum = 119 then
    dispatchArm (c.unmarshalEnumSubnetReservationsV4Request ctx r) (o.EnumSubnetReservationsV4 ctx)
      (fun resp => EnumSubnetReservationsV4Response.xxx_ToOp resp ctx)
      "EnumSubnetReservationsV4Request" "EnumSubnetReservationsV4"
  else if opNum = 120 then
    dispatchArm (c.unmarshalGetFreeIPAddressV4Request ctx r) (o.GetFreeIPAddressV4 ctx)
      (fun resp => GetFreeIPAddressV4Response.xxx_ToOp resp ctx)
      "GetFreeIPAddressV4Request" "GetFreeIPAddressV4"
  else if opNum = 121 then
    dispatchArm (c.unmarshalGetFreeIPAddressV6Request ctx r) (o.GetFreeIPAddressV6 ctx)
      (fun resp => GetFreeIPAddressV6Response.xxx_ToOp resp ctx)
      "GetFreeIPAddressV6Request" "GetFreeIPAddressV6"
  else if opNum = 122 then
    dispatchArm (c.unmarshalCreateClientInfoV4Request ctx r) (o.CreateClientInfoV4 ctx)
      (fun resp => CreateClientInfoV4Response.xxx_ToOp resp ctx)
      "CreateClientInfoV4Request" "CreateClientInfoV4"
  else if opNum = 123 then
    dispatchArm (c.unmarshalGetClientInfoV4Request ctx r) (o.GetClientInfoV4 ctx)
      (fun resp => GetClientInfoV4Response.xxx_ToOp resp ctx)
      "GetClientInfoV4Request" "GetClientInfoV4"
  else if opNum = 124 then
    dispatchArm (c.unmarshalCreateClientInfoV6Request ctx r) (o.CreateClientInfoV6 ctx)
      (fun resp => CreateClientInfoV6Response.xxx_ToOp resp ctx)
      "CreateClientInfoV6Request" "CreateClientInfoV6"
  else if opNum = 125 then
    dispatchArm (c.unmarshalFailoverGetAddressStatusV4Request ctx r) (o.FailoverGetAddressStatusV4 ctx)
      (fun resp => FailoverGetAddressStatusV4Response.xxx_ToOp resp ctx)
      "FailoverGetAddressStatusV4Request" "FailoverGetAddressStatusV4"
  else if opNum = 126 then
    dispatchArm (c.unmarshalCreatePolicyExV4Request ctx r) (o.CreatePolicyExV4 ctx)
      (fun resp => CreatePolicyExV4Response.xxx_ToOp resp ctx)
      "CreatePolicyExV4Request" "CreatePolicyExV4"
  else if opNum = 127 then
    dispatchArm (c.unmarshalGetPolicyExV4Request ctx r) (o.GetPolicyExV4 ctx)
      (fun resp => GetPolicyExV4Response.xxx_ToOp resp ctx)
      "GetPolicyExV4Request" "GetPolicyExV4"
  else if opNum = 128 then
    dispatchArm (c.unmarshalSetPolicyExV4Request ctx r) (o.SetPolicyExV4 ctx)
      (fun resp => SetPolicyExV4Response.xxx_ToOp resp ctx)
      "SetPolicyExV4Request" "SetPolicyExV4"
  else if opNum = 129 then
    dispatchArm (c.unmarshalEnumPoliciesExV4Request ctx r) (o.EnumPoliciesExV4 ctx)
      (fun resp => EnumPoliciesExV4Response.xxx_ToOp resp ctx)
      "EnumPoliciesExV4Request" "EnumPoliciesExV4"
  else if opNum = 130 then
    dispatchArm (c.unmarshalEnumSubnetClientsExV4Request ctx r) (o.EnumSubnetClientsExV4 ctx)
      (fun resp => EnumSubnetClientsExV4Response.xxx_ToOp resp ctx)
      "EnumSubnetClientsExV4Request" "EnumSubnetClientsExV4"
  else if opNum = 131 then
    dispatchArm (c.unmarshalCreateClientInfoExV4Request ctx r) (o.CreateClientInfoExV4 ctx)
      (fun resp => CreateClientInfoExV4Response.xxx_ToOp resp ctx)
      "CreateClientInfoExV4Request" "CreateClientInfoExV4"
  else if opNum = 132 then
    dispatchArm (c.unmarshalGetClientInfoExV4Request ctx r) (o.GetClientInfoExV4 ctx)
      (fun resp => GetClientInfoExV4Response.xxx_ToOp resp ctx)
      "GetClientInfoExV4Request" "GetClientInfoExV4"
  else
    ⟨none, none, []⟩

/-- Transcription of `NewDhcpsrv2ServerHandle`: the returned `dcerpc.ServerHandle` closure. -/
def NewDhcpsrv2ServerHandle (c : Dhcpsrv2Codecs) (o : Dhcpsrv2Server) : ServerHandle :=
  fun ctx opNum r => Dhcpsrv2ServerHandle c ctx o opNum r

/-- The interface's abstract syntax constant `Dhcpsrv2SyntaxV1_0` (defined
outside the excerpt; its value is an abstract token). -/
def Dhcpsrv2SyntaxV1_0 : SyntaxID := ⟨2⟩

/-- Transcription of `RegisterDhcpsrv2Server`: register the wrapper closure with the
interface's abstract syntax appended to the caller's options. -/
def RegisterDhcpsrv2Server {τ : Type} (c : Dhcpsrv2Codecs)
    (conn : Conn τ) (o : Dhcpsrv2Server) (opts : List DcerpcOption) : τ :=
  conn.RegisterServer (NewDhcpsrv2ServerHandle c o)
    (opts ++ [DcerpcOption.WithAbstractSyntaxID Dhcpsrv2SyntaxV1_0])

theorem dhcp_handle_eq_0 (c : Dhcpsrv2Codecs) (ctx : Ctx)
    (o : Dhcpsrv2Server) (r : NdrReader) :
    Dhcpsrv2ServerHandle c ctx o 0 r =
      dispatchArm (c.unmarshalEnumSubnetClientsV5Request ctx r) (o.EnumSubnetClientsV5 ctx)
        (fun resp => EnumSubnetClientsV5Response.xxx_ToOp resp ctx)
        "EnumSubnetClientsV5Request" "EnumSubnetClientsV5" := rfl

theorem dhcp_handle_eq_1 (c : Dhcpsrv2Codecs) (ctx : Ctx)
    (o : Dhcpsrv2Server) (r : NdrReader) :
    Dhcpsrv2ServerHandle c ctx o 1 r =
      dispatchArm (c.unmarshalSetMScopeInfoRequest ctx r) (o.SetMScopeInfo ctx)
        (fun resp => SetMScopeInfoResponse.xxx_ToOp resp ctx)
        "SetMScopeInfoRequest" "SetMScopeInfo" := rfl

theorem dhcp_handle_eq_2 (c : Dhcpsrv2Codecs) (ctx : Ctx)
    (o : Dhcpsrv2Server) (r : NdrReader) :
    Dhcpsrv2ServerHandle c ctx o 2 r =
      dispatchArm (c.unmarshalGetMScopeInfoRequest ctx r) (o.GetMScopeInfo ctx)
        (fun resp => GetMScopeInfoResponse.xxx_ToOp resp ctx)
        "GetMScopeInfoRequest" "GetMScopeInfo" := rfl

theorem dhcp_handle_eq_3 (c : Dhcpsrv2Codecs) (ctx : Ctx)
    (o : Dhcpsrv2Server) (r : NdrReader) :
    Dhcpsrv2ServerHandle c ctx o 3 r =
      dispatchArm (c.unmarshalEnumMScopesRequest ctx r) (o.EnumMScopes ctx)
        (fun resp => EnumMScopesResponse.xxx_ToOp resp ctx)
        "EnumMScopesRequest" "EnumMScopes" := rfl

theorem dhcp_handle_eq_4 (c : Dhcpsrv2Codecs) (ctx : Ctx)
    (o : Dhcpsrv2Server) (r : NdrReader) :
    Dhcpsrv2ServerHandle c ctx o 4 r =
      dispatchArm (c.unmarshalAddMScopeElementRequest ctx r) (o.AddMScopeElement ctx)
        (fun resp => AddMScopeElementResponse.xxx_ToOp resp ctx)
        "AddMScopeElementRequest" "AddMScopeElement" := rfl

theorem dhcp_handle_eq_5 (c : Dhcpsrv2Codecs) (ctx : Ctx)
    (o : Dhcpsrv2Server) (r : NdrReader) :
    Dhcpsrv2ServerHandle c ctx o 5 r =
      dispatchArm (c.unmarshalEnumMScopeElementsRequest ctx r) (o.EnumMScopeElements ctx)
        (fun resp => EnumMScopeElementsResponse.xxx_ToOp resp ctx)
        "EnumMScopeElementsRequest" "EnumMScopeElements" := rfl

theorem dhcp_handle_eq_6 (c : Dhcpsrv2Codecs) (ctx : Ctx)
    (o : Dhcpsrv2Server) (r : NdrReader) :
    Dhcpsrv2ServerHandle c ctx o 6 r =
      dispatchArm (c.unmarshalRemoveMScopeElementRequest ctx r) (o.RemoveMScopeElement ctx)
        (fun resp => RemoveMScopeElementResponse.xxx_ToOp resp ctx)
        "RemoveMScopeElementRequest" "RemoveMScopeElement" := rfl

theorem dhcp_handle_eq_7 (c : Dhcpsrv2Codecs) (ctx : Ctx)
    (o : Dhcpsrv2Server) (r : NdrReader) :
    Dhcpsrv2ServerHandle c ctx o 7 r =
      dispatchArm (c.unmarshalDeleteMScopeRequest ctx r) (o.DeleteMScope ctx)
        (fun resp => DeleteMScopeResponse.xxx_ToOp resp ctx)
        "DeleteMScopeRequest" "DeleteMScope" := rfl

theorem dhcp_handle_eq_8 (c : Dhcpsrv2Codecs) (ctx : Ctx)
    (o : Dhcpsrv2Server) (r : NdrReader) :
    Dhcpsrv2ServerHandle c ctx o 8 r =
      dispatchArm (c.unmarshalScanMDatabaseRequest ctx r) (o.ScanMDatabase ctx)
        (fun resp => ScanMDatabaseResponse.xxx_ToOp resp ctx)
        "ScanMDatabaseRequest" "ScanMDatabase" := rfl

theorem dhcp_handle_eq_9 (c : Dhcpsrv2Codecs) (ctx : Ctx)
    (o : Dhcpsrv2Server) (r : NdrReader) :
    Dhcpsrv2ServerHandle c ctx o 9 r =
      dispatchArm (c.unmarshalCreateMClientInfoRequest ctx r) (o.CreateMClientInfo ctx)
        (fun resp => CreateMClientInfoResponse.xxx_ToOp resp ctx)
        "CreateMClientInfoRequest" "CreateMClientInfo" := rfl

theorem dhcp_handle_eq_10 (c : Dhcpsrv2Codecs) (ctx : Ctx)
    (o : Dhcpsrv2Server) (r : NdrReader) :
    Dhcpsrv2ServerHandle c ctx o 10 r =
      dispatchArm (c.unmarshalSetMClientInfoRequest ctx r) (o.SetMClientInfo ctx)
        (fun resp => SetMClientInfoResponse.xxx_ToOp resp ctx)
        "SetMClientInfoRequest" "SetMClientInfo" := rfl

theorem dhcp_handle_eq_11 (c : Dhcpsrv2Codecs) (ctx : Ctx)
    (o : Dhcpsrv2Server) (r : NdrReader) :
    Dhcpsrv2ServerHandle c ctx o 11 r =
      dispatchArm (c.unmarshalGetMClientInfoRequest ctx r) (o.GetMClientInfo ctx)
        (fun resp => GetMClientInfoResponse.xxx_ToOp resp ctx)
        "GetMClientInfoRequest" "GetMClientInfo" := rfl

theorem dhcp_handle_eq_12 (c : Dhcpsrv2Codecs) (ctx : Ctx)
    (o : Dhcpsrv2Server) (r : NdrReader) :
    Dhcpsrv2ServerHandle c ctx o 12 r =
      dispatchArm (c.unmarshalDeleteMClientInfoRequest ctx r) (o.DeleteMClientInfo ctx)
        (fun resp => DeleteMClientInfoResponse.xxx_ToOp resp ctx)
        "DeleteMClientInfoRequest" "DeleteMClientInfo" := rfl

theorem dhcp_handle_eq_13 (c : Dhcpsrv2Codecs) (ctx : Ctx)
    (o : Dhcpsrv2Server) (r : NdrReader) :
    Dhcpsrv2ServerHandle c ctx o 13 r =
      dispatchArm (c.unmarshalEnumMScopeClientsRequest ctx r) (o.EnumMScopeClients ctx)
        (fun resp => EnumMScopeClientsResponse.xxx_ToOp resp ctx)
        "EnumMScopeClientsRequest" "EnumMScopeClients" := rfl

theorem dhcp_handle_eq_14 (c : Dhcpsrv2Codecs) (ctx : Ctx)
    (o : Dhcpsrv2Server) (r : NdrReader) :
    Dhcpsrv2ServerHandle c ctx o 14 r =
      dispatchArm (c.unmarshalCreateOptionV5Request ctx r) (o.CreateOptionV5 ctx)
        (fun resp => CreateOptionV5Response.xxx_ToOp resp ctx)
        "CreateOptionV5Request" "CreateOptionV5" := rfl

theorem dhcp_handle_eq_15 (c : Dhcpsrv2Codecs) (ctx : Ctx)
    (o : Dhcpsrv2Server) (r : NdrReader) :
    Dhcpsrv2ServerHandle c ctx o 15 r =
      dispatchArm (c.unmarshalSetOptionInfoV5Request ctx r) (o.SetOptionInfoV5 ctx)
        (fun resp => SetOptionInfoV5Response.xxx_ToOp resp ctx)
        "SetOptionInfoV5Request" "SetOptionInfoV5" := rfl

theorem dhcp_handle_eq_16 (c : Dhcpsrv2Codecs) (ctx : Ctx)
    (o : Dhcpsrv2Server) (r : NdrReader) :
    Dhcpsrv2ServerHandle c ctx o 16 r =
      dispatchArm (c.unmarshalGetOptionInfoV5Request ctx r) (o.GetOptionInfoV5 ctx)
        (fun resp => GetOptionInfoV5Response.xxx_ToOp resp ctx)
        "GetOptionInfoV5Request" "GetOptionInfoV5" := rfl

theorem dhcp_handle_eq_17 (c : Dhcpsrv2Codecs) (ctx : Ctx)
    (o : Dhcpsrv2Server) (r : NdrReader) :
    Dhcpsrv2ServerHandle c ctx o 17 r =
      dispatchArm (c.unmarshalEnumOptionsV5Request ctx r) (o.EnumOptionsV5 ctx)
        (fun resp => EnumOptionsV5Response.xxx_ToOp resp ctx)
        "EnumOptionsV5Request" "EnumOptionsV5" := rfl

theorem dhcp_handle_eq_18 (c : Dhcpsrv2Codecs) (ctx : Ctx)
    (o : Dhcpsrv2Server) (r : NdrReader) :
    Dhcpsrv2ServerHandle c ctx o 18 r =
      dispatchArm (c.unmarshalRemoveOptionV5Request ctx r) (o.RemoveOptionV5 ctx)
        (fun resp => RemoveOptionV5Response.xxx_ToOp resp ctx)
        "RemoveOptionV5Request" "RemoveOptionV5" := rfl

theorem dhcp_handle_eq_19 (c : Dhcpsrv2Codecs) (ctx : Ctx)
    (o : Dhcpsrv2Server) (r : NdrReader) :
    Dhcpsrv2ServerHandle c ctx o 19 r =
      dispatchArm (c.unmarshalSetOptionValueV5Request ctx r) (o.SetOptionValueV5 ctx)
        (fun resp => SetOptionValueV5Response.xxx_ToOp resp ctx)
        "SetOptionValueV5Request" "SetOptionValueV5" := rfl

theorem dhcp_handle_eq_20 (c : Dhcpsrv2Codecs) (ctx : Ctx)
    (o : Dhcpsrv2Server) (r : NdrReader) :
    Dhcpsrv2ServerHandle c ctx o 20 r =
      dispatchArm (c.unmarshalSetOptionValuesV5Request ctx r) (o.SetOptionValuesV5 ctx)
        (fun resp => SetOptionValuesV5Response.xxx_ToOp resp ctx)
        "SetOptionValuesV5Request" "SetOptionValuesV5" := rfl

theorem dhcp_handle_eq_21 (c : Dhcpsrv2Codecs) (ctx : Ctx)
    (o : Dhcpsrv2Server) (r : NdrReader) :
    Dhcpsrv2ServerHandle c ctx o 21 r =
      dispatchArm (c.unmarshalGetOptionValueV5Request ctx r) (o.GetOptionValueV5 ctx)
        (fun resp => GetOptionValueV5Response.xxx_ToOp resp ctx)
        "GetOptionValueV5Request" "GetOptionValueV5" := rfl

theorem dhcp_handle_eq_22 (c : Dhcpsrv2Codecs) (ctx : Ctx)
    (o : Dhcpsrv2Server) (r : NdrReader) :
    Dhcpsrv2ServerHandle c ctx o 22 r =
      dispatchArm (c.unmarshalEnumOptionValuesV5Request ctx r) (o.EnumOptionValuesV5 ctx)
        (fun resp => EnumOptionValuesV5Response.xxx_ToOp resp ctx)
        "EnumOptionValuesV5Request" "EnumOptionValuesV5" := rfl

theorem dhcp_handle_eq_23 (c : Dhcpsrv2Codecs) (ctx : Ctx)
    (o : Dhcpsrv2Server) (r : NdrReader) :
    Dhcpsrv2ServerHandle c ctx o 23 r =
      dispatchArm (c.unmarshalRemoveOptionValueV5Request ctx r) (o.RemoveOptionValueV5 ctx)
        (fun resp => RemoveOptionValueV5Response.xxx_ToOp resp ctx)
        "RemoveOptionValueV5Request" "RemoveOptionValueV5" := rfl

theorem dhcp_handle_eq_24 (c : Dhcpsrv2Codecs) (ctx : Ctx)
    (o : Dhcpsrv2Server) (r : NdrReader) :
    Dhcpsrv2ServerHandle c ctx o 24 r =
      dispatchArm (c.unmarshalCreateClassRequest ctx r) (o.CreateClass ctx)
        (fun resp => CreateClassResponse.xxx_ToOp resp ctx)
        "CreateClassRequest" "CreateClass" := rfl

theorem dhcp_handle_eq_25 (c : Dhcpsrv2Codecs) (ctx : Ctx)
    (o : Dhcpsrv2Server) (r : NdrReader) :
    Dhcpsrv2ServerHandle c ctx o 25 r =
      dispatchArm (c.unmarshalModifyClassRequest ctx r) (o.ModifyClass ctx)
        (fun resp => ModifyClassResponse.xxx_ToOp resp ctx)
        "ModifyClassRequest" "ModifyClass" := rfl

theorem dhcp_handle_eq_26 (c : Dhcpsrv2Codecs) (ctx : Ctx)
    (o : Dhcpsrv2Server) (r : NdrReader) :
    Dhcpsrv2ServerHandle c ctx o 26 r =
      dispatchArm (c.unmarshalDeleteClassRequest ctx r) (o.DeleteClass ctx)
        (fun resp => DeleteClassResponse.xxx_ToOp resp ctx)
        "DeleteClassRequest" "DeleteClass" := rfl

theorem dhcp_handle_eq_27 (c : Dhcpsrv2Codecs) (ctx : Ctx)
    (o : Dhcpsrv2Server) (r : NdrReader) :
    Dhcpsrv2ServerHandle c ctx o 27 r =
      dispatchArm (c.unmarshalGetClassInfoRequest ctx r) (o.GetClassInfo ctx)
        (fun resp => GetClassInfoResponse.xxx_ToOp resp ctx)
        "GetClassInfoRequest" "GetClassInfo" := rfl

theorem dhcp_handle_eq_28 (c : Dhcpsrv2Codecs) (ctx : Ctx)
    (o : Dhcpsrv2Server) (r : NdrReader) :
    Dhcpsrv2ServerHandle c ctx o 28 r =
      dispatchArm (c.unmarshalEnumClassesRequest ctx r) (o.EnumClasses ctx)
        (fun resp => EnumClassesResponse.xxx_ToOp resp ctx)
        "EnumClassesRequest" "EnumClasses" := rfl

theorem dhcp_handle_eq_29 (c : Dhcpsrv2Codecs) (ctx : Ctx)
    (o : Dhcpsrv2Server) (r : NdrReader) :
    Dhcpsrv2ServerHandle c ctx o 29 r =
      dispatchArm (c.unmarshalGetAllOptionsRequest ctx r) (o.GetAllOptions ctx)
        (fun resp => GetAllOptionsResponse.xxx_ToOp resp ctx)
        "GetAllOptionsRequest" "GetAllOptions" := rfl

theorem dhcp_handle_eq_30 (c : Dhcpsrv2Codecs) (ctx : Ctx)
    (o : Dhcpsrv2Server) (r : NdrReader) :
    Dhcpsrv2ServerHandle c ctx o 30 r =
      dispatchArm (c.unmarshalGetAllOptionValuesRequest ctx r) (o.GetAllOptionValues ctx)
        (fun resp => GetAllOptionValuesResponse.xxx_ToOp resp ctx)
        "GetAllOptionValuesRequest" "GetAllOptionValues" := rfl

theorem dhcp_handle_eq_31 (c : Dhcpsrv2Codecs) (ctx : Ctx)
    (o : Dhcpsrv2Server) (r : NdrReader) :
    Dhcpsrv2ServerHandle c ctx o 31 r =
      dispatchArm (c.unmarshalGetMCastMIBInfoRequest ctx r) (o.GetMCastMIBInfo ctx)
        (fun resp => GetMCastMIBInfoResponse.xxx_ToOp resp ctx)
        "GetMCastMIBInfoRequest" "GetMCastMIBInfo" := rfl

theorem dhcp_handle_eq_32 (c : Dhcpsrv2Codecs) (ctx : Ctx)
    (o : Dhcpsrv2Server) (r : NdrReader) :
    Dhcpsrv2ServerHandle c ctx o 32 r =
      dispatchArm (c.unmarshalAuditLogSetParamsRequest ctx r) (o.AuditLogSetParams ctx)
        (fun resp => AuditLogSetParamsResponse.xxx_ToOp resp ctx)
        "AuditLogSetParamsRequest" "AuditLogSetParams" := rfl

theorem dhcp_handle_eq_33 (c : Dhcpsrv2Codecs) (ctx : Ctx)
    (o : Dhcpsrv2Server) (r : NdrReader) :
    Dhcpsrv2ServerHandle c ctx o 33 r =
      dispatchArm (c.unmarshalAuditLogGetParamsRequest ctx r) (o.AuditLogGetParams ctx)
        (fun resp => AuditLogGetParamsResponse.xxx_ToOp resp ctx)
        "AuditLogGetParamsRequest" "AuditLogGetParams" := rfl

theorem dhcp_handle_eq_34 (c : Dhcpsrv2Codecs) (ctx : Ctx)
    (o : Dhcpsrv2Server) (r : NdrReader) :
    Dhcpsrv2ServerHandle c ctx o 34 r =
      dispatchArm (c.unmarshalServerQueryAttributeRequest ctx r) (o.ServerQueryAttribute ctx)
        (fun resp => ServerQueryAttributeResponse.xxx_ToOp resp ctx)
        "ServerQueryAttributeRequest" "ServerQueryAttribute" := rfl

theorem dhcp_handle_eq_35 (c : Dhcpsrv2Codecs) (ctx : Ctx)
    (o : Dhcpsrv2Server) (r : NdrReader) :
    Dhcpsrv2ServerHandle c ctx o 35 r =
      dispatchArm (c.unmarshalServerQueryAttributesRequest ctx r) (o.ServerQueryAttributes ctx)
        (fun resp => ServerQueryAttributesResponse.xxx_ToOp resp ctx)
        "ServerQueryAttributesRequest" "ServerQueryAttributes" := rfl

theorem dhcp_handle_eq_36 (c : Dhcpsrv2Codecs) (ctx : Ctx)
    (o : Dhcpsrv2Server) (r : NdrReader) :
    Dhcpsrv2ServerHandle c ctx o 36 r =
      dispatchArm (c.unmarshalServerRedoAuthorizationRequest ctx r) (o.ServerRedoAuthorization ctx)
        (fun resp => ServerRedoAuthorizationResponse.xxx_ToOp resp ctx)
        "ServerRedoAuthorizationRequest" "ServerRedoAuthorization" := rfl

theorem dhcp_handle_eq_37 (c : Dhcpsrv2Codecs) (ctx : Ctx)
    (o : Dhcpsrv2Server) (r : NdrReader) :
    Dhcpsrv2ServerHandle c ctx o 37 r =
      dispatchArm (c.unmarshalAddSubnetElementV5Request ctx r) (o.AddSubnetElementV5 ctx)
        (fun resp => AddSubnetElementV5Response.xxx_ToOp resp ctx)
        "AddSubnetElementV5Request" "AddSubnetElementV5" := rfl

theorem dhcp_handle_eq_38 (c : Dhcpsrv2Codecs) (ctx : Ctx)
    (o : Dhcpsrv2Server) (r : NdrReader) :
    Dhcpsrv2ServerHandle c ctx o 38 r =
      dispatchArm (c.unmarshalEnumSubnetElementsV5Request ctx r) (o.EnumSubnetElementsV5 ctx)
        (fun resp => EnumSubnetElementsV5Response.xxx_ToOp resp ctx)
        "EnumSubnetElementsV5Request" "EnumSubnetElementsV5" := rfl

theorem dhcp_handle_eq_39 (c : Dhcpsrv2Codecs) (ctx : Ctx)
    (o : Dhcpsrv2Server) (r : NdrReader) :
    Dhcpsrv2ServerHandle c ctx o 39 r =
      dispatchArm (c.unmarshalRemoveSubnetElementV5Request ctx r) (o.RemoveSubnetElementV5 ctx)
        (fun resp => RemoveSubnetElementV5Response.xxx_ToOp resp ctx)
        "RemoveSubnetElementV5Request" "RemoveSubnetElementV5" := rfl

theorem dhcp_handle_eq_40 (c : Dhcpsrv2Codecs) (ctx : Ctx)
    (o : Dhcpsrv2Server) (r : NdrReader) :
    Dhcpsrv2ServerHandle c ctx o 40 r =
      dispatchArm (c.unmarshalGetServerBindingInfoRequest ctx r) (o.GetServerBindingInfo ctx)
        (fun resp => GetServerBindingInfoResponse.xxx_ToOp resp ctx)
        "GetServerBindingInfoRequest" "GetServerBindingInfo" := rfl

theorem dhcp_handle_eq_41 (c : Dhcpsrv2Codecs) (ctx : Ctx)
    (o : Dhcpsrv2Server) (r : NdrReader) :
    Dhcpsrv2ServerHandle c ctx o 41 r =
      dispatchArm (c.unmarshalSetServerBindingInfoRequest ctx r) (o.SetServerBindingInfo ctx)
        (fun resp => SetServerBindingInfoResponse.xxx_ToOp resp ctx)
        "SetServerBindingInfoRequest" "SetServerBindingInfo" := rfl

theorem dhcp_handle_eq_42 (c : Dhcpsrv2Codecs) (ctx : Ctx)
    (o : Dhcpsrv2Server) (r : NdrReader) :
    Dhcpsrv2ServerHandle c ctx o 42 r =
      dispatchArm (c.unmarshalQueryDNSRegCredentialsRequest ctx r) (o.QueryDNSRegCredentials ctx)
        (fun resp => QueryDNSRegCredentialsResponse.xxx_ToOp resp ctx)
        "QueryDNSRegCredentialsRequest" "QueryDNSRegCredentials" := rfl

theorem dhcp_handle_eq_43 (c : Dhcpsrv2Codecs) (ctx : Ctx)
    (o : Dhcpsrv2Server) (r : NdrReader) :
    Dhcpsrv2ServerHandle c ctx o 43 r =
      dispatchArm (c.unmarshalSetDNSRegCredentialsRequest ctx r) (o.SetDNSRegCredentials ctx)
        (fun resp => SetDNSRegCredentialsResponse.xxx_ToOp resp ctx)
        "SetDNSRegCredentialsRequest" "SetDNSRegCredentials" := rfl

theorem dhcp_handle_eq_44 (c : Dhcpsrv2Codecs) (ctx : Ctx)
    (o : Dhcpsrv2Server) (r : NdrReader) :
    Dhcpsrv2ServerHandle c ctx o 44 r =
      dispatchArm (c.unmarshalBackupDatabaseRequest ctx r) (o.BackupDatabase ctx)
        (fun resp => BackupDatabaseResponse.xxx_ToOp resp ctx)
        "BackupDatabaseRequest" "BackupDatabase" := rfl

theorem dhcp_handle_eq_45 (c : Dhcpsrv2Codecs) (ctx : Ctx)
    (o : Dhcpsrv2Server) (r : NdrReader) :
    Dhcpsrv2ServerHandle c ctx o 45 r =
      dispatchArm (c.unmarshalRestoreDatabaseRequest ctx r) (o.RestoreDatabase ctx)
        (fun resp => RestoreDatabaseResponse.xxx_ToOp resp ctx)
        "RestoreDatabaseRequest" "RestoreDatabase" := rfl

theorem dhcp_handle_eq_46 (c : Dhcpsrv2Codecs) (ctx : Ctx)
    (o : Dhcpsrv2Server) (r : NdrReader) :
    Dhcpsrv2ServerHandle c ctx o 46 r =
      dispatchArm (c.unmarshalGetServerSpecificStringsRequest ctx r) (o.GetServerSpecificStrings ctx)
        (fun resp => GetServerSpecificStringsResponse.xxx_ToOp resp ctx)
        "GetServerSpecificStringsRequest" "GetServerSpecificStrings" := rfl

theorem dhcp_handle_eq_47 (c : Dhcpsrv2Codecs) (ctx : Ctx)
    (o : Dhcpsrv2Server) (r : NdrReader) :
    Dhcpsrv2ServerHandle c ctx o 47 r =
      dispatchArm (c.unmarshalCreateOptionV6Request ctx r) (o.CreateOptionV6 ctx)
        (fun resp => CreateOptionV6Response.xxx_ToOp resp ctx)
        "CreateOptionV6Request" "CreateOptionV6" := rfl

theorem dhcp_handle_eq_48 (c : Dhcpsrv2Codecs) (ctx : Ctx)
    (o : Dhcpsrv2Server) (r : NdrReader) :
    Dhcpsrv2ServerHandle c ctx o 48 r =
      dispatchArm (c.unmarshalSetOptionInfoV6Request ctx r) (o.SetOptionInfoV6 ctx)
        (fun resp => SetOptionInfoV6Response.xxx_ToOp resp ctx)
        "SetOptionInfoV6Request" "SetOptionInfoV6" := rfl

theorem dhcp_handle_eq_49 (c : Dhcpsrv2Codecs) (ctx : Ctx)
    (o : Dhcpsrv2Server) (r : NdrReader) :
    Dhcpsrv2ServerHandle c ctx o 49 r =
      dispatchArm (c.unmarshalGetOptionInfoV6Request ctx r) (o.GetOptionInfoV6 ctx)
        (fun resp => GetOptionInfoV6Response.xxx_ToOp resp ctx)
        "GetOptionInfoV6Request" "GetOptionInfoV6" := rfl

theorem dhcp_handle_eq_50 (c : Dhcpsrv2Codecs) (ctx : Ctx)
    (o : Dhcpsrv2Server) (r : NdrReader) :
    Dhcpsrv2ServerHandle c ctx o 50 r =
      dispatchArm (c.unmarshalEnumOptionsV6Request ctx r) (o.EnumOptionsV6 ctx)
        (fun resp => EnumOptionsV6Response.xxx_ToOp resp ctx)
        "EnumOptionsV6Request" "EnumOptionsV6" := rfl

theorem dhcp_handle_eq_51 (c : Dhcpsrv2Codecs) (ctx : Ctx)
    (o : Dhcpsrv2Server) (r : NdrReader) :
    Dhcpsrv2ServerHandle c ctx o 51 r =
      dispatchArm (c.unmarshalRemoveOptionV6Request ctx r) (o.RemoveOptionV6 ctx)
        (fun resp => RemoveOptionV6Response.xxx_ToOp resp ctx)
        "RemoveOptionV6Request" "RemoveOptionV6" := rfl

theorem dhcp_handle_eq_52 (c : Dhcpsrv2Codecs) (ctx : Ctx)
    (o : Dhcpsrv2Server) (r : NdrReader) :
    Dhcpsrv2ServerHandle c ctx o 52 r =
      dispatchArm (c.unmarshalSetOptionValueV6Request ctx r) (o.SetOptionValueV6 ctx)
        (fun resp => SetOptionValueV6Response.xxx_ToOp resp ctx)
        "SetOptionValueV6Request" "SetOptionValueV6" := rfl

theorem dhcp_handle_eq_53 (c : Dhcpsrv2Codecs) (ctx : Ctx)
    (o : Dhcpsrv2Server) (r : NdrReader) :
    Dhcpsrv2ServerHandle c ctx o 53 r =
      dispatchArm (c.unmarshalEnumOptionValuesV6Request ctx r) (o.EnumOptionValuesV6 ctx)
        (fun resp => EnumOptionValuesV6Response.xxx_ToOp resp ctx)
        "EnumOptionValuesV6Request" "EnumOptionValuesV6" := rfl

theorem dhcp_handle_eq_54 (c : Dhcpsrv2Codecs) (ctx : Ctx)
    (o : Dhcpsrv2Server) (r : NdrReader) :
    Dhcpsrv2ServerHandle c ctx o 54 r =
      dispatchArm (c.unmarshalRemoveOptionValueV6Request ctx r) (o.RemoveOptionValueV6 ctx)
        (fun resp => RemoveOptionValueV6Response.xxx_ToOp resp ctx)
        "RemoveOptionValueV6Request" "RemoveOptionValueV6" := rfl

theorem dhcp_handle_eq_55 (c : Dhcpsrv2Codecs) (ctx : Ctx)
    (o : Dhcpsrv2Server) (r : NdrReader) :
    Dhcpsrv2ServerHandle c ctx o 55 r =
      dispatchArm (c.unmarshalGetAllOptionsV6Request ctx r) (o.GetAllOptionsV6 ctx)
        (fun resp => GetAllOptionsV6Response.xxx_ToOp resp ctx)
        "GetAllOptionsV6Request" "GetAllOptionsV6" := rfl

theorem dhcp_handle_eq_56 (c : Dhcpsrv2Codecs) (ctx : Ctx)
    (o : Dhcpsrv2Server) (r : NdrReader) :
    Dhcpsrv2ServerHandle c ctx o 56 r =
      dispatchArm (c.unmarshalGetAllOptionValuesV6Request ctx r) (o.GetAllOptionValuesV6 ctx)
        (fun resp => GetAllOptionValuesV6Response.xxx_ToOp resp ctx)
        "GetAllOptionValuesV6Request" "GetAllOptionValuesV6" := rfl

theorem dhcp_handle_eq_57 (c : Dhcpsrv2Codecs) (ctx : Ctx)
    (o : Dhcpsrv2Server) (r : NdrReader) :
    Dhcpsrv2ServerHandle c ctx o 57 r =
      dispatchArm (c.unmarshalCreateSubnetV6Request ctx r) (o.CreateSubnetV6 ctx)
        (fun resp => CreateSubnetV6Response.xxx_ToOp resp ctx)
        "CreateSubnetV6Request" "CreateSubnetV6" := rfl

theorem dhcp_handle_eq_58 (c : Dhcpsrv2Codecs) (ctx : Ctx)
    (o : Dhcpsrv2Server) (r : NdrReader) :
    Dhcpsrv2ServerHandle c ctx o 58 r =
      dispatchArm (c.unmarshalEnumSubnetsV6Request ctx r) (o.EnumSubnetsV6 ctx)
        (fun resp => EnumSubnetsV6Response.xxx_ToOp resp ctx)
        "EnumSubnetsV6Request" "EnumSubnetsV6" := rfl

theorem dhcp_handle_eq_59 (c : Dhcpsrv2Codecs) (ctx : Ctx)
    (o : Dhcpsrv2Server) (r : NdrReader) :
    Dhcpsrv2ServerHandle c ctx o 59 r =
      dispatchArm (c.unmarshalAddSubnetElementV6Request ctx r) (o.AddSubnetElementV6 ctx)
        (fun resp => AddSubnetElementV6Response.xxx_ToOp resp ctx)
        "AddSubnetElementV6Request" "AddSubnetElementV6" := rfl

theorem dhcp_handle_eq_60 (c : Dhcpsrv2Codecs) (ctx : Ctx)
    (o : Dhcpsrv2Server) (r : NdrReader) :
    Dhcpsrv2ServerHandle c ctx o 60 r =
      dispatchArm (c.unmarshalEnumSubnetElementsV6Request ctx r) (o.EnumSubnetElementsV6 ctx)
        (fun resp => EnumSubnetElementsV6Response.xxx_ToOp resp ctx)
        "EnumSubnetElementsV6Request" "EnumSubnetElementsV6" := rfl

theorem dhcp_handle_eq_61 (c : Dhcpsrv2Codecs) (ctx : Ctx)
    (o : Dhcpsrv2Server) (r : NdrReader) :
    Dhcpsrv2ServerHandle c ctx o 61 r =
      dispatchArm (c.unmarshalRemoveSubnetElementV6Request ctx r) (o.RemoveSubnetElementV6 ctx)
        (fun resp => RemoveSubnetElementV6Response.xxx_ToOp resp ctx)
        "RemoveSubnetElementV6Request" "RemoveSubnetElementV6" := rfl

theorem dhcp_handle_eq_62 (c : Dhcpsrv2Codecs) (ctx : Ctx)
    (o : Dhcpsrv2Server) (r : NdrReader) :
    Dhcpsrv2ServerHandle c ctx o 62 r =
      dispatchArm (c.unmarshalDeleteSubnetV6Request ctx r) (o.DeleteSubnetV6 ctx)
        (fun resp => DeleteSubnetV6Response.xxx_ToOp resp ctx)
        "DeleteSubnetV6Request" "DeleteSubnetV6" := rfl

theorem dhcp_handle_eq_63 (c : Dhcpsrv2Codecs) (ctx : Ctx)
    (o : Dhcpsrv2Server) (r : NdrReader) :
    Dhcpsrv2ServerHandle c ctx o 63 r =
      dispatchArm (c.unmarshalGetSubnetInfoV6Request ctx r) (o.GetSubnetInfoV6 ctx)
        (fun resp => GetSubnetInfoV6Response.xxx_ToOp resp ctx)
        "GetSubnetInfoV6Request" "GetSubnetInfoV6" := rfl

theorem dhcp_handle_eq_64 (c : Dhcpsrv2Codecs) (ctx : Ctx)
    (o : Dhcpsrv2Server) (r : NdrReader) :
    Dhcpsrv2ServerHandle c ctx o 64 r =
      dispatchArm (c.unmarshalEnumSubnetClientsV6Request ctx r) (o.EnumSubnetClientsV6 ctx)
        (fun resp => EnumSubnetClientsV6Response.xxx_ToOp resp ctx)
        "EnumSubnetClientsV6Request" "EnumSubnetClientsV6" := rfl

theorem dhcp_handle_eq_65 (c : Dhcpsrv2Codecs) (ctx : Ctx)
    (o : Dhcpsrv2Server) (r : NdrReader) :
    Dhcpsrv2ServerHandle c ctx o 65 r =
      dispatchArm (c.unmarshalServerSetConfigV6Request ctx r) (o.ServerSetConfigV6 ctx)
        (fun resp => ServerSetConfigV6Response.xxx_ToOp resp ctx)
        "ServerSetConfigV6Request" "ServerSetConfigV6" := rfl

theorem dhcp_handle_eq_66 (c : Dhcpsrv2Codecs) (ctx : Ctx)
    (o : Dhcpsrv2Server) (r : NdrReader) :
    Dhcpsrv2ServerHandle c ctx o 66 r =
      dispatchArm (c.unmarshalServerGetConfigV6Request ctx r) (o.ServerGetConfigV6 ctx)
        (fun resp => ServerGetConfigV6Response.xxx_ToOp resp ctx)
        "ServerGetConfigV6Request" "ServerGetConfigV6" := rfl

theorem dhcp_handle_eq_67 (c : Dhcpsrv2Codecs) (ctx : Ctx)
    (o : Dhcpsrv2Server) (r : NdrReader) :
    Dhcpsrv2ServerHandle c ctx o 67 r =
      dispatchArm (c.unmarshalSetSubnetInfoV6Request ctx r) (o.SetSubnetInfoV6 ctx)
        (fun resp => SetSubnetInfoV6Response.xxx_ToOp resp ctx)
        "SetSubnetInfoV6Request" "SetSubnetInfoV6" := rfl

theorem dhcp_handle_eq_68 (c : Dhcpsrv2Codecs) (ctx : Ctx)
    (o : Dhcpsrv2Server) (r : NdrReader) :
    Dhcpsrv2ServerHandle c ctx o 68 r =
      dispatchArm (c.unmarshalGetMIBInfoV6Request ctx r) (o.GetMIBInfoV6 ctx)
        (fun resp => GetMIBInfoV6Response.xxx_ToOp resp ctx)
        "GetMIBInfoV6Request" "GetMIBInfoV6" := rfl

theorem dhcp_handle_eq_69 (c : Dhcpsrv2Codecs) (ctx : Ctx)
    (o : Dhcpsrv2Server) (r : NdrReader) :
    Dhcpsrv2ServerHandle c ctx o 69 r =
      dispatchArm (c.unmarshalGetServerBindingInfoV6Request ctx r) (o.GetServerBindingInfoV6 ctx)
        (fun resp => GetServerBindingInfoV6Response.xxx_ToOp resp ctx)
        "GetServerBindingInfoV6Request" "GetServerBindingInfoV6" := rfl

theorem dhcp_handle_eq_70 (c : Dhcpsrv2Codecs) (ctx : Ctx)
    (o : Dhcpsrv2Server) (r : NdrReader) :
    Dhcpsrv2ServerHandle c ctx o 70 r =
      dispatchArm (c.unmarshalSetServerBindingInfoV6Request ctx r) (o.SetServerBindingInfoV6 ctx)
        (fun resp => SetServerBindingInfoV6Response.xxx_ToOp resp ctx)
        "SetServerBindingInfoV6Request" "SetServerBindingInfoV6" := rfl

theorem dhcp_handle_eq_71 (c : Dhcpsrv2Codecs) (ctx : Ctx)
    (o : Dhcpsrv2Server) (r : NdrReader) :
    Dhcpsrv2ServerHandle c ctx o 71 r =
      dispatchArm (c.unmarshalSetClientInfoV6Request ctx r) (o.SetClientInfoV6 ctx)
        (fun resp => SetClientInfoV6Response.xxx_ToOp resp ctx)
        "SetClientInfoV6Request" "SetClientInfoV6" := rfl

theorem dhcp_handle_eq_72 (c : Dhcpsrv2Codecs) (ctx : Ctx)
    (o : Dhcpsrv2Server) (r : NdrReader) :
    Dhcpsrv2ServerHandle c ctx o 72 r =
      dispatchArm (c.unmarshalGetClientInfoV6Request ctx r) (o.GetClientInfoV6 ctx)
        (fun resp => GetClientInfoV6Response.xxx_ToOp resp ctx)
        "GetClientInfoV6Request" "GetClientInfoV6" := rfl

theorem dhcp_handle_eq_73 (c : Dhcpsrv2Codecs) (ctx : Ctx)
    (o : Dhcpsrv2Server) (r : NdrReader) :
    Dhcpsrv2ServerHandle c ctx o 73 r =
      dispatchArm (c.unmarshalDeleteClientInfoV6Request ctx r) (o.DeleteClientInfoV6 ctx)
        (fun resp => DeleteClientInfoV6Response.xxx_ToOp resp ctx)
        "DeleteClientInfoV6Request" "DeleteClientInfoV6" := rfl

theorem dhcp_handle_eq_74 (c : Dhcpsrv2Codecs) (ctx : Ctx)
    (o : Dhcpsrv2Server) (r : NdrReader) :
    Dhcpsrv2ServerHandle c ctx o 74 r =
      dispatchArm (c.unmarshalCreateClassV6Request ctx r) (o.CreateClassV6 ctx)
        (fun resp => CreateClassV6Response.xxx_ToOp resp ctx)
        "CreateClassV6Request" "CreateClassV6" := rfl

theorem dhcp_handle_eq_75 (c : Dhcpsrv2Codecs) (ctx : Ctx)
    (o : Dhcpsrv2Server) (r : NdrReader) :
    Dhcpsrv2ServerHandle c ctx o 75 r =
      dispatchArm (c.unmarshalModifyClassV6Request ctx r) (o.ModifyClassV6 ctx)
        (fun resp => ModifyClassV6Response.xxx_ToOp resp ctx)
        "ModifyClassV6Request" "ModifyClassV6" := rfl

theorem dhcp_handle_eq_76 (c : Dhcpsrv2Codecs) (ctx : Ctx)
    (o : Dhcpsrv2Server) (r : NdrReader) :
    Dhcpsrv2ServerHandle c ctx o 76 r =
      dispatchArm (c.unmarshalDeleteClassV6Request ctx r) (o.DeleteClassV6 ctx)
        (fun resp => DeleteClassV6Response.xxx_ToOp resp ctx)
        "DeleteClassV6Request" "DeleteClassV6" := rfl

theorem dhcp_handle_eq_77 (c : Dhcpsrv2Codecs) (ctx : Ctx)
    (o : Dhcpsrv2Server) (r : NdrReader) :
    Dhcpsrv2ServerHandle c ctx o 77 r =
      dispatchArm (c.unmarshalEnumClassesV6Request ctx r) (o.EnumClassesV6 ctx)
        (fun resp => EnumClassesV6Response.xxx_ToOp resp ctx)
        "EnumClassesV6Request" "EnumClassesV6" := rfl

theorem dhcp_handle_eq_78 (c : Dhcpsrv2Codecs) (ctx : Ctx)
    (o : Dhcpsrv2Server) (r : NdrReader) :
    Dhcpsrv2ServerHandle c ctx o 78 r =
      dispatchArm (c.unmarshalGetOptionValueV6Request ctx r) (o.GetOptionValueV6 ctx)
        (fun resp => GetOptionValueV6Response.xxx_ToOp resp ctx)
        "GetOptionValueV6Request" "GetOptionValueV6" := rfl

theorem dhcp_handle_eq_79 (c : Dhcpsrv2Codecs) (ctx : Ctx)
    (o : Dhcpsrv2Server) (r : NdrReader) :
    Dhcpsrv2ServerHandle c ctx o 79 r =
      dispatchArm (c.unmarshalSetSubnetDelayOfferRequest ctx r) (o.SetSubnetDelayOffer ctx)
        (fun resp => SetSubnetDelayOfferResponse.xxx_ToOp resp ctx)
        "SetSubnetDelayOfferRequest" "SetSubnetDelayOffer" := rfl

theorem dhcp_handle_eq_80 (c : Dhcpsrv2Codecs) (ctx : Ctx)
    (o : Dhcpsrv2Server) (r : NdrReader) :
    Dhcpsrv2ServerHandle c ctx o 80 r =
      dispatchArm (c.unmarshalGetSubnetDelayOfferRequest ctx r) (o.GetSubnetDelayOffer ctx)
        (fun resp => GetSubnetDelayOfferResponse.xxx_ToOp resp ctx)
        "GetSubnetDelayOfferRequest" "GetSubnetDelayOffer" := rfl

theorem dhcp_handle_eq_81 (c : Dhcpsrv2Codecs) (ctx : Ctx)
    (o : Dhcpsrv2Server) (r : NdrReader) :
    Dhcpsrv2ServerHandle c ctx o 81 r =
      dispatchArm (c.unmarshalGetMIBInfoV5Request ctx r) (o.GetMIBInfoV5 ctx)
        (fun resp => GetMIBInfoV5Response.xxx_ToOp resp ctx)
        "GetMIBInfoV5Request" "GetMIBInfoV5" := rfl

theorem dhcp_handle_eq_82 (c : Dhcpsrv2Codecs) (ctx : Ctx)
    (o : Dhcpsrv2Server) (r : NdrReader) :
    Dhcpsrv2ServerHandle c ctx o 82 r =
      dispatchArm (c.unmarshalAddFilterV4Request ctx r) (o.AddFilterV4 ctx)
        (fun resp => AddFilterV4Response.xxx_ToOp resp ctx)
        "AddFilterV4Request" "AddFilterV4" := rfl

theorem dhcp_handle_eq_83 (c : Dhcpsrv2Codecs) (ctx : Ctx)
    (o : Dhcpsrv2Server) (r : NdrReader) :
    Dhcpsrv2ServerHandle c ctx o 83 r =
      dispatchArm (c.unmarshalDeleteFilterV4Request ctx r) (o.DeleteFilterV4 ctx)
        (fun resp => DeleteFilterV4Response.xxx_ToOp resp ctx)
        "DeleteFilterV4Request" "DeleteFilterV4" := rfl

theorem dhcp_handle_eq_84 (c : Dhcpsrv2Codecs) (ctx : Ctx)
    (o : Dhcpsrv2Server) (r : NdrReader) :
    Dhcpsrv2ServerHandle c ctx o 84 r =
      dispatchArm (c.unmarshalSetFilterV4Request ctx r) (o.SetFilterV4 ctx)
        (fun resp => SetFilterV4Response.xxx_ToOp resp ctx)
        "SetFilterV4Request" "SetFilterV4" := rfl

theorem dhcp_handle_eq_85 (c : Dhcpsrv2Codecs) (ctx : Ctx)
    (o : Dhcpsrv2Server) (r : NdrReader) :
    Dhcpsrv2ServerHandle c ctx o 85 r =
      dispatchArm (c.unmarshalGetFilterV4Request ctx r) (o.GetFilterV4 ctx)
        (fun resp => GetFilterV4Response.xxx_ToOp resp ctx)
        "GetFilterV4Request" "GetFilterV4" := rfl

theorem dhcp_handle_eq_86 (c : Dhcpsrv2Codecs) (ctx : Ctx)
    (o : Dhcpsrv2Server) (r : NdrReader) :
    Dhcpsrv2ServerHandle c ctx o 86 r =
      dispatchArm (c.unmarshalEnumFilterV4Request ctx r) (o.EnumFilterV4 ctx)
        (fun resp => EnumFilterV4Response.xxx_ToOp resp ctx)
        "EnumFilterV4Request" "EnumFilterV4" := rfl

theorem dhcp_handle_eq_87 (c : Dhcpsrv2Codecs) (ctx : Ctx)
    (o : Dhcpsrv2Server) (r : NdrReader) :
    Dhcpsrv2ServerHandle c ctx o 87 r =
      dispatchArm (c.unmarshalSetDNSRegCredentialsV5Request ctx r) (o.SetDNSRegCredentialsV5 ctx)
        (fun resp => SetDNSRegCredentialsV5Response.xxx_ToOp resp ctx)
        "SetDNSRegCredentialsV5Request" "SetDNSRegCredentialsV5" := rfl

theorem dhcp_handle_eq_88 (c : Dhcpsrv2Codecs) (ctx : Ctx)
    (o : Dhcpsrv2Server) (r : NdrReader) :
    Dhcpsrv2ServerHandle c ctx o 88 r =
      dispatchArm (c.unmarshalEnumSubnetClientsFilterStatusInfoRequest ctx r) (o.EnumSubnetClientsFilterStatusInfo ctx)
        (fun resp => EnumSubnetClientsFilterStatusInfoResponse.xxx_ToOp resp ctx)
        "EnumSubnetClientsFilterStatusInfoRequest" "EnumSubnetClientsFilterStatusInfo" := rfl

theorem dhcp_handle_eq_89 (c : Dhcpsrv2Codecs) (ctx : Ctx)
    (o : Dhcpsrv2Server) (r : NdrReader) :
    Dhcpsrv2ServerHandle c ctx o 89 r =
      dispatchArm (c.unmarshalFailoverCreateRelationshipV4Request ctx r) (o.FailoverCreateRelationshipV4 ctx)
        (fun resp => FailoverCreateRelationshipV4Response.xxx_ToOp resp ctx)
        "FailoverCreateRelationshipV4Request" "FailoverCreateRelationshipV4" := rfl

theorem dhcp_handle_eq_90 (c : Dhcpsrv2Codecs) (ctx : Ctx)
    (o : Dhcpsrv2Server) (r : NdrReader) :
    Dhcpsrv2ServerHandle c ctx o 90 r =
      dispatchArm (c.unmarshalFailoverSetRelationshipV4Request ctx r) (o.FailoverSetRelationshipV4 ctx)
        (fun resp => FailoverSetRelationshipV4Response.xxx_ToOp resp ctx)
        "FailoverSetRelationshipV4Request" "FailoverSetRelationshipV4" := rfl

theorem dhcp_handle_eq_91 (c : Dhcpsrv2Codecs) (ctx : Ctx)
    (o : Dhcpsrv2Server) (r : NdrReader) :
    Dhcpsrv2ServerHandle c ctx o 91 r =
      dispatchArm (c.unmarshalFailoverDeleteRelationshipV4Request ctx r) (o.FailoverDeleteRelationshipV4 ctx)
        (fun resp => FailoverDeleteRelationshipV4Response.xxx_ToOp resp ctx)
        "FailoverDeleteRelationshipV4Request" "FailoverDeleteRelationshipV4" := rfl

theorem dhcp_handle_eq_92 (c : Dhcpsrv2Codecs) (ctx : Ctx)
    (o : Dhcpsrv2Server) (r : NdrReader) :
    Dhcpsrv2ServerHandle c ctx o 92 r =
      dispatchArm (c.unmarshalFailoverGetRelationshipV4Request ctx r) (o.FailoverGetRelationshipV4 ctx)
        (fun resp => FailoverGetRelationshipV4Response.xxx_ToOp resp ctx)
        "FailoverGetRelationshipV4Request" "FailoverGetRelationshipV4" := rfl

theorem dhcp_handle_eq_93 (c : Dhcpsrv2Codecs) (ctx : Ctx)
    (o : Dhcpsrv2Server) (r : NdrReader) :
    Dhcpsrv2ServerHandle c ctx o 93 r =
      dispatchArm (c.unmarshalFailoverEnumRelationshipV4Request ctx r) (o.FailoverEnumRelationshipV4 ctx)
        (fun resp => FailoverEnumRelationshipV4Response.xxx_ToOp resp ctx)
        "FailoverEnumRelationshipV4Request" "FailoverEnumRelationshipV4" := rfl

theorem dhcp_handle_eq_94 (c : Dhcpsrv2Codecs) (ctx : Ctx)
    (o : Dhcpsrv2Server) (r : NdrReader) :
    Dhcpsrv2ServerHandle c ctx o 94 r =
      dispatchArm (c.unmarshalFailoverAddScopeToRelationshipV4Request ctx r) (o.FailoverAddScopeToRelationshipV4 ctx)
        (fun resp => FailoverAddScopeToRelationshipV4Response.xxx_ToOp resp ctx)
        "FailoverAddScopeToRelationshipV4Request" "FailoverAddScopeToRelationshipV4" := rfl

theorem dhcp_handle_eq_95 (c : Dhcpsrv2Codecs) (ctx : Ctx)
    (o : Dhcpsrv2Server) (r : NdrReader) :
    Dhcpsrv2ServerHandle c ctx o 95 r =
      dispatchArm (c.unmarshalFailoverDeleteScopeFromRelationshipV4Request ctx r) (o.FailoverDeleteScopeFromRelationshipV4 ctx)
        (fun resp => FailoverDeleteScopeFromRelationshipV4Response.xxx_ToOp resp ctx)
        "FailoverDeleteScopeFromRelationshipV4Request" "FailoverDeleteScopeFromRelationshipV4" := rfl

theorem dhcp_handle_eq_96 (c : Dhcpsrv2Codecs) (ctx : Ctx)
    (o : Dhcpsrv2Server) (r : NdrReader) :
    Dhcpsrv2ServerHandle c ctx o 96 r =
      dispatchArm (c.unmarshalFailoverGetScopeRelationshipV4Request ctx r) (o.FailoverGetScopeRelationshipV4 ctx)
        (fun resp => FailoverGetScopeRelationshipV4Response.xxx_ToOp resp ctx)
        "FailoverGetScopeRelationshipV4Request" "FailoverGetScopeRelationshipV4" := rfl

theorem dhcp_handle_eq_97 (c : Dhcpsrv2Codecs) (ctx : Ctx)
    (o : Dhcpsrv2Server) (r : NdrReader) :
    Dhcpsrv2ServerHandle c ctx o 97 r =
      dispatchArm (c.unmarshalFailoverGetScopeStatisticsV4Request ctx r) (o.FailoverGetScopeStatisticsV4 ctx)
        (fun resp => FailoverGetScopeStatisticsV4Response.xxx_ToOp resp ctx)
        "FailoverGetScopeStatisticsV4Request" "FailoverGetScopeStatisticsV4" := rfl

theorem dhcp_handle_eq_98 (c : Dhcpsrv2Codecs) (ctx : Ctx)
    (o : Dhcpsrv2Server) (r : NdrReader) :
    Dhcpsrv2ServerHandle c ctx o 98 r =
      dispatchArm (c.unmarshalFailoverGetClientInfoV4Request ctx r) (o.FailoverGetClientInfoV4 ctx)
        (fun resp => FailoverGetClientInfoV4Response.xxx_ToOp resp ctx)
        "FailoverGetClientInfoV4Request" "FailoverGetClientInfoV4" := rfl

theorem dhcp_handle_eq_99 (c : Dhcpsrv2Codecs) (ctx : Ctx)
    (o : Dhcpsrv2Server) (r : NdrReader) :
    Dhcpsrv2ServerHandle c ctx o 99 r =
      dispatchArm (c.unmarshalFailoverGetSystemTimeV4Request ctx r) (o.FailoverGetSystemTimeV4 ctx)
        (fun resp => FailoverGetSystemTimeV4Response.xxx_ToOp resp ctx)
        "FailoverGetSystemTimeV4Request" "FailoverGetSystemTimeV4" := rfl

theorem dhcp_handle_eq_100 (c : Dhcpsrv2Codecs) (ctx : Ctx)
    (o : Dhcpsrv2Server) (r : NdrReader) :
    Dhcpsrv2ServerHandle c ctx o 100 r =
      dispatchArm (c.unmarshalFailoverTriggerAddrAllocationV4Request ctx r) (o.FailoverTriggerAddrAllocationV4 ctx)
        (fun resp => FailoverTriggerAddrAllocationV4Response.xxx_ToOp resp ctx)
        "FailoverTriggerAddrAllocationV4Request" "FailoverTriggerAddrAllocationV4" := rfl

theorem dhcp_handle_eq_101 (c : Dhcpsrv2Codecs) (ctx : Ctx)
    (o : Dhcpsrv2Server) (r : NdrReader) :
    Dhcpsrv2ServerHandle c ctx o 101 r =
      dispatchArm (c.unmarshalSetOptionValueV4Request ctx r) (o.SetOptionValueV4 ctx)
        (fun resp => SetOptionValueV4Response.xxx_ToOp resp ctx)
        "SetOptionValueV4Request" "SetOptionValueV4" := rfl

theorem dhcp_handle_eq_102 (c : Dhcpsrv2Codecs) (ctx : Ctx)
    (o : Dhcpsrv2Server) (r : NdrReader) :
    Dhcpsrv2ServerHandle c ctx o 102 r =
      dispatchArm (c.unmarshalSetOptionValuesV4Request ctx r) (o.SetOptionValuesV4 ctx)
        (fun resp => SetOptionValuesV4Response.xxx_ToOp resp ctx)
        "SetOptionValuesV4Request" "SetOptionValuesV4" := rfl

theorem dhcp_handle_eq_103 (c : Dhcpsrv2Codecs) (ctx : Ctx)
    (o : Dhcpsrv2Server) (r : NdrReader) :
    Dhcpsrv2ServerHandle c ctx o 103 r =
      dispatchArm (c.unmarshalGetOptionValueV4Request ctx r) (o.GetOptionValueV4 ctx)
        (fun resp => GetOptionValueV4Response.xxx_ToOp resp ctx)
        "GetOptionValueV4Request" "GetOptionValueV4" := rfl

theorem dhcp_handle_eq_104 (c : Dhcpsrv2Codecs) (ctx : Ctx)
    (o : Dhcpsrv2Server) (r : NdrReader) :
    Dhcpsrv2ServerHandle c ctx o 104 r =
      dispatchArm (c.unmarshalRemoveOptionValueV4Request ctx r) (o.RemoveOptionValueV4 ctx)
        (fun resp => RemoveOptionValueV4Response.xxx_ToOp resp ctx)
        "RemoveOptionValueV4Request" "RemoveOptionValueV4" := rfl

theorem dhcp_handle_eq_105 (c : Dhcpsrv2Codecs) (ctx : Ctx)
    (o : Dhcpsrv2Server) (r : NdrReader) :
    Dhcpsrv2ServerHandle c ctx o 105 r =
      dispatchArm (c.unmarshalGetAllOptionValuesV4Request ctx r) (o.GetAllOptionValuesV4 ctx)
        (fun resp => GetAllOptionValuesV4Response.xxx_ToOp resp ctx)
        "GetAllOptionValuesV4Request" "GetAllOptionValuesV4" := rfl

theorem dhcp_handle_eq_106 (c : Dhcpsrv2Codecs) (ctx : Ctx)
    (o : Dhcpsrv2Server) (r : NdrReader) :
    Dhcpsrv2ServerHandle c ctx o 106 r =
      dispatchArm (c.unmarshalQueryPolicyEnforcementV4Request ctx r) (o.QueryPolicyEnforcementV4 ctx)
        (fun resp => QueryPolicyEnforcementV4Response.xxx_ToOp resp ctx)
        "QueryPolicyEnforcementV4Request" "QueryPolicyEnforcementV4" := rfl

theorem dhcp_handle_eq_107 (c : Dhcpsrv2Codecs) (ctx : Ctx)
    (o : Dhcpsrv2Server) (r : NdrReader) :
    Dhcpsrv2ServerHandle c ctx o 107 r =
      dispatchArm (c.unmarshalSetPolicyEnforcementV4Request ctx r) (o.SetPolicyEnforcementV4 ctx)
        (fun resp => SetPolicyEnforcementV4Response.xxx_ToOp resp ctx)
        "SetPolicyEnforcementV4Request" "SetPolicyEnforcementV4" := rfl

theorem dhcp_handle_eq_108 (c : Dhcpsrv2Codecs) (ctx : Ctx)
    (o : Dhcpsrv2Server) (r : NdrReader) :
    Dhcpsrv2ServerHandle c ctx o 108 r =
      dispatchArm (c.unmarshalCreatePolicyV4Request ctx r) (o.CreatePolicyV4 ctx)
        (fun resp => CreatePolicyV4Response.xxx_ToOp resp ctx)
        "CreatePolicyV4Request" "CreatePolicyV4" := rfl

theorem dhcp_handle_eq_109 (c : Dhcpsrv2Codecs) (ctx : Ctx)
    (o : Dhcpsrv2Server) (r : NdrReader) :
    Dhcpsrv2ServerHandle c ctx o 109 r =
      dispatchArm (c.unmarshalGetPolicyV4Request ctx r) (o.GetPolicyV4 ctx)
        (fun resp => GetPolicyV4Response.xxx_ToOp resp ctx)
        "GetPolicyV4Request" "GetPolicyV4" := rfl

theorem dhcp_handle_eq_110 (c : Dhcpsrv2Codecs) (ctx : Ctx)
    (o : Dhcpsrv2Server) (r : NdrReader) :
    Dhcpsrv2ServerHandle c ctx o 110 r =
      dispatchArm (c.unmarshalSetPolicyV4Request ctx r) (o.SetPolicyV4 ctx)
        (fun resp => SetPolicyV4Response.xxx_ToOp resp ctx)
        "SetPolicyV4Request" "SetPolicyV4" := rfl

theorem dhcp_handle_eq_111 (c : Dhcpsrv2Codecs) (ctx : Ctx)
    (o : Dhcpsrv2Server) (r : NdrReader) :
    Dhcpsrv2ServerHandle c ctx o 111 r =
      dispatchArm (c.unmarshalDeletePolicyV4Request ctx r) (o.DeletePolicyV4 ctx)
        (fun resp => DeletePolicyV4Response.xxx_ToOp resp ctx)
        "DeletePolicyV4Request" "DeletePolicyV4" := rfl

theorem dhcp_handle_eq_112 (c : Dhcpsrv2Codecs) (ctx : Ctx)
    (o : Dhcpsrv2Server) (r : NdrReader) :
    Dhcpsrv2ServerHandle c ctx o 112 r =
      dispatchArm (c.unmarshalEnumPoliciesV4Request ctx r) (o.EnumPoliciesV4 ctx)
        (fun resp => EnumPoliciesV4Response.xxx_ToOp resp ctx)
        "EnumPoliciesV4Request" "EnumPoliciesV4" := rfl

theorem dhcp_handle_eq_113 (c : Dhcpsrv2Codecs) (ctx : Ctx)
    (o : Dhcpsrv2Server) (r : NdrReader) :
    Dhcpsrv2ServerHandle c ctx o 113 r =
      dispatchArm (c.unmarshalAddPolicyRangeV4Request ctx r) (o.AddPolicyRangeV4 ctx)
        (fun resp => AddPolicyRangeV4Response.xxx_ToOp resp ctx)
        "AddPolicyRangeV4Request" "AddPolicyRangeV4" := rfl

theorem dhcp_handle_eq_114 (c : Dhcpsrv2Codecs) (ctx : Ctx)
    (o : Dhcpsrv2Server) (r : NdrReader) :
    Dhcpsrv2ServerHandle c ctx o 114 r =
      dispatchArm (c.unmarshalRemovePolicyRangeV4Request ctx r) (o.RemovePolicyRangeV4 ctx)
        (fun resp => RemovePolicyRangeV4Response.xxx_ToOp resp ctx)
        "RemovePolicyRangeV4Request" "RemovePolicyRangeV4" := rfl

theorem dhcp_handle_eq_115 (c : Dhcpsrv2Codecs) (ctx : Ctx)
    (o : Dhcpsrv2Server) (r : NdrReader) :
    Dhcpsrv2ServerHandle c ctx o 115 r =
      dispatchArm (c.unmarshalEnumSubnetClientsV4Request ctx r) (o.EnumSubnetClientsV4 ctx)
        (fun resp => EnumSubnetClientsV4Response.xxx_ToOp resp ctx)
        "EnumSubnetClientsV4Request" "EnumSubnetClientsV4" := rfl

theorem dhcp_handle_eq_116 (c : Dhcpsrv2Codecs) (ctx : Ctx)
    (o : Dhcpsrv2Server) (r : NdrReader) :
    Dhcpsrv2ServerHandle c ctx o 116 r =
      dispatchArm (c.unmarshalSetStatelessStoreParamsV6Request ctx r) (o.SetStatelessStoreParamsV6 ctx)
        (fun resp => SetStatelessStoreParamsV6Response.xxx_ToOp resp ctx)
        "SetStatelessStoreParamsV6Request" "SetStatelessStoreParamsV6" := rfl

theorem dhcp_handle_eq_117 (c : Dhcpsrv2Codecs) (ctx : Ctx)
    (o : Dhcpsrv2Server) (r : NdrReader) :
    Dhcpsrv2ServerHandle c ctx o 117 r =
      dispatchArm (c.unmarshalGetStatelessStoreParamsV6Request ctx r) (o.GetStatelessStoreParamsV6 ctx)
        (fun resp => GetStatelessStoreParamsV6Response.xxx_ToOp resp ctx)
        "GetStatelessStoreParamsV6Request" "GetStatelessStoreParamsV6" := rfl

theorem dhcp_handle_eq_118 (c : Dhcpsrv2Codecs) (ctx : Ctx)
    (o : Dhcpsrv2Server) (r : NdrReader) :
    Dhcpsrv2ServerHandle c ctx o 118 r =
      dispatchArm (c.unmarshalGetStatelessStatisticsV6Request ctx r) (o.GetStatelessStatisticsV6 ctx)
        (fun resp => GetStatelessStatisticsV6Response.xxx_ToOp resp ctx)
        "GetStatelessStatisticsV6Request" "GetStatelessStatisticsV6" := rfl

theorem dhcp_handle_eq_119 (c : Dhcpsrv2Codecs) (ctx : Ctx)
    (o : Dhcpsrv2Server) (r : NdrReader) :
    Dhcpsrv2ServerHandle c ctx o 119 r =
      dispatchArm (c.unmarshalEnumSubnetReservationsV4Request ctx r) (o.EnumSubnetReservationsV4 ctx)
        (fun resp => EnumSubnetReservationsV4Response.xxx_ToOp resp ctx)
        "EnumSubnetReservationsV4Request" "EnumSubnetReservationsV4" := rfl

theorem dhcp_handle_eq_120 (c : Dhcpsrv2Codecs) (ctx : Ctx)
    (o : Dhcpsrv2Server) (r : NdrReader) :
    Dhcpsrv2ServerHandle c ctx o 120 r =
      dispatchArm (c.unmarshalGetFreeIPAddressV4Request ctx r) (o.GetFreeIPAddressV4 ctx)
        (fun resp => GetFreeIPAddressV4Response.xxx_ToOp resp ctx)
        "GetFreeIPAddressV4Request" "GetFreeIPAddressV4" := rfl

theorem dhcp_handle_eq_121 (c : Dhcpsrv2Codecs) (ctx : Ctx)
    (o : Dhcpsrv2Server) (r : NdrReader) :
    Dhcpsrv2ServerHandle c ctx o 121 r =
      dispatchArm (c.unmarshalGetFreeIPAddressV6Request ctx r) (o.GetFreeIPAddressV6 ctx)
        (fun resp => GetFreeIPAddressV6Response.xxx_ToOp resp ctx)
        "GetFreeIPAddressV6Request" "GetFreeIPAddressV6" := rfl

theorem dhcp_handle_eq_122 (c : Dhcpsrv2Codecs) (ctx : Ctx)
    (o : Dhcpsrv2Server) (r : NdrReader) :
    Dhcpsrv2ServerHandle c ctx o 122 r =
      dispatchArm (c.unmarshalCreateClientInfoV4Request ctx r) (o.CreateClientInfoV4 ctx)
        (fun resp => CreateClientInfoV4Response.xxx_ToOp resp ctx)
        "CreateClientInfoV4Request" "CreateClientInfoV4" := rfl

theorem dhcp_handle_eq_123 (c : Dhcpsrv2Codecs) (ctx : Ctx)
    (o : Dhcpsrv2Server) (r : NdrReader) :
    Dhcpsrv2ServerHandle c ctx o 123 r =
      dispatchArm (c.unmarshalGetClientInfoV4Request ctx r) (o.GetClientInfoV4 ctx)
        (fun resp => GetClientInfoV4Response.xxx_ToOp resp ctx)
        "GetClientInfoV4Request" "GetClientInfoV4" := rfl

theorem dhcp_handle_eq_124 (c : Dhcpsrv2Codecs) (ctx : Ctx)
    (o : Dhcpsrv2Server) (r : NdrReader) :
    Dhcpsrv2ServerHandle c ctx o 124 r =
      dispatchArm (c.unmarshalCreateClientInfoV6Request ctx r) (o.CreateClientInfoV6 ctx)
        (fun resp => CreateClientInfoV6Response.xxx_ToOp resp ctx)
        "CreateClientInfoV6Request" "CreateClientInfoV6" := rfl

theorem dhcp_handle_eq_125 (c : Dhcpsrv2Codecs) (ctx : Ctx)
    (o : Dhcpsrv2Server) (r : NdrReader) :
    Dhcpsrv2ServerHandle c ctx o 125 r =
      dispatchArm (c.unmarshalFailoverGetAddressStatusV4Request ctx r) (o.FailoverGetAddressStatusV4 ctx)
        (fun resp => FailoverGetAddressStatusV4Response.xxx_ToOp resp ctx)
        "FailoverGetAddressStatusV4Request" "FailoverGetAddressStatusV4" := rfl

theorem dhcp_handle_eq_126 (c : Dhcpsrv2Codecs) (ctx : Ctx)
    (o : Dhcpsrv2Server) (r : NdrReader) :
    Dhcpsrv2ServerHandle c ctx o 126 r =
      dispatchArm (c.unmarshalCreatePolicyExV4Request ctx r) (o.CreatePolicyExV4 ctx)
        (fun resp => CreatePolicyExV4Response.xxx_ToOp resp ctx)
        "CreatePolicyExV4Request" "CreatePolicyExV4" := rfl

theorem dhcp_handle_eq_127 (c : Dhcpsrv2Codecs) (ctx : Ctx)
    (o : Dhcpsrv2Server) (r : NdrReader) :
    Dhcpsrv2ServerHandle c ctx o 127 r =
      dispatchArm (c.unmarshalGetPolicyExV4Request ctx r) (o.GetPolicyExV4 ctx)
        (fun resp => GetPolicyExV4Response.xxx_ToOp resp ctx)
        "GetPolicyExV4Request" "GetPolicyExV4" := rfl

theorem dhcp_handle_eq_128 (c : Dhcpsrv2Codecs) (ctx : Ctx)
    (o : Dhcpsrv2Server) (r : NdrReader) :
    Dhcpsrv2ServerHandle c ctx o 128 r =
      dispatchArm (c.unmarshalSetPolicyExV4Request ctx r) (o.SetPolicyExV4 ctx)
        (fun resp => SetPolicyExV4Response.xxx_ToOp resp ctx)
        "SetPolicyExV4Request" "SetPolicyExV4" := rfl

theorem dhcp_handle_eq_129 (c : Dhcpsrv2Codecs) (ctx : Ctx)
    (o : Dhcpsrv2Server) (r : NdrReader) :
    Dhcpsrv2ServerHandle c ctx o 129 r =
      dispatchArm (c.unmarshalEnumPoliciesExV4Request ctx r) (o.EnumPoliciesExV4 ctx)
        (fun resp => EnumPoliciesExV4Response.xxx_ToOp resp ctx)
        "EnumPoliciesExV4Request" "EnumPoliciesExV4" := rfl

theorem dhcp_handle_eq_130 (c : Dhcpsrv2Codecs) (ctx : Ctx)
    (o : Dhcpsrv2Server) (r : NdrReader) :
    Dhcpsrv2ServerHandle c ctx o 130 r =
      dispatchArm (c.unmarshalEnumSubnetClientsExV4Request ctx r) (o.EnumSubnetClientsExV4 ctx)
        (fun resp => EnumSubnetClientsExV4Response.xxx_ToOp resp ctx)
        "EnumSubnetClientsExV4Request" "EnumSubnetClientsExV4" := rfl

theorem dhcp_handle_eq_131 (c : Dhcpsrv2Codecs) (ctx : Ctx)
    (o : Dhcpsrv2Server) (r : NdrReader) :
    Dhcpsrv2ServerHandle c ctx o 131 r =
      dispatchArm (c.unmarshalCreateClientInfoExV4Request ctx r) (o.CreateClientInfoExV4 ctx)
        (fun resp => CreateClientInfoExV4Response.xxx_ToOp resp ctx)
        "CreateClientInfoExV4Request" "CreateClientInfoExV4" := rfl

theorem dhcp_handle_eq_132 (c : Dhcpsrv2Codecs) (ctx : Ctx)
    (o : Dhcpsrv2Server) (r : NdrReader) :
    Dhcpsrv2ServerHandle c ctx o 132 r =
      dispatchArm (c.unmarshalGetClientInfoExV4Request ctx r) (o.GetClientInfoExV4 ctx)
        (fun resp => GetClientInfoExV4Response.xxx_ToOp resp ctx)
        "GetClientInfoExV4Request" "GetClientInfoExV4" := rfl

theorem dhcp_handle_default (c : Dhcpsrv2Codecs) (ctx : Ctx)
    (o : Dhcpsrv2Server) (r : NdrReader) (opNum : Int)
    (h0 : opNum ≠ 0)
    (h1 : opNum ≠ 1)
    (h2 : opNum ≠ 2)
    (h3 : opNum ≠ 3)
    (h4 : opNum ≠ 4)
    (h5 : opNum ≠ 5)
    (h6 : opNum ≠ 6)
    (h7 : opNum ≠ 7)
    (h8 : opNum ≠ 8)
    (h9 : opNum ≠ 9)
    (h10 : opNum ≠ 10)
    (h11 : opNum ≠ 11)
    (h12 : opNum ≠ 12)
    (h13 : opNum ≠ 13)
    (h14 : opNum ≠ 14)
    (h15 : opNum ≠ 15)
    (h16 : opNum ≠ 16)
    (h17 : opNum ≠ 17)
    (h18 : opNum ≠ 18)
    (h19 : opNum ≠ 19)
    (h20 : opNum ≠ 20)
    (h21 : opNum ≠ 21)
    (h22 : opNum ≠ 22)
    (h23 : opNum ≠ 23)
    (h24 : opNum ≠ 24)
    (h25 : opNum ≠ 25)
    (h26 : opNum ≠ 26)
    (h27 : opNum ≠ 27)
    (h28 : opNum ≠ 28)
    (h29 : opNum ≠ 29)
    (h30 : opNum ≠ 30)
    (h31 : opNum ≠ 31)
    (h32 : opNum ≠ 32)
    (h33 : opNum ≠ 33)
    (h34 : opNum ≠ 34)
    (h35 : opNum ≠ 35)
    (h36 : opNum ≠ 36)
    (h37 : opNum ≠ 37)
    (h38 : opNum ≠ 38)
    (h39 : opNum ≠ 39)
    (h40 : opNum ≠ 40)
    (h41 : opNum ≠ 41)
    (h42 : opNum ≠ 42)
    (h43 : opNum ≠ 43)
    (h44 : opNum ≠ 44)
    (h45 : opNum ≠ 45)
    (h46 : opNum ≠ 46)
    (h47 : opNum ≠ 47)
    (h48 : opNum ≠ 48)
    (h49 : opNum ≠ 49)
    (h50 : opNum ≠ 50)
    (h51 : opNum ≠ 51)
    (h52 : opNum ≠ 52)
    (h53 : opNum ≠ 53)
    (h54 : opNum ≠ 54)
    (h55 : opNum ≠ 55)
    (h56 : opNum ≠ 56)
    (h57 : opNum ≠ 57)
    (h58 : opNum ≠ 58)
    (h59 : opNum ≠ 59)
    (h60 : opNum ≠ 60)
    (h61 : opNum ≠ 61)
    (h62 : opNum ≠ 62)
    (h63 : opNum ≠ 63)
    (h64 : opNum ≠ 64)
    (h65 : opNum ≠ 65)
    (h66 : opNum ≠ 66)
    (h67 : opNum ≠ 67)
    (h68 : opNum ≠ 68)
    (h69 : opNum ≠ 69)
    (h70 : opNum ≠ 70)
    (h71 : opNum ≠ 71)
    (h72 : opNum ≠ 72)
    (h73 : opNum ≠ 73)
    (h74 : opNum ≠ 74)
    (h75 : opNum ≠ 75)
    (h76 : opNum ≠ 76)
    (h77 : opNum ≠ 77)
    (h78 : opNum ≠ 78)
    (h79 : opNum ≠ 79)
    (h80 : opNum ≠ 80)
    (h81 : opNum ≠ 81)
    (h82 : opNum ≠ 82)
    (h83 : opNum ≠ 83)
    (h84 : opNum ≠ 84)
    (h85 : opNum ≠ 85)
    (h86 : opNum ≠ 86)
    (h87 : opNum ≠ 87)
    (h88 : opNum ≠ 88)
    (h89 : opNum ≠ 89)
    (h90 : opNum ≠ 90)
    (h91 : opNum ≠ 91)
    (h92 : opNum ≠ 92)
    (h93 : opNum ≠ 93)
    (h94 : opNum ≠ 94)
    (h95 : opNum ≠ 95)
    (h96 : opNum ≠ 96)
    (h97 : opNum ≠ 97)
    (h98 : opNum ≠ 98)
    (h99 : opNum ≠ 99)
    (h100 : opNum ≠ 100)
    (h101 : opNum ≠ 101)
    (h102 : opNum ≠ 102)
    (h103 : opNum ≠ 103)
    (h104 : opNum ≠ 104)
    (h105 : opNum ≠ 105)
    (h106 : opNum ≠ 106)
    (h107 : opNum ≠ 107)
    (h108 : opNum ≠ 108)
    (h109 : opNum ≠ 109)
    (h110 : opNum ≠ 110)
    (h111 : opNum ≠ 111)
    (h112 : opNum ≠ 112)
    (h113 : opNum ≠ 113)
    (h114 : opNum ≠ 114)
    (h115 : opNum ≠ 115)
    (h116 : opNum ≠ 116)
    (h117 : opNum ≠ 117)
    (h118 : opNum ≠ 118)
    (h119 : opNum ≠ 119)
    (h120 : opNum ≠ 120)
    (h121 : opNum ≠ 121)
    (h122 : opNum ≠ 122)
    (h123 : opNum ≠ 123)
    (h124 : opNum ≠ 124)
    (h125 : opNum ≠ 125)
    (h126 : opNum ≠ 126)
    (h127 : opNum ≠ 127)
    (h128 : opNum ≠ 128)
    (h129 : opNum ≠ 129)
    (h130 : opNum ≠ 130)
    (h131 : opNum ≠ 131)
    (h132 : opNum ≠ 132)
    : Dhcpsrv2ServerHandle c ctx o opNum r = ⟨none, none, []⟩ := by
  unfold Dhcpsrv2ServerHandle
  rw [if_neg h0, if_neg h1, if_neg h2, if_neg h3, if_neg h4, if_neg h5, if_neg h6, if_neg h7]
  rw [if_neg h8, if_neg h9, if_neg h10, if_neg h11, if_neg h12, if_neg h13, if_neg h14, if_neg h15]
  rw [if_neg h16, if_neg h17, if_neg h18, if_neg h19, if_neg h20, if_neg h21, if_neg h22, if_neg h23]
  rw [if_neg h24, if_neg h25, if_neg h26, if_neg h27, if_neg h28, if_neg h29, if_neg h30, if_neg h31]
  rw [if_neg h32, if_neg h33, if_neg h34, if_neg h35, if_neg h36, if_neg h37, if_neg h38, if_neg h39]
  rw [if_neg h40, if_neg h41, if_neg h42, if_neg h43, if_neg h44, if_neg h45, if_neg h46, if_neg h47]
  rw [if_neg h48, if_neg h49, if_neg h50, if_neg h51, if_neg h52, if_neg h53, if_neg h54, if_neg h55]
  rw [if_neg h56, if_neg h57, if_neg h58, if_neg h59, if_neg h60, if_neg h61, if_neg h62, if_neg h63]
  rw [if_neg h64, if_neg h65, if_neg h66, if_neg h67, if_neg h68, if_neg h69, if_neg h70, if_neg h71]
  rw [if_neg h72, if_neg h73, if_neg h74, if_neg h75, if_neg h76, if_neg h77, if_neg h78, if_neg h79]
  rw [if_neg h80, if_neg h81, if_neg h82, if_neg h83, if_neg h84, if_neg h85, if_neg h86, if_neg h87]
  rw [if_neg h88, if_neg h89, if_neg h90, if_neg h91, if_neg h92, if_neg h93, if_neg h94, if_neg h95]
  rw [if_neg h96, if_neg h97, if_neg h98, if_neg h99, if_neg h100, if_neg h101, if_neg h102, if_neg h103]
  rw [if_neg h104, if_neg h105, if_neg h106, if_neg h107, if_neg h108, if_neg h109, if_neg h110, if_neg h111]
  rw [if_neg h112, if_neg h113, if_neg h114, if_neg h115, if_neg h116, if_neg h117, if_neg h118, if_neg h119]
  rw [if_neg h120, if_neg h121, if_neg h122, if_neg h123, if_neg h124, if_neg h125, if_neg h126, if_neg h127]
  rw [if_neg h128, if_neg h129, if_neg h130, if_neg h131, if_neg h132]

theorem dhcp_handle_default_range (c : Dhcpsrv2Codecs) (ctx : Ctx)
    (o : Dhcpsrv2Server) (r : NdrReader) (opNum : Int)
    (h : opNum < 0 ∨ 132 < opNum) :
    Dhcpsrv2ServerHandle c ctx o opNum r = ⟨none, none, []⟩ := by
  apply dhcp_handle_default c ctx o r opNum <;> omega

/-- Opnum `k` dispatches only to request type `reqType` and handler method
`methodName`: whatever the codecs and the server do, the trace is the decode
of that one request type, followed by at most one invocation of that one
method. -/
def ArmTrace (k : Int) (reqType methodName : String) : Prop :=
  ∀ (c : Dhcpsrv2Codecs) (ctx : Ctx) (o : Dhcpsrv2Server) (r : NdrReader),
    ArmShape (Dhcpsrv2ServerHandle c ctx o k r) reqType methodName

theorem dhcp_armTrace_0 : ArmTrace 0 "EnumSubnetClientsV5Request" "EnumSubnetClientsV5" := by
  intro c ctx o r
  rw [dhcp_handle_eq_0 c ctx o r]
  exact dispatchArm_shape _ _ _ _ _

theorem dhcp_armTrace_1 : ArmTrace 1 "SetMScopeInfoRequest" "SetMScopeInfo" := by
  intro c ctx o r
  rw [dhcp_handle_eq_1 c ctx o r]
  exact dispatchArm_shape _ _ _ _ _

theorem dhcp_armTrace_2 : ArmTrace 2 "GetMScopeInfoRequest" "GetMScopeInfo" := by
  intro c ctx o r
  rw [dhcp_handle_eq_2 c ctx o r]
  exact dispatchArm_shape _ _ _ _ _

theorem dhcp_armTrace_3 : ArmTrace 3 "EnumMScopesRequest" "EnumMScopes" := by
  intro c ctx o r
  rw [dhcp_handle_eq_3 c ctx o r]
  exact dispatchArm_shape _ _ _ _ _

theorem dhcp_armTrace_4 : ArmTrace 4 "AddMScopeElementRequest" "AddMScopeElement" := by
  intro c ctx o r
  rw [dhcp_handle_eq_4 c ctx o r]
  exact dispatchArm_shape _ _ _ _ _

theorem dhcp_armTrace_5 : ArmTrace 5 "EnumMScopeElementsRequest" "EnumMScopeElements" := by
  intro c ctx o r
  rw [dhcp_handle_eq_5 c ctx o r]
  exact dispatchArm_shape _ _ _ _ _

theorem dhcp_armTrace_6 : ArmTrace 6 "RemoveMScopeElementRequest" "RemoveMScopeElement" := by
  intro c ctx o r
  rw [dhcp_handle_eq_6 c ctx o r]
  exact dispatchArm_shape _ _ _ _ _

theorem dhcp_armTrace_7 : ArmTrace 7 "DeleteMScopeRequest" "DeleteMScope" := by
  intro c ctx o r
  rw [dhcp_handle_eq_7 c ctx o r]
  exact dispatchArm_shape _ _ _ _ _

theorem dhcp_armTrace_8 : ArmTrace 8 "ScanMDatabaseRequest" "ScanMDatabase" := by
  intro c ctx o r
  rw [dhcp_handle_eq_8 c ctx o r]
  exact dispatchArm_shape _ _ _ _ _

theorem dhcp_armTrace_9 : ArmTrace 9 "CreateMClientInfoRequest" "CreateMClientInfo" := by
  intro c ctx o r
  rw [dhcp_handle_eq_9 c ctx o r]
  exact dispatchArm_shape _ _ _ _ _

theorem dhcp_armTrace_10 : ArmTrace 10 "SetMClientInfoRequest" "SetMClientInfo" := by
  intro c ctx o r
  rw [dhcp_handle_eq_10 c ctx o r]
  exact dispatchArm_shape _ _ _ _ _

theorem dhcp_armTrace_11 : ArmTrace 11 "GetMClientInfoRequest" "GetMClientInfo" := by
  intro c ctx o r
  rw [dhcp_handle_eq_11 c ctx o r]
  exact dispatchArm_shape _ _ _ _ _

theorem dhcp_armTrace_12 : ArmTrace 12 "DeleteMClientInfoRequest" "DeleteMClientInfo" := by
  intro c ctx o r
  rw [dhcp_handle_eq_12 c ctx o r]
  exact dispatchArm_shape _ _ _ _ _

theorem dhcp_armTrace_13 : ArmTrace 13 "EnumMScopeClientsRequest" "EnumMScopeClients" := by
  intro c ctx o r
  rw [dhcp_handle_eq_13 c ctx o r]
  exact dispatchArm_shape _ _ _ _ _

theorem dhcp_armTrace_14 : ArmTrace 14 "CreateOptionV5Request" "CreateOptionV5" := by
  intro c ctx o r
  rw [dhcp_handle_eq_14 c ctx o r]
  exact dispatchArm_shape _ _ _ _ _

theorem dhcp_armTrace_15 : ArmTrace 15 "SetOptionInfoV5Request" "SetOptionInfoV5" := by
  intro c ctx o r
  rw [dhcp_handle_eq_15 c ctx o r]
  exact dispatchArm_shape _ _ _ _ _

theorem dhcp_armTrace_16 : ArmTrace 16 "GetOptionInfoV5Request" "GetOptionInfoV5" := by
  intro c ctx o r
  rw [dhcp_handle_eq_16 c ctx o r]
  exact dispatchArm_shape _ _ _ _ _

theorem dhcp_armTrace_17 : ArmTrace 17 "EnumOptionsV5Request" "EnumOptionsV5" := by
  intro c ctx o r
  rw [dhcp_handle_eq_17 c ctx o r]
  exact dispatchArm_shape _ _ _ _ _

theorem dhcp_armTrace_18 : ArmTrace 18 "RemoveOptionV5Request" "RemoveOptionV5" := by
  intro c ctx o r
  rw [dhcp_handle_eq_18 c ctx o r]
  exact dispatchArm_shape _ _ _ _ _

theorem dhcp_armTrace_19 : ArmTrace 19 "SetOptionValueV5Request" "SetOptionValueV5" := by
  intro c ctx o r
  rw [dhcp_handle_eq_19 c ctx o r]
  exact dispatchArm_shape _ _ _ _ _

theorem dhcp_armTrace_20 : ArmTrace 20 "SetOptionValuesV5Request" "SetOptionValuesV5" := by
  intro c ctx o r
  rw [dhcp_handle_eq_20 c ctx o r]
  exact dispatchArm_shape _ _ _ _ _

theorem dhcp_armTrace_21 : ArmTrace 21 "GetOptionValueV5Request" "GetOptionValueV5" := by
  intro c ctx o r
  rw [dhcp_handle_eq_21 c ctx o r]
  exact dispatchArm_shape _ _ _ _ _

theorem dhcp_armTrace_22 : ArmTrace 22 "EnumOptionValuesV5Request" "EnumOptionValuesV5" := by
  intro c ctx o r
  rw [dhcp_handle_eq_22 c ctx o r]
  exact dispatchArm_shape _ _ _ _ _

theorem dhcp_armTrace_23 : ArmTrace 23 "RemoveOptionValueV5Request" "RemoveOptionValueV5" := by
  intro c ctx o r
  rw [dhcp_handle_eq_23 c ctx o r]
  exact dispatchArm_shape _ _ _ _ _

theorem dhcp_armTrace_24 : ArmTrace 24 "CreateClassRequest" "CreateClass" := by
  intro c ctx o r
  rw [dhcp_handle_eq_24 c ctx o r]
  exact dispatchArm_shape _ _ _ _ _

theorem dhcp_armTrace_25 : ArmTrace 25 "ModifyClassRequest" "ModifyClass" := by
  intro c ctx o r
  rw [dhcp_handle_eq_25 c ctx o r]
  exact dispatchArm_shape _ _ _ _ _

theorem dhcp_armTrace_26 : ArmTrace 26 "DeleteClassRequest" "DeleteClass" := by
  intro c ctx o r
  rw [dhcp_handle_eq_26 c ctx o r]
  exact dispatchArm_shape _ _ _ _ _

theorem dhcp_armTrace_27 : ArmTrace 27 "GetClassInfoRequest" "GetClassInfo" := by
  intro c ctx o r
  rw [dhcp_handle_eq_27 c ctx o r]
  exact dispatchArm_shape _ _ _ _ _

theorem dhcp_armTrace_28 : ArmTrace 28 "EnumClassesRequest" "EnumClasses" := by
  intro c ctx o r
  rw [dhcp_handle_eq_28 c ctx o r]
  exact dispatchArm_shape _ _ _ _ _

theorem dhcp_armTrace_29 : ArmTrace 29 "GetAllOptionsRequest" "GetAllOptions" := by
  intro c ctx o r
  rw [dhcp_handle_eq_29 c ctx o r]
  exact dispatchArm_shape _ _ _ _ _

theorem dhcp_armTrace_30 : ArmTrace 30 "GetAllOptionValuesRequest" "GetAllOptionValues" := by
  intro c ctx o r
  rw [dhcp_handle_eq_30 c ctx o r]
  exact dispatchArm_shape _ _ _ _ _

theorem dhcp_armTrace_31 : ArmTrace 31 "GetMCastMIBInfoRequest" "GetMCastMIBInfo" := by
  intro c ctx o r
  rw [dhcp_handle_eq_31 c ctx o r]
  exact dispatchArm_shape _ _ _ _ _

theorem dhcp_armTrace_32 : ArmTrace 32 "AuditLogSetParamsRequest" "AuditLogSetParams" := by
  intro c ctx o r
  rw [dhcp_handle_eq_32 c ctx o r]
  exact dispatchArm_shape _ _ _ _ _

theorem dhcp_armTrace_33 : ArmTrace 33 "AuditLogGetParamsRequest" "AuditLogGetParams" := by
  intro c ctx o r
  rw [dhcp_handle_eq_33 c ctx o r]
  exact dispatchArm_shape _ _ _ _ _

theorem dhcp_armTrace_34 : ArmTrace 34 "ServerQueryAttributeRequest" "ServerQueryAttribute" := by
  intro c ctx o r
  rw [dhcp_handle_eq_34 c ctx o r]
  exact dispatchArm_shape _ _ _ _ _

theorem dhcp_armTrace_35 : ArmTrace 35 "ServerQueryAttributesRequest" "ServerQueryAttributes" := by
  intro c ctx o r
  rw [dhcp_handle_eq_35 c ctx o r]
  exact dispatchArm_shape _ _ _ _ _

theorem dhcp_armTrace_36 : ArmTrace 36 "ServerRedoAuthorizationRequest" "ServerRedoAuthorization" := by
  intro c ctx o r
  rw [dhcp_handle_eq_36 c ctx o r]
  exact dispatchArm_shape _ _ _ _ _

theorem dhcp_armTrace_37 : ArmTrace 37 "AddSubnetElementV5Request" "AddSubnetElementV5" := by
  intro c ctx o r
  rw [dhcp_handle_eq_37 c ctx o r]
  exact dispatchArm_shape _ _ _ _ _

theorem dhcp_armTrace_38 : ArmTrace 38 "EnumSubnetElementsV5Request" "EnumSubnetElementsV5" := by
  intro c ctx o r
  rw [dhcp_handle_eq_38 c ctx o r]
  exact dispatchArm_shape _ _ _ _ _

theorem dhcp_armTrace_39 : ArmTrace 39 "RemoveSubnetElementV5Request" "RemoveSubnetElementV5" := by
  intro c ctx o r
  rw [dhcp_handle_eq_39 c ctx o r]
  exact dispatchArm_shape _ _ _ _ _

theorem dhcp_armTrace_40 : ArmTrace 40 "GetServerBindingInfoRequest" "GetServerBindingInfo" := by
  intro c ctx o r
  rw [dhcp_handle_eq_40 c ctx o r]
  exact dispatchArm_shape _ _ _ _ _

theorem dhcp_armTrace_41 : ArmTrace 41 "SetServerBindingInfoRequest" "SetServerBindingInfo" := by
  intro c ctx o r
  rw [dhcp_handle_eq_41 c ctx o r]
  exact dispatchArm_shape _ _ _ _ _

theorem dhcp_armTrace_42 : ArmTrace 42 "QueryDNSRegCredentialsRequest" "QueryDNSRegCredentials" := by
  intro c ctx o r
  rw [dhcp_handle_eq_42 c ctx o r]
  exact dispatchArm_shape _ _ _ _ _

theorem dhcp_armTrace_43 : ArmTrace 43 "SetDNSRegCredentialsRequest" "SetDNSRegCredentials" := by
  intro c ctx o r
  rw [dhcp_handle_eq_43 c ctx o r]
  exact dispatchArm_shape _ _ _ _ _

theorem dhcp_armTrace_44 : ArmTrace 44 "BackupDatabaseRequest" "BackupDatabase" := by
  intro c ctx o r
  rw [dhcp_handle_eq_44 c ctx o r]
  exact dispatchArm_shape _ _ _ _ _

theorem dhcp_armTrace_45 : ArmTrace 45 "RestoreDatabaseRequest" "RestoreDatabase" := by
  intro c ctx o r
  rw [dhcp_handle_eq_45 c ctx o r]
  exact dispatchArm_shape _ _ _ _ _

theorem dhcp_armTrace_46 : ArmTrace 46 "GetServerSpecificStringsRequest" "GetServerSpecificStrings" := by
  intro c ctx o r
  rw [dhcp_handle_eq_46 c ctx o r]
  exact dispatchArm_shape _ _ _ _ _

theorem dhcp_armTrace_47 : ArmTrace 47 "CreateOptionV6Request" "CreateOptionV6" := by
  intro c ctx o r
  rw [dhcp_handle_eq_47 c ctx o r]
  exact dispatchArm_shape _ _ _ _ _

theorem dhcp_armTrace_48 : ArmTrace 48 "SetOptionInfoV6Request" "SetOptionInfoV6" := by
  intro c ctx o r
  rw [dhcp_handle_eq_48 c ctx o r]
  exact dispatchArm_shape _ _ _ _ _

theorem dhcp_armTrace_49 : ArmTrace 49 "GetOptionInfoV6Request" "GetOptionInfoV6" := by
  intro c ctx o r
  rw [dhcp_handle_eq_49 c ctx o r]
  exact dispatchArm_shape _ _ _ _ _

theorem dhcp_armTrace_50 : ArmTrace 50 "EnumOptionsV6Request" "EnumOptionsV6" := by
  intro c ctx o r
  rw [dhcp_handle_eq_50 c ctx o r]
  exact dispatchArm_shape _ _ _ _ _

theorem dhcp_armTrace_51 : ArmTrace 51 "RemoveOptionV6Request" "RemoveOptionV6" := by
  intro c ctx o r
  rw [dhcp_handle_eq_51 c ctx o r]
  exact dispatchArm_shape _ _ _ _ _

theorem dhcp_armTrace_52 : ArmTrace 52 "SetOptionValueV6Request" "SetOptionValueV6" := by
  intro c ctx o r
  rw [dhcp_handle_eq_52 c ctx o r]
  exact dispatchArm_shape _ _ _ _ _

theorem dhcp_armTrace_53 : ArmTrace 53 "EnumOptionValuesV6Request" "EnumOptionValuesV6" := by
  intro c ctx o r
  rw [dhcp_handle_eq_53 c ctx o r]
  exact dispatchArm_shape _ _ _ _ _

theorem dhcp_armTrace_54 : ArmTrace 54 "RemoveOptionValueV6Request" "RemoveOptionValueV6" := by
  intro c ctx o r
  rw [dhcp_handle_eq_54 c ctx o r]
  exact dispatchArm_shape _ _ _ _ _

theorem dhcp_armTrace_55 : ArmTrace 55 "GetAllOptionsV6Request" "GetAllOptionsV6" := by
  intro c ctx o r
  rw [dhcp_handle_eq_55 c ctx o r]
  exact dispatchArm_shape _ _ _ _ _

theorem dhcp_armTrace_56 : ArmTrace 56 "GetAllOptionValuesV6Request" "GetAllOptionValuesV6" := by
  intro c ctx o r
  rw [dhcp_handle_eq_56 c ctx o r]
  exact dispatchArm_shape _ _ _ _ _

theorem dhcp_armTrace_57 : ArmTrace 57 "CreateSubnetV6Request" "CreateSubnetV6" := by
  intro c ctx o r
  rw [dhcp_handle_eq_57 c ctx o r]
  exact dispatchArm_shape _ _ _ _ _

theorem dhcp_armTrace_58 : ArmTrace 58 "EnumSubnetsV6Request" "EnumSubnetsV6" := by
  intro c ctx o r
  rw [dhcp_handle_eq_58 c ctx o r]
  exact dispatchArm_shape _ _ _ _ _

theorem dhcp_armTrace_59 : ArmTrace 59 "AddSubnetElementV6Request" "AddSubnetElementV6" := by
  intro c ctx o r
  rw [dhcp_handle_eq_59 c ctx o r]
  exact dispatchArm_shape _ _ _ _ _

theorem dhcp_armTrace_60 : ArmTrace 60 "EnumSubnetElementsV6Request" "EnumSubnetElementsV6" := by
  intro c ctx o r
  rw [dhcp_handle_eq_60 c ctx o r]
  exact dispatchArm_shape _ _ _ _ _

theorem dhcp_armTrace_61 : ArmTrace 61 "RemoveSubnetElementV6Request" "RemoveSubnetElementV6" := by
  intro c ctx o r
  rw [dhcp_handle_eq_61 c ctx o r]
  exact dispatchArm_shape _ _ _ _ _

theorem dhcp_armTrace_62 : ArmTrace 62 "DeleteSubnetV6Request" "DeleteSubnetV6" := by
  intro c ctx o r
  rw [dhcp_handle_eq_62 c ctx o r]
  exact dispatchArm_shape _ _ _ _ _

theorem dhcp_armTrace_63 : ArmTrace 63 "GetSubnetInfoV6Request" "GetSubnetInfoV6" := by
  intro c ctx o r
  rw [dhcp_handle_eq_63 c ctx o r]
  exact dispatchArm_shape _ _ _ _ _

theorem dhcp_armTrace_64 : ArmTrace 64 "EnumSubnetClientsV6Request" "EnumSubnetClientsV6" := by
  intro c ctx o r
  rw [dhcp_handle_eq_64 c ctx o r]
  exact dispatchArm_shape _ _ _ _ _

theorem dhcp_armTrace_65 : ArmTrace 65 "ServerSetConfigV6Request" "ServerSetConfigV6" := by
  intro c ctx o r
  rw [dhcp_handle_eq_65 c ctx o r]
  exact dispatchArm_shape _ _ _ _ _

theorem dhcp_armTrace_66 : ArmTrace 66 "ServerGetConfigV6Request" "ServerGetConfigV6" := by
  intro c ctx o r
  rw [dhcp_handle_eq_66 c ctx o r]
  exact dispatchArm_shape _ _ _ _ _

theorem dhcp_armTrace_67 : ArmTrace 67 "SetSubnetInfoV6Request" "SetSubnetInfoV6" := by
  intro c ctx o r
  rw [dhcp_handle_eq_67 c ctx o r]
  exact dispatchArm_shape _ _ _ _ _

theorem dhcp_armTrace_68 : ArmTrace 68 "GetMIBInfoV6Request" "GetMIBInfoV6" := by
  intro c ctx o r
  rw [dhcp_handle_eq_68 c ctx o r]
  exact dispatchArm_shape _ _ _ _ _

theorem dhcp_armTrace_69 : ArmTrace 69 "GetServerBindingInfoV6Request" "GetServerBindingInfoV6" := by
  intro c ctx o r
  rw [dhcp_handle_eq_69 c ctx o r]
  exact dispatchArm_shape _ _ _ _ _

theorem dhcp_armTrace_70 : ArmTrace 70 "SetServerBindingInfoV6Request" "SetServerBindingInfoV6" := by
  intro c ctx o r
  rw [dhcp_handle_eq_70 c ctx o r]
  exact dispatchArm_shape _ _ _ _ _

theorem dhcp_armTrace_71 : ArmTrace 71 "SetClientInfoV6Request" "SetClientInfoV6" := by
  intro c ctx o r
  rw [dhcp_handle_eq_71 c ctx o r]
  exact dispatchArm_shape _ _ _ _ _

theorem dhcp_armTrace_72 : ArmTrace 72 "GetClientInfoV6Request" "GetClientInfoV6" := by
  intro c ctx o r
  rw [dhcp_handle_eq_72 c ctx o r]
  exact dispatchArm_shape _ _ _ _ _

theorem dhcp_armTrace_73 : ArmTrace 73 "DeleteClientInfoV6Request" "DeleteClientInfoV6" := by
  intro c ctx o r
  rw [dhcp_handle_eq_73 c ctx o r]
  exact dispatchArm_shape _ _ _ _ _

theorem dhcp_armTrace_74 : ArmTrace 74 "CreateClassV6Request" "CreateClassV6" := by
  intro c ctx o r
  rw [dhcp_handle_eq_74 c ctx o r]
  exact dispatchArm_shape _ _ _ _ _

theorem dhcp_armTrace_75 : ArmTrace 75 "ModifyClassV6Request" "ModifyClassV6" := by
  intro c ctx o r
  rw [dhcp_handle_eq_75 c ctx o r]
  exact dispatchArm_shape _ _ _ _ _

theorem dhcp_armTrace_76 : ArmTrace 76 "DeleteClassV6Request" "DeleteClassV6" := by
  intro c ctx o r
  rw [dhcp_handle_eq_76 c ctx o r]
  exact dispatchArm_shape _ _ _ _ _

theorem dhcp_armTrace_77 : ArmTrace 77 "EnumClassesV6Request" "EnumClassesV6" := by
  intro c ctx o r
  rw [dhcp_handle_eq_77 c ctx o r]
  exact dispatchArm_shape _ _ _ _ _

theorem dhcp_armTrace_78 : ArmTrace 78 "GetOptionValueV6Request" "GetOptionValueV6" := by
  intro c ctx o r
  rw [dhcp_handle_eq_78 c ctx o r]
  exact dispatchArm_shape _ _ _ _ _

theorem dhcp_armTrace_79 : ArmTrace 79 "SetSubnetDelayOfferRequest" "SetSubnetDelayOffer" := by
  intro c ctx o r
  rw [dhcp_handle_eq_79 c ctx o r]
  exact dispatchArm_shape _ _ _ _ _

theorem dhcp_armTrace_80 : ArmTrace 80 "GetSubnetDelayOfferRequest" "GetSubnetDelayOffer" := by
  intro c ctx o r
  rw [dhcp_handle_eq_80 c ctx o r]
  exact dispatchArm_shape _ _ _ _ _

theorem dhcp_armTrace_81 : ArmTrace 81 "GetMIBInfoV5Request" "GetMIBInfoV5" := by
  intro c ctx o r
  rw [dhcp_handle_eq_81 c ctx o r]
  exact dispatchArm_shape _ _ _ _ _

theorem dhcp_armTrace_82 : ArmTrace 82 "AddFilterV4Request" "AddFilterV4" := by
  intro c ctx o r
  rw [dhcp_handle_eq_82 c ctx o r]
  exact dispatchArm_shape _ _ _ _ _

theorem dhcp_armTrace_83 : ArmTrace 83 "DeleteFilterV4Request" "DeleteFilterV4" := by
  intro c ctx o r
  rw [dhcp_handle_eq_83 c ctx o r]
  exact dispatchArm_shape _ _ _ _ _

theorem dhcp_armTrace_84 : ArmTrace 84 "SetFilterV4Request" "SetFilterV4" := by
  intro c ctx o r
  rw [dhcp_handle_eq_84 c ctx o r]
  exact dispatchArm_shape _ _ _ _ _

theorem dhcp_armTrace_85 : ArmTrace 85 "GetFilterV4Request" "GetFilterV4" := by
  intro c ctx o r
  rw [dhcp_handle_eq_85 c ctx o r]
  exact dispatchArm_shape _ _ _ _ _

theorem dhcp_armTrace_86 : ArmTrace 86 "EnumFilterV4Request" "EnumFilterV4" := by
  intro c ctx o r
  rw [dhcp_handle_eq_86 c ctx o r]
  exact dispatchArm_shape _ _ _ _ _

theorem dhcp_armTrace_87 : ArmTrace 87 "SetDNSRegCredentialsV5Request" "SetDNSRegCredentialsV5" := by
  intro c ctx o r
  rw [dhcp_handle_eq_87 c ctx o r]
  exact dispatchArm_shape _ _ _ _ _

theorem dhcp_armTrace_88 : ArmTrace 88 "EnumSubnetClientsFilterStatusInfoRequest" "EnumSubnetClientsFilterStatusInfo" := by
  intro c ctx o r
  rw [dhcp_handle_eq_88 c ctx o r]
  exact dispatchArm_shape _ _ _ _ _

theorem dhcp_armTrace_89 : ArmTrace 89 "FailoverCreateRelationshipV4Request" "FailoverCreateRelationshipV4" := by
  intro c ctx o r
  rw [dhcp_handle_eq_89 c ctx o r]
  exact dispatchArm_shape _ _ _ _ _

theorem dhcp_armTrace_90 : ArmTrace 90 "FailoverSetRelationshipV4Request" "FailoverSetRelationshipV4" := by
  intro c ctx o r
  rw [dhcp_handle_eq_90 c ctx o r]
  exact dispatchArm_shape _ _ _ _ _

theorem dhcp_armTrace_91 : ArmTrace 91 "FailoverDeleteRelationshipV4Request" "FailoverDeleteRelationshipV4" := by
  intro c ctx o r
  rw [dhcp_handle_eq_91 c ctx o r]
  exact dispatchArm_shape _ _ _ _ _

theorem dhcp_armTrace_92 : ArmTrace 92 "FailoverGetRelationshipV4Request" "FailoverGetRelationshipV4" := by
  intro c ctx o r
  rw [dhcp_handle_eq_92 c ctx o r]
  exact dispatchArm_shape _ _ _ _ _

theorem dhcp_armTrace_93 : ArmTrace 93 "FailoverEnumRelationshipV4Request" "FailoverEnumRelationshipV4" := by
  intro c ctx o r
  rw [dhcp_handle_eq_93 c ctx o r]
  exact dispatchArm_shape _ _ _ _ _

theorem dhcp_armTrace_94 : ArmTrace 94 "FailoverAddScopeToRelationshipV4Request" "FailoverAddScopeToRelationshipV4" := by
  intro c ctx o r
  rw [dhcp_handle_eq_94 c ctx o r]
  exact dispatchArm_shape _ _ _ _ _

theorem dhcp_armTrace_95 : ArmTrace 95 "FailoverDeleteScopeFromRelationshipV4Request" "FailoverDeleteScopeFromRelationshipV4" := by
  intro c ctx o r
  rw [dhcp_handle_eq_95 c ctx o r]
  exact dispatchArm_shape _ _ _ _ _

theorem dhcp_armTrace_96 : ArmTrace 96 "FailoverGetScopeRelationshipV4Request" "FailoverGetScopeRelationshipV4" := by
  intro c ctx o r
  rw [dhcp_handle_eq_96 c ctx o r]
  exact dispatchArm_shape _ _ _ _ _

theorem dhcp_armTrace_97 : ArmTrace 97 "FailoverGetScopeStatisticsV4Request" "FailoverGetScopeStatisticsV4" := by
  intro c ctx o r
  rw [dhcp_handle_eq_97 c ctx o r]
  exact dispatchArm_shape _ _ _ _ _

theorem dhcp_armTrace_98 : ArmTrace 98 "FailoverGetClientInfoV4Request" "FailoverGetClientInfoV4" := by
  intro c ctx o r
  rw [dhcp_handle_eq_98 c ctx o r]
  exact dispatchArm_shape _ _ _ _ _

theorem dhcp_armTrace_99 : ArmTrace 99 "FailoverGetSystemTimeV4Request" "FailoverGetSystemTimeV4" := by
  intro c ctx o r
  rw [dhcp_handle_eq_99 c ctx o r]
  exact dispatchArm_shape _ _ _ _ _

theorem dhcp_armTrace_100 : ArmTrace 100 "FailoverTriggerAddrAllocationV4Request" "FailoverTriggerAddrAllocationV4" := by
  intro c ctx o r
  rw [dhcp_handle_eq_100 c ctx o r]
  exact dispatchArm_shape _ _ _ _ _

theorem dhcp_armTrace_101 : ArmTrace 101 "SetOptionValueV4Request" "SetOptionValueV4" := by
  intro c ctx o r
  rw [dhcp_handle_eq_101 c ctx o r]
  exact dispatchArm_shape _ _ _ _ _

theorem dhcp_armTrace_102 : ArmTrace 102 "SetOptionValuesV4Request" "SetOptionValuesV4" := by
  intro c ctx o r
  rw [dhcp_handle_eq_102 c ctx o r]
  exact dispatchArm_shape _ _ _ _ _

theorem dhcp_armTrace_103 : ArmTrace 103 "GetOptionValueV4Request" "GetOptionValueV4" := by
  intro c ctx o r
  rw [dhcp_handle_eq_103 c ctx o r]
  exact dispatchArm_shape _ _ _ _ _

theorem dhcp_armTrace_104 : ArmTrace 104 "RemoveOptionValueV4Request" "RemoveOptionValueV4" := by
  intro c ctx o r
  rw [dhcp_handle_eq_104 c ctx o r]
  exact dispatchArm_shape _ _ _ _ _

theorem dhcp_armTrace_105 : ArmTrace 105 "GetAllOptionValuesV4Request" "GetAllOptionValuesV4" := by
  intro c ctx o r
  rw [dhcp_handle_eq_105 c ctx o r]
  exact dispatchArm_shape _ _ _ _ _

theorem dhcp_armTrace_106 : ArmTrace 106 "QueryPolicyEnforcementV4Request" "QueryPolicyEnforcementV4" := by
  intro c ctx o r
  rw [dhcp_handle_eq_106 c ctx o r]
  exact dispatchArm_shape _ _ _ _ _

theorem dhcp_armTrace_107 : ArmTrace 107 "SetPolicyEnforcementV4Request" "SetPolicyEnforcementV4" := by
  intro c ctx o r
  rw [dhcp_handle_eq_107 c ctx o r]
  exact dispatchArm_shape _ _ _ _ _

theorem dhcp_armTrace_108 : ArmTrace 108 "CreatePolicyV4Request" "CreatePolicyV4" := by
  intro c ctx o r
  rw [dhcp_handle_eq_108 c ctx o r]
  exact dispatchArm_shape _ _ _ _ _

theorem dhcp_armTrace_109 : ArmTrace 109 "GetPolicyV4Request" "GetPolicyV4" := by
  intro c ctx o r
  rw [dhcp_handle_eq_109 c ctx o r]
  exact dispatchArm_shape _ _ _ _ _

theorem dhcp_armTrace_110 : ArmTrace 110 "SetPolicyV4Request" "SetPolicyV4" := by
  intro c ctx o r
  rw [dhcp_handle_eq_110 c ctx o r]
  exact dispatchArm_shape _ _ _ _ _

theorem dhcp_armTrace_111 : ArmTrace 111 "DeletePolicyV4Request" "DeletePolicyV4" := by
  intro c ctx o r
  rw [dhcp_handle_eq_111 c ctx o r]
  exact dispatchArm_shape _ _ _ _ _

theorem dhcp_armTrace_112 : ArmTrace 112 "EnumPoliciesV4Request" "EnumPoliciesV4" := by
  intro c ctx o r
  rw [dhcp_handle_eq_112 c ctx o r]
  exact dispatchArm_shape _ _ _ _ _

theorem dhcp_armTrace_113 : ArmTrace 113 "AddPolicyRangeV4Request" "AddPolicyRangeV4" := by
  intro c ctx o r
  rw [dhcp_handle_eq_113 c ctx o r]
  exact dispatchArm_shape _ _ _ _ _

theorem dhcp_armTrace_114 : ArmTrace 114 "RemovePolicyRangeV4Request" "RemovePolicyRangeV4" := by
  intro c ctx o r
  rw [dhcp_handle_eq_114 c ctx o r]
  exact dispatchArm_shape _ _ _ _ _

theorem dhcp_armTrace_115 : ArmTrace 115 "EnumSubnetClientsV4Request" "EnumSubnetClientsV4" := by
  intro c ctx o r
  rw [dhcp_handle_eq_115 c ctx o r]
  exact dispatchArm_shape _ _ _ _ _

theorem dhcp_armTrace_116 : ArmTrace 116 "SetStatelessStoreParamsV6Request" "SetStatelessStoreParamsV6" := by
  intro c ctx o r
  rw [dhcp_handle_eq_116 c ctx o r]
  exact dispatchArm_shape _ _ _ _ _

theorem dhcp_armTrace_117 : ArmTrace 117 "GetStatelessStoreParamsV6Request" "GetStatelessStoreParamsV6" := by
  intro c ctx o r
  rw [dhcp_handle_eq_117 c ctx o r]
  exact dispatchArm_shape _ _ _ _ _

theorem dhcp_armTrace_118 : ArmTrace 118 "GetStatelessStatisticsV6Request" "GetStatelessStatisticsV6" := by
  intro c ctx o r
  rw [dhcp_handle_eq_118 c ctx o r]
  exact dispatchArm_shape _ _ _ _ _

theorem dhcp_armTrace_119 : ArmTrace 119 "EnumSubnetReservationsV4Request" "EnumSubnetReservationsV4" := by
  intro c ctx o r
  rw [dhcp_handle_eq_119 c ctx o r]
  exact dispatchArm_shape _ _ _ _ _

theorem dhcp_armTrace_120 : ArmTrace 120 "GetFreeIPAddressV4Request" "GetFreeIPAddressV4" := by
  intro c ctx o r
  rw [dhcp_handle_eq_120 c ctx o r]
  exact dispatchArm_shape _ _ _ _ _

theorem dhcp_armTrace_121 : ArmTrace 121 "GetFreeIPAddressV6Request" "GetFreeIPAddressV6" := by
  intro c ctx o r
  rw [dhcp_handle_eq_121 c ctx o r]
  exact dispatchArm_shape _ _ _ _ _

theorem dhcp_armTrace_122 : ArmTrace 122 "CreateClientInfoV4Request" "CreateClientInfoV4" := by
  intro c ctx o r
  rw [dhcp_handle_eq_122 c ctx o r]
  exact dispatchArm_shape _ _ _ _ _

theorem dhcp_armTrace_123 : ArmTrace 123 "GetClientInfoV4Request" "GetClientInfoV4" := by
  intro c ctx o r
  rw [dhcp_handle_eq_123 c ctx o r]
  exact dispatchArm_shape _ _ _ _ _

theorem dhcp_armTrace_124 : ArmTrace 124 "CreateClientInfoV6Request" "CreateClientInfoV6" := by
  intro c ctx o r
  rw [dhcp_handle_eq_124 c ctx o r]
  exact dispatchArm_shape _ _ _ _ _

theorem dhcp_armTrace_125 : ArmTrace 125 "FailoverGetAddressStatusV4Request" "FailoverGetAddressStatusV4" := by
  intro c ctx o r
  rw [dhcp_handle_eq_125 c ctx o r]
  exact dispatchArm_shape _ _ _ _ _

theorem dhcp_armTrace_126 : ArmTrace 126 "CreatePolicyExV4Request" "CreatePolicyExV4" := by
  intro c ctx o r
  rw [dhcp_handle_eq_126 c ctx o r]
  exact dispatchArm_shape _ _ _ _ _

theorem dhcp_armTrace_127 : ArmTrace 127 "GetPolicyExV4Request" "GetPolicyExV4" := by
  intro c ctx o r
  rw [dhcp_handle_eq_127 c ctx o r]
  exact dispatchArm_shape _ _ _ _ _

theorem dhcp_armTrace_128 : ArmTrace 128 "SetPolicyExV4Request" "SetPolicyExV4" := by
  intro c ctx o r
  rw [dhcp_handle_eq_128 c ctx o r]
  exact dispatchArm_shape _ _ _ _ _

theorem dhcp_armTrace_129 : ArmTrace 129 "EnumPoliciesExV4Request" "EnumPoliciesExV4" := by
  intro c ctx o r
  rw [dhcp_handle_eq_129 c ctx o r]
  exact dispatchArm_shape _ _ _ _ _

theorem dhcp_armTrace_130 : ArmTrace 130 "EnumSubnetClientsExV4Request" "EnumSubnetClientsExV4" := by
  intro c ctx o r
  rw [dhcp_handle_eq_130 c ctx o r]
  exact dispatchArm_shape _ _ _ _ _

theorem dhcp_armTrace_131 : ArmTrace 131 "CreateClientInfoExV4Request" "CreateClientInfoExV4" := by
  intro c ctx o r
  rw [dhcp_handle_eq_131 c ctx o r]
  exact dispatchArm_shape _ _ _ _ _

theorem dhcp_armTrace_132 : ArmTrace 132 "GetClientInfoExV4Request" "GetClientInfoExV4" := by
  intro c ctx o r
  rw [dhcp_handle_eq_132 c ctx o r]
  exact dispatchArm_shape _ _ _ _ _

/-- Concrete codecs whose decoders always succeed on an empty request. -/
def okCodecs : Dhcpsrv2Codecs :=
  ⟨fun _ _ => .ok ⟨[]⟩,
   fun _ _ => .ok ⟨[]⟩,
   fun _ _ => .ok ⟨[]⟩,
   fun _ _ => .ok ⟨[]⟩,
   fun _ _ => .ok ⟨[]⟩,
   fun _ _ => .ok ⟨[]⟩,
   fun _ _ => .ok ⟨[]⟩,
   fun _ _ => .ok ⟨[]⟩,
   fun _ _ => .ok ⟨[]⟩,
   fun _ _ => .ok ⟨[]⟩,
   fun _ _ => .ok ⟨[]⟩,
   fun _ _ => .ok ⟨[]⟩,
   fun _ _ => .ok ⟨[]⟩,
   fun _ _ => .ok ⟨[]⟩,
   fun _ _ => .ok ⟨[]⟩,
   fun _ _ => .ok ⟨[]⟩,
   fun _ _ => .ok ⟨[]⟩,
   fun _ _ => .ok ⟨[]⟩,
   fun _ _ => .ok ⟨[]⟩,
   fun _ _ => .ok ⟨[]⟩,
   fun _ _ => .ok ⟨[]⟩,
   fun _ _ => .ok ⟨[]⟩,
   fun _ _ => .ok ⟨[]⟩,
   fun _ _ => .ok ⟨[]⟩,
   fun _ _ => .ok ⟨[]⟩,
   fun _ _ => .ok ⟨[]⟩,
   fun _ _ => .ok ⟨[]⟩,
   fun _ _ => .ok ⟨[]⟩,
   fun _ _ => .ok ⟨[]⟩,
   fun _ _ => .ok ⟨[]⟩,
   fun _ _ => .ok ⟨[]⟩,
   fun _ _ => .ok ⟨[]⟩,
   fun _ _ => .ok ⟨[]⟩,
   fun _ _ => .ok ⟨[]⟩,
   fun _ _ => .ok ⟨[]⟩,
   fun _ _ => .ok ⟨[]⟩,
   fun _ _ => .ok ⟨[]⟩,
   fun _ _ => .ok ⟨[]⟩,
   fun _ _ => .ok ⟨[]⟩,
   fun _ _ => .ok ⟨[]⟩,
   fun _ _ => .ok ⟨[]⟩,
   fun _ _ => .ok ⟨[]⟩,
   fun _ _ => .ok ⟨[]⟩,
   fun _ _ => .ok ⟨[]⟩,
   fun _ _ => .ok ⟨[]⟩,
   fun _ _ => .ok ⟨[]⟩,
   fun _ _ => .ok ⟨[]⟩,
   fun _ _ => .ok ⟨[]⟩,
   fun _ _ => .ok ⟨[]⟩,
   fun _ _ => .ok ⟨[]⟩,
   fun _ _ => .ok ⟨[]⟩,
   fun _ _ => .ok ⟨[]⟩,
   fun _ _ => .ok ⟨[]⟩,
   fun _ _ => .ok ⟨[]⟩,
   fun _ _ => .ok ⟨[]⟩,
   fun _ _ => .ok ⟨[]⟩,
   fun _ _ => .ok ⟨[]⟩,
   fun _ _ => .ok ⟨[]⟩,
   fun _ _ => .ok ⟨[]⟩,
   fun _ _ => .ok ⟨[]⟩,
   fun _ _ => .ok ⟨[]⟩,
   fun _ _ => .ok ⟨[]⟩,
   fun _ _ => .ok ⟨[]⟩,
   fun _ _ => .ok ⟨[]⟩,
   fun _ _ => .ok ⟨[]⟩,
   fun _ _ => .ok ⟨[]⟩,
   fun _ _ => .ok ⟨[]⟩,
   fun _ _ => .ok ⟨[]⟩,
   fun _ _ => .ok ⟨[]⟩,
   fun _ _ => .ok ⟨[]⟩,
   fun _ _ => .ok ⟨[]⟩,
   fun _ _ => .ok ⟨[]⟩,
   fun _ _ => .ok ⟨[]⟩,
   fun _ _ => .ok ⟨[]⟩,
   fun _ _ => .ok ⟨[]⟩,
   fun _ _ => .ok ⟨[]⟩,
   fun _ _ => .ok ⟨[]⟩,
   fun _ _ => .ok ⟨[]⟩,
   fun _ _ => .ok ⟨[]⟩,
   fun _ _ => .ok ⟨[]⟩,
   fun _ _ => .ok ⟨[]⟩,
   fun _ _ => .ok ⟨[]⟩,
   fun _ _ => .ok ⟨[]⟩,
   fun _ _ => .ok ⟨[]⟩,
   fun _ _ => .ok ⟨[]⟩,
   fun _ _ => .ok ⟨[]⟩,
   fun _ _ => .ok ⟨[]⟩,
   fun _ _ => .ok ⟨[]⟩,
   fun _ _ => .ok ⟨[]⟩,
   fun _ _ => .ok ⟨[]⟩,
   fun _ _ => .ok ⟨[]⟩,
   fun _ _ => .ok ⟨[]⟩,
   fun _ _ => .ok ⟨[]⟩,
   fun _ _ => .ok ⟨[]⟩,
   fun _ _ => .ok ⟨[]⟩,
   fun _ _ => .ok ⟨[]⟩,
   fun _ _ => .ok ⟨[]⟩,
   fun _ _ => .ok ⟨[]⟩,
   fun _ _ => .ok ⟨[]⟩,
   fun _ _ => .ok ⟨[]⟩,
   fun _ _ => .ok ⟨[]⟩,
   fun _ _ => .ok ⟨[]⟩,
   fun _ _ => .ok ⟨[]⟩,
   fun _ _ => .ok ⟨[]⟩,
   fun _ _ => .ok ⟨[]⟩,
   fun _ _ => .ok ⟨[]⟩,
   fun _ _ => .ok ⟨[]⟩,
   fun _ _ => .ok ⟨[]⟩,
   fun _ _ => .ok ⟨[]⟩,
   fun _ _ => .ok ⟨[]⟩,
   fun _ _ => .ok ⟨[]⟩,
   fun _ _ => .ok ⟨[]⟩,
   fun _ _ => .ok ⟨[]⟩,
   fun _ _ => .ok ⟨[]⟩,
   fun _ _ => .ok ⟨[]⟩,
   fun _ _ => .ok ⟨[]⟩,
   fun _ _ => .ok ⟨[]⟩,
   fun _ _ => .ok ⟨[]⟩,
   fun _ _ => .ok ⟨[]⟩,
   fun _ _ => .ok ⟨[]⟩,
   fun _ _ => .ok ⟨[]⟩,
   fun _ _ => .ok ⟨[]⟩,
   fun _ _ => .ok ⟨[]⟩,
   fun _ _ => .ok ⟨[]⟩,
   fun _ _ => .ok ⟨[]⟩,
   fun _ _ => .ok ⟨[]⟩,
   fun _ _ => .ok ⟨[]⟩,
   fun _ _ => .ok ⟨[]⟩,
   fun _ _ => .ok ⟨[]⟩,
   fun _ _ => .ok ⟨[]⟩,
   fun _ _ => .ok ⟨[]⟩,
   fun _ _ => .ok ⟨[]⟩,
   fun _ _ => .ok ⟨[]⟩⟩

/-- A concrete server whose handlers return a nil response and a nil error. -/
def zeroServer : Dhcpsrv2Server :=
  ⟨fun _ _ => (none, none),
   fun _ _ => (none, none),
   fun _ _ => (none, none),
   fun _ _ => (none, none),
   fun _ _ => (none, none),
   fun _ _ => (none, none),
   fun _ _ => (none, none),
   fun _ _ => (none, none),
   fun _ _ => (none, none),
   fun _ _ => (none, none),
   fun _ _ => (none, none),
   fun _ _ => (none, none),
   fun _ _ => (none, none),
   fun _ _ => (none, none),
   fun _ _ => (none, none),
   fun _ _ => (none, none),
   fun _ _ => (none, none),
   fun _ _ => (none, none),
   fun _ _ => (none, none),
   fun _ _ => (none, none),
   fun _ _ => (none, none),
   fun _ _ => (none, none),
   fun _ _ => (none, none),
   fun _ _ => (none, none),
   fun _ _ => (none, none),
   fun _ _ => (none, none),
   fun _ _ => (none, none),
   fun _ _ => (none, none),
   fun _ _ => (none, none),
   fun _ _ => (none, none),
   fun _ _ => (none, none),
   fun _ _ => (none, none),
   fun _ _ => (none, none),
   fun _ _ => (none, none),
   fun _ _ => (none, none),
   fun _ _ => (none, none),
   fun _ _ => (none, none),
   fun _ _ => (none, none),
   fun _ _ => (none, none),
   fun _ _ => (none, none),
   fun _ _ => (none, none),
   fun _ _ => (none, none),
   fun _ _ => (none, none),
   fun _ _ => (none, none),
   fun _ _ => (none, none),
   fun _ _ => (none, none),
   fun _ _ => (none, none),
   fun _ _ => (none, none),
   fun _ _ => (none, none),
   fun _ _ => (none, none),
   fun _ _ => (none, none),
   fun _ _ => (none, none),
   fun _ _ => (none, none),
   fun _ _ => (none, none),
   fun _ _ => (none, none),
   fun _ _ => (none, none),
   fun _ _ => (none, none),
   fun _ _ => (none, none),
   fun _ _ => (none, none),
   fun _ _ => (none, none),
   fun _ _ => (none, none),
   fun _ _ => (none, none),
   fun _ _ => (none, none),
   fun _ _ => (none, none),
   fun _ _ => (none, none),
   fun _ _ => (none, none),
   fun _ _ => (none, none),
   fun _ _ => (none, none),
   fun _ _ => (none, none),
   fun _ _ => (none, none),
   fun _ _ => (none, none),
   fun _ _ => (none, none),
   fun _ _ => (none, none),
   fun _ _ => (none, none),
   fun _ _ => (none, none),
   fun _ _ => (none, none),
   fun _ _ => (none, none),
   fun _ _ => (none, none),
   fun _ _ => (none, none),
   fun _ _ => (none, none),
   fun _ _ => (none, none),
   fun _ _ => (none, none),
   fun _ _ => (none, none),
   fun _ _ => (none, none),
   fun _ _ => (none, none),
   fun _ _ => (none, none),
   fun _ _ => (none, none),
   fun _ _ => (none, none),
   fun _ _ => (none, none),
   fun _ _ => (none, none),
   fun _ _ => (none, none),
   fun _ _ => (none, none),
   fun _ _ => (none, none),
   fun _ _ => (none, none),
   fun _ _ => (none, none),
   fun _ _ => (none, none),
   fun _ _ => (none, none),
   fun _ _ => (none, none),
   fun _ _ => (none, none),
   fun _ _ => (none, none),
   fun _ _ => (none, none),
   fun _ _ => (none, none),
   fun _ _ => (none, none),
   fun _ _ => (none, none),
   fun _ _ => (none, none),
   fun _ _ => (none, none),
   fun _ _ => (none, none),
   fun _ _ => (none, none),
   fun _ _ => (none, none),
   fun _ _ => (none, none),
   fun _ _ => (none, none),
   fun _ _ => (none, none),
   fun _ _ => (none, none),
   fun _ _ => (none, none),
   fun _ _ => (none, none),
   fun _ _ => (none, none),
   fun _ _ => (none, none),
   fun _ _ => (none, none),
   fun _ _ => (none, none),
   fun _ _ => (none, none),
   fun _ _ => (none, none),
   fun _ _ => (none, none),
   fun _ _ => (none, none),
   fun _ _ => (none, none),
   fun _ _ => (none, none),
   fun _ _ => (none, none),
   fun _ _ => (none, none),
   fun _ _ => (none, none),
   fun _ _ => (none, none),
   fun _ _ => (none, none),
   fun _ _ => (none, none),
   fun _ _ => (none, none),
   fun _ _ => (none, none)⟩

end dhcpsrv2

namespace icatalogutils2

/-- Go: `resp.xxx_ToOp(ctx)` on a (possibly nil) `*CopyConglomerationsResponse`,
converted to the `dcerpc.Operation` interface by the `return` statement; the
interface value wrapping the typed pointer is never the nil interface. -/
def CopyConglomerationsResponse.xxx_ToOp (resp : Option CopyConglomerationsResponse) (_ctx : Ctx) : Operation :=
  Operation.icatalogutils2_CopyConglomerations resp

/-- Go: `resp.xxx_ToOp(ctx)` on a (possibly nil) `*CopyComponentConfigurationResponse`,
converted to the `dcerpc.Operation` interface by the `return` statement; the
interface value wrapping the typed pointer is never the nil interface. -/
def CopyComponentConfigurationResponse.xxx_ToOp (resp : Option CopyComponentConfigurationResponse) (_ctx : Ctx) : Operation :=
  Operation.icatalogutils2_CopyComponentConfiguration resp

/-- Go: `resp.xxx_ToOp(ctx)` on a (possibly nil) `*AliasComponentResponse`,
converted to the `dcerpc.Operation` interface by the `return` statement; the
interface value wrapping the typed pointer is never the nil interface. -/
def AliasComponentResponse.xxx_ToOp (resp : Option AliasComponentResponse) (_ctx : Ctx) : Operation :=
  Operation.icatalogutils2_AliasComponent resp

/-- Go: `resp.xxx_ToOp(ctx)` on a (possibly nil) `*MoveComponentConfigurationResponse`,
converted to the `dcerpc.Operation` interface by the `return` statement; the
interface value wrapping the typed pointer is never the nil interface. -/
def MoveComponentConfigurationResponse.xxx_ToOp (resp : Option MoveComponentConfigurationResponse) (_ctx : Ctx) : Operation :=
  Operation.icatalogutils2_MoveComponentConfiguration resp

/-- Go: `resp.xxx_ToOp(ctx)` on a (possibly nil) `*GetEventClassesForIid2Response`,
converted to the `dcerpc.Operation` interface by the `return` statement; the
interface value wrapping the typed pointer is never the nil interface. -/
def GetEventClassesForIid2Response.xxx_ToOp (resp : Option GetEventClassesForIid2Response) (_ctx : Ctx) : Operation :=
  Operation.icatalogutils2_GetEventClassesForIid2 resp

/-- Go: `resp.xxx_ToOp(ctx)` on a (possibly nil) `*IsSafeToDeleteResponse`,
converted to the `dcerpc.Operation` interface by the `return` statement; the
interface value wrapping the typed pointer is never the nil interface. -/
def IsSafeToDeleteResponse.xxx_ToOp (resp : Option IsSafeToDeleteResponse) (_ctx : Ctx) : Operation :=
  Operation.icatalogutils2_IsSafeToDelete resp

/-- Go: `resp.xxx_ToOp(ctx)` on a (possibly nil) `*FlushPartitionCacheResponse`,
converted to the `dcerpc.Operation` interface by the `return` statement; the
interface value wrapping the typed pointer is never the nil interface. -/
def FlushPartitionCacheResponse.xxx_ToOp (resp : Option FlushPartitionCacheResponse) (_ctx : Ctx) : Operation :=
  Operation.icatalogutils2_FlushPartitionCache resp

/-- Go: `resp.xxx_ToOp(ctx)` on a (possibly nil) `*EnumerateSRPLevelsResponse`,
converted to the `dcerpc.Operation` interface by the `return` statement; the
interface value wrapping the typed pointer is never the nil interface. -/
def EnumerateSRPLevelsResponse.xxx_ToOp (resp : Option EnumerateSRPLevelsResponse) (_ctx : Ctx) : Operation :=
  Operation.icatalogutils2_EnumerateSRPLevels resp

/-- Go: `resp.xxx_ToOp(ctx)` on a (possibly nil) `*GetComponentVersionsResponse`,
converted to the `dcerpc.Operation` interface by the `return` statement; the
interface value wrapping the typed pointer is never the nil interface. -/
def GetComponentVersionsResponse.xxx_ToOp (resp : Option GetComponentVersionsResponse) (_ctx : Ctx) : Operation :=
  Operation.icatalogutils2_GetComponentVersions resp

/-- The `CatalogUtils2Server` Go interface: one function field per method, each
returning a (possibly nil) response pointer and a (possibly nil) error; the embedded base interface becomes the `base` field. -/
structure CatalogUtils2Server where
  base : UnknownServer
  CopyConglomerations : Ctx → CopyConglomerationsRequest → Option CopyConglomerationsResponse × Option GoError
  CopyComponentConfiguration : Ctx → CopyComponentConfigurationRequest → Option CopyComponentConfigurationResponse × Option GoError
  AliasComponent : Ctx → AliasComponentRequest → Option AliasComponentResponse × Option GoError
  MoveComponentConfiguration : Ctx → MoveComponentConfigurationRequest → Option MoveComponentConfigurationResponse × Option GoError
  GetEventClassesForIid2 : Ctx → GetEventClassesForIid2Request → Option GetEventClassesForIid2Response × Option GoError
  IsSafeToDelete : Ctx → IsSafeToDeleteRequest → Option IsSafeToDeleteResponse × Option GoError
  FlushPartitionCache : Ctx → FlushPartitionCacheRequest → Option FlushPartitionCacheResponse × Option GoError
  EnumerateSRPLevels : Ctx → EnumerateSRPLevelsRequest → Option EnumerateSRPLevelsResponse × Option GoError
  GetComponentVersions : Ctx → GetComponentVersionsRequest → Option GetComponentVersionsResponse × Option GoError

/-- The `UnmarshalNDR` methods of this interface's request types; they are
not part of the excerpt, so the dispatch function is parametrised over them. -/
structure CatalogUtils2Codecs where
  unmarshalCopyConglomerationsRequest : Ctx → NdrReader → Except GoError CopyConglomerationsRequest
  unmarshalCopyComponentConfigurationRequest : Ctx → NdrReader → Except GoError CopyComponentConfigurationRequest
  unmarshalAliasComponentRequest : Ctx → NdrReader → Except GoError AliasComponentRequest
  unmarshalMoveComponentConfigurationRequest : Ctx → NdrReader → Except GoError MoveComponentConfigurationRequest
  unmarshalGetEventClassesForIid2Request : Ctx → NdrReader → Except GoError GetEventClassesForIid2Request
  unmarshalIsSafeToDeleteRequest : Ctx → NdrReader → Except GoError IsSafeToDeleteRequest
  unmarshalFlushPartitionCacheRequest : Ctx → NdrReader → Except GoError FlushPartitionCacheRequest
  unmarshalEnumerateSRPLevelsRequest : Ctx → NdrReader → Except GoError EnumerateSRPLevelsRequest
  unmarshalGetComponentVersionsRequest : Ctx → NdrReader → Except GoError GetComponentVersionsRequest

/-- Transcription of `CatalogUtils2ServerHandle`: opnums below 3 delegate to `iunknown.UnknownServerHandle`, then a switch on `opNum` with one
case per method, falling through to `return nil, nil`. -/
def CatalogUtils2ServerHandle (unknownServerHandle : UnknownHandleFn) (c : CatalogUtils2Codecs) (ctx : Ctx)
    (o : CatalogUtils2Server) (opNum : Int) (r : NdrReader) : DispatchResult :=
  if opNum < 3 then
    unknownServerHandle ctx o.base opNum r
  else if opNum = 3 then
    dispatchArm (c.unmarshalCopyConglomerationsRequest ctx r) (o.CopyConglomerations ctx)
      (fun resp => CopyConglomerationsResponse.xxx_ToOp resp ctx)
      "CopyConglomerationsRequest" "CopyConglomerations"
  else if opNum = 4 then
    dispatchArm (c.unmarshalCopyComponentConfigurationRequest ctx r) (o.CopyComponentConfiguration ctx)
      (fun resp => CopyComponentConfigurationResponse.xxx_ToOp resp ctx)
      "CopyComponentConfigurationRequest" "CopyComponentConfiguration"
  else if opNum = 5 then
    dispatchArm (c.unmarshalAliasComponentRequest ctx r) (o.AliasComponent ctx)
      (fun resp => AliasComponentResponse.xxx_ToOp resp ctx)
      "AliasComponentRequest" "AliasComponent"
  else if opNum = 6 then
    dispatchArm (c.unmarshalMoveComponentConfigurationRequest ctx r) (o.MoveComponentConfiguration ctx)
      (fun resp => MoveComponentConfigurationResponse.xxx_ToOp resp ctx)
      "MoveComponentConfigurationRequest" "MoveComponentConfiguration"
  else if opNum = 7 then
    dispatchArm (c.unmarshalGetEventClassesForIid2Request ctx r) (o.GetEventClassesForIid2 ctx)
      (fun resp => GetEventClassesForIid2Response.xxx_ToOp resp ctx)
      "GetEventClassesForIid2Request" "GetEventClassesForIid2"
  else if opNum = 8 then
    dispatchArm (c.unmarshalIsSafeToDeleteRequest ctx r) (o.IsSafeToDelete ctx)
      (fun resp => IsSafeToDeleteResponse.xxx_ToOp resp ctx)
      "IsSafeToDeleteRequest" "IsSafeToDelete"
  else if opNum = 9 then
    dispatchArm (c.unmarshalFlushPartitionCacheRequest ctx r) (o.FlushPartitionCache ctx)
      (fun resp => FlushPartitionCacheResponse.xxx_ToOp resp ctx)
      "FlushPartitionCacheRequest" "FlushPartitionCache"
  else if opNum = 10 then
    dispatchArm (c.unmarshalEnumerateSRPLevelsRequest ctx r) (o.EnumerateSRPLevels ctx)
      (fun resp => EnumerateSRPLevelsResponse.xxx_ToOp resp ctx)
      "EnumerateSRPLevelsRequest" "EnumerateSRPLevels"
  else if opNum = 11 then
    dispatchArm (c.unmarshalGetComponentVersionsRequest ctx r) (o.GetComponentVersions ctx)
      (fun resp => GetComponentVersionsResponse.xxx_ToOp resp ctx)
      "GetComponentVersionsRequest" "GetComponentVersions"
  else
    ⟨none, none, []⟩

/-- Transcription of `NewCatalogUtils2ServerHandle`: the returned `dcerpc.ServerHandle` closure. -/
def NewCatalogUtils2ServerHandle (unknownServerHandle : UnknownHandleFn) (c : CatalogUtils2Codecs) (o : CatalogUtils2Server) : ServerHandle :=
  fun ctx opNum r => CatalogUtils2ServerHandle unknownServerHandle c ctx o opNum r

/-- The interface's abstract syntax constant `CatalogUtils2SyntaxV0_0` (defined
outside the excerpt; its value is an abstract token). -/
def CatalogUtils2SyntaxV0_0 : SyntaxID := ⟨3⟩

/-- Transcription of `RegisterCatalogUtils2Server`: register the wrapper closure with the
interface's abstract syntax appended to the caller's options. -/
def RegisterCatalogUtils2Server {τ : Type} (unknownServerHandle : UnknownHandleFn) (c : CatalogUtils2Codecs)
    (conn : Conn τ) (o : CatalogUtils2Server) (opts : List DcerpcOption) : τ :=
  conn.RegisterServer (NewCatalogUtils2ServerHandle unknownServerHandle c o)
    (opts ++ [DcerpcOption.WithAbstractSyntaxID CatalogUtils2SyntaxV0_0])

theorem cat_handle_base_delegates (b : UnknownHandleFn) (c : CatalogUtils2Codecs) (ctx : Ctx)
    (o : CatalogUtils2Server) (opNum : Int) (r : NdrReader) (h : opNum < 3) :
    CatalogUtils2ServerHandle b c ctx o opNum r = b ctx o.base opNum r := by
  unfold CatalogUtils2ServerHandle
  rw [if_pos h]

theorem cat_handle_base_independent (b1 b2 : UnknownHandleFn) (c : CatalogUtils2Codecs) (ctx : Ctx)
    (o : CatalogUtils2Server) (opNum : Int) (r : NdrReader) (h : ¬ opNum < 3) :
    CatalogUtils2ServerHandle b1 c ctx o opNum r = CatalogUtils2ServerHandle b2 c ctx o opNum r := by
  unfold CatalogUtils2ServerHandle
  rw [if_neg h, if_neg h]

theorem cat_handle_eq_3 (unknownServerHandle : UnknownHandleFn) (c : CatalogUtils2Codecs) (ctx : Ctx)
    (o : CatalogUtils2Server) (r : NdrReader) :
    CatalogUtils2ServerHandle unknownServerHandle c ctx o 3 r =
      dispatchArm (c.unmarshalCopyConglomerationsRequest ctx r) (o.CopyConglomerations ctx)
        (fun resp => CopyConglomerationsResponse.xxx_ToOp resp ctx)
        "CopyConglomerationsRequest" "CopyConglomerations" := rfl

theorem cat_handle_eq_4 (unknownServerHandle : UnknownHandleFn) (c : CatalogUtils2Codecs) (ctx : Ctx)
    (o : CatalogUtils2Server) (r : NdrReader) :
    CatalogUtils2ServerHandle unknownServerHandle c ctx o 4 r =
      dispatchArm (c.unmarshalCopyComponentConfigurationRequest ctx r) (o.CopyComponentConfiguration ctx)
        (fun resp => CopyComponentConfigurationResponse.xxx_ToOp resp ctx)
        "CopyComponentConfigurationRequest" "CopyComponentConfiguration" := rfl

theorem cat_handle_eq_5 (unknownServerHandle : UnknownHandleFn) (c : CatalogUtils2Codecs) (ctx : Ctx)
    (o : CatalogUtils2Server) (r : NdrReader) :
    CatalogUtils2ServerHandle unknownServerHandle c ctx o 5 r =
      dispatchArm (c.unmarshalAliasComponentRequest ctx r) (o.AliasComponent ctx)
        (fun resp => AliasComponentResponse.xxx_ToOp resp ctx)
        "AliasComponentRequest" "AliasComponent" := rfl

theorem cat_handle_eq_6 (unknownServerHandle : UnknownHandleFn) (c : CatalogUtils2Codecs) (ctx : Ctx)
    (o : CatalogUtils2Server) (r : NdrReader) :
    CatalogUtils2ServerHandle unknownServerHandle c ctx o 6 r =
      dispatchArm (c.unmarshalMoveComponentConfigurationRequest ctx r) (o.MoveComponentConfiguration ctx)
        (fun resp => MoveComponentConfigurationResponse.xxx_ToOp resp ctx)
        "MoveComponentConfigurationRequest" "MoveComponentConfiguration" := rfl

theorem cat_handle_eq_7 (unknownServerHandle : UnknownHandleFn) (c : CatalogUtils2Codecs) (ctx : Ctx)
    (o : CatalogUtils2Server) (r : NdrReader) :
    CatalogUtils2ServerHandle unknownServerHandle c ctx o 7 r =
      dispatchArm (c.unmarshalGetEventClassesForIid2Request ctx r) (o.GetEventClassesForIid2 ctx)
        (fun resp => GetEventClassesForIid2Response.xxx_ToOp resp ctx)
        "GetEventClassesForIid2Request" "GetEventClassesForIid2" := rfl

theorem cat_handle_eq_8 (unknownServerHandle : UnknownHandleFn) (c : CatalogUtils2Codecs) (ctx : Ctx)
    (o : CatalogUtils2Server) (r : NdrReader) :
    CatalogUtils2ServerHandle unknownServerHandle c ctx o 8 r =
      dispatchArm (c.unmarshalIsSafeToDeleteRequest ctx r) (o.IsSafeToDelete ctx)
        (fun resp => IsSafeToDeleteResponse.xxx_ToOp resp ctx)
        "IsSafeToDeleteRequest" "IsSafeToDelete" := rfl

theorem cat_handle_eq_9 (unknownServerHandle : UnknownHandleFn) (c : CatalogUtils2Codecs) (ctx : Ctx)
    (o : CatalogUtils2Server) (r : NdrReader) :
    CatalogUtils2ServerHandle unknownServerHandle c ctx o 9 r =
      dispatchArm (c.unmarshalFlushPartitionCacheRequest ctx r) (o.FlushPartitionCache ctx)
        (fun resp => FlushPartitionCacheResponse.xxx_ToOp resp ctx)
        "FlushPartitionCacheRequest" "FlushPartitionCache" := rfl

theorem cat_handle_eq_10 (unknownServerHandle : UnknownHandleFn) (c : CatalogUtils2Codecs) (ctx : Ctx)
    (o : CatalogUtils2Server) (r : NdrReader) :
    CatalogUtils2ServerHandle unknownServerHandle c ctx o 10 r =
      dispatchArm (c.unmarshalEnumerateSRPLevelsRequest ctx r) (o.EnumerateSRPLevels ctx)
        (fun resp => EnumerateSRPLevelsResponse.xxx_ToOp resp ctx)
        "EnumerateSRPLevelsRequest" "EnumerateSRPLevels" := rfl

theorem cat_handle_eq_11 (unknownServerHandle : UnknownHandleFn) (c : CatalogUtils2Codecs) (ctx : Ctx)
    (o : CatalogUtils2Server) (r : NdrReader) :
    CatalogUtils2ServerHandle unknownServerHandle c ctx o 11 r =
      dispatchArm (c.unmarshalGetComponentVersionsRequest ctx r) (o.GetComponentVersions ctx)
        (fun resp => GetComponentVersionsResponse.xxx_ToOp resp ctx)
        "GetComponentVersionsRequest" "GetComponentVersions" := rfl

theorem cat_handle_err_3 (unknownServerHandle : UnknownHandleFn) (c : CatalogUtils2Codecs) (ctx : Ctx)
    (o : CatalogUtils2Server) (r : NdrReader) {e : GoError}
    (h : c.unmarshalCopyConglomerationsRequest ctx r = .error e) :
    CatalogUtils2ServerHandle unknownServerHandle c ctx o 3 r =
      ⟨none, some e, [CallEvent.decode "CopyConglomerationsRequest"]⟩ := by
  rw [cat_handle_eq_3 unknownServerHandle c ctx o r, dispatchArm_error _ _ _ _ h]

theorem cat_handle_err_4 (unknownServerHandle : UnknownHandleFn) (c : CatalogUtils2Codecs) (ctx : Ctx)
    (o : CatalogUtils2Server) (r : NdrReader) {e : GoError}
    (h : c.unmarshalCopyComponentConfigurationRequest ctx r = .error e) :
    CatalogUtils2ServerHandle unknownServerHandle c ctx o 4 r =
      ⟨none, some e, [CallEvent.decode "CopyComponentConfigurationRequest"]⟩ := by
  rw [cat_handle_eq_4 unknownServerHandle c ctx o r, dispatchArm_error _ _ _ _ h]

theorem cat_handle_err_5 (unknownServerHandle : UnknownHandleFn) (c : CatalogUtils2Codecs) (ctx : Ctx)
    (o : CatalogUtils2Server) (r : NdrReader) {e : GoError}
    (h : c.unmarshalAliasComponentRequest ctx r = .error e) :
    CatalogUtils2ServerHandle unknownServerHandle c ctx o 5 r =
      ⟨none, some e, [CallEvent.decode "AliasComponentRequest"]⟩ := by
  rw [cat_handle_eq_5 unknownServerHandle c ctx o r, dispatchArm_error _ _ _ _ h]

theorem cat_handle_err_6 (unknownServerHandle : UnknownHandleFn) (c : CatalogUtils2Codecs) (ctx : Ctx)
    (o : CatalogUtils2Server) (r : NdrReader) {e : GoError}
    (h : c.unmarshalMoveComponentConfigurationRequest ctx r = .error e) :
    CatalogUtils2ServerHandle unknownServerHandle c ctx o 6 r =
      ⟨none, some e, [CallEvent.decode "MoveComponentConfigurationRequest"]⟩ := by
  rw [cat_handle_eq_6 unknownServerHandle c ctx o r, dispatchArm_error _ _ _ _ h]

theorem cat_handle_err_7 (unknownServerHandle : UnknownHandleFn) (c : CatalogUtils2Codecs) (ctx : Ctx)
    (o : CatalogUtils2Server) (r : NdrReader) {e : GoError}
    (h : c.unmarshalGetEventClassesForIid2Request ctx r = .error e) :
    CatalogUtils2ServerHandle unknownServerHandle c ctx o 7 r =
      ⟨none, some e, [CallEvent.decode "GetEventClassesForIid2Request"]⟩ := by
  rw [cat_handle_eq_7 unknownServerHandle c ctx o r, dispatchArm_error _ _ _ _ h]

theorem cat_handle_err_8 (unknownServerHandle : UnknownHandleFn) (c : CatalogUtils2Codecs) (ctx : Ctx)
    (o : CatalogUtils2Server) (r : NdrReader) {e : GoError}
    (h : c.unmarshalIsSafeToDeleteRequest ctx r = .error e) :
    CatalogUtils2ServerHandle unknownServerHandle c ctx o 8 r =
      ⟨none, some e, [CallEvent.decode "IsSafeToDeleteRequest"]⟩ := by
  rw [cat_handle_eq_8 unknownServerHandle c ctx o r, dispatchArm_error _ _ _ _ h]

theorem cat_handle_err_9 (unknownServerHandle : UnknownHandleFn) (c : CatalogUtils2Codecs) (ctx : Ctx)
    (o : CatalogUtils2Server) (r : NdrReader) {e : GoError}
    (h : c.unmarshalFlushPartitionCacheRequest ctx r = .error e) :
    CatalogUtils2ServerHandle unknownServerHandle c ctx o 9 r =
      ⟨none, some e, [CallEvent.decode "FlushPartitionCacheRequest"]⟩ := by
  rw [cat_handle_eq_9 unknownServerHandle c ctx o r, dispatchArm_error _ _ _ _ h]

theorem cat_handle_err_10 (unknownServerHandle : UnknownHandleFn) (c : CatalogUtils2Codecs) (ctx : Ctx)
    (o : CatalogUtils2Server) (r : NdrReader) {e : GoError}
    (h : c.unmarshalEnumerateSRPLevelsRequest ctx r = .error e) :
    CatalogUtils2ServerHandle unknownServerHandle c ctx o 10 r =
      ⟨none, some e, [CallEvent.decode "EnumerateSRPLevelsRequest"]⟩ := by
  rw [cat_handle_eq_10 unknownServerHandle c ctx o r, dispatchArm_error _ _ _ _ h]

theorem cat_handle_err_11 (unknownServerHandle : UnknownHandleFn) (c : CatalogUtils2Codecs) (ctx : Ctx)
    (o : CatalogUtils2Server) (r : NdrReader) {e : GoError}
    (h : c.unmarshalGetComponentVersionsRequest ctx r = .error e) :
    CatalogUtils2ServerHandle unknownServerHandle c ctx o 11 r =
      ⟨none, some e, [CallEvent.decode "GetComponentVersionsRequest"]⟩ := by
  rw [cat_handle_eq_11 unknownServerHandle c ctx o r, dispatchArm_error _ _ _ _ h]

/-- Concrete codecs whose decoders always succeed on an empty request. -/
def okCodecs : CatalogUtils2Codecs :=
  ⟨fun _ _ => .ok ⟨[]⟩,
   fun _ _ => .ok ⟨[]⟩,
   fun _ _ => .ok ⟨[]⟩,
   fun _ _ => .ok ⟨[]⟩,
   fun _ _ => .ok ⟨[]⟩,
   fun _ _ => .ok ⟨[]⟩,
   fun _ _ => .ok ⟨[]⟩,
   fun _ _ => .ok ⟨[]⟩,
   fun _ _ => .ok ⟨[]⟩⟩

/-- A concrete server whose handlers return a nil response and a nil error. -/
def zeroServer : CatalogUtils2Server :=
  ⟨⟨0⟩,
   fun _ _ => (none, none),
   fun _ _ => (none, none),
   fun _ _ => (none, none),
   fun _ _ => (none, none),
   fun _ _ => (none, none),
   fun _ _ => (none, none),
   fun _ _ => (none, none),
   fun _ _ => (none, none),
   fun _ _ => (none, none)⟩

/-- Concrete codecs whose decoders always fail with error 3. -/
def errCodecs : CatalogUtils2Codecs :=
  ⟨fun _ _ => .error 3,
   fun _ _ => .error 3,
   fun _ _ => .error 3,
   fun _ _ => .error 3,
   fun _ _ => .error 3,
   fun _ _ => .error 3,
   fun _ _ => .error 3,
   fun _ _ => .error 3,
   fun _ _ => .error 3⟩

end icatalogutils2

namespace ivdsservicesan

/-- Go: `resp.xxx_ToOp(ctx)` on a (possibly nil) `*GetSANPolicyResponse`,
converted to the `dcerpc.Operation` interface by the `return` statement; the
interface value wrapping the typed pointer is never the nil interface. -/
def GetSANPolicyResponse.xxx_ToOp (resp : Option GetSANPolicyResponse) (_ctx : Ctx) : Operation :=
  Operation.ivdsservicesan_GetSANPolicy resp

/-- Go: `resp.xxx_ToOp(ctx)` on a (possibly nil) `*SetSANPolicyResponse`,
converted to the `dcerpc.Operation` interface by the `return` statement; the
interface value wrapping the typed pointer is never the nil interface. -/
def SetSANPolicyResponse.xxx_ToOp (resp : Option SetSANPolicyResponse) (_ctx : Ctx) : Operation :=
  Operation.ivdsservicesan_SetSANPolicy resp

/-- The `ServiceSANServer` Go interface: one function field per method, each
returning a (possibly nil) response pointer and a (possibly nil) error; the embedded base interface becomes the `base` field. -/
structure ServiceSANServer where
  base : UnknownServer
  GetSANPolicy : Ctx → GetSANPolicyRequest → Option GetSANPolicyResponse × Option GoError
  SetSANPolicy : Ctx → SetSANPolicyRequest → Option SetSANPolicyResponse × Option GoError

/-- The `UnmarshalNDR` methods of this interface's request types; they are
not part of the excerpt, so the dispatch function is parametrised over them. -/
structure ServiceSANCodecs where
  unmarshalGetSANPolicyRequest : Ctx → NdrReader → Except GoError GetSANPolicyRequest
  unmarshalSetSANPolicyRequest : Ctx → NdrReader → Except GoError SetSANPolicyRequest

/-- Transcription of `ServiceSANServerHandle`: opnums below 3 delegate to `iunknown.UnknownServerHandle`, then a switch on `opNum` with one
case per method, falling through to `return nil, nil`. -/
def ServiceSANServerHandle (unknownServerHandle : UnknownHandleFn) (c : ServiceSANCodecs) (ctx : Ctx)
    (o : ServiceSANServer) (opNum : Int) (r : NdrReader) : DispatchResult :=
  if opNum < 3 then
    unknownServerHandle ctx o.base opNum r
  else if opNum = 3 then
    dispatchArm (c.unmarshalGetSANPolicyRequest ctx r) (o.GetSANPolicy ctx)
      (fun resp => GetSANPolicyResponse.xxx_ToOp resp ctx)
      "GetSANPolicyRequest" "GetSANPolicy"
  else if opNum = 4 then
    dispatchArm (c.unmarshalSetSANPolicyRequest ctx r) (o.SetSANPolicy ctx)
      (fun resp => SetSANPolicyResponse.xxx_ToOp resp ctx)
      "SetSANPolicyRequest" "SetSANPolicy"
  else
    ⟨none, none, []⟩

/-- Transcription of `NewServiceSANServerHandle`: the returned `dcerpc.ServerHandle` closure. -/
def NewServiceSANServerHandle (unknownServerHandle : UnknownHandleFn) (c : ServiceSANCodecs) (o : ServiceSANServer) : ServerHandle :=
  fun ctx opNum r => ServiceSANServerHandle unknownServerHandle c ctx o opNum r

/-- The interface's abstract syntax constant `ServiceSANSyntaxV0_0` (defined
outside the excerpt; its value is an abstract token). -/
def ServiceSANSyntaxV0_0 : SyntaxID := ⟨4⟩

/-- Transcription of `RegisterServiceSANServer`: register the wrapper closure with the
interface's abstract syntax appended to the caller's options. -/
def RegisterServiceSANServer {τ : Type} (unknownServerHandle : UnknownHandleFn) (c : ServiceSANCodecs)
    (conn : Conn τ) (o : ServiceSANServer) (opts : List DcerpcOption) : τ :=
  conn.RegisterServer (NewServiceSANServerHandle unknownServerHandle c o)
    (opts ++ [DcerpcOption.WithAbstractSyntaxID ServiceSANSyntaxV0_0])

theorem san_handle_base_delegates (b : UnknownHandleFn) (c : ServiceSANCodecs) (ctx : Ctx)
    (o : ServiceSANServer) (opNum : Int) (r : NdrReader) (h : opNum < 3) :
    ServiceSANServerHandle b c ctx o opNum r = b ctx o.base opNum r := by
  unfold ServiceSANServerHandle
  rw [if_pos h]

theorem san_handle_base_independent (b1 b2 : UnknownHandleFn) (c : ServiceSANCodecs) (ctx : Ctx)
    (o : ServiceSANServer) (opNum : Int) (r : NdrReader) (h : ¬ opNum < 3) :
    ServiceSANServerHandle b1 c ctx o opNum r = ServiceSANServerHandle b2 c ctx o opNum r := by
  unfold ServiceSANServerHandle
  rw [if_neg h, if_neg h]

theorem san_handle_eq_3 (unknownServerHandle : UnknownHandleFn) (c : ServiceSANCodecs) (ctx : Ctx)
    (o : ServiceSANServer) (r : NdrReader) :
    ServiceSANServerHandle unknownServerHandle c ctx o 3 r =
      dispatchArm (c.unmarshalGetSANPolicyRequest ctx r) (o.GetSANPolicy ctx)
        (fun resp => GetSANPolicyResponse.xxx_ToOp resp ctx)
        "GetSANPolicyRequest" "GetSANPolicy" := rfl

theorem san_handle_eq_4 (unknownServerHandle : UnknownHandleFn) (c : ServiceSANCodecs) (ctx : Ctx)
    (o : ServiceSANServer) (r : NdrReader) :
    ServiceSANServerHandle unknownServerHandle c ctx o 4 r =
      dispatchArm (c.unmarshalSetSANPolicyRequest ctx r) (o.SetSANPolicy ctx)
        (fun resp => SetSANPolicyResponse.xxx_ToOp resp ctx)
        "SetSANPolicyRequest" "SetSANPolicy" := rfl

theorem san_handle_err_3 (unknownServerHandle : UnknownHandleFn) (c : ServiceSANCodecs) (ctx : Ctx)
    (o : ServiceSANServer) (r : NdrReader) {e : GoError}
    (h : c.unmarshalGetSANPolicyRequest ctx r = .error e) :
    ServiceSANServerHandle unknownServerHandle c ctx o 3 r =
      ⟨none, some e, [CallEvent.decode "GetSANPolicyRequest"]⟩ := by
  rw [san_handle_eq_3 unknownServerHandle c ctx o r, dispatchArm_error _ _ _ _ h]

theorem san_handle_err_4 (unknownServerHandle : UnknownHandleFn) (c : ServiceSANCodecs) (ctx : Ctx)
    (o : ServiceSANServer) (r : NdrReader) {e : GoError}
    (h : c.unmarshalSetSANPolicyRequest ctx r = .error e) :
    ServiceSANServerHandle unknownServerHandle c ctx o 4 r =
      ⟨none, some e, [CallEvent.decode "SetSANPolicyRequest"]⟩ := by
  rw [san_handle_eq_4 unknownServerHandle c ctx o r, dispatchArm_error _ _ _ _ h]

theorem san_handle_ok_3 (unknownServerHandle : UnknownHandleFn) (c : ServiceSANCodecs) (ctx : Ctx)
    (o : ServiceSANServer) (r : NdrReader) {req : GetSANPolicyRequest}
    (h : c.unmarshalGetSANPolicyRequest ctx r = .ok req) :
    ServiceSANServerHandle unknownServerHandle c ctx o 3 r =
      ⟨some (GetSANPolicyResponse.xxx_ToOp (o.GetSANPolicy ctx req).1 ctx),
        (o.GetSANPolicy ctx req).2,
        [CallEvent.decode "GetSANPolicyRequest", CallEvent.invoke "GetSANPolicy"]⟩ := by
  rw [san_handle_eq_3 unknownServerHandle c ctx o r, dispatchArm_ok _ _ _ _ h]

theorem san_handle_ok_4 (unknownServerHandle : UnknownHandleFn) (c : ServiceSANCodecs) (ctx : Ctx)
    (o : ServiceSANServer) (r : NdrReader) {req : SetSANPolicyRequest}
    (h : c.unmarshalSetSANPolicyRequest ctx r = .ok req) :
    ServiceSANServerHandle unknownServerHandle c ctx o 4 r =
      ⟨some (SetSANPolicyResponse.xxx_ToOp (o.SetSANPolicy ctx req).1 ctx),
        (o.SetSANPolicy ctx req).2,
        [CallEvent.decode "SetSANPolicyRequest", CallEvent.invoke "SetSANPolicy"]⟩ := by
  rw [san_handle_eq_4 unknownServerHandle c ctx o r, dispatchArm_ok _ _ _ _ h]

theorem san_handle_default (unknownServerHandle : UnknownHandleFn) (c : ServiceSANCodecs) (ctx : Ctx)
    (o : ServiceSANServer) (r : NdrReader) (opNum : Int)
    (hb : ¬ opNum < 3)
    (h3 : opNum ≠ 3)
    (h4 : opNum ≠ 4)
    : ServiceSANServerHandle unknownServerHandle c ctx o opNum r = ⟨none, none, []⟩ := by
  unfold ServiceSANServerHandle
  rw [if_neg hb, if_neg h3, if_neg h4]

/-- Concrete codecs whose decoders always succeed on an empty request. -/
def okCodecs : ServiceSANCodecs :=
  ⟨fun _ _ => .ok ⟨[]⟩,
   fun _ _ => .ok ⟨[]⟩⟩

/-- A concrete server whose handlers return a nil response and a nil error. -/
def zeroServer : ServiceSANServer :=
  ⟨⟨0⟩,
   fun _ _ => (none, none),
   fun _ _ => (none, none)⟩

end ivdsservicesan

namespace ivdsvdprovider

/-- Go: `resp.xxx_ToOp(ctx)` on a (possibly nil) `*QueryVDisksResponse`,
converted to the `dcerpc.Operation` interface by the `return` statement; the
interface value wrapping the typed pointer is never the nil interface. -/
def QueryVDisksResponse.xxx_ToOp (resp : Option QueryVDisksResponse) (_ctx : Ctx) : Operation :=
  Operation.ivdsvdprovider_QueryVDisks resp

/-- Go: `resp.xxx_ToOp(ctx)` on a (possibly nil) `*CreateVDiskResponse`,
converted to the `dcerpc.Operation` interface by the `return` statement; the
interface value wrapping the typed pointer is never the nil interface. -/
def CreateVDiskResponse.xxx_ToOp (resp : Option CreateVDiskResponse) (_ctx : Ctx) : Operation :=
  Operation.ivdsvdprovider_CreateVDisk resp

/-- Go: `resp.xxx_ToOp(ctx)` on a (possibly nil) `*AddVDiskResponse`,
converted to the `dcerpc.Operation` interface by the `return` statement; the
interface value wrapping the typed pointer is never the nil interface. -/
def AddVDiskResponse.xxx_ToOp (resp : Option AddVDiskResponse) (_ctx : Ctx) : Operation :=
  Operation.ivdsvdprovider_AddVDisk resp

/-- Go: `resp.xxx_ToOp(ctx)` on a (possibly nil) `*GetDiskFromVDiskResponse`,
converted to the `dcerpc.Operation` interface by the `return` statement; the
interface value wrapping the typed pointer is never the nil interface. -/
def GetDiskFromVDiskResponse.xxx_ToOp (resp : Option GetDiskFromVDiskResponse) (_ctx : Ctx) : Operation :=
  Operation.ivdsvdprovider_GetDiskFromVDisk resp

/-- Go: `resp.xxx_ToOp(ctx)` on a (possibly nil) `*GetVDiskFromDiskResponse`,
converted to the `dcerpc.Operation` interface by the `return` statement; the
interface value wrapping the typed pointer is never the nil interface. -/
def GetVDiskFromDiskResponse.xxx_ToOp (resp : Option GetVDiskFromDiskResponse) (_ctx : Ctx) : Operation :=
  Operation.ivdsvdprovider_GetVDiskFromDisk resp

/-- The `VDiskProviderServer` Go interface: one function field per method, each
returning a (possibly nil) response pointer and a (possibly nil) error; the embedded base interface becomes the `base` field. -/
structure VDiskProviderServer where
  base : UnknownServer
  QueryVDisks : Ctx → QueryVDisksRequest → Option QueryVDisksResponse × Option GoError
  CreateVDisk : Ctx → CreateVDiskRequest → Option CreateVDiskResponse × Option GoError
  AddVDisk : Ctx → AddVDiskRequest → Option AddVDiskResponse × Option GoError
  GetDiskFromVDisk : Ctx → GetDiskFromVDiskRequest → Option GetDiskFromVDiskResponse × Option GoError
  GetVDiskFromDisk : Ctx → GetVDiskFromDiskRequest → Option GetVDiskFromDiskResponse × Option GoError

/-- The `UnmarshalNDR` methods of this interface's request types; they are
not part of the excerpt, so the dispatch function is parametrised over them. -/
structure VDiskProviderCodecs where
  unmarshalQueryVDisksRequest : Ctx → NdrReader → Except GoError QueryVDisksRequest
  unmarshalCreateVDiskRequest : Ctx → NdrReader → Except GoError CreateVDiskRequest
  unmarshalAddVDiskRequest : Ctx → NdrReader → Except GoError AddVDiskRequest
  unmarshalGetDiskFromVDiskRequest : Ctx → NdrReader → Except GoError GetDiskFromVDiskRequest
  unmarshalGetVDiskFromDiskRequest : Ctx → NdrReader → Except GoError GetVDiskFromDiskRequest

/-- Transcription of `VDiskProviderServerHandle`: opnums below 3 delegate to `iunknown.UnknownServerHandle`, then a switch on `opNum` with one
case per method, falling through to `return nil, nil`. -/
def VDiskProviderServerHandle (unknownServerHandle : UnknownHandleFn) (c : VDiskProviderCodecs) (ctx : Ctx)
    (o : VDiskProviderServer) (opNum : Int) (r : NdrReader) : DispatchResult :=
  if opNum < 3 then
    unknownServerHandle ctx o.base opNum r
  else if opNum = 3 then
    dispatchArm (c.unmarshalQueryVDisksRequest ctx r) (o.QueryVDisks ctx)
      (fun resp => QueryVDisksResponse.xxx_ToOp resp ctx)
      "QueryVDisksRequest" "QueryVDisks"
  else if opNum = 4 then
    dispatchArm (c.unmarshalCreateVDiskRequest ctx r) (o.CreateVDisk ctx)
      (fun resp => CreateVDiskResponse.xxx_ToOp resp ctx)
      "CreateVDiskRequest" "CreateVDisk"
  else if opNum = 5 then
    dispatchArm (c.unmarshalAddVDiskRequest ctx r) (o.AddVDisk ctx)
      (fun resp => AddVDiskResponse.xxx_ToOp resp ctx)
      "AddVDiskRequest" "AddVDisk"
  else if opNum = 6 then
    dispatchArm (c.unmarshalGetDiskFromVDiskRequest ctx r) (o.GetDiskFromVDisk ctx)
      (fun resp => GetDiskFromVDiskResponse.xxx_ToOp resp ctx)
      "GetDiskFromVDiskRequest" "GetDiskFromVDisk"
  else if opNum = 7 then
    dispatchArm (c.unmarshalGetVDiskFromDiskRequest ctx r) (o.GetVDiskFromDisk ctx)
      (fun resp => GetVDiskFromDiskResponse.xxx_ToOp resp ctx)
      "GetVDiskFromDiskRequest" "GetVDiskFromDisk"
  else
    ⟨none, none, []⟩

/-- Transcription of `NewVDiskProviderServerHandle`: the returned `dcerpc.ServerHandle` closure. -/
def NewVDiskProviderServerHandle (unknownServerHandle : UnknownHandleFn) (c : VDiskProviderCodecs) (o : VDiskProviderServer) : ServerHandle :=
  fun ctx opNum r => VDiskProviderServerHandle unknownServerHandle c ctx o opNum r

/-- The interface's abstract syntax constant `VDiskProviderSyntaxV0_0` (defined
outside the excerpt; its value is an abstract token). -/
def VDiskProviderSyntaxV0_0 : SyntaxID := ⟨5⟩

/-- Transcription of `RegisterVDiskProviderServer`: register the wrapper closure with the
interface's abstract syntax appended to the caller's options. -/
def RegisterVDiskProviderServer {τ : Type} (unknownServerHandle : UnknownHandleFn) (c : VDiskProviderCodecs)
    (conn : Conn τ) (o : VDiskProviderServer) (opts : List DcerpcOption) : τ :=
  conn.RegisterServer (NewVDiskProviderServerHandle unknownServerHandle c o)
    (opts ++ [DcerpcOption.WithAbstractSyntaxID VDiskProviderSyntaxV0_0])

theorem vdp_handle_base_delegates (b : UnknownHandleFn) (c : VDiskProviderCodecs) (ctx : Ctx)
    (o : VDiskProviderServer) (opNum : Int) (r : NdrReader) (h : opNum < 3) :
    VDiskProviderServerHandle b c ctx o opNum r = b ctx o.base opNum r := by
  unfold VDiskProviderServerHandle
  rw [if_pos h]

theorem vdp_handle_base_independent (b1 b2 : UnknownHandleFn) (c : VDiskProviderCodecs) (ctx : Ctx)
    (o : VDiskProviderServer) (opNum : Int) (r : NdrReader) (h : ¬ opNum < 3) :
    VDiskProviderServerHandle b1 c ctx o opNum r = VDiskProviderServerHandle b2 c ctx o opNum r := by
  unfold VDiskProviderServerHandle
  rw [if_neg h, if_neg h]

theorem vdp_handle_eq_3 (unknownServerHandle : UnknownHandleFn) (c : VDiskProviderCodecs) (ctx : Ctx)
    (o : VDiskProviderServer) (r : NdrReader) :
    VDiskProviderServerHandle unknownServerHandle c ctx o 3 r =
      dispatchArm (c.unmarshalQueryVDisksRequest ctx r) (o.QueryVDisks ctx)
        (fun resp => QueryVDisksResponse.xxx_ToOp resp ctx)
        "QueryVDisksRequest" "QueryVDisks" := rfl

theorem vdp_handle_eq_4 (unknownServerHandle : UnknownHandleFn) (c : VDiskProviderCodecs) (ctx : Ctx)
    (o : VDiskProviderServer) (r : NdrReader) :
    VDiskProviderServerHandle unknownServerHandle c ctx o 4 r =
      dispatchArm (c.unmarshalCreateVDiskRequest ctx r) (o.CreateVDisk ctx)
        (fun resp => CreateVDiskResponse.xxx_ToOp resp ctx)
        "CreateVDiskRequest" "CreateVDisk" := rfl

theorem vdp_handle_eq_5 (unknownServerHandle : UnknownHandleFn) (c : VDiskProviderCodecs) (ctx : Ctx)
    (o : VDiskProviderServer) (r : NdrReader) :
    VDiskProviderServerHandle unknownServerHandle c ctx o 5 r =
      dispatchArm (c.unmarshalAddVDiskRequest ctx r) (o.AddVDisk ctx)
        (fun resp => AddVDiskResponse.xxx_ToOp resp ctx)
        "AddVDiskRequest" "AddVDisk" := rfl

theorem vdp_handle_eq_6 (unknownServerHandle : UnknownHandleFn) (c : VDiskProviderCodecs) (ctx : Ctx)
    (o : VDiskProviderServer) (r : NdrReader) :
    VDiskProviderServerHandle unknownServerHandle c ctx o 6 r =
      dispatchArm (c.unmarshalGetDiskFromVDiskRequest ctx r) (o.GetDiskFromVDisk ctx)
        (fun resp => GetDiskFromVDiskResponse.xxx_ToOp resp ctx)
        "GetDiskFromVDiskRequest" "GetDiskFromVDisk" := rfl

theorem vdp_handle_eq_7 (unknownServerHandle : UnknownHandleFn) (c : VDiskProviderCodecs) (ctx : Ctx)
    (o : VDiskProviderServer) (r : NdrReader) :
    VDiskProviderServerHandle unknownServerHandle c ctx o 7 r =
      dispatchArm (c.unmarshalGetVDiskFromDiskRequest ctx r) (o.GetVDiskFromDisk ctx)
        (fun resp => GetVDiskFromDiskResponse.xxx_ToOp resp ctx)
        "GetVDiskFromDiskRequest" "GetVDiskFromDisk" := rfl

theorem vdp_handle_default (unknownServerHandle : UnknownHandleFn) (c : VDiskProviderCodecs) (ctx : Ctx)
    (o : VDiskProviderServer) (r : NdrReader) (opNum : Int)
    (hb : ¬ opNum < 3)
    (h3 : opNum ≠ 3)
    (h4 : opNum ≠ 4)
    (h5 : opNum ≠ 5)
    (h6 : opNum ≠ 6)
    (h7 : opNum ≠ 7)
    : VDiskProviderServerHandle unknownServerHandle c ctx o opNum r = ⟨none, none, []⟩ := by
  unfold VDiskProviderServerHandle
  rw [if_neg hb, if_neg h3, if_neg h4, if_neg h5, if_neg h6, if_neg h7]

/-- Concrete codecs whose decoders always succeed on an empty request. -/
def okCodecs : VDiskProviderCodecs :=
  ⟨fun _ _ => .ok ⟨[]⟩,
   fun _ _ => .ok ⟨[]⟩,
   fun _ _ => .ok ⟨[]⟩,
   fun _ _ => .ok ⟨[]⟩,
   fun _ _ => .ok ⟨[]⟩⟩

/-- A concrete server whose handlers return a nil response and a nil error. -/
def zeroServer : VDiskProviderServer :=
  ⟨⟨0⟩,
   fun _ _ => (none, none),
   fun _ _ => (none, none),
   fun _ _ => (none, none),
   fun _ _ => (none, none),
   fun _ _ => (none, none)⟩

/-- The two codec bundles have the same behaviour: every decoder returns the
same outcome on the same context and reader. -/
def CodecsAgree (c1 c2 : VDiskProviderCodecs) : Prop :=
  ∀ (ctx : Ctx) (r : NdrReader),
    c1.unmarshalQueryVDisksRequest ctx r = c2.unmarshalQueryVDisksRequest ctx r ∧
    c1.unmarshalCreateVDiskRequest ctx r = c2.unmarshalCreateVDiskRequest ctx r ∧
    c1.unmarshalAddVDiskRequest ctx r = c2.unmarshalAddVDiskRequest ctx r ∧
    c1.unmarshalGetDiskFromVDiskRequest ctx r = c2.unmarshalGetDiskFromVDiskRequest ctx r ∧
    c1.unmarshalGetVDiskFromDiskRequest ctx r = c2.unmarshalGetVDiskFromDiskRequest ctx r

/-- The two servers have the same behaviour: every handler method returns the
same pair on the same context and request, and the base parts coincide. -/
def ServersAgree (o1 o2 : VDiskProviderServer) : Prop :=
  o1.base = o2.base ∧
  ∀ (ctx : Ctx),
    (∀ q, o1.QueryVDisks ctx q = o2.QueryVDisks ctx q) ∧
    (∀ q, o1.CreateVDisk ctx q = o2.CreateVDisk ctx q) ∧
    (∀ q, o1.AddVDisk ctx q = o2.AddVDisk ctx q) ∧
    (∀ q, o1.GetDiskFromVDisk ctx q = o2.GetDiskFromVDisk ctx q) ∧
    (∀ q, o1.GetVDiskFromDisk ctx q = o2.GetVDiskFromDisk ctx q)

end ivdsvdprovider

namespace iapphostpropertycollection

/-- Go: `resp.xxx_ToOp(ctx)` on a (possibly nil) `*GetCountResponse`,
converted to the `dcerpc.Operation` interface by the `return` statement; the
interface value wrapping the typed pointer is never the nil interface. -/
def GetCountResponse.xxx_ToOp (resp : Option GetCountResponse) (_ctx : Ctx) : Operation :=
  Operation.iapphostpropertycollection_GetCount resp

/-- Go: `resp.xxx_ToOp(ctx)` on a (possibly nil) `*GetItemResponse`,
converted to the `dcerpc.Operation` interface by the `return` statement; the
interface value wrapping the typed pointer is never the nil interface. -/
def GetItemResponse.xxx_ToOp (resp : Option GetItemResponse) (_ctx : Ctx) : Operation :=
  Operation.iapphostpropertycollection_GetItem resp

/-- The `AppHostPropertyCollectionServer` Go interface: one function field per method, each
returning a (possibly nil) response pointer and a (possibly nil) error; the embedded base interface becomes the `base` field. -/
structure AppHostPropertyCollectionServer where
  base : UnknownServer
  GetCount : Ctx → GetCountRequest → Option GetCountResponse × Option GoError
  GetItem : Ctx → GetItemRequest → Option GetItemResponse × Option GoError

/-- The `UnmarshalNDR` methods of this interface's request types; they are
not part of the excerpt, so the dispatch function is parametrised over them. -/
structure AppHostPropertyCollectionCodecs where
  unmarshalGetCountRequest : Ctx → NdrReader → Except GoError GetCountRequest
  unmarshalGetItemRequest : Ctx → NdrReader → Except GoError GetItemRequest

/-- Transcription of `AppHostPropertyCollectionServerHandle`: opnums below 3 delegate to `iunknown.UnknownServerHandle`, then a switch on `opNum` with one
case per method, falling through to `return nil, nil`. -/
def AppHostPropertyCollectionServerHandle (unknownServerHandle : UnknownHandleFn) (c : AppHostPropertyCollectionCodecs) (ctx : Ctx)
    (o : AppHostPropertyCollectionServer) (opNum : Int) (r : NdrReader) : DispatchResult :=
  if opNum < 3 then
    unknownServerHandle ctx o.base opNum r
  else if opNum = 3 then
    dispatchArm (c.unmarshalGetCountRequest ctx r) (o.GetCount ctx)
      (fun resp => GetCountResponse.xxx_ToOp resp ctx)
      "GetCountRequest" "GetCount"
  else if opNum = 4 then
    dispatchArm (c.unmarshalGetItemRequest ctx r) (o.GetItem ctx)
      (fun resp => GetItemResponse.xxx_ToOp resp ctx)
      "GetItemRequest" "GetItem"
  else
    ⟨none, none, []⟩

/-- Transcription of `NewAppHostPropertyCollectionServerHandle`: the returned `dcerpc.ServerHandle` closure. -/
def NewAppHostPropertyCollectionServerHandle (unknownServerHandle : UnknownHandleFn) (c : AppHostPropertyCollectionCodecs) (o : AppHostPropertyCollectionServer) : ServerHandle :=
  fun ctx opNum r => AppHostPropertyCollectionServerHandle unknownServerHandle c ctx o opNum r

/-- The interface's abstract syntax constant `AppHostPropertyCollectionSyntaxV0_0` (defined
outside the excerpt; its value is an abstract token). -/
def AppHostPropertyCollectionSyntaxV0_0 : SyntaxID := ⟨6⟩

/-- Transcription of `RegisterAppHostPropertyCollectionServer`: register the wrapper closure with the
interface's abstract syntax appended to the caller's options. -/
def RegisterAppHostPropertyCollectionServer {τ : Type} (unknownServerHandle : UnknownHandleFn) (c : AppHostPropertyCollectionCodecs)
    (conn : Conn τ) (o : AppHostPropertyCollectionServer) (opts : List DcerpcOption) : τ :=
  conn.RegisterServer (NewAppHostPropertyCollectionServerHandle unknownServerHandle c o)
    (opts ++ [DcerpcOption.WithAbstractSyntaxID AppHostPropertyCollectionSyntaxV0_0])

theorem ahpc_handle_base_delegates (b : UnknownHandleFn) (c : AppHostPropertyCollectionCodecs) (ctx : Ctx)
    (o : AppHostPropertyCollectionServer) (opNum : Int) (r : NdrReader) (h : opNum < 3) :
    AppHostPropertyCollectionServerHandle b c ctx o opNum r = b ctx o.base opNum r := by
  unfold AppHostPropertyCollectionServerHandle
  rw [if_pos h]

theorem ahpc_handle_base_independent (b1 b2 : UnknownHandleFn) (c : AppHostPropertyCollectionCodecs) (ctx : Ctx)
    (o : AppHostPropertyCollectionServer) (opNum : Int) (r : NdrReader) (h : ¬ opNum < 3) :
    AppHostPropertyCollectionServerHandle b1 c ctx o opNum r = AppHostPropertyCollectionServerHandle b2 c ctx o opNum r := by
  unfold AppHostPropertyCollectionServerHandle
  rw [if_neg h, if_neg h]

theorem ahpc_handle_eq_3 (unknownServerHandle : UnknownHandleFn) (c : AppHostPropertyCollectionCodecs) (ctx : Ctx)
    (o : AppHostPropertyCollectionServer) (r : NdrReader) :
    AppHostPropertyCollectionServerHandle unknownServerHandle c ctx o 3 r =
      dispatchArm (c.unmarshalGetCountRequest ctx r) (o.GetCount ctx)
        (fun resp => GetCountResponse.xxx_ToOp resp ctx)
        "GetCountRequest" "GetCount" := rfl

theorem ahpc_handle_eq_4 (unknownServerHandle : UnknownHandleFn) (c : AppHostPropertyCollectionCodecs) (ctx : Ctx)
    (o : AppHostPropertyCollectionServer) (r : NdrReader) :
    AppHostPropertyCollectionServerHandle unknownServerHandle c ctx o 4 r =
      dispatchArm (c.unmarshalGetItemRequest ctx r) (o.GetItem ctx)
        (fun resp => GetItemResponse.xxx_ToOp resp ctx)
        "GetItemRequest" "GetItem" := rfl

theorem ahpc_handle_ok_3 (unknownServerHandle : UnknownHandleFn) (c : AppHostPropertyCollectionCodecs) (ctx : Ctx)
    (o : AppHostPropertyCollectionServer) (r : NdrReader) {req : GetCountRequest}
    (h : c.unmarshalGetCountRequest ctx r = .ok req) :
    AppHostPropertyCollectionServerHandle unknownServerHandle c ctx o 3 r =
      ⟨some (GetCountResponse.xxx_ToOp (o.GetCount ctx req).1 ctx),
        (o.GetCount ctx req).2,
        [CallEvent.decode "GetCountRequest", CallEvent.invoke "GetCount"]⟩ := by
  rw [ahpc_handle_eq_3 unknownServerHandle c ctx o r, dispatchArm_ok _ _ _ _ h]

theorem ahpc_handle_ok_4 (unknownServerHandle : UnknownHandleFn) (c : AppHostPropertyCollectionCodecs) (ctx : Ctx)
    (o : AppHostPropertyCollectionServer) (r : NdrReader) {req : GetItemRequest}
    (h : c.unmarshalGetItemRequest ctx r = .ok req) :
    AppHostPropertyCollectionServerHandle unknownServerHandle c ctx o 4 r =
      ⟨some (GetItemResponse.xxx_ToOp (o.GetItem ctx req).1 ctx),
        (o.GetItem ctx req).2,
        [CallEvent.decode "GetItemRequest", CallEvent.invoke "GetItem"]⟩ := by
  rw [ahpc_handle_eq_4 unknownServerHandle c ctx o r, dispatchArm_ok _ _ _ _ h]

/-- Concrete codecs whose decoders always succeed on an empty request. -/
def okCodecs : AppHostPropertyCollectionCodecs :=
  ⟨fun _ _ => .ok ⟨[]⟩,
   fun _ _ => .ok ⟨[]⟩⟩

/-- A concrete server whose handlers return a nil response and a nil error. -/
def zeroServer : AppHostPropertyCollectionServer :=
  ⟨⟨0⟩,
   fun _ _ => (none, none),
   fun _ _ => (none, none)⟩

end iapphostpropertycollection

namespace ifsrmfilescreentemplate

/-- Go: `resp.xxx_ToOp(ctx)` on a (possibly nil) `*GetNameResponse`,
converted to the `dcerpc.Operation` interface by the `return` statement; the
interface value wrapping the typed pointer is never the nil interface. -/
def GetNameResponse.xxx_ToOp (resp : Option GetNameResponse) (_ctx : Ctx) : Operation :=
  Operation.ifsrmfilescreentemplate_GetName resp

/-- Go: `resp.xxx_ToOp(ctx)` on a (possibly nil) `*SetNameResponse`,
converted to the `dcerpc.Operation` interface by the `return` statement; the
interface value wrapping the typed pointer is never the nil interface. -/
def SetNameResponse.xxx_ToOp (resp : Option SetNameResponse) (_ctx : Ctx) : Operation :=
  Operation.ifsrmfilescreentemplate_SetName resp

/-- Go: `resp.xxx_ToOp(ctx)` on a (possibly nil) `*CopyTemplateResponse`,
converted to the `dcerpc.Operation` interface by the `return` statement; the
interface value wrapping the typed pointer is never the nil interface. -/
def CopyTemplateResponse.xxx_ToOp (resp : Option CopyTemplateResponse) (_ctx : Ctx) : Operation :=
  Operation.ifsrmfilescreentemplate_CopyTemplate resp

/-- Go: `resp.xxx_ToOp(ctx)` on a (possibly nil) `*CommitAndUpdateDerivedResponse`,
converted to the `dcerpc.Operation` interface by the `return` statement; the
interface value wrapping the typed pointer is never the nil interface. -/
def CommitAndUpdateDerivedResponse.xxx_ToOp (resp : Option CommitAndUpdateDerivedResponse) (_ctx : Ctx) : Operation :=
  Operation.ifsrmfilescreentemplate_CommitAndUpdateDerived resp

/-- The `FileScreenTemplateServer` Go interface: one function field per method, each
returning a (possibly nil) response pointer and a (possibly nil) error; the embedded base interface becomes the `base` field. -/
structure FileScreenTemplateServer where
  base : FileScreenBaseServer
  GetName : Ctx → GetNameRequest → Option GetNameResponse × Option GoError
  SetName : Ctx → SetNameRequest → Option SetNameResponse × Option GoError
  CopyTemplate : Ctx → CopyTemplateRequest → Option CopyTemplateResponse × Option GoError
  CommitAndUpdateDerived : Ctx → CommitAndUpdateDerivedRequest → Option CommitAndUpdateDerivedResponse × Option GoError

/-- The `UnmarshalNDR` methods of this interface's request types; they are
not part of the excerpt, so the dispatch function is parametrised over them. -/
structure FileScreenTemplateCodecs where
  unmarshalGetNameRequest : Ctx → NdrReader → Except GoError GetNameRequest
  unmarshalSetNameRequest : Ctx → NdrReader → Except GoError SetNameRequest
  unmarshalCopyTemplateRequest : Ctx → NdrReader → Except GoError CopyTemplateRequest
  unmarshalCommitAndUpdateDerivedRequest : Ctx → NdrReader → Except GoError CommitAndUpdateDerivedRequest

/-- Transcription of `FileScreenTemplateServerHandle`: opnums below 18 delegate to `ifsrmfilescreenbase.FileScreenBaseServerHandle`, then a switch on `opNum` with one
case per method, falling through to `return nil, nil`. -/
def FileScreenTemplateServerHandle (fileScreenBaseServerHandle : FileScreenBaseHandleFn) (c : FileScreenTemplateCodecs) (ctx : Ctx)
    (o : FileScreenTemplateServer) (opNum : Int) (r : NdrReader) : DispatchResult :=
  if opNum < 18 then
    fileScreenBaseServerHandle ctx o.base opNum r
  else if opNum = 18 then
    dispatchArm (c.unmarshalGetNameRequest ctx r) (o.GetName ctx)
      (fun resp => GetNameResponse.xxx_ToOp resp ctx)
      "GetNameRequest" "GetName"
  else if opNum = 19 then
    dispatchArm (c.unmarshalSetNameRequest ctx r) (o.SetName ctx)
      (fun resp => SetNameResponse.xxx_ToOp resp ctx)
      "SetNameRequest" "SetName"
  else if opNum = 20 then
    dispatchArm (c.unmarshalCopyTemplateRequest ctx r) (o.CopyTemplate ctx)
      (fun resp => CopyTemplateResponse.xxx_ToOp resp ctx)
      "CopyTemplateRequest" "CopyTemplate"
  else if opNum = 21 then
    dispatchArm (c.unmarshalCommitAndUpdateDerivedRequest ctx r) (o.CommitAndUpdateDerived ctx)
      (fun resp => CommitAndUpdateDerivedResponse.xxx_ToOp resp ctx)
      "CommitAndUpdateDerivedRequest" "CommitAndUpdateDerived"
  else
    ⟨none, none, []⟩

/-- Transcription of `NewFileScreenTemplateServerHandle`: the returned `dcerpc.ServerHandle` closure. -/
def NewFileScreenTemplateServerHandle (fileScreenBaseServerHandle : FileScreenBaseHandleFn) (c : FileScreenTemplateCodecs) (o : FileScreenTemplateServer) : ServerHandle :=
  fun ctx opNum r => FileScreenTemplateServerHandle fileScreenBaseServerHandle c ctx o opNum r

/-- The interface's abstract syntax constant `FileScreenTemplateSyntaxV0_0` (defined
outside the excerpt; its value is an abstract token). -/
def FileScreenTemplateSyntaxV0_0 : SyntaxID := ⟨7⟩

/-- Transcription of `RegisterFileScreenTemplateServer`: register the wrapper closure with the
interface's abstract syntax appended to the caller's options. -/
def RegisterFileScreenTemplateServer {τ : Type} (fileScreenBaseServerHandle : FileScreenBaseHandleFn) (c : FileScreenTemplateCodecs)
    (conn : Conn τ) (o : FileScreenTemplateServer) (opts : List DcerpcOption) : τ :=
  conn.RegisterServer (NewFileScreenTemplateServerHandle fileScreenBaseServerHandle c o)
    (opts ++ [DcerpcOption.WithAbstractSyntaxID FileScreenTemplateSyntaxV0_0])

theorem fst_handle_base_delegates (b : FileScreenBaseHandleFn) (c : FileScreenTemplateCodecs) (ctx : Ctx)
    (o : FileScreenTemplateServer) (opNum : Int) (r : NdrReader) (h : opNum < 18) :
    FileScreenTemplateServerHandle b c ctx o opNum r = b ctx o.base opNum r := by
  unfold FileScreenTemplateServerHandle
  rw [if_pos h]

theorem fst_handle_base_independent (b1 b2 : FileScreenBaseHandleFn) (c : FileScreenTemplateCodecs) (ctx : Ctx)
    (o : FileScreenTemplateServer) (opNum : Int) (r : NdrReader) (h : ¬ opNum < 18) :
    FileScreenTemplateServerHandle b1 c ctx o opNum r = FileScreenTemplateServerHandle b2 c ctx o opNum r := by
  unfold FileScreenTemplateServerHandle
  rw [if_neg h, if_neg h]

/-- Concrete codecs whose decoders always succeed on an empty request. -/
def okCodecs : FileScreenTemplateCodecs :=
  ⟨fun _ _ => .ok ⟨[]⟩,
   fun _ _ => .ok ⟨[]⟩,
   fun _ _ => .ok ⟨[]⟩,
   fun _ _ => .ok ⟨[]⟩⟩

/-- A concrete server whose handlers return a nil response and a nil error. -/
def zeroServer : FileScreenTemplateServer :=
  ⟨⟨0⟩,
   fun _ _ => (none, none),
   fun _ _ => (none, none),
   fun _ _ => (none, none),
   fun _ _ => (none, none)⟩

end ifsrmfilescreentemplate

namespace iwamadmin

/-- Go: `resp.xxx_ToOp(ctx)` on a (possibly nil) `*AppCreateResponse`,
converted to the `dcerpc.Operation` interface by the `return` statement; the
interface value wrapping the typed pointer is never the nil interface. -/
def AppCreateResponse.xxx_ToOp (resp : Option AppCreateResponse) (_ctx : Ctx) : Operation :=
  Operation.iwamadmin_AppCreate resp

/-- Go: `resp.xxx_ToOp(ctx)` on a (possibly nil) `*AppDeleteResponse`,
converted to the `dcerpc.Operation` interface by the `return` statement; the
interface value wrapping the typed pointer is never the nil interface. -/
def AppDeleteResponse.xxx_ToOp (resp : Option AppDeleteResponse) (_ctx : Ctx) : Operation :=
  Operation.iwamadmin_AppDelete resp

/-- Go: `resp.xxx_ToOp(ctx)` on a (possibly nil) `*AppUnloadResponse`,
converted to the `dcerpc.Operation` interface by the `return` statement; the
interface value wrapping the typed pointer is never the nil interface. -/
def AppUnloadResponse.xxx_ToOp (resp : Option AppUnloadResponse) (_ctx : Ctx) : Operation :=
  Operation.iwamadmin_AppUnload resp

/-- Go: `resp.xxx_ToOp(ctx)` on a (possibly nil) `*AppGetStatusResponse`,
converted to the `dcerpc.Operation` interface by the `return` statement; the
interface value wrapping the typed pointer is never the nil interface. -/
def AppGetStatusResponse.xxx_ToOp (resp : Option AppGetStatusResponse) (_ctx : Ctx) : Operation :=
  Operation.iwamadmin_AppGetStatus resp

/-- Go: `resp.xxx_ToOp(ctx)` on a (possibly nil) `*AppDeleteRecoverableResponse`,
converted to the `dcerpc.Operation` interface by the `return` statement; the
interface value wrapping the typed pointer is never the nil interface. -/
def AppDeleteRecoverableResponse.xxx_ToOp (resp : Option AppDeleteRecoverableResponse) (_ctx : Ctx) : Operation :=
  Operation.iwamadmin_AppDeleteRecoverable resp

/-- Go: `resp.xxx_ToOp(ctx)` on a (possibly nil) `*AppRecoverResponse`,
converted to the `dcerpc.Operation` interface by the `return` statement; the
interface value wrapping the typed pointer is never the nil interface. -/
def AppRecoverResponse.xxx_ToOp (resp : Option AppRecoverResponse) (_ctx : Ctx) : Operation :=
  Operation.iwamadmin_AppRecover resp

/-- The `WAMAdminServer` Go interface: one function field per method, each
returning a (possibly nil) response pointer and a (possibly nil) error; the embedded base interface becomes the `base` field. -/
structure WAMAdminServer where
  base : UnknownServer
  AppCreate : Ctx → AppCreateRequest → Option AppCreateResponse × Option GoError
  AppDelete : Ctx → AppDeleteRequest → Option AppDeleteResponse × Option GoError
  AppUnload : Ctx → AppUnloadRequest → Option AppUnloadResponse × Option GoError
  AppGetStatus : Ctx → AppGetStatusRequest → Option AppGetStatusResponse × Option GoError
  AppDeleteRecoverable : Ctx → AppDeleteRecoverableRequest → Option AppDeleteRecoverableResponse × Option GoError
  AppRecover : Ctx → AppRecoverRequest → Option AppRecoverResponse × Option GoError

/-- The `UnmarshalNDR` methods of this interface's request types; they are
not part of the excerpt, so the dispatch function is parametrised over them. -/
structure WAMAdminCodecs where
  unmarshalAppCreateRequest : Ctx → NdrReader → Except GoError AppCreateRequest
  unmarshalAppDeleteRequest : Ctx → NdrReader → Except GoError AppDeleteRequest
  unmarshalAppUnloadRequest : Ctx → NdrReader → Except GoError AppUnloadRequest
  unmarshalAppGetStatusRequest : Ctx → NdrReader → Except GoError AppGetStatusRequest
  unmarshalAppDeleteRecoverableRequest : Ctx → NdrReader → Except GoError AppDeleteRecoverableRequest
  unmarshalAppRecoverRequest : Ctx → NdrReader → Except GoError AppRecoverRequest

/-- Transcription of `WAMAdminServerHandle`: opnums below 3 delegate to `iunknown.UnknownServerHandle`, then a switch on `opNum` with one
case per method, falling through to `return nil, nil`. -/
def WAMAdminServerHandle (unknownServerHandle : UnknownHandleFn) (c : WAMAdminCodecs) (ctx : Ctx)
    (o : WAMAdminServer) (opNum : Int) (r : NdrReader) : DispatchResult :=
  if opNum < 3 then
    unknownServerHandle ctx o.base opNum r
  else if opNum = 3 then
    dispatchArm (c.unmarshalAppCreateRequest ctx r) (o.AppCreate ctx)
      (fun resp => AppCreateResponse.xxx_ToOp resp ctx)
      "AppCreateRequest" "AppCreate"
  else if opNum = 4 then
    dispatchArm (c.unmarshalAppDeleteRequest ctx r) (o.AppDelete ctx)
      (fun resp => AppDeleteResponse.xxx_ToOp resp ctx)
      "AppDeleteRequest" "AppDelete"
  else if opNum = 5 then
    dispatchArm (c.unmarshalAppUnloadRequest ctx r) (o.AppUnload ctx)
      (fun resp => AppUnloadResponse.xxx_ToOp resp ctx)
      "AppUnloadRequest" "AppUnload"
  else if opNum = 6 then
    dispatchArm (c.unmarshalAppGetStatusRequest ctx r) (o.AppGetStatus ctx)
      (fun resp => AppGetStatusResponse.xxx_ToOp resp ctx)
      "AppGetStatusRequest" "AppGetStatus"
  else if opNum = 7 then
    dispatchArm (c.unmarshalAppDeleteRecoverableRequest ctx r) (o.AppDeleteRecoverable ctx)
      (fun resp => AppDeleteRecoverableResponse.xxx_ToOp resp ctx)
      "AppDeleteRecoverableRequest" "AppDeleteRecoverable"
  else if opNum = 8 then
    dispatchArm (c.unmarshalAppRecoverRequest ctx r) (o.AppRecover ctx)
      (fun resp => AppRecoverResponse.xxx_ToOp resp ctx)
      "AppRecoverRequest" "AppRecover"
  else
    ⟨none, none, []⟩

/-- Transcription of `NewWAMAdminServerHandle`: the returned `dcerpc.ServerHandle` closure. -/
def NewWAMAdminServerHandle (unknownServerHandle : UnknownHandleFn) (c : WAMAdminCodecs) (o : WAMAdminServer) : ServerHandle :=
  fun ctx opNum r => WAMAdminServerHandle unknownServerHandle c ctx o opNum r

/-- The interface's abstract syntax constant `WAMAdminSyntaxV0_0` (defined
outside the excerpt; its value is an abstract token). -/
def WAMAdminSyntaxV0_0 : SyntaxID := ⟨8⟩

/-- Transcription of `RegisterWAMAdminServer`: register the wrapper closure with the
interface's abstract syntax appended to the caller's options. -/
def RegisterWAMAdminServer {τ : Type} (unknownServerHandle : UnknownHandleFn) (c : WAMAdminCodecs)
    (conn : Conn τ) (o : WAMAdminServer) (opts : List DcerpcOption) : τ :=
  conn.RegisterServer (NewWAMAdminServerHandle unknownServerHandle c o)
    (opts ++ [DcerpcOption.WithAbstractSyntaxID WAMAdminSyntaxV0_0])

theorem wam_handle_base_delegates (b : UnknownHandleFn) (c : WAMAdminCodecs) (ctx : Ctx)
    (o : WAMAdminServer) (opNum : Int) (r : NdrReader) (h : opNum < 3) :
    WAMAdminServerHandle b c ctx o opNum r = b ctx o.base opNum r := by
  unfold WAMAdminServerHandle
  rw [if_pos h]

theorem wam_handle_base_independent (b1 b2 : UnknownHandleFn) (c : WAMAdminCodecs) (ctx : Ctx)
    (o : WAMAdminServer) (opNum : Int) (r : NdrReader) (h : ¬ opNum < 3) :
    WAMAdminServerHandle b1 c ctx o opNum r = WAMAdminServerHandle b2 c ctx o opNum r := by
  unfold WAMAdminServerHandle
  rw [if_neg h, if_neg h]

/-- Concrete codecs whose decoders always succeed on an empty request. -/
def okCodecs : WAMAdminCodecs :=
  ⟨fun _ _ => .ok ⟨[]⟩,
   fun _ _ => .ok ⟨[]⟩,
   fun _ _ => .ok ⟨[]⟩,
   fun _ _ => .ok ⟨[]⟩,
   fun _ _ => .ok ⟨[]⟩,
   fun _ _ => .ok ⟨[]⟩⟩

/-- A concrete server whose handlers return a nil response and a nil error. -/
def zeroServer : WAMAdminServer :=
  ⟨⟨0⟩,
   fun _ _ => (none, none),
   fun _ _ => (none, none),
   fun _ _ => (none, none),
   fun _ _ => (none, none),
   fun _ _ => (none, none),
   fun _ _ => (none, none)⟩

end iwamadmin

namespace idatafactory3

/-- Go: `resp.xxx_ToOp(ctx)` on a (possibly nil) `*ExecuteResponse`,
converted to the `dcerpc.Operation` interface by the `return` statement; the
interface value wrapping the typed pointer is never the nil interface. -/
def ExecuteResponse.xxx_ToOp (resp : Option ExecuteResponse) (_ctx : Ctx) : Operation :=
  Operation.idatafactory3_Execute resp

/-- Go: `resp.xxx_ToOp(ctx)` on a (possibly nil) `*SynchronizeResponse`,
converted to the `dcerpc.Operation` interface by the `return` statement; the
interface value wrapping the typed pointer is never the nil interface. -/
def SynchronizeResponse.xxx_ToOp (resp : Option SynchronizeResponse) (_ctx : Ctx) : Operation :=
  Operation.idatafactory3_Synchronize resp

/-- The `DataFactory3Server` Go interface: one function field per method, each
returning a (possibly nil) response pointer and a (possibly nil) error; the embedded base interface becomes the `base` field. -/
structure DataFactory3Server where
  base : DataFactory2Server
  Execute : Ctx → ExecuteRequest → Option ExecuteResponse × Option GoError
  Synchronize : Ctx → SynchronizeRequest → Option SynchronizeResponse × Option GoError

/-- The `UnmarshalNDR` methods of this interface's request types; they are
not part of the excerpt, so the dispatch function is parametrised over them. -/
structure DataFactory3Codecs where
  unmarshalExecuteRequest : Ctx → NdrReader → Except GoError ExecuteRequest
  unmarshalSynchronizeRequest : Ctx → NdrReader → Except GoError SynchronizeRequest

/-- Transcription of `DataFactory3ServerHandle`: opnums below 9 delegate to `idatafactory2.DataFactory2ServerHandle`, then a switch on `opNum` with one
case per method, falling through to `return nil, nil`. -/
def DataFactory3ServerHandle (dataFactory2ServerHandle : DataFactory2HandleFn) (c : DataFactory3Codecs) (ctx : Ctx)
    (o : DataFactory3Server) (opNum : Int) (r : NdrReader) : DispatchResult :=
  if opNum < 9 then
    dataFactory2ServerHandle ctx o.base opNum r
  else if opNum = 9 then
    dispatchArm (c.unmarshalExecuteRequest ctx r) (o.Execute ctx)
      (fun resp => ExecuteResponse.xxx_ToOp resp ctx)
      "ExecuteRequest" "Execute"
  else if opNum = 10 then
    dispatchArm (c.unmarshalSynchronizeRequest ctx r) (o.Synchronize ctx)
      (fun resp => SynchronizeResponse.xxx_ToOp resp ctx)
      "SynchronizeRequest" "Synchronize"
  else
    ⟨none, none, []⟩

/-- Transcription of `NewDataFactory3ServerHandle`: the returned `dcerpc.ServerHandle` closure. -/
def NewDataFactory3ServerHandle (dataFactory2ServerHandle : DataFactory2HandleFn) (c : DataFactory3Codecs) (o : DataFactory3Server) : ServerHandle :=
  fun ctx opNum r => DataFactory3ServerHandle dataFactory2ServerHandle c ctx o opNum r

/-- The interface's abstract syntax constant `DataFactory3SyntaxV0_0` (defined
outside the excerpt; its value is an abstract token). -/
def DataFactory3SyntaxV0_0 : SyntaxID := ⟨9⟩

/-- Transcription of `RegisterDataFactory3Server`: register the wrapper closure with the
interface's abstract syntax appended to the caller's options. -/
def RegisterDataFactory3Server {τ : Type} (dataFactory2ServerHandle : DataFactory2HandleFn) (c : DataFactory3Codecs)
    (conn : Conn τ) (o : DataFactory3Server) (opts : List DcerpcOption) : τ :=
  conn.RegisterServer (NewDataFactory3ServerHandle dataFactory2ServerHandle c o)
    (opts ++ [DcerpcOption.WithAbstractSyntaxID DataFactory3SyntaxV0_0])

theorem df3_handle_base_delegates (b : DataFactory2HandleFn) (c : DataFactory3Codecs) (ctx : Ctx)
    (o : DataFactory3Server) (opNum : Int) (r : NdrReader) (h : opNum < 9) :
    DataFactory3ServerHandle b c ctx o opNum r = b ctx o.base opNum r := by
  unfold DataFactory3ServerHandle
  rw [if_pos h]

theorem df3_handle_base_independent (b1 b2 : DataFactory2HandleFn) (c : DataFactory3Codecs) (ctx : Ctx)
    (o : DataFactory3Server) (opNum : Int) (r : NdrReader) (h : ¬ opNum < 9) :
    DataFactory3ServerHandle b1 c ctx o opNum r = DataFactory3ServerHandle b2 c ctx o opNum r := by
  unfold DataFactory3ServerHandle
  rw [if_neg h, if_neg h]

/-- Concrete codecs whose decoders always succeed on an empty request. -/
def okCodecs : DataFactory3Codecs :=
  ⟨fun _ _ => .ok ⟨[]⟩,
   fun _ _ => .ok ⟨[]⟩⟩

/-- A concrete server whose handlers return a nil response and a nil error. -/
def zeroServer : DataFactory3Server :=
  ⟨⟨0⟩,
   fun _ _ => (none, none),
   fun _ _ => (none, none)⟩

end idatafactory3

namespace iapphostpathmapper

/-- Go: `resp.xxx_ToOp(ctx)` on a (possibly nil) `*MapPathResponse`,
converted to the `dcerpc.Operation` interface by the `return` statement; the
interface value wrapping the typed pointer is never the nil interface. -/
def MapPathResponse.xxx_ToOp (resp : Option MapPathResponse) (_ctx : Ctx) : Operation :=
  Operation.iapphostpathmapper_MapPath resp

/-- The `AppHostPathMapperServer` Go interface: one function field per method, each
returning a (possibly nil) response pointer and a (possibly nil) error; the embedded base interface becomes the `base` field. -/
structure AppHostPathMapperServer where
  base : UnknownServer
  MapPath : Ctx → MapPathRequest → Option MapPathResponse × Option GoError

/-- The `UnmarshalNDR` methods of this interface's request types; they are
not part of the excerpt, so the dispatch function is parametrised over them. -/
structure AppHostPathMapperCodecs where
  unmarshalMapPathRequest : Ctx → NdrReader → Except GoError MapPathRequest

/-- Transcription of `AppHostPathMapperServerHandle`: opnums below 3 delegate to `iunknown.UnknownServerHandle`, then a switch on `opNum` with one
case per method, falling through to `return nil, nil`. -/
def AppHostPathMapperServerHandle (unknownServerHandle : UnknownHandleFn) (c : AppHostPathMapperCodecs) (ctx : Ctx)
    (o : AppHostPathMapperServer) (opNum : Int) (r : NdrReader) : DispatchResult :=
  if opNum < 3 then
    unknownServerHandle ctx o.base opNum r
  else if opNum = 3 then
    dispatchArm (c.unmarshalMapPathRequest ctx r) (o.MapPath ctx)
      (fun resp => MapPathResponse.xxx_ToOp resp ctx)
      "MapPathRequest" "MapPath"
  else
    ⟨none, none, []⟩

/-- Transcription of `NewAppHostPathMapperServerHandle`: the returned `dcerpc.ServerHandle` closure. -/
def NewAppHostPathMapperServerHandle (unknownServerHandle : UnknownHandleFn) (c : AppHostPathMapperCodecs) (o : AppHostPathMapperServer) : ServerHandle :=
  fun ctx opNum r => AppHostPathMapperServerHandle unknownServerHandle c ctx o opNum r

/-- The interface's abstract syntax constant `AppHostPathMapperSyntaxV0_0` (defined
outside the excerpt; its value is an abstract token). -/
def AppHostPathMapperSyntaxV0_0 : SyntaxID := ⟨10⟩

/-- Transcription of `RegisterAppHostPathMapperServer`: register the wrapper closure with the
interface's abstract syntax appended to the caller's options. -/
def RegisterAppHostPathMapperServer {τ : Type} (unknownServerHandle : UnknownHandleFn) (c : AppHostPathMapperCodecs)
    (conn : Conn τ) (o : AppHostPathMapperServer) (opts : List DcerpcOption) : τ :=
  conn.RegisterServer (NewAppHostPathMapperServerHandle unknownServerHandle c o)
    (opts ++ [DcerpcOption.WithAbstractSyntaxID AppHostPathMapperSyntaxV0_0])

theorem ahpm_handle_base_delegates (b : UnknownHandleFn) (c : AppHostPathMapperCodecs) (ctx : Ctx)
    (o : AppHostPathMapperServer) (opNum : Int) (r : NdrReader) (h : opNum < 3) :
    AppHostPathMapperServerHandle b c ctx o opNum r = b ctx o.base opNum r := by
  unfold AppHostPathMapperServerHandle
  rw [if_pos h]

theorem ahpm_handle_base_independent (b1 b2 : UnknownHandleFn) (c : AppHostPathMapperCodecs) (ctx : Ctx)
    (o : AppHostPathMapperServer) (opNum : Int) (r : NdrReader) (h : ¬ opNum < 3) :
    AppHostPathMapperServerHandle b1 c ctx o opNum r = AppHostPathMapperServerHandle b2 c ctx o opNum r := by
  unfold AppHostPathMapperServerHandle
  rw [if_neg h, if_neg h]

/-- Concrete codecs whose decoders always succeed on an empty request. -/
def okCodecs : AppHostPathMapperCodecs :=
  ⟨fun _ _ => .ok ⟨[]⟩⟩

/-- A concrete server whose handlers return a nil response and a nil error. -/
def zeroServer : AppHostPathMapperServer :=
  ⟨⟨0⟩,
   fun _ _ => (none, none)⟩

end iapphostpathmapper

namespace iapphostelementcollection

/-- Go: `resp.xxx_ToOp(ctx)` on a (possibly nil) `*GetCountResponse`,
converted to the `dcerpc.Operation` interface by the `return` statement; the
interface value wrapping the typed pointer is never the nil interface. -/
def GetCountResponse.xxx_ToOp (resp : Option GetCountResponse) (_ctx : Ctx) : Operation :=
  Operation.iapphostelementcollection_GetCount resp

/-- Go: `resp.xxx_ToOp(ctx)` on a (possibly nil) `*GetItemResponse`,
converted to the `dcerpc.Operation` interface by the `return` statement; the
interface value wrapping the typed pointer is never the nil interface. -/
def GetItemResponse.xxx_ToOp (resp : Option GetItemResponse) (_ctx : Ctx) : Operation :=
  Operation.iapphostelementcollection_GetItem resp

/-- Go: `resp.xxx_ToOp(ctx)` on a (possibly nil) `*AddElementResponse`,
converted to the `dcerpc.Operation` interface by the `return` statement; the
interface value wrapping the typed pointer is never the nil interface. -/
def AddElementResponse.xxx_ToOp (resp : Option AddElementResponse) (_ctx : Ctx) : Operation :=
  Operation.iapphostelementcollection_AddElement resp

/-- Go: `resp.xxx_ToOp(ctx)` on a (possibly nil) `*DeleteElementResponse`,
converted to the `dcerpc.Operation` interface by the `return` statement; the
interface value wrapping the typed pointer is never the nil interface. -/
def DeleteElementResponse.xxx_ToOp (resp : Option DeleteElementResponse) (_ctx : Ctx) : Operation :=
  Operation.iapphostelementcollection_DeleteElement resp

/-- Go: `resp.xxx_ToOp(ctx)` on a (possibly nil) `*ClearResponse`,
converted to the `dcerpc.Operation` interface by the `return` statement; the
interface value wrapping the typed pointer is never the nil interface. -/
def ClearResponse.xxx_ToOp (resp : Option ClearResponse) (_ctx : Ctx) : Operation :=
  Operation.iapphostelementcollection_Clear resp

/-- Go: `resp.xxx_ToOp(ctx)` on a (possibly nil) `*CreateNewElementResponse`,
converted to the `dcerpc.Operation` interface by the `return` statement; the
interface value wrapping the typed pointer is never the nil interface. -/
def CreateNewElementResponse.xxx_ToOp (resp : Option CreateNewElementResponse) (_ctx : Ctx) : Operation :=
  Operation.iapphostelementcollection_CreateNewElement resp

/-- Go: `resp.xxx_ToOp(ctx)` on a (possibly nil) `*GetSchemaResponse`,
converted to the `dcerpc.Operation` interface by the `return` statement; the
interface value wrapping the typed pointer is never the nil interface. -/
def GetSchemaResponse.xxx_ToOp (resp : Option GetSchemaResponse) (_ctx : Ctx) : Operation :=
  Operation.iapphostelementcollection_GetSchema resp

/-- The `AppHostElementCollectionServer` Go interface: one function field per method, each
returning a (possibly nil) response pointer and a (possibly nil) error; the embedded base interface becomes the `base` field. -/
structure AppHostElementCollectionServer where
  base : UnknownServer
  GetCount : Ctx → GetCountRequest → Option GetCountResponse × Option GoError
  GetItem : Ctx → GetItemRequest → Option GetItemResponse × Option GoError
  AddElement : Ctx → AddElementRequest → Option AddElementResponse × Option GoError
  DeleteElement : Ctx → DeleteElementRequest → Option DeleteElementResponse × Option GoError
  Clear : Ctx → ClearRequest → Option ClearResponse × Option GoError
  CreateNewElement : Ctx → CreateNewElementRequest → Option CreateNewElementResponse × Option GoError
  GetSchema : Ctx → GetSchemaRequest → Option GetSchemaResponse × Option GoError

/-- The `UnmarshalNDR` methods of this interface's request types; they are
not part of the excerpt, so the dispatch function is parametrised over them. -/
structure AppHostElementCollectionCodecs where
  unmarshalGetCountRequest : Ctx → NdrReader → Except GoError GetCountRequest
  unmarshalGetItemRequest : Ctx → NdrReader → Except GoError GetItemRequest
  unmarshalAddElementRequest : Ctx → NdrReader → Except GoError AddElementRequest
  unmarshalDeleteElementRequest : Ctx → NdrReader → Except GoError DeleteElementRequest
  unmarshalClearRequest : Ctx → NdrReader → Except GoError ClearRequest
  unmarshalCreateNewElementRequest : Ctx → NdrReader → Except GoError CreateNewElementRequest
  unmarshalGetSchemaRequest : Ctx → NdrReader → Except GoError GetSchemaRequest

/-- Transcription of `AppHostElementCollectionServerHandle`: opnums below 3 delegate to `iunknown.UnknownServerHandle`, then a switch on `opNum` with one
case per method, falling through to `return nil, nil`. -/
def AppHostElementCollectionServerHandle (unknownServerHandle : UnknownHandleFn) (c : AppHostElementCollectionCodecs) (ctx : Ctx)
    (o : AppHostElementCollectionServer) (opNum : Int) (r : NdrReader) : DispatchResult :=
  if opNum < 3 then
    unknownServerHandle ctx o.base opNum r
  else if opNum = 3 then
    dispatchArm (c.unmarshalGetCountRequest ctx r) (o.GetCount ctx)
      (fun resp => GetCountResponse.xxx_ToOp resp ctx)
      "GetCountRequest" "GetCount"
  else if opNum = 4 then
    dispatchArm (c.unmarshalGetItemRequest ctx r) (o.GetItem ctx)
      (fun resp => GetItemResponse.xxx_ToOp resp ctx)
      "GetItemRequest" "GetItem"
  else if opNum = 5 then
    dispatchArm (c.unmarshalAddElementRequest ctx r) (o.AddElement ctx)
      (fun resp => AddElementResponse.xxx_ToOp resp ctx)
      "AddElementRequest" "AddElement"
  else if opNum = 6 then
    dispatchArm (c.unmarshalDeleteElementRequest ctx r) (o.DeleteElement ctx)
      (fun resp => DeleteElementResponse.xxx_ToOp resp ctx)
      "DeleteElementRequest" "DeleteElement"
  else if opNum = 7 then
    dispatchArm (c.unmarshalClearRequest ctx r) (o.Clear ctx)
      (fun resp => ClearResponse.xxx_ToOp resp ctx)
      "ClearRequest" "Clear"
  else if opNum = 8 then
    dispatchArm (c.unmarshalCreateNewElementRequest ctx r) (o.CreateNewElement ctx)
      (fun resp => CreateNewElementResponse.xxx_ToOp resp ctx)
      "CreateNewElementRequest" "CreateNewElement"
  else if opNum = 9 then
    dispatchArm (c.unmarshalGetSchemaRequest ctx r) (o.GetSchema ctx)
      (fun resp => GetSchemaResponse.xxx_ToOp resp ctx)
      "GetSchemaRequest" "GetSchema"
  else
    ⟨none, none, []⟩

/-- Transcription of `NewAppHostElementCollectionServerHandle`: the returned `dcerpc.ServerHandle` closure. -/
def NewAppHostElementCollectionServerHandle (unknownServerHandle : UnknownHandleFn) (c : AppHostElementCollectionCodecs) (o : AppHostElementCollectionServer) : ServerHandle :=
  fun ctx opNum r => AppHostElementCollectionServerHandle unknownServerHandle c ctx o opNum r

/-- The interface's abstract syntax constant `AppHostElementCollectionSyntaxV0_0` (defined
outside the excerpt; its value is an abstract token). -/
def AppHostElementCollectionSyntaxV0_0 : SyntaxID := ⟨11⟩

/-- Transcription of `RegisterAppHostElementCollectionServer`: register the wrapper closure with the
interface's abstract syntax appended to the caller's options. -/
def RegisterAppHostElementCollectionServer {τ : Type} (unknownServerHandle : UnknownHandleFn) (c : AppHostElementCollectionCodecs)
    (conn : Conn τ) (o : AppHostElementCollectionServer) (opts : List DcerpcOption) : τ :=
  conn.RegisterServer (NewAppHostElementCollectionServerHandle unknownServerHandle c o)
    (opts ++ [DcerpcOption.WithAbstractSyntaxID AppHostElementCollectionSyntaxV0_0])

theorem ahec_handle_base_delegates (b : UnknownHandleFn) (c : AppHostElementCollectionCodecs) (ctx : Ctx)
    (o : AppHostElementCollectionServer) (opNum : Int) (r : NdrReader) (h : opNum < 3) :
    AppHostElementCollectionServerHandle b c ctx o opNum r = b ctx o.base opNum r := by
  unfold AppHostElementCollectionServerHandle
  rw [if_pos h]

theorem ahec_handle_base_independent (b1 b2 : UnknownHandleFn) (c : AppHostElementCollectionCodecs) (ctx : Ctx)
    (o : AppHostElementCollectionServer) (opNum : Int) (r : NdrReader) (h : ¬ opNum < 3) :
    AppHostElementCollectionServerHandle b1 c ctx o opNum r = AppHostElementCollectionServerHandle b2 c ctx o opNum r := by
  unfold AppHostElementCollectionServerHandle
  rw [if_neg h, if_neg h]

/-- Concrete codecs whose decoders always succeed on an empty request. -/
def okCodecs : AppHostElementCollectionCodecs :=
  ⟨fun _ _ => .ok ⟨[]⟩,
   fun _ _ => .ok ⟨[]⟩,
   fun _ _ => .ok ⟨[]⟩,
   fun _ _ => .ok ⟨[]⟩,
   fun _ _ => .ok ⟨[]⟩,
   fun _ _ => .ok ⟨[]⟩,
   fun _ _ => .ok ⟨[]⟩⟩

/-- A concrete server whose handlers return a nil response and a nil error. -/
def zeroServer : AppHostElementCollectionServer :=
  ⟨⟨0⟩,
   fun _ _ => (none, none),
   fun _ _ => (none, none),
   fun _ _ => (none, none),
   fun _ _ => (none, none),
   fun _ _ => (none, none),
   fun _ _ => (none, none),
   fun _ _ => (none, none)⟩

end iapphostelementcollection


/-!
Claim theorems.  Each theorem below settles one claim of the specification
review, stated against the dispatch functions defined above.
-/

/-- Claim C1 is refuted on the code: at opnum 0, with a successfully decoding
reader and a handler that returns a non-nil response together with a non-nil
error, `WindowsShutdownServerHandle` returns BOTH a non-nil operation object
and a non-nil error (`return resp.xxx_ToOp(ctx), err` hands the handler's
error through next to the converted response), contradicting the claimed
dichotomy "ready-to-marshal response and nil error, or nil object and non-nil
error". -/
theorem C1_counterexample :
    (windowsshutdown.WindowsShutdownServerHandle windowsshutdown.okCodecs testCtx
        windowsshutdown.errServer 0 testReader).op.isSome = true ∧
      (windowsshutdown.WindowsShutdownServerHandle windowsshutdown.okCodecs testCtx
        windowsshutdown.errServer 0 testReader).err = some 7 :=
  ⟨rfl, rfl⟩

/-- Claim C1 as amended: for every invocation of the cited dispatch functions
(`WindowsShutdownServerHandle`, `ServiceSANServerHandle`) the result is either
the converted response object paired with the invoked handler's error returned
verbatim (which may be non-nil), or a nil object paired with the non-nil
decode error when decoding failed, or — outside the interface's own opnum
table — a nil object and a nil error; for `ServiceSANServerHandle`, opnums
below 3 instead return exactly what the IUnknown base dispatcher returns. -/
theorem C1_amended_contract :
    (∀ (c : windowsshutdown.WindowsShutdownCodecs) (ctx : Ctx)
        (o : windowsshutdown.WindowsShutdownServer) (r : NdrReader) (n : Int),
      (∀ e, c.unmarshalInitiateShutdownRequest ctx r = .error e →
        windowsshutdown.WindowsShutdownServerHandle c ctx o 0 r =
          ⟨none, some e, [CallEvent.decode "InitiateShutdownRequest"]⟩) ∧
      (∀ req, c.unmarshalInitiateShutdownRequest ctx r = .ok req →
        windowsshutdown.WindowsShutdownServerHandle c ctx o 0 r =
          ⟨some (windowsshutdown.InitiateShutdownResponse.xxx_ToOp (o.InitiateShutdown ctx req).1 ctx),
            (o.InitiateShutdown ctx req).2,
            [CallEvent.decode "InitiateShutdownRequest", CallEvent.invoke "InitiateShutdown"]⟩) ∧
      (∀ e, c.unmarshalAbortShutdownRequest ctx r = .error e →
        windowsshutdown.WindowsShutdownServerHandle c ctx o 1 r =
          ⟨none, some e, [CallEvent.decode "AbortShutdownRequest"]⟩) ∧
      (∀ req, c.unmarshalAbortShutdownRequest ctx r = .ok req →
        windowsshutdown.WindowsShutdownServerHandle c ctx o 1 r =
          ⟨some (windowsshutdown.AbortShutdownResponse.xxx_ToOp (o.AbortShutdown ctx req).1 ctx),
            (o.AbortShutdown ctx req).2,
            [CallEvent.decode "AbortShutdownRequest", CallEvent.invoke "AbortShutdown"]⟩) ∧
      (n ≠ 0 → n ≠ 1 →
        windowsshutdown.WindowsShutdownServerHandle c ctx o n r = ⟨none, none, []⟩)) ∧
    (∀ (b : UnknownHandleFn) (c : ivdsservicesan.ServiceSANCodecs) (ctx : Ctx)
        (o : ivdsservicesan.ServiceSANServer) (r : NdrReader) (n : Int),
      (n < 3 → ivdsservicesan.ServiceSANServerHandle b c ctx o n r = b ctx o.base n r) ∧
      (∀ e, c.unmarshalGetSANPolicyRequest ctx r = .error e →
        ivdsservicesan.ServiceSANServerHandle b c ctx o 3 r =
          ⟨none, some e, [CallEvent.decode "GetSANPolicyRequest"]⟩) ∧
      (∀ req, c.unmarshalGetSANPolicyRequest ctx r = .ok req →
        ivdsservicesan.ServiceSANServerHandle b c ctx o 3 r =
          ⟨some (ivdsservicesan.GetSANPolicyResponse.xxx_ToOp (o.GetSANPolicy ctx req).1 ctx),
            (o.GetSANPolicy ctx req).2,
            [CallEvent.decode "GetSANPolicyRequest", CallEvent.invoke "GetSANPolicy"]⟩) ∧
      (∀ e, c.unmarshalSetSANPolicyRequest ctx r = .error e →
        ivdsservicesan.ServiceSANServerHandle b c ctx o 4 r =
          ⟨none, some e, [CallEvent.decode "SetSANPolicyRequest"]⟩) ∧
      (∀ req, c.unmarshalSetSANPolicyRequest ctx r = .ok req →
        ivdsservicesan.ServiceSANServerHandle b c ctx o 4 r =
          ⟨some (ivdsservicesan.SetSANPolicyResponse.xxx_ToOp (o.SetSANPolicy ctx req).1 ctx),
            (o.SetSANPolicy ctx req).2,
            [CallEvent.decode "SetSANPolicyRequest", CallEvent.invoke "SetSANPolicy"]⟩) ∧
      (¬ n < 3 → n ≠ 3 → n ≠ 4 →
        ivdsservicesan.ServiceSANServerHandle b c ctx o n r = ⟨none, none, []⟩)) := by
  constructor
  · intro c ctx o r n
    exact ⟨fun e h => windowsshutdown.ws_handle_err_0 c ctx o r h,
      fun req h => windowsshutdown.ws_handle_ok_0 c ctx o r h,
      fun e h => windowsshutdown.ws_handle_err_1 c ctx o r h,
      fun req h => windowsshutdown.ws_handle_ok_1 c ctx o r h,
      fun h0 h1 => windowsshutdown.ws_handle_default c ctx o r n h0 h1⟩
  · intro b c ctx o r n
    exact ⟨fun h => ivdsservicesan.san_handle_base_delegates b c ctx o n r h,
      fun e h => ivdsservicesan.san_handle_err_3 b c ctx o r h,
      fun req h => ivdsservicesan.san_handle_ok_3 b c ctx o r h,
      fun e h => ivdsservicesan.san_handle_err_4 b c ctx o r h,
      fun req h => ivdsservicesan.san_handle_ok_4 b c ctx o r h,
      fun hb h3 h4 => ivdsservicesan.san_handle_default b c ctx o r n hb h3 h4⟩

/-- Witness for C1 (amended): on a concrete successful decode at opnum 0, the
dispatch returns the converted response with a nil error. -/
theorem C1_witness :
    windowsshutdown.WindowsShutdownServerHandle windowsshutdown.okCodecs testCtx
        windowsshutdown.zeroServer 0 testReader =
      ⟨some (windowsshutdown.InitiateShutdownResponse.xxx_ToOp none testCtx), none,
        [CallEvent.decode "InitiateShutdownRequest", CallEvent.invoke "InitiateShutdown"]⟩ :=
  (C1_amended_contract.1 windowsshutdown.okCodecs testCtx windowsshutdown.zeroServer
    testReader 0).2.1 ⟨[]⟩ rfl

/-- Claim C2: for every opnum outside the interface's dispatch table, the
cited dispatch functions return a nil operation and a nil error — the empty
trace additionally shows that nothing is decoded, no handler is invoked and no
distinct "unknown method" error is signalled. -/
theorem C2_unknown_opnum_nil :
    ∀ (ctx : Ctx) (r : NdrReader) (n : Int),
      (∀ (c : windowsshutdown.WindowsShutdownCodecs)
          (o : windowsshutdown.WindowsShutdownServer), n ≠ 0 → n ≠ 1 →
        windowsshutdown.WindowsShutdownServerHandle c ctx o n r = ⟨none, none, []⟩) ∧
      (∀ (c : nspi.NspiCodecs) (o : nspi.NspiServer), n < 0 ∨ 20 < n →
        nspi.NspiServerHandle c ctx o n r = ⟨none, none, []⟩) ∧
      (∀ (c : dhcpsrv2.Dhcpsrv2Codecs) (o : dhcpsrv2.Dhcpsrv2Server), n < 0 ∨ 132 < n →
        dhcpsrv2.Dhcpsrv2ServerHandle c ctx o n r = ⟨none, none, []⟩) := by
  intro ctx r n
  exact ⟨fun c o h0 h1 => windowsshutdown.ws_handle_default c ctx o r n h0 h1,
    fun c o h => nspi.nspi_handle_default_range c ctx o r n h,
    fun c o h => dhcpsrv2.dhcp_handle_default_range c ctx o r n h⟩

/-- Witness for C2 at the concrete unknown opnums 2, 21 and 133. -/
theorem C2_witness :
    windowsshutdown.WindowsShutdownServerHandle windowsshutdown.okCodecs testCtx
        windowsshutdown.zeroServer 2 testReader = ⟨none, none, []⟩ ∧
      nspi.NspiServerHandle nspi.okCodecs testCtx nspi.zeroServer 21 testReader =
        ⟨none, none, []⟩ ∧
      dhcpsrv2.Dhcpsrv2ServerHandle dhcpsrv2.okCodecs testCtx dhcpsrv2.zeroServer 133
        testReader = ⟨none, none, []⟩ :=
  ⟨(C2_unknown_opnum_nil testCtx testReader 2).1 _ _ (by decide) (by decide),
    (C2_unknown_opnum_nil testCtx testReader 21).2.1 _ _ (by decide),
    (C2_unknown_opnum_nil testCtx testReader 133).2.2 _ _ (by decide)⟩

/-- Claim C3: for every known opnum of the cited dispatch functions, if
`UnmarshalNDR` fails with error `e` the dispatch returns `(nil, e)`; the trace
consisting of the single decode event shows the handler is never invoked and
decoding is attempted exactly once. -/
theorem C3_decode_error_propagates :
    ∀ (ctx : Ctx) (r : NdrReader) (e : GoError),
      (∀ (c : windowsshutdown.WindowsShutdownCodecs) (o : windowsshutdown.WindowsShutdownServer),
        c.unmarshalInitiateShutdownRequest ctx r = .error e →
          windowsshutdown.WindowsShutdownServerHandle c ctx o 0 r =
            ⟨none, some e, [CallEvent.decode "InitiateShutdownRequest"]⟩) ∧
      (∀ (c : windowsshutdown.WindowsShutdownCodecs) (o : windowsshutdown.WindowsShutdownServer),
        c.unmarshalAbortShutdownRequest ctx r = .error e →
          windowsshutdown.WindowsShutdownServerHandle c ctx o 1 r =
            ⟨none, some e, [CallEvent.decode "AbortShutdownRequest"]⟩) ∧
      (∀ (b : UnknownHandleFn) (c : icatalogutils2.CatalogUtils2Codecs) (o : icatalogutils2.CatalogUtils2Server),
        c.unmarshalCopyConglomerationsRequest ctx r = .error e →
          icatalogutils2.CatalogUtils2ServerHandle b c ctx o 3 r =
            ⟨none, some e, [CallEvent.decode "CopyConglomerationsRequest"]⟩) ∧
      (∀ (b : UnknownHandleFn) (c : icatalogutils2.CatalogUtils2Codecs) (o : icatalogutils2.CatalogUtils2Server),
        c.unmarshalCopyComponentConfigurationRequest ctx r = .error e →
          icatalogutils2.CatalogUtils2ServerHandle b c ctx o 4 r =
            ⟨none, some e, [CallEvent.decode "CopyComponentConfigurationRequest"]⟩) ∧
      (∀ (b : UnknownHandleFn) (c : icatalogutils2.CatalogUtils2Codecs) (o : icatalogutils2.CatalogUtils2Server),
        c.unmarshalAliasComponentRequest ctx r = .error e →
          icatalogutils2.CatalogUtils2ServerHandle b c ctx o 5 r =
            ⟨none, some e, [CallEvent.decode "AliasComponentRequest"]⟩) ∧
      (∀ (b : UnknownHandleFn) (c : icatalogutils2.CatalogUtils2Codecs) (o : icatalogutils2.CatalogUtils2Server),
        c.unmarshalMoveComponentConfigurationRequest ctx r = .error e →
          icatalogutils2.CatalogUtils2ServerHandle b c ctx o 6 r =
            ⟨none, some e, [CallEvent.decode "MoveComponentConfigurationRequest"]⟩) ∧
      (∀ (b : UnknownHandleFn) (c : icatalogutils2.CatalogUtils2Codecs) (o : icatalogutils2.CatalogUtils2Server),
        c.unmarshalGetEventClassesForIid2Request ctx r = .error e →
          icatalogutils2.CatalogUtils2ServerHandle b c ctx o 7 r =
            ⟨none, some e, [CallEvent.decode "GetEventClassesForIid2Request"]⟩) ∧
      (∀ (b : UnknownHandleFn) (c : icatalogutils2.CatalogUtils2Codecs) (o : icatalogutils2.CatalogUtils2Server),
        c.unmarshalIsSafeToDeleteRequest ctx r = .error e →
          icatalogutils2.CatalogUtils2ServerHandle b c ctx o 8 r =
            ⟨none, some e, [CallEvent.decode "IsSafeToDeleteRequest"]⟩) ∧
      (∀ (b : UnknownHandleFn) (c : icatalogutils2.CatalogUtils2Codecs) (o : icatalogutils2.CatalogUtils2Server),
        c.unmarshalFlushPartitionCacheRequest ctx r = .error e →
          icatalogutils2.CatalogUtils2ServerHandle b c ctx o 9 r =
            ⟨none, some e, [CallEvent.decode "FlushPartitionCacheRequest"]⟩) ∧
      (∀ (b : UnknownHandleFn) (c : icatalogutils2.CatalogUtils2Codecs) (o : icatalogutils2.CatalogUtils2Server),
        c.unmarshalEnumerateSRPLevelsRequest ctx r = .error e →
          icatalogutils2.CatalogUtils2ServerHandle b c ctx o 10 r =
            ⟨none, some e, [CallEvent.decode "EnumerateSRPLevelsRequest"]⟩) ∧
      (∀ (b : UnknownHandleFn) (c : icatalogutils2.CatalogUtils2Codecs) (o : icatalogutils2.CatalogUtils2Server),
        c.unmarshalGetComponentVersionsRequest ctx r = .error e →
          icatalogutils2.CatalogUtils2ServerHandle b c ctx o 11 r =
            ⟨none, some e, [CallEvent.decode "GetComponentVersionsRequest"]⟩) := by
  intro ctx r e
  exact ⟨fun c o h => windowsshutdown.ws_handle_err_0 c ctx o r h,
    fun c o h => windowsshutdown.ws_handle_err_1 c ctx o r h,
    fun b c o h => icatalogutils2.cat_handle_err_3 b c ctx o r h,
    fun b c o h => icatalogutils2.cat_handle_err_4 b c ctx o r h,
    fun b c o h => icatalogutils2.cat_handle_err_5 b c ctx o r h,
    fun b c o h => icatalogutils2.cat_handle_err_6 b c ctx o r h,
    fun b c o h => icatalogutils2.cat_handle_err_7 b c ctx o r h,
    fun b c o h => icatalogutils2.cat_handle_err_8 b c ctx o r h,
    fun b c o h => icatalogutils2.cat_handle_err_9 b c ctx o r h,
    fun b c o h => icatalogutils2.cat_handle_err_10 b c ctx o r h,
    fun b c o h => icatalogutils2.cat_handle_err_11 b c ctx o r h⟩

/-- Witness for C3: concrete decode failures at opnum 0 (WindowsShutdown) and
opnum 5 (ICatalogUtils2) propagate error 3 without invoking any handler. -/
theorem C3_witness :
    windowsshutdown.WindowsShutdownServerHandle windowsshutdown.errCodecs testCtx
        windowsshutdown.zeroServer 0 testReader =
      ⟨none, some 3, [CallEvent.decode "InitiateShutdownRequest"]⟩ ∧
      icatalogutils2.CatalogUtils2ServerHandle (fun _ _ _ _ => ⟨none, none, []⟩)
          icatalogutils2.errCodecs testCtx icatalogutils2.zeroServer 5 testReader =
        ⟨none, some 3, [CallEvent.decode "AliasComponentRequest"]⟩ :=
  ⟨(C3_decode_error_propagates testCtx testReader 3).1 _ _ rfl,
    (C3_decode_error_propagates testCtx testReader 3).2.2.2.2.1 _ _ _ rfl⟩

/-- Claim C4: for every known opnum of the cited dispatch functions whose
request decodes successfully, the error returned by the dispatch is exactly
the error value returned by the invoked handler method, unchanged. -/
theorem C4_handler_error_verbatim :
    ∀ (ctx : Ctx) (r : NdrReader),
      (∀ (c : windowsshutdown.WindowsShutdownCodecs) (o : windowsshutdown.WindowsShutdownServer) (req : windowsshutdown.InitiateShutdownRequest),
        c.unmarshalInitiateShutdownRequest ctx r = .ok req →
          (windowsshutdown.WindowsShutdownServerHandle c ctx o 0 r).err = (o.InitiateShutdown ctx req).2) ∧
      (∀ (c : windowsshutdown.WindowsShutdownCodecs) (o : windowsshutdown.WindowsShutdownServer) (req : windowsshutdown.AbortShutdownRequest),
        c.unmarshalAbortShutdownRequest ctx r = .ok req →
          (windowsshutdown.WindowsShutdownServerHandle c ctx o 1 r).err = (o.AbortShutdown ctx req).2) ∧
      (∀ (c : nspi.NspiCodecs) (o : nspi.NspiServer) (req : nspi.BindRequest),
        c.unmarshalBindRequest ctx r = .ok req →
          (nspi.NspiServerHandle c ctx o 0 r).err = (o.Bind ctx req).2) ∧
      (∀ (c : nspi.NspiCodecs) (o : nspi.NspiServer) (req : nspi.UnbindRequest),
        c.unmarshalUnbindRequest ctx r = .ok req →
          (nspi.NspiServerHandle c ctx o 1 r).err = (o.Unbind ctx req).2) ∧
      (∀ (c : nspi.NspiCodecs) (o : nspi.NspiServer) (req : nspi.UpdateStatRequest),
        c.unmarshalUpdateStatRequest ctx r = .ok req →
          (nspi.NspiServerHandle c ctx o 2 r).err = (o.UpdateStat ctx req).2) ∧
      (∀ (c : nspi.NspiCodecs) (o : nspi.NspiServer) (req : nspi.QueryRowsRequest),
        c.unmarshalQueryRowsRequest ctx r = .ok req →
          (nspi.NspiServerHandle c ctx o 3 r).err = (o.QueryRows ctx req).2) ∧
      (∀ (c : nspi.NspiCodecs) (o : nspi.NspiServer) (req : nspi.SeekEntriesRequest),
        c.unmarshalSeekEntriesRequest ctx r = .ok req →
          (nspi.NspiServerHandle c ctx o 4 r).err = (o.SeekEntries ctx req).2) ∧
      (∀ (c : nspi.NspiCodecs) (o : nspi.NspiServer) (req : nspi.GetMatchesRequest),
        c.unmarshalGetMatchesRequest ctx r = .ok req →
          (nspi.NspiServerHandle c ctx o 5 r).err = (o.GetMatches ctx req).2) ∧
      (∀ (c : nspi.NspiCodecs) (o : nspi.NspiServer) (req : nspi.ResortRestrictionRequest),
        c.unmarshalResortRestrictionRequest ctx r = .ok req →
          (nspi.NspiServerHandle c ctx o 6 r).err = (o.ResortRestriction ctx req).2) ∧
      (∀ (c : nspi.NspiCodecs) (o : nspi.NspiServer) (req : nspi.DNToMIDRequest),
        c.unmarshalDNToMIDRequest ctx r = .ok req →
          (nspi.NspiServerHandle c ctx o 7 r).err = (o.DNToMID ctx req).2) ∧
      (∀ (c : nspi.NspiCodecs) (o : nspi.NspiServer) (req : nspi.GetPropertyListRequest),
        c.unmarshalGetPropertyListRequest ctx r = .ok req →
          (nspi.NspiServerHandle c ctx o 8 r).err = (o.GetPropertyList ctx req).2) ∧
      (∀ (c : nspi.NspiCodecs) (o : nspi.NspiServer) (req : nspi.GetPropertiesRequest),
        c.unmarshalGetPropertiesRequest ctx r = .ok req →
          (nspi.NspiServerHandle c ctx o 9 r).err = (o.GetProperties ctx req).2) ∧
      (∀ (c : nspi.NspiCodecs) (o : nspi.NspiServer) (req : nspi.CompareMIDsRequest),
        c.unmarshalCompareMIDsRequest ctx r = .ok req →
          (nspi.NspiServerHandle c ctx o 10 r).err = (o.CompareMIDs ctx req).2) ∧
      (∀ (c : nspi.NspiCodecs) (o : nspi.NspiServer) (req : nspi.ModifyPropertiesRequest),
        c.unmarshalModifyPropertiesRequest ctx r = .ok req →
          (nspi.NspiServerHandle c ctx o 11 r).err = (o.ModifyProperties ctx req).2) ∧
      (∀ (c : nspi.NspiCodecs) (o : nspi.NspiServer) (req : nspi.GetSpecialTableRequest),
        c.unmarshalGetSpecialTableRequest ctx r = .ok req →
          (nspi.NspiServerHandle c ctx o 12 r).err = (o.GetSpecialTable ctx req).2) ∧
      (∀ (c : nspi.NspiCodecs) (o : nspi.NspiServer) (req : nspi.GetTemplateInfoRequest),
        c.unmarshalGetTemplateInfoRequest ctx r = .ok req →
          (nspi.NspiServerHandle c ctx o 13 r).err = (o.GetTemplateInfo ctx req).2) ∧
      (∀ (c : nspi.NspiCodecs) (o : nspi.NspiServer) (req : nspi.ModifyLinkAttributeRequest),
        c.unmarshalModifyLinkAttributeRequest ctx r = .ok req →
          (nspi.NspiServerHandle c ctx o 14 r).err = (o.ModifyLinkAttribute ctx req).2) ∧
      (∀ (c : nspi.NspiCodecs) (o : nspi.NspiServer) (req : nspi.QueryColumnsRequest),
        c.unmarshalQueryColumnsRequest ctx r = .ok req →
          (nspi.NspiServerHandle c ctx o 16 r).err = (o.QueryColumns ctx req).2) ∧
      (∀ (c : nspi.NspiCodecs) (o : nspi.NspiServer) (req : nspi.GetNamesFromIDsRequest),
        c.unmarshalGetNamesFromIDsRequest ctx r = .ok req →
          (nspi.NspiServerHandle c ctx o 17 r).err = (o.GetNamesFromIDs ctx req).2) ∧
      (∀ (c : nspi.NspiCodecs) (o : nspi.NspiServer) (req : nspi.GetIDsFromNamesRequest),
        c.unmarshalGetIDsFromNamesRequest ctx r = .ok req →
          (nspi.NspiServerHandle c ctx o 18 r).err = (o.GetIDsFromNames ctx req).2) ∧
      (∀ (c : nspi.NspiCodecs) (o : nspi.NspiServer) (req : nspi.ResolveNamesRequest),
        c.unmarshalResolveNamesRequest ctx r = .ok req →
          (nspi.NspiServerHandle c ctx o 19 r).err = (o.ResolveNames ctx req).2) ∧
      (∀ (c : nspi.NspiCodecs) (o : nspi.NspiServer) (req : nspi.ResolveNamesWRequest),
        c.unmarshalResolveNamesWRequest ctx r = .ok req →
          (nspi.NspiServerHandle c ctx o 20 r).err = (o.ResolveNamesW ctx req).2) := by
  intro ctx r
  refine ⟨?_, ?_, ?_, ?_, ?_, ?_, ?_, ?_, ?_, ?_, ?_, ?_, ?_, ?_, ?_, ?_, ?_, ?_, ?_, ?_, ?_, ?_⟩
  · intro c o req h
    rw [windowsshutdown.ws_handle_ok_0 c ctx o r h]
  · intro c o req h
    rw [windowsshutdown.ws_handle_ok_1 c ctx o r h]
  · intro c o req h
    rw [nspi.nspi_handle_ok_0 c ctx o r h]
  · intro c o req h
    rw [nspi.nspi_handle_ok_1 c ctx o r h]
  · intro c o req h
    rw [nspi.nspi_handle_ok_2 c ctx o r h]
  · intro c o req h
    rw [nspi.nspi_handle_ok_3 c ctx o r h]
  · intro c o req h
    rw [nspi.nspi_handle_ok_4 c ctx o r h]
  · intro c o req h
    rw [nspi.nspi_handle_ok_5 c ctx o r h]
  · intro c o req h
    rw [nspi.nspi_handle_ok_6 c ctx o r h]
  · intro c o req h
    rw [nspi.nspi_handle_ok_7 c ctx o r h]
  · intro c o req h
    rw [nspi.nspi_handle_ok_8 c ctx o r h]
  · intro c o req h
    rw [nspi.nspi_handle_ok_9 c ctx o r h]
  · intro c o req h
    rw [nspi.nspi_handle_ok_10 c ctx o r h]
  · intro c o req h
    rw [nspi.nspi_handle_ok_11 c ctx o r h]
  · intro c o req h
    rw [nspi.nspi_handle_ok_12 c ctx o r h]
  · intro c o req h
    rw [nspi.nspi_handle_ok_13 c ctx o r h]
  · intro c o req h
    rw [nspi.nspi_handle_ok_14 c ctx o r h]
  · intro c o req h
    rw [nspi.nspi_handle_ok_16 c ctx o r h]
  · intro c o req h
    rw [nspi.nspi_handle_ok_17 c ctx o r h]
  · intro c o req h
    rw [nspi.nspi_handle_ok_18 c ctx o r h]
  · intro c o req h
    rw [nspi.nspi_handle_ok_19 c ctx o r h]
  · intro c o req h
    rw [nspi.nspi_handle_ok_20 c ctx o r h]

/-- Witness for C4: a handler that returns error 7 sees exactly error 7 come
out of the dispatch. -/
theorem C4_witness :
    (nspi.NspiServerHandle nspi.okCodecs testCtx nspi.errServer 0 testReader).err =
      some 7 :=
  (C4_handler_error_verbatim testCtx testReader).2.2.1 _ _ ⟨[]⟩ rfl

/-- Claim C5: for every known opnum of the cited dispatch functions whose
request decodes successfully, exactly one handler method is invoked exactly
once (the trace is one decode followed by one invoke), and the returned
operation object is the `xxx_ToOp` conversion of that single call's
response. -/
theorem C5_single_handler_invocation :
    ∀ (ctx : Ctx) (r : NdrReader),
      (∀ (c : windowsshutdown.WindowsShutdownCodecs) (o : windowsshutdown.WindowsShutdownServer) (req : windowsshutdown.InitiateShutdownRequest),
        c.unmarshalInitiateShutdownRequest ctx r = .ok req →
          windowsshutdown.WindowsShutdownServerHandle c ctx o 0 r =
            ⟨some (windowsshutdown.InitiateShutdownResponse.xxx_ToOp (o.InitiateShutdown ctx req).1 ctx),
              (o.InitiateShutdown ctx req).2,
              [CallEvent.decode "InitiateShutdownRequest", CallEvent.invoke "InitiateShutdown"]⟩) ∧
      (∀ (c : windowsshutdown.WindowsShutdownCodecs) (o : windowsshutdown.WindowsShutdownServer) (req : windowsshutdown.AbortShutdownRequest),
        c.unmarshalAbortShutdownRequest ctx r = .ok req →
          windowsshutdown.WindowsShutdownServerHandle c ctx o 1 r =
            ⟨some (windowsshutdown.AbortShutdownResponse.xxx_ToOp (o.AbortShutdown ctx req).1 ctx),
              (o.AbortShutdown ctx req).2,
              [CallEvent.decode "AbortShutdownRequest", CallEvent.invoke "AbortShutdown"]⟩) ∧
      (∀ (b : UnknownHandleFn) (c : iapphostpropertycollection.AppHostPropertyCollectionCodecs) (o : iapphostpropertycollection.AppHostPropertyCollectionServer)
          (req : iapphostpropertycollection.GetCountRequest),
        c.unmarshalGetCountRequest ctx r = .ok req →
          iapphostpropertycollection.AppHostPropertyCollectionServerHandle b c ctx o 3 r =
            ⟨some (iapphostpropertycollection.GetCountResponse.xxx_ToOp (o.GetCount ctx req).1 ctx),
              (o.GetCount ctx req).2,
              [CallEvent.decode "GetCountRequest", CallEvent.invoke "GetCount"]⟩) ∧
      (∀ (b : UnknownHandleFn) (c : iapphostpropertycollection.AppHostPropertyCollectionCodecs) (o : iapphostpropertycollection.AppHostPropertyCollectionServer)
          (req : iapphostpropertycollection.GetItemRequest),
        c.unmarshalGetItemRequest ctx r = .ok req →
          iapphostpropertycollection.AppHostPropertyCollectionServerHandle b c ctx o 4 r =
            ⟨some (iapphostpropertycollection.GetItemResponse.xxx_ToOp (o.GetItem ctx req).1 ctx),
              (o.GetItem ctx req).2,
              [CallEvent.decode "GetItemRequest", CallEvent.invoke "GetItem"]⟩) := by
  intro ctx r
  exact ⟨fun c o req h => windowsshutdown.ws_handle_ok_0 c ctx o r h,
    fun c o req h => windowsshutdown.ws_handle_ok_1 c ctx o r h,
    fun b c o req h => iapphostpropertycollection.ahpc_handle_ok_3 b c ctx o r h,
    fun b c o req h => iapphostpropertycollection.ahpc_handle_ok_4 b c ctx o r h⟩

/-- Witness for C5: a concrete successful decode at IAppHostPropertyCollection
opnum 3 produces exactly one invocation of `GetCount` and its converted
response. -/
theorem C5_witness :
    iapphostpropertycollection.AppHostPropertyCollectionServerHandle
        (fun _ _ _ _ => ⟨none, none, []⟩) iapphostpropertycollection.okCodecs testCtx
        iapphostpropertycollection.zeroServer 3 testReader =
      ⟨some (iapphostpropertycollection.GetCountResponse.xxx_ToOp none testCtx), none,
        [CallEvent.decode "GetCountRequest", CallEvent.invoke "GetCount"]⟩ :=
  (C5_single_handler_invocation testCtx testReader).2.2.1 _ _ _ ⟨[]⟩ rfl

/-- Claim C6: each cited dispatch function realises a fixed opnum table that
is total and unambiguous: `WindowsShutdownServerHandle` maps opnum 0 to
`InitiateShutdown`, opnum 1 to `AbortShutdown` and nothing else (any other
opnum makes no external call at all), and `Dhcpsrv2ServerHandle` maps each of
the opnums 0 through 132 to exactly one request type and one handler method,
with no external call outside that range. -/
theorem C6_opnum_dispatch_tables :
    windowsshutdown.ArmTrace 0 "InitiateShutdownRequest" "InitiateShutdown" ∧
    windowsshutdown.ArmTrace 1 "AbortShutdownRequest" "AbortShutdown" ∧
    (∀ (c : windowsshutdown.WindowsShutdownCodecs) (ctx : Ctx) (o : windowsshutdown.WindowsShutdownServer) (r : NdrReader) (n : Int),
      n ≠ 0 → n ≠ 1 → (windowsshutdown.WindowsShutdownServerHandle c ctx o n r).trace = []) ∧
    dhcpsrv2.ArmTrace 0 "EnumSubnetClientsV5Request" "EnumSubnetClientsV5" ∧
    dhcpsrv2.ArmTrace 1 "SetMScopeInfoRequest" "SetMScopeInfo" ∧
    dhcpsrv2.ArmTrace 2 "GetMScopeInfoRequest" "GetMScopeInfo" ∧
    dhcpsrv2.ArmTrace 3 "EnumMScopesRequest" "EnumMScopes" ∧
    dhcpsrv2.ArmTrace 4 "AddMScopeElementRequest" "AddMScopeElement" ∧
    dhcpsrv2.ArmTrace 5 "EnumMScopeElementsRequest" "EnumMScopeElements" ∧
    dhcpsrv2.ArmTrace 6 "RemoveMScopeElementRequest" "RemoveMScopeElement" ∧
    dhcpsrv2.ArmTrace 7 "DeleteMScopeRequest" "DeleteMScope" ∧
    dhcpsrv2.ArmTrace 8 "ScanMDatabaseRequest" "ScanMDatabase" ∧
    dhcpsrv2.ArmTrace 9 "CreateMClientInfoRequest" "CreateMClientInfo" ∧
    dhcpsrv2.ArmTrace 10 "SetMClientInfoRequest" "SetMClientInfo" ∧
    dhcpsrv2.ArmTrace 11 "GetMClientInfoRequest" "GetMClientInfo" ∧
    dhcpsrv2.ArmTrace 12 "DeleteMClientInfoRequest" "DeleteMClientInfo" ∧
    dhcpsrv2.ArmTrace 13 "EnumMScopeClientsRequest" "EnumMScopeClients" ∧
    dhcpsrv2.ArmTrace 14 "CreateOptionV5Request" "CreateOptionV5" ∧
    dhcpsrv2.ArmTrace 15 "SetOptionInfoV5Request" "SetOptionInfoV5" ∧
    dhcpsrv2.ArmTrace 16 "GetOptionInfoV5Request" "GetOptionInfoV5" ∧
    dhcpsrv2.ArmTrace 17 "EnumOptionsV5Request" "EnumOptionsV5" ∧
    dhcpsrv2.ArmTrace 18 "RemoveOptionV5Request" "RemoveOptionV5" ∧
    dhcpsrv2.ArmTrace 19 "SetOptionValueV5Request" "SetOptionValueV5" ∧
    dhcpsrv2.ArmTrace 20 "SetOptionValuesV5Request" "SetOptionValuesV5" ∧
    dhcpsrv2.ArmTrace 21 "GetOptionValueV5Request" "GetOptionValueV5" ∧
    dhcpsrv2.ArmTrace 22 "EnumOptionValuesV5Request" "EnumOptionValuesV5" ∧
    dhcpsrv2.ArmTrace 23 "RemoveOptionValueV5Request" "RemoveOptionValueV5" ∧
    dhcpsrv2.ArmTrace 24 "CreateClassRequest" "CreateClass" ∧
    dhcpsrv2.ArmTrace 25 "ModifyClassRequest" "ModifyClass" ∧
    dhcpsrv2.ArmTrace 26 "DeleteClassRequest" "DeleteClass" ∧
    dhcpsrv2.ArmTrace 27 "GetClassInfoRequest" "GetClassInfo" ∧
    dhcpsrv2.ArmTrace 28 "EnumClassesRequest" "EnumClasses" ∧
    dhcpsrv2.ArmTrace 29 "GetAllOptionsRequest" "GetAllOptions" ∧
    dhcpsrv2.ArmTrace 30 "GetAllOptionValuesRequest" "GetAllOptionValues" ∧
    dhcpsrv2.ArmTrace 31 "GetMCastMIBInfoRequest" "GetMCastMIBInfo" ∧
    dhcpsrv2.ArmTrace 32 "AuditLogSetParamsRequest" "AuditLogSetParams" ∧
    dhcpsrv2.ArmTrace 33 "AuditLogGetParamsRequest" "AuditLogGetParams" ∧
    dhcpsrv2.ArmTrace 34 "ServerQueryAttributeRequest" "ServerQueryAttribute" ∧
    dhcpsrv2.ArmTrace 35 "ServerQueryAttributesRequest" "ServerQueryAttributes" ∧
    dhcpsrv2.ArmTrace 36 "ServerRedoAuthorizationRequest" "ServerRedoAuthorization" ∧
    dhcpsrv2.ArmTrace 37 "AddSubnetElementV5Request" "AddSubnetElementV5" ∧
    dhcpsrv2.ArmTrace 38 "EnumSubnetElementsV5Request" "EnumSubnetElementsV5" ∧
    dhcpsrv2.ArmTrace 39 "RemoveSubnetElementV5Request" "RemoveSubnetElementV5" ∧
    dhcpsrv2.ArmTrace 40 "GetServerBindingInfoRequest" "GetServerBindingInfo" ∧
    dhcpsrv2.ArmTrace 41 "SetServerBindingInfoRequest" "SetServerBindingInfo" ∧
    dhcpsrv2.ArmTrace 42 "QueryDNSRegCredentialsRequest" "QueryDNSRegCredentials" ∧
    dhcpsrv2.ArmTrace 43 "SetDNSRegCredentialsRequest" "SetDNSRegCredentials" ∧
    dhcpsrv2.ArmTrace 44 "BackupDatabaseRequest" "BackupDatabase" ∧
    dhcpsrv2.ArmTrace 45 "RestoreDatabaseRequest" "RestoreDatabase" ∧
    dhcpsrv2.ArmTrace 46 "GetServerSpecificStringsRequest" "GetServerSpecificStrings" ∧
    dhcpsrv2.ArmTrace 47 "CreateOptionV6Request" "CreateOptionV6" ∧
    dhcpsrv2.ArmTrace 48 "SetOptionInfoV6Request" "SetOptionInfoV6" ∧
    dhcpsrv2.ArmTrace 49 "GetOptionInfoV6Request" "GetOptionInfoV6" ∧
    dhcpsrv2.ArmTrace 50 "EnumOptionsV6Request" "EnumOptionsV6" ∧
    dhcpsrv2.ArmTrace 51 "RemoveOptionV6Request" "RemoveOptionV6" ∧
    dhcpsrv2.ArmTrace 52 "SetOptionValueV6Request" "SetOptionValueV6" ∧
    dhcpsrv2.ArmTrace 53 "EnumOptionValuesV6Request" "EnumOptionValuesV6" ∧
    dhcpsrv2.ArmTrace 54 "RemoveOptionValueV6Request" "RemoveOptionValueV6" ∧
    dhcpsrv2.ArmTrace 55 "GetAllOptionsV6Request" "GetAllOptionsV6" ∧
    dhcpsrv2.ArmTrace 56 "GetAllOptionValuesV6Request" "GetAllOptionValuesV6" ∧
    dhcpsrv2.ArmTrace 57 "CreateSubnetV6Request" "CreateSubnetV6" ∧
    dhcpsrv2.ArmTrace 58 "EnumSubnetsV6Request" "EnumSubnetsV6" ∧
    dhcpsrv2.ArmTrace 59 "AddSubnetElementV6Request" "AddSubnetElementV6" ∧
    dhcpsrv2.ArmTrace 60 "EnumSubnetElementsV6Request" "EnumSubnetElementsV6" ∧
    dhcpsrv2.ArmTrace 61 "RemoveSubnetElementV6Request" "RemoveSubnetElementV6" ∧
    dhcpsrv2.ArmTrace 62 "DeleteSubnetV6Request" "DeleteSubnetV6" ∧
    dhcpsrv2.ArmTrace 63 "GetSubnetInfoV6Request" "GetSubnetInfoV6" ∧
    dhcpsrv2.ArmTrace 64 "EnumSubnetClientsV6Request" "EnumSubnetClientsV6" ∧
    dhcpsrv2.ArmTrace 65 "ServerSetConfigV6Request" "ServerSetConfigV6" ∧
    dhcpsrv2.ArmTrace 66 "ServerGetConfigV6Request" "ServerGetConfigV6" ∧
    dhcpsrv2.ArmTrace 67 "SetSubnetInfoV6Request" "SetSubnetInfoV6" ∧
    dhcpsrv2.ArmTrace 68 "GetMIBInfoV6Request" "GetMIBInfoV6" ∧
    dhcpsrv2.ArmTrace 69 "GetServerBindingInfoV6Request" "GetServerBindingInfoV6" ∧
    dhcpsrv2.ArmTrace 70 "SetServerBindingInfoV6Request" "SetServerBindingInfoV6" ∧
    dhcpsrv2.ArmTrace 71 "SetClientInfoV6Request" "SetClientInfoV6" ∧
    dhcpsrv2.ArmTrace 72 "GetClientInfoV6Request" "GetClientInfoV6" ∧
    dhcpsrv2.ArmTrace 73 "DeleteClientInfoV6Request" "DeleteClientInfoV6" ∧
    dhcpsrv2.ArmTrace 74 "CreateClassV6Request" "CreateClassV6" ∧
    dhcpsrv2.ArmTrace 75 "ModifyClassV6Request" "ModifyClassV6" ∧
    dhcpsrv2.ArmTrace 76 "DeleteClassV6Request" "DeleteClassV6" ∧
    dhcpsrv2.ArmTrace 77 "EnumClassesV6Request" "EnumClassesV6" ∧
    dhcpsrv2.ArmTrace 78 "GetOptionValueV6Request" "GetOptionValueV6" ∧
    dhcpsrv2.ArmTrace 79 "SetSubnetDelayOfferRequest" "SetSubnetDelayOffer" ∧
    dhcpsrv2.ArmTrace 80 "GetSubnetDelayOfferRequest" "GetSubnetDelayOffer" ∧
    dhcpsrv2.ArmTrace 81 "GetMIBInfoV5Request" "GetMIBInfoV5" ∧
    dhcpsrv2.ArmTrace 82 "AddFilterV4Request" "AddFilterV4" ∧
    dhcpsrv2.ArmTrace 83 "DeleteFilterV4Request" "DeleteFilterV4" ∧
    dhcpsrv2.ArmTrace 84 "SetFilterV4Request" "SetFilterV4" ∧
    dhcpsrv2.ArmTrace 85 "GetFilterV4Request" "GetFilterV4" ∧
    dhcpsrv2.ArmTrace 86 "EnumFilterV4Request" "EnumFilterV4" ∧
    dhcpsrv2.ArmTrace 87 "SetDNSRegCredentialsV5Request" "SetDNSRegCredentialsV5" ∧
    dhcpsrv2.ArmTrace 88 "EnumSubnetClientsFilterStatusInfoRequest" "EnumSubnetClientsFilterStatusInfo" ∧
    dhcpsrv2.ArmTrace 89 "FailoverCreateRelationshipV4Request" "FailoverCreateRelationshipV4" ∧
    dhcpsrv2.ArmTrace 90 "FailoverSetRelationshipV4Request" "FailoverSetRelationshipV4" ∧
    dhcpsrv2.ArmTrace 91 "FailoverDeleteRelationshipV4Request" "FailoverDeleteRelationshipV4" ∧
    dhcpsrv2.ArmTrace 92 "FailoverGetRelationshipV4Request" "FailoverGetRelationshipV4" ∧
    dhcpsrv2.ArmTrace 93 "FailoverEnumRelationshipV4Request" "FailoverEnumRelationshipV4" ∧
    dhcpsrv2.ArmTrace 94 "FailoverAddScopeToRelationshipV4Request" "FailoverAddScopeToRelationshipV4" ∧
    dhcpsrv2.ArmTrace 95 "FailoverDeleteScopeFromRelationshipV4Request" "FailoverDeleteScopeFromRelationshipV4" ∧
    dhcpsrv2.ArmTrace 96 "FailoverGetScopeRelationshipV4Request" "FailoverGetScopeRelationshipV4" ∧
    dhcpsrv2.ArmTrace 97 "FailoverGetScopeStatisticsV4Request" "FailoverGetScopeStatisticsV4" ∧
    dhcpsrv2.ArmTrace 98 "FailoverGetClientInfoV4Request" "FailoverGetClientInfoV4" ∧
    dhcpsrv2.ArmTrace 99 "FailoverGetSystemTimeV4Request" "FailoverGetSystemTimeV4" ∧
    dhcpsrv2.ArmTrace 100 "FailoverTriggerAddrAllocationV4Request" "FailoverTriggerAddrAllocationV4" ∧
    dhcpsrv2.ArmTrace 101 "SetOptionValueV4Request" "SetOptionValueV4" ∧
    dhcpsrv2.ArmTrace 102 "SetOptionValuesV4Request" "SetOptionValuesV4" ∧
    dhcpsrv2.ArmTrace 103 "GetOptionValueV4Request" "GetOptionValueV4" ∧
    dhcpsrv2.ArmTrace 104 "RemoveOptionValueV4Request" "RemoveOptionValueV4" ∧
    dhcpsrv2.ArmTrace 105 "GetAllOptionValuesV4Request" "GetAllOptionValuesV4" ∧
    dhcpsrv2.ArmTrace 106 "QueryPolicyEnforcementV4Request" "QueryPolicyEnforcementV4" ∧
    dhcpsrv2.ArmTrace 107 "SetPolicyEnforcementV4Request" "SetPolicyEnforcementV4" ∧
    dhcpsrv2.ArmTrace 108 "CreatePolicyV4Request" "CreatePolicyV4" ∧
    dhcpsrv2.ArmTrace 109 "GetPolicyV4Request" "GetPolicyV4" ∧
    dhcpsrv2.ArmTrace 110 "SetPolicyV4Request" "SetPolicyV4" ∧
    dhcpsrv2.ArmTrace 111 "DeletePolicyV4Request" "DeletePolicyV4" ∧
    dhcpsrv2.ArmTrace 112 "EnumPoliciesV4Request" "EnumPoliciesV4" ∧
    dhcpsrv2.ArmTrace 113 "AddPolicyRangeV4Request" "AddPolicyRangeV4" ∧
    dhcpsrv2.ArmTrace 114 "RemovePolicyRangeV4Request" "RemovePolicyRangeV4" ∧
    dhcpsrv2.ArmTrace 115 "EnumSubnetClientsV4Request" "EnumSubnetClientsV4" ∧
    dhcpsrv2.ArmTrace 116 "SetStatelessStoreParamsV6Request" "SetStatelessStoreParamsV6" ∧
    dhcpsrv2.ArmTrace 117 "GetStatelessStoreParamsV6Request" "GetStatelessStoreParamsV6" ∧
    dhcpsrv2.ArmTrace 118 "GetStatelessStatisticsV6Request" "GetStatelessStatisticsV6" ∧
    dhcpsrv2.ArmTrace 119 "EnumSubnetReservationsV4Request" "EnumSubnetReservationsV4" ∧
    dhcpsrv2.ArmTrace 120 "GetFreeIPAddressV4Request" "GetFreeIPAddressV4" ∧
    dhcpsrv2.ArmTrace 121 "GetFreeIPAddressV6Request" "GetFreeIPAddressV6" ∧
    dhcpsrv2.ArmTrace 122 "CreateClientInfoV4Request" "CreateClientInfoV4" ∧
    dhcpsrv2.ArmTrace 123 "GetClientInfoV4Request" "GetClientInfoV4" ∧
    dhcpsrv2.ArmTrace 124 "CreateClientInfoV6Request" "CreateClientInfoV6" ∧
    dhcpsrv2.ArmTrace 125 "FailoverGetAddressStatusV4Request" "FailoverGetAddressStatusV4" ∧
    dhcpsrv2.ArmTrace 126 "CreatePolicyExV4Request" "CreatePolicyExV4" ∧
    dhcpsrv2.ArmTrace 127 "GetPolicyExV4Request" "GetPolicyExV4" ∧
    dhcpsrv2.ArmTrace 128 "SetPolicyExV4Request" "SetPolicyExV4" ∧
    dhcpsrv2.ArmTrace 129 "EnumPoliciesExV4Request" "EnumPoliciesExV4" ∧
    dhcpsrv2.ArmTrace 130 "EnumSubnetClientsExV4Request" "EnumSubnetClientsExV4" ∧
    dhcpsrv2.ArmTrace 131 "CreateClientInfoExV4Request" "CreateClientInfoExV4" ∧
    dhcpsrv2.ArmTrace 132 "GetClientInfoExV4Request" "GetClientInfoExV4" ∧
    (∀ (c : dhcpsrv2.Dhcpsrv2Codecs) (ctx : Ctx) (o : dhcpsrv2.Dhcpsrv2Server) (r : NdrReader)
        (n : Int), n < 0 ∨ 132 < n → (dhcpsrv2.Dhcpsrv2ServerHandle c ctx o n r).trace = []) := by
  refine ⟨windowsshutdown.ws_armTrace_0,
    windowsshutdown.ws_armTrace_1,
    ?_,
    dhcpsrv2.dhcp_armTrace_0,
    dhcpsrv2.dhcp_armTrace_1,
    dhcpsrv2.dhcp_armTrace_2,
    dhcpsrv2.dhcp_armTrace_3,
    dhcpsrv2.dhcp_armTrace_4,
    dhcpsrv2.dhcp_armTrace_5,
    dhcpsrv2.dhcp_armTrace_6,
    dhcpsrv2.dhcp_armTrace_7,
    dhcpsrv2.dhcp_armTrace_8,
    dhcpsrv2.dhcp_armTrace_9,
    dhcpsrv2.dhcp_armTrace_10,
    dhcpsrv2.dhcp_armTrace_11,
    dhcpsrv2.dhcp_armTrace_12,
    dhcpsrv2.dhcp_armTrace_13,
    dhcpsrv2.dhcp_armTrace_14,
    dhcpsrv2.dhcp_armTrace_15,
    dhcpsrv2.dhcp_armTrace_16,
    dhcpsrv2.dhcp_armTrace_17,
    dhcpsrv2.dhcp_armTrace_18,
    dhcpsrv2.dhcp_armTrace_19,
    dhcpsrv2.dhcp_armTrace_20,
    dhcpsrv2.dhcp_armTrace_21,
    dhcpsrv2.dhcp_armTrace_22,
    dhcpsrv2.dhcp_armTrace_23,
    dhcpsrv2.dhcp_armTrace_24,
    dhcpsrv2.dhcp_armTrace_25,
    dhcpsrv2.dhcp_armTrace_26,
    dhcpsrv2.dhcp_armTrace_27,
    dhcpsrv2.dhcp_armTrace_28,
    dhcpsrv2.dhcp_armTrace_29,
    dhcpsrv2.dhcp_armTrace_30,
    dhcpsrv2.dhcp_armTrace_31,
    dhcpsrv2.dhcp_armTrace_32,
    dhcpsrv2.dhcp_armTrace_33,
    dhcpsrv2.dhcp_armTrace_34,
    dhcpsrv2.dhcp_armTrace_35,
    dhcpsrv2.dhcp_armTrace_36,
    dhcpsrv2.dhcp_armTrace_37,
    dhcpsrv2.dhcp_armTrace_38,
    dhcpsrv2.dhcp_armTrace_39,
    dhcpsrv2.dhcp_armTrace_40,
    dhcpsrv2.dhcp_armTrace_41,
    dhcpsrv2.dhcp_armTrace_42,
    dhcpsrv2.dhcp_armTrace_43,
    dhcpsrv2.dhcp_armTrace_44,
    dhcpsrv2.dhcp_armTrace_45,
    dhcpsrv2.dhcp_armTrace_46,
    dhcpsrv2.dhcp_armTrace_47,
    dhcpsrv2.dhcp_armTrace_48,
    dhcpsrv2.dhcp_armTrace_49,
    dhcpsrv2.dhcp_armTrace_50,
    dhcpsrv2.dhcp_armTrace_51,
    dhcpsrv2.dhcp_armTrace_52,
    dhcpsrv2.dhcp_armTrace_53,
    dhcpsrv2.dhcp_armTrace_54,
    dhcpsrv2.dhcp_armTrace_55,
    dhcpsrv2.dhcp_armTrace_56,
    dhcpsrv2.dhcp_armTrace_57,
    dhcpsrv2.dhcp_armTrace_58,
    dhcpsrv2.dhcp_armTrace_59,
    dhcpsrv2.dhcp_armTrace_60,
    dhcpsrv2.dhcp_armTrace_61,
    dhcpsrv2.dhcp_armTrace_62,
    dhcpsrv2.dhcp_armTrace_63,
    dhcpsrv2.dhcp_armTrace_64,
    dhcpsrv2.dhcp_armTrace_65,
    dhcpsrv2.dhcp_armTrace_66,
    dhcpsrv2.dhcp_armTrace_67,
    dhcpsrv2.dhcp_armTrace_68,
    dhcpsrv2.dhcp_armTrace_69,
    dhcpsrv2.dhcp_armTrace_70,
    dhcpsrv2.dhcp_armTrace_71,
    dhcpsrv2.dhcp_armTrace_72,
    dhcpsrv2.dhcp_armTrace_73,
    dhcpsrv2.dhcp_armTrace_74,
    dhcpsrv2.dhcp_armTrace_75,
    dhcpsrv2.dhcp_armTrace_76,
    dhcpsrv2.dhcp_armTrace_77,
    dhcpsrv2.dhcp_armTrace_78,
    dhcpsrv2.dhcp_armTrace_79,
    dhcpsrv2.dhcp_armTrace_80,
    dhcpsrv2.dhcp_armTrace_81,
    dhcpsrv2.dhcp_armTrace_82,
    dhcpsrv2.dhcp_armTrace_83,
    dhcpsrv2.dhcp_armTrace_84,
    dhcpsrv2.dhcp_armTrace_85,
    dhcpsrv2.dhcp_armTrace_86,
    dhcpsrv2.dhcp_armTrace_87,
    dhcpsrv2.dhcp_armTrace_88,
    dhcpsrv2.dhcp_armTrace_89,
    dhcpsrv2.dhcp_armTrace_90,
    dhcpsrv2.dhcp_armTrace_91,
    dhcpsrv2.dhcp_armTrace_92,
    dhcpsrv2.dhcp_armTrace_93,
    dhcpsrv2.dhcp_armTrace_94,
    dhcpsrv2.dhcp_armTrace_95,
    dhcpsrv2.dhcp_armTrace_96,
    dhcpsrv2.dhcp_armTrace_97,
    dhcpsrv2.dhcp_armTrace_98,
    dhcpsrv2.dhcp_armTrace_99,
    dhcpsrv2.dhcp_armTrace_100,
    dhcpsrv2.dhcp_armTrace_101,
    dhcpsrv2.dhcp_armTrace_102,
    dhcpsrv2.dhcp_armTrace_103,
    dhcpsrv2.dhcp_armTrace_104,
    dhcpsrv2.dhcp_armTrace_105,
    dhcpsrv2.dhcp_armTrace_106,
    dhcpsrv2.dhcp_armTrace_107,
    dhcpsrv2.dhcp_armTrace_108,
    dhcpsrv2.dhcp_armTrace_109,
    dhcpsrv2.dhcp_armTrace_110,
    dhcpsrv2.dhcp_armTrace_111,
    dhcpsrv2.dhcp_armTrace_112,
    dhcpsrv2.dhcp_armTrace_113,
    dhcpsrv2.dhcp_armTrace_114,
    dhcpsrv2.dhcp_armTrace_115,
    dhcpsrv2.dhcp_armTrace_116,
    dhcpsrv2.dhcp_armTrace_117,
    dhcpsrv2.dhcp_armTrace_118,
    dhcpsrv2.dhcp_armTrace_119,
    dhcpsrv2.dhcp_armTrace_120,
    dhcpsrv2.dhcp_armTrace_121,
    dhcpsrv2.dhcp_armTrace_122,
    dhcpsrv2.dhcp_armTrace_123,
    dhcpsrv2.dhcp_armTrace_124,
    dhcpsrv2.dhcp_armTrace_125,
    dhcpsrv2.dhcp_armTrace_126,
    dhcpsrv2.dhcp_armTrace_127,
    dhcpsrv2.dhcp_armTrace_128,
    dhcpsrv2.dhcp_armTrace_129,
    dhcpsrv2.dhcp_armTrace_130,
    dhcpsrv2.dhcp_armTrace_131,
    dhcpsrv2.dhcp_armTrace_132,
    ?_⟩
  · intro c ctx o r n h0 h1
    rw [windowsshutdown.ws_handle_default c ctx o r n h0 h1]
  · intro c ctx o r n h
    rw [dhcpsrv2.dhcp_handle_default_range c ctx o r n h]

/-- Claim C7: the dispatcher itself has no side effects and is deterministic —
its result is a function only of the opnum, of what decoding reads from the
reader, and of the handler's behaviour.  For the cited dispatch functions: two
runs with codec bundles that behave the same on the given context and reader
and servers whose handlers (and, for IVdsVdProvider, base part) behave the
same produce identical results, traces included. -/
theorem C7_deterministic_dispatch :
    (∀ (c1 c2 : windowsshutdown.WindowsShutdownCodecs)
        (o1 o2 : windowsshutdown.WindowsShutdownServer),
      windowsshutdown.CodecsAgree c1 c2 → windowsshutdown.ServersAgree o1 o2 →
        ∀ (ctx : Ctx) (n : Int) (r : NdrReader),
          windowsshutdown.WindowsShutdownServerHandle c1 ctx o1 n r =
            windowsshutdown.WindowsShutdownServerHandle c2 ctx o2 n r) ∧
    (∀ (b : UnknownHandleFn) (c1 c2 : ivdsvdprovider.VDiskProviderCodecs)
        (o1 o2 : ivdsvdprovider.VDiskProviderServer),
      ivdsvdprovider.CodecsAgree c1 c2 → ivdsvdprovider.ServersAgree o1 o2 →
        ∀ (ctx : Ctx) (n : Int) (r : NdrReader),
          ivdsvdprovider.VDiskProviderServerHandle b c1 ctx o1 n r =
            ivdsvdprovider.VDiskProviderServerHandle b c2 ctx o2 n r) := by
  constructor
  · intro c1 c2 o1 o2 hc ho ctx n r
    by_cases h0 : n = 0
    · subst h0
      rw [windowsshutdown.ws_handle_eq_0 c1 ctx o1 r, windowsshutdown.ws_handle_eq_0 c2 ctx o2 r]
      exact dispatchArm_congr _ _ _ (hc ctx r).1 (ho ctx).1
    by_cases h1 : n = 1
    · subst h1
      rw [windowsshutdown.ws_handle_eq_1 c1 ctx o1 r, windowsshutdown.ws_handle_eq_1 c2 ctx o2 r]
      exact dispatchArm_congr _ _ _ (hc ctx r).2 (ho ctx).2
    · rw [windowsshutdown.ws_handle_default c1 ctx o1 r n h0 h1,
        windowsshutdown.ws_handle_default c2 ctx o2 r n h0 h1]
  · intro b c1 c2 o1 o2 hc ho ctx n r
    by_cases hb : n < 3
    · rw [ivdsvdprovider.vdp_handle_base_delegates b c1 ctx o1 n r hb,
        ivdsvdprovider.vdp_handle_base_delegates b c2 ctx o2 n r hb, ho.1]
    by_cases h3 : n = 3
    · subst h3
      rw [ivdsvdprovider.vdp_handle_eq_3 b c1 ctx o1 r, ivdsvdprovider.vdp_handle_eq_3 b c2 ctx o2 r]
      exact dispatchArm_congr _ _ _ (hc ctx r).1 ((ho.2 ctx).1)
    by_cases h4 : n = 4
    · subst h4
      rw [ivdsvdprovider.vdp_handle_eq_4 b c1 ctx o1 r, ivdsvdprovider.vdp_handle_eq_4 b c2 ctx o2 r]
      exact dispatchArm_congr _ _ _ (hc ctx r).2.1 ((ho.2 ctx).2.1)
    by_cases h5 : n = 5
    · subst h5
      rw [ivdsvdprovider.vdp_handle_eq_5 b c1 ctx o1 r, ivdsvdprovider.vdp_handle_eq_5 b c2 ctx o2 r]
      exact dispatchArm_congr _ _ _ (hc ctx r).2.2.1 ((ho.2 ctx).2.2.1)
    by_cases h6 : n = 6
    · subst h6
      rw [ivdsvdprovider.vdp_handle_eq_6 b c1 ctx o1 r, ivdsvdprovider.vdp_handle_eq_6 b c2 ctx o2 r]
      exact dispatchArm_congr _ _ _ (hc ctx r).2.2.2.1 ((ho.2 ctx).2.2.2.1)
    by_cases h7 : n = 7
    · subst h7
      rw [ivdsvdprovider.vdp_handle_eq_7 b c1 ctx o1 r, ivdsvdprovider.vdp_handle_eq_7 b c2 ctx o2 r]
      exact dispatchArm_congr _ _ _ (hc ctx r).2.2.2.2 ((ho.2 ctx).2.2.2.2)
    · rw [ivdsvdprovider.vdp_handle_default b c1 ctx o1 r n hb h3 h4 h5 h6 h7,
        ivdsvdprovider.vdp_handle_default b c2 ctx o2 r n hb h3 h4 h5 h6 h7]

/-- Claim C8: derived-interface dispatchers delegate every opnum below their
first own opnum unchanged to the base interface's dispatch function, and the
two ranges never overlap: below the bound the result is exactly the base
dispatcher's result, and at or above the bound the result does not depend on
the base dispatcher at all. -/
theorem C8_base_delegation :
    (∀ (b : FileScreenBaseHandleFn) (c : ifsrmfilescreentemplate.FileScreenTemplateCodecs) (ctx : Ctx)
        (o : ifsrmfilescreentemplate.FileScreenTemplateServer) (n : Int) (r : NdrReader),
      (n < 18 → ifsrmfilescreentemplate.FileScreenTemplateServerHandle b c ctx o n r = b ctx o.base n r) ∧
      (∀ (b2 : FileScreenBaseHandleFn), 18 ≤ n →
        ifsrmfilescreentemplate.FileScreenTemplateServerHandle b c ctx o n r = ifsrmfilescreentemplate.FileScreenTemplateServerHandle b2 c ctx o n r)) ∧
    (∀ (b : DataFactory2HandleFn) (c : idatafactory3.DataFactory3Codecs) (ctx : Ctx)
        (o : idatafactory3.DataFactory3Server) (n : Int) (r : NdrReader),
      (n < 9 → idatafactory3.DataFactory3ServerHandle b c ctx o n r = b ctx o.base n r) ∧
      (∀ (b2 : DataFactory2HandleFn), 9 ≤ n →
        idatafactory3.DataFactory3ServerHandle b c ctx o n r = idatafactory3.DataFactory3ServerHandle b2 c ctx o n r)) ∧
    (∀ (b : UnknownHandleFn) (c : iapphostpathmapper.AppHostPathMapperCodecs) (ctx : Ctx)
        (o : iapphostpathmapper.AppHostPathMapperServer) (n : Int) (r : NdrReader),
      (n < 3 → iapphostpathmapper.AppHostPathMapperServerHandle b c ctx o n r = b ctx o.base n r) ∧
      (∀ (b2 : UnknownHandleFn), 3 ≤ n →
        iapphostpathmapper.AppHostPathMapperServerHandle b c ctx o n r = iapphostpathmapper.AppHostPathMapperServerHandle b2 c ctx o n r)) := by
  refine ⟨?_, ?_, ?_⟩
  · intro b c ctx o n r
    exact ⟨fun h => ifsrmfilescreentemplate.fst_handle_base_delegates b c ctx o n r h,
      fun b2 h => ifsrmfilescreentemplate.fst_handle_base_independent b b2 c ctx o n r (by omega)⟩
  · intro b c ctx o n r
    exact ⟨fun h => idatafactory3.df3_handle_base_delegates b c ctx o n r h,
      fun b2 h => idatafactory3.df3_handle_base_independent b b2 c ctx o n r (by omega)⟩
  · intro b c ctx o n r
    exact ⟨fun h => iapphostpathmapper.ahpm_handle_base_delegates b c ctx o n r h,
      fun b2 h => iapphostpathmapper.ahpm_handle_base_independent b b2 c ctx o n r (by omega)⟩

/-- Witness for C8: at opnum 5 the IFsrmFileScreenTemplate dispatcher returns
exactly the base dispatcher's result. -/
theorem C8_witness :
    ifsrmfilescreentemplate.FileScreenTemplateServerHandle
        (fun _ _ _ _ => ⟨none, some 9, []⟩) ifsrmfilescreentemplate.okCodecs testCtx
        ifsrmfilescreentemplate.zeroServer 5 testReader = ⟨none, some 9, []⟩ :=
  (C8_base_delegation.1 (fun _ _ _ _ => ⟨none, some 9, []⟩) ifsrmfilescreentemplate.okCodecs
    testCtx ifsrmfilescreentemplate.zeroServer 5 testReader).1 (by decide)

/-- Claim C9: `NspiServerHandle` at the reserved in-range opnum 15
(`Opnum15NotUsedOnWire`) returns `(nil, nil)` with an empty trace — nothing is
read from the reader and no handler method is invoked — and the result is
exactly the one produced for any opnum outside the interface's range 0..20, so
a caller cannot distinguish the two. -/
theorem C9_nspi_opnum15_reserved :
    ∀ (c : nspi.NspiCodecs) (ctx : Ctx) (o : nspi.NspiServer) (r : NdrReader),
      nspi.NspiServerHandle c ctx o 15 r = ⟨none, none, []⟩ ∧
      ∀ (n : Int), n < 0 ∨ 20 < n →
        nspi.NspiServerHandle c ctx o n r = nspi.NspiServerHandle c ctx o 15 r := by
  intro c ctx o r
  refine ⟨nspi.nspi_handle_eq_15 c ctx o r, ?_⟩
  intro n h
  rw [nspi.nspi_handle_default_range c ctx o r n h, nspi.nspi_handle_eq_15 c ctx o r]

/-- Witness for C9 at a concrete out-of-range opnum. -/
theorem C9_witness :
    nspi.NspiServerHandle nspi.okCodecs testCtx nspi.zeroServer 99 testReader =
      nspi.NspiServerHandle nspi.okCodecs testCtx nspi.zeroServer 15 testReader :=
  (C9_nspi_opnum15_reserved nspi.okCodecs testCtx nspi.zeroServer testReader).2 99
    (by decide)

/-- Claim C10: for every interface in the excerpt, the closure produced by
`New<Interface>ServerHandle(o)` is extensionally (indeed definitionally) equal
to the dispatch function applied to `o`, and `Register<Interface>Server`
passes exactly that closure to `conn.RegisterServer` with the interface's
abstract syntax identifier appended to the caller's options. -/
theorem C10_wrapper_equivalence :
    (∀ (c : windowsshutdown.WindowsShutdownCodecs) (o : windowsshutdown.WindowsShutdownServer) (ctx : Ctx)
        (n : Int) (r : NdrReader),
      windowsshutdown.NewWindowsShutdownServerHandle c o ctx n r = windowsshutdown.WindowsShutdownServerHandle c ctx o n r) ∧
    (∀ (τ : Type) (c : windowsshutdown.WindowsShutdownCodecs) (conn : Conn τ)
        (o : windowsshutdown.WindowsShutdownServer) (opts : List DcerpcOption),
      windowsshutdown.RegisterWindowsShutdownServer c conn o opts =
        conn.RegisterServer (windowsshutdown.NewWindowsShutdownServerHandle c o)
          (opts ++ [DcerpcOption.WithAbstractSyntaxID windowsshutdown.WindowsShutdownSyntaxV1_0])) ∧
    (∀ (c : nspi.NspiCodecs) (o : nspi.NspiServer) (ctx : Ctx)
        (n : Int) (r : NdrReader),
      nspi.NewNspiServerHandle c o ctx n r = nspi.NspiServerHandle c ctx o n r) ∧
    (∀ (τ : Type) (c : nspi.NspiCodecs) (conn : Conn τ)
        (o : nspi.NspiServer) (opts : List DcerpcOption),
      nspi.RegisterNspiServer c conn o opts =
        conn.RegisterServer (nspi.NewNspiServerHandle c o)
          (opts ++ [DcerpcOption.WithAbstractSyntaxID nspi.NspiSyntaxV56_0])) ∧
    (∀ (c : dhcpsrv2.Dhcpsrv2Codecs) (o : dhcpsrv2.Dhcpsrv2Server) (ctx : Ctx)
        (n : Int) (r : NdrReader),
      dhcpsrv2.NewDhcpsrv2ServerHandle c o ctx n r = dhcpsrv2.Dhcpsrv2ServerHandle c ctx o n r) ∧
    (∀ (τ : Type) (c : dhcpsrv2.Dhcpsrv2Codecs) (conn : Conn τ)
        (o : dhcpsrv2.Dhcpsrv2Server) (opts : List DcerpcOption),
      dhcpsrv2.RegisterDhcpsrv2Server c conn o opts =
        conn.RegisterServer (dhcpsrv2.NewDhcpsrv2ServerHandle c o)
          (opts ++ [DcerpcOption.WithAbstractSyntaxID dhcpsrv2.Dhcpsrv2SyntaxV1_0])) ∧
    (∀ (b : UnknownHandleFn) (c : icatalogutils2.CatalogUtils2Codecs) (o : icatalogutils2.CatalogUtils2Server) (ctx : Ctx)
        (n : Int) (r : NdrReader),
      icatalogutils2.NewCatalogUtils2ServerHandle b c o ctx n r = icatalogutils2.CatalogUtils2ServerHandle b c ctx o n r) ∧
    (∀ (τ : Type) (b : UnknownHandleFn) (c : icatalogutils2.CatalogUtils2Codecs) (conn : Conn τ)
        (o : icatalogutils2.CatalogUtils2Server) (opts : List DcerpcOption),
      icatalogutils2.RegisterCatalogUtils2Server b c conn o opts =
        conn.RegisterServer (icatalogutils2.NewCatalogUtils2ServerHandle b c o)
          (opts ++ [DcerpcOption.WithAbstractSyntaxID icatalogutils2.CatalogUtils2SyntaxV0_0])) ∧
    (∀ (b : UnknownHandleFn) (c : ivdsservicesan.ServiceSANCodecs) (o : ivdsservicesan.ServiceSANServer) (ctx : Ctx)
        (n : Int) (r : NdrReader),
      ivdsservicesan.NewServiceSANServerHandle b c o ctx n r = ivdsservicesan.ServiceSANServerHandle b c ctx o n r) ∧
    (∀ (τ : Type) (b : UnknownHandleFn) (c : ivdsservicesan.ServiceSANCodecs) (conn : Conn τ)
        (o : ivdsservicesan.ServiceSANServer) (opts : List DcerpcOption),
      ivdsservicesan.RegisterServiceSANServer b c conn o opts =
        conn.RegisterServer (ivdsservicesan.NewServiceSANServerHandle b c o)
          (opts ++ [DcerpcOption.WithAbstractSyntaxID ivdsservicesan.ServiceSANSyntaxV0_0])) ∧
    (∀ (b : UnknownHandleFn) (c : ivdsvdprovider.VDiskProviderCodecs) (o : ivdsvdprovider.VDiskProviderServer) (ctx : Ctx)
        (n : Int) (r : NdrReader),
      ivdsvdprovider.NewVDiskProviderServerHandle b c o ctx n r = ivdsvdprovider.VDiskProviderServerHandle b c ctx o n r) ∧
    (∀ (τ : Type) (b : UnknownHandleFn) (c : ivdsvdprovider.VDiskProviderCodecs) (conn : Conn τ)
        (o : ivdsvdprovider.VDiskProviderServer) (opts : List DcerpcOption),
      ivdsvdprovider.RegisterVDiskProviderServer b c conn o opts =
        conn.RegisterServer (ivdsvdprovider.NewVDiskProviderServerHandle b c o)
          (opts ++ [DcerpcOption.WithAbstractSyntaxID ivdsvdprovider.VDiskProviderSyntaxV0_0])) ∧
    (∀ (b : UnknownHandleFn) (c : iapphostpropertycollection.AppHostPropertyCollectionCodecs) (o : iapphostpropertycollection.AppHostPropertyCollectionServer) (ctx : Ctx)
        (n : Int) (r : NdrReader),
      iapphostpropertycollection.NewAppHostPropertyCollectionServerHandle b c o ctx n r = iapphostpropertycollection.AppHostPropertyCollectionServerHandle b c ctx o n r) ∧
    (∀ (τ : Type) (b : UnknownHandleFn) (c : iapphostpropertycollection.AppHostPropertyCollectionCodecs) (conn : Conn τ)
        (o : iapphostpropertycollection.AppHostPropertyCollectionServer) (opts : List DcerpcOption),
      iapphostpropertycollection.RegisterAppHostPropertyCollectionServer b c conn o opts =
        conn.RegisterServer (iapphostpropertycollection.NewAppHostPropertyCollectionServerHandle b c o)
          (opts ++ [DcerpcOption.WithAbstractSyntaxID iapphostpropertycollection.AppHostPropertyCollectionSyntaxV0_0])) ∧
    (∀ (b : FileScreenBaseHandleFn) (c : ifsrmfilescreentemplate.FileScreenTemplateCodecs) (o : ifsrmfilescreentemplate.FileScreenTemplateServer) (ctx : Ctx)
        (n : Int) (r : NdrReader),
      ifsrmfilescreentemplate.NewFileScreenTemplateServerHandle b c o ctx n r = ifsrmfilescreentemplate.FileScreenTemplateServerHandle b c ctx o n r) ∧
    (∀ (τ : Type) (b : FileScreenBaseHandleFn) (c : ifsrmfilescreentemplate.FileScreenTemplateCodecs) (conn : Conn τ)
        (o : ifsrmfilescreentemplate.FileScreenTemplateServer) (opts : List DcerpcOption),
      ifsrmfilescreentemplate.RegisterFileScreenTemplateServer b c conn o opts =
        conn.RegisterServer (ifsrmfilescreentemplate.NewFileScreenTemplateServerHandle b c o)
          (opts ++ [DcerpcOption.WithAbstractSyntaxID ifsrmfilescreentemplate.FileScreenTemplateSyntaxV0_0])) ∧
    (∀ (b : UnknownHandleFn) (c : iwamadmin.WAMAdminCodecs) (o : iwamadmin.WAMAdminServer) (ctx : Ctx)
        (n : Int) (r : NdrReader),
      iwamadmin.NewWAMAdminServerHandle b c o ctx n r = iwamadmin.WAMAdminServerHandle b c ctx o n r) ∧
    (∀ (τ : Type) (b : UnknownHandleFn) (c : iwamadmin.WAMAdminCodecs) (conn : Conn τ)
        (o : iwamadmin.WAMAdminServer) (opts : List DcerpcOption),
      iwamadmin.RegisterWAMAdminServer b c conn o opts =
        conn.RegisterServer (iwamadmin.NewWAMAdminServerHandle b c o)
          (opts ++ [DcerpcOption.WithAbstractSyntaxID iwamadmin.WAMAdminSyntaxV0_0])) ∧
    (∀ (b : DataFactory2HandleFn) (c : idatafactory3.DataFactory3Codecs) (o : idatafactory3.DataFactory3Server) (ctx : Ctx)
        (n : Int) (r : NdrReader),
      idatafactory3.NewDataFactory3ServerHandle b c o ctx n r = idatafactory3.DataFactory3ServerHandle b c ctx o n r) ∧
    (∀ (τ : Type) (b : DataFactory2HandleFn) (c : idatafactory3.DataFactory3Codecs) (conn : Conn τ)
        (o : idatafactory3.DataFactory3Server) (opts : List DcerpcOption),
      idatafactory3.RegisterDataFactory3Server b c conn o opts =
        conn.RegisterServer (idatafactory3.NewDataFactory3ServerHandle b c o)
          (opts ++ [DcerpcOption.WithAbstractSyntaxID idatafactory3.DataFactory3SyntaxV0_0])) ∧
    (∀ (b : UnknownHandleFn) (c : iapphostpathmapper.AppHostPathMapperCodecs) (o : iapphostpathmapper.AppHostPathMapperServer) (ctx : Ctx)
        (n : Int) (r : NdrReader),
      iapphostpathmapper.NewAppHostPathMapperServerHandle b c o ctx n r = iapphostpathmapper.AppHostPathMapperServerHandle b c ctx o n r) ∧
    (∀ (τ : Type) (b : UnknownHandleFn) (c : iapphostpathmapper.AppHostPathMapperCodecs) (conn : Conn τ)
        (o : iapphostpathmapper.AppHostPathMapperServer) (opts : List DcerpcOption),
      iapphostpathmapper.RegisterAppHostPathMapperServer b c conn o opts =
        conn.RegisterServer (iapphostpathmapper.NewAppHostPathMapperServerHandle b c o)
          (opts ++ [DcerpcOption.WithAbstractSyntaxID iapphostpathmapper.AppHostPathMapperSyntaxV0_0])) ∧
    (∀ (b : UnknownHandleFn) (c : iapphostelementcollection.AppHostElementCollectionCodecs) (o : iapphostelementcollection.AppHostElementCollectionServer) (ctx : Ctx)
        (n : Int) (r : NdrReader),
      iapphostelementcollection.NewAppHostElementCollectionServerHandle b c o ctx n r = iapphostelementcollection.AppHostElementCollectionServerHandle b c ctx o n r) ∧
    (∀ (τ : Type) (b : UnknownHandleFn) (c : iapphostelementcollection.AppHostElementCollectionCodecs) (conn : Conn τ)
        (o : iapphostelementcollection.AppHostElementCollectionServer) (opts : List DcerpcOption),
      iapphostelementcollection.RegisterAppHostElementCollectionServer b c conn o opts =
        conn.RegisterServer (iapphostelementcollection.NewAppHostElementCollectionServerHandle b c o)
          (opts ++ [DcerpcOption.WithAbstractSyntaxID iapphostelementcollection.AppHostElementCollectionSyntaxV0_0])) := by
  refine ⟨?_, ?_, ?_, ?_, ?_, ?_, ?_, ?_, ?_, ?_, ?_, ?_, ?_, ?_, ?_, ?_, ?_, ?_, ?_, ?_, ?_, ?_, ?_, ?_⟩ <;> intros <;> rfl

